import Mathlib

/-!
# Snowman snowball-fight scene: simulation core

A shallow embedding of the simulation part of `MainSnowmanSnowballFightScene.js`
(snowman state machine, target acquisition, snowball collisions) together with
the properties of the scene that are checked against it.

Conventions of the embedding:

* JavaScript numbers are idealised as elements of a linearly ordered field `R`
  (no rounding).  The transcendental primitives of the `Math` object are
  collected in `MathOps R`; they are instantiated with the real functions in
  `realOps`.  In `isSnowmanInTargetAcquisitionFov`, whose divisor can be zero,
  the outcome of the JavaScript comparison on the resulting NaN is modelled
  explicitly.
* `Math.random()` is an explicit stream `rnd : Nat → R` of draws; a function that
  consumes draws returns the remaining stream.
* Object references to snowmen (`currentTargetSnowman`, `sourceSnowmanInstance`,
  the argument of the per-snowman methods) are indices into
  `snowmanInstanceDataCollection`; snowmen are never removed or reordered, so
  reference equality is index equality.
* A `while` loop that need not terminate runs on fuel and returns `none` when the
  fuel is exhausted.
* WebGL buffers, cached transformation matrices and rendering are not part of the
  simulation state and are left out.
-/

namespace SnowballFight

/-! ## Numeric primitives -/

/-- Primitives of the JavaScript `Math` object used by the scene. -/
structure MathOps (R : Type) where
  /-- The primitive `Math.sqrt`. -/
  sqrt : R → R
  /-- The primitive `Math.acos`. -/
  acos : R → R
  /-- The primitive `Math.sin`. -/
  sin : R → R
  /-- The primitive `Math.cos`. -/
  cos : R → R
  /-- The constant `Math.PI`. -/
  pi : R

/-- The real-number instance of the `Math` primitives. -/
noncomputable def realOps : MathOps ℝ where
  sqrt := Real.sqrt
  acos := Real.arccos
  sin := Real.sin
  cos := Real.cos
  pi := Real.pi

section Model

variable {R : Type} [LinearOrderedField R]

/-! ## Points and vectors

`Point3d`, `Vector3d`, `PrimitivesUtil` and `MathUtility` live in library files
that the scene depends on (`MathExtMatrix.js`, `MathUtility.js`, ...) and that are
not part of the sources at hand. -/

/-- Modelled from the spec: `Point3d` (library file absent), a triple of
coordinates read with `getX`, `getY`, `getZ`. -/
structure Point3d (R : Type) where
  x : R
  y : R
  z : R
deriving DecidableEq, Repr

/-- Modelled from the spec: `Vector3d` (library file absent), a triple of
components. -/
structure Vector3d (R : Type) where
  xComponent : R
  yComponent : R
  zComponent : R
deriving DecidableEq, Repr

/-- Modelled from the spec: `PrimitivesUtil.GenerateVector3dFromPoint3d` (absent),
a point read as its position vector. -/
def GenerateVector3dFromPoint3d (p : Point3d R) : Vector3d R :=
  ⟨p.x, p.y, p.z⟩

/-- Modelled from the spec: `PrimitivesUtil.GeneratePoint3dFromVector3d` (absent). -/
def GeneratePoint3dFromVector3d (v : Vector3d R) : Point3d R :=
  ⟨v.xComponent, v.yComponent, v.zComponent⟩

/-- Modelled from the spec: `Vector3d.addVector` (absent), component-wise sum. -/
def Vector3d.addVector (a b : Vector3d R) : Vector3d R :=
  ⟨a.xComponent + b.xComponent, a.yComponent + b.yComponent, a.zComponent + b.zComponent⟩

/-- Modelled from the spec: `Vector3d.subtractVector` (absent), component-wise
difference `a - b`. -/
def Vector3d.subtractVector (a b : Vector3d R) : Vector3d R :=
  ⟨a.xComponent - b.xComponent, a.yComponent - b.yComponent, a.zComponent - b.zComponent⟩

/-- Modelled from the spec: `Vector3d.multiplyByScalar` (absent). -/
def Vector3d.multiplyByScalar (a : Vector3d R) (k : R) : Vector3d R :=
  ⟨a.xComponent * k, a.yComponent * k, a.zComponent * k⟩

/-- Modelled from the spec: `Vector3d.dotProduct` (absent). -/
def Vector3d.dotProduct (a b : Vector3d R) : R :=
  a.xComponent * b.xComponent + a.yComponent * b.yComponent + a.zComponent * b.zComponent

/-- Modelled from the spec: `Vector3d.crossProduct` (absent). -/
def Vector3d.crossProduct (a b : Vector3d R) : Vector3d R :=
  ⟨a.yComponent * b.zComponent - a.zComponent * b.yComponent,
   a.zComponent * b.xComponent - a.xComponent * b.zComponent,
   a.xComponent * b.yComponent - a.yComponent * b.xComponent⟩

/-- Modelled from the spec: `Vector3d.magnitude` (absent), the Euclidean length. -/
def Vector3d.magnitude (ops : MathOps R) (a : Vector3d R) : R :=
  ops.sqrt (a.xComponent * a.xComponent + a.yComponent * a.yComponent
    + a.zComponent * a.zComponent)

/-- Modelled from the spec: `Vector3d.normalize` (absent), the vector divided by
its magnitude. -/
def Vector3d.normalize (ops : MathOps R) (a : Vector3d R) : Vector3d R :=
  ⟨a.xComponent / a.magnitude ops, a.yComponent / a.magnitude ops,
   a.zComponent / a.magnitude ops⟩

/-- Modelled from the spec: `Point3d.distanceFrom` (absent), the Euclidean
distance between two points. -/
def Point3d.distanceFrom (ops : MathOps R) (p q : Point3d R) : R :=
  ops.sqrt ((p.x - q.x) * (p.x - q.x) + (p.y - q.y) * (p.y - q.y)
    + (p.z - q.z) * (p.z - q.z))

/-- Modelled from the spec: `MathUtility.rotatePointAroundAxisY` (absent), the
rotation of a point about the Y axis by an angle in radians. -/
def rotatePointAroundAxisY (ops : MathOps R) (p : Point3d R) (angle : R) : Point3d R :=
  ⟨p.x * ops.cos angle + p.z * ops.sin angle, p.y,
   p.z * ops.cos angle - p.x * ops.sin angle⟩

/-- Modelled from the spec: `MathUtility.computeGeometricSeriesSum(n, a, r)`
(absent), the sum `a·(1 + r + … + r^(n−1))` of the first `n` terms. -/
def computeGeometricSeriesSum (n : Nat) (a r : R) : R :=
  ((List.range n).map (fun k => a * r ^ k)).sum

/-! ## Scene constants (assigned in `initialize`) -/

/-- Scaling factor from world units to render units. -/
def constWorldScale : R := 0.03

/-- Gravitational acceleration, units per millisecond squared. -/
def gravitationalAccelerationFtPerMsSq : R := 32.34 * constWorldScale / (1000 * 1000)

/-- Radius of the sphere at the base of the snowman. -/
def constBaseSnowmanSphereRadius : R := 1.0 * constWorldScale

/-- Ratio of the radii of successive snowman body spheres. -/
def constSnowmanUpperSphereReductionFactor : R := 0.70

/-- Radius fraction of the vertical overlap of successive spheres. -/
def constSnowmanSphereOverlap : R := 0.4

/-- Number of segments that comprise a snowman. -/
def constSnowmanSegments : Nat := 3

/-- Centre of the world. -/
def constWorldCenterPoint : Point3d R := ⟨0.0, 0.0, 0.0⟩

/-- Boundary for snowman travel (distance from the world centre). -/
def constWorldBoundaryDistanceFromCenter : R := 16.0 * constWorldScale

/-- Snowman throwing state duration (milliseconds). -/
def constSnowmanThrowingStateDuration : R := 200

/-- Snowman hit response state duration (milliseconds). -/
def constSnowmanHitStateDuration : R := 200

/-- Snowman stunned state duration (milliseconds). -/
def constSnowmanStunnedStateDuration : R := 300

/-- Time fraction of the throwing state at which the projectile is launched. -/
def constThrowStateProjectileLaunchStartFraction : R := 0.5

/-- Minimum planar snowball velocity (units per millisecond). -/
def constMinSnowballVelocity : R := 35.0 * constWorldScale / 1000

/-- Maximum planar snowball velocity (units per millisecond). -/
def constMaxSnowballVelocity : R := 75.0 * constWorldScale / 1000

/-- Variance about the mean throwing velocity of an individual snowman. -/
def constSnowmanThrowVelocityVariance : R := 0.15

/-- Maximum random angle added to or subtracted from a reversed direction. -/
def constReversedVectorRandomAdjustmentMaxDegRad (ops : MathOps R) : R := ops.pi / 4.0

/-- Radius of a snowball. -/
def constSnowballRadius : R := 0.350 * constWorldScale

/-! ## Instance data -/

/-- The four snowman activity states (`constSnowmanStateTraveling` = 0,
`constSnowmanStateThrowing` = 1, `constSnowmanStateHit` = 2,
`constSnowmanStateStunned` = 3). -/
inductive SnowmanState where
  | Traveling
  | Throwing
  | Hit
  | Stunned
deriving DecidableEq, Repr

/-- Simulation fields of `SnowmanInstanceData`. -/
structure SnowmanInstanceData (R : Type) where
  snowmanState : SnowmanState
  currentStateInitiationTimeMs : R
  lastSnowballThrowTime : R
  currentTargetSnowman : Option Nat
  snowballThrownDuringThrowState : Bool
  snowmanPosition : Point3d R
  snowmanDirectionNormalVector : Vector3d R
  snowmanMovementMagnitude : R
  snowmanMinSnowballThrowIntervalMs : R
  snowmanMeanSnowballThrowVelocity : R
  snowmanTargetAcquisitionFovDegRad : R
  snowmanTargetStrikeCount : Nat
  snowmanStrikeReceptionCount : Nat
deriving DecidableEq, Repr

/-- Simulation fields of `SnowballInstanceData`. -/
structure SnowballInstanceData (R : Type) where
  snowballVelocityVector : Vector3d R
  snowballPosition : Point3d R
  sourceSnowmanInstance : Option Nat
  invalidatedByCollision : Bool
deriving DecidableEq, Repr

/-- Simulation state held by the scene object. -/
structure Scene (R : Type) where
  totalElapsedSceneTimeMs : R
  snowmanInstanceDataCollection : List (SnowmanInstanceData R)
  snowballInstanceDataCollection : List (SnowballInstanceData R)
  currentSnowmanHighHitCount : Nat
deriving DecidableEq, Repr

/-! ## Random values -/

/-- Method `getRandomValueInRange`, with the draw `u` of `Math.random()` made explicit. -/
def getRandomValueInRange (minRangeValue maxRangeValue u : R) : R :=
  let trueMinValue := min minRangeValue maxRangeValue
  let trueMaxValue := max minRangeValue maxRangeValue
  ((trueMaxValue - trueMinValue) * u) + trueMinValue

/-! ## Snowman movement -/

/-- Method `adjustVectorByDegreesRadInXyPlane`: rotates a vector about the Y axis. -/
def adjustVectorByDegreesRadInXyPlane (ops : MathOps R) (targetVector : Vector3d R)
    (rotationDegreesRad : R) : Vector3d R :=
  let vectorAsPoint := GeneratePoint3dFromVector3d targetVector
  let rotatedPoint := rotatePointAroundAxisY ops vectorAsPoint rotationDegreesRad
  GenerateVector3dFromPoint3d rotatedPoint

/-- Method `computeNewSnowmanPosition`: the position reached by travelling along the
heading for the time quantum. -/
def computeNewSnowmanPosition (snowmanInstanceData : SnowmanInstanceData R)
    (timeQuantum : R) : Point3d R :=
  let movementVector := snowmanInstanceData.snowmanDirectionNormalVector.multiplyByScalar
    (snowmanInstanceData.snowmanMovementMagnitude * timeQuantum)
  let snowmanPositionAsVector := GenerateVector3dFromPoint3d snowmanInstanceData.snowmanPosition
  let worldCenterPointAsVector := GenerateVector3dFromPoint3d (constWorldCenterPoint : Point3d R)
  let snowmanPositionAsVector := snowmanPositionAsVector.subtractVector worldCenterPointAsVector
  let snowmanPositionAsVector := snowmanPositionAsVector.addVector movementVector
  GeneratePoint3dFromVector3d snowmanPositionAsVector

/-- Method `isPositionValidByConstraints`: the proposed position is not farther from the
world centre than the world boundary. -/
def isPositionValidByConstraints (ops : MathOps R) (_snowmanInstanceData : SnowmanInstanceData R)
    (proposedPosition : Point3d R) : Bool :=
  if proposedPosition.distanceFrom ops constWorldCenterPoint
      > constWorldBoundaryDistanceFromCenter then false else true

/-- The retry loop of `updateSnowmanPosition`: while the candidate position is not
valid, the heading is reversed and perturbed by a random angle and the candidate
is recomputed.  Returns the snowman with its final heading, the valid candidate
and the unconsumed random draws, or `none` when the fuel runs out. -/
def updateSnowmanPositionLoop (ops : MathOps R) (timeQuantum : R) :
    Nat → (Nat → R) → SnowmanInstanceData R →
      Option (SnowmanInstanceData R × Point3d R × (Nat → R))
  | 0, _, _ => none
  | fuel + 1, rnd, snowmanInstanceData =>
    let newSnowmanPosition := computeNewSnowmanPosition snowmanInstanceData timeQuantum
    if isPositionValidByConstraints ops snowmanInstanceData newSnowmanPosition then
      some (snowmanInstanceData, newSnowmanPosition, rnd)
    else
      let reversedDirectionVector :=
        snowmanInstanceData.snowmanDirectionNormalVector.multiplyByScalar (-1.0)
      let rotationDegrees := getRandomValueInRange
        (-constReversedVectorRandomAdjustmentMaxDegRad ops)
        (constReversedVectorRandomAdjustmentMaxDegRad ops) (rnd 0)
      updateSnowmanPositionLoop ops timeQuantum fuel (fun n => rnd (n + 1))
        { snowmanInstanceData with
          snowmanDirectionNormalVector :=
            adjustVectorByDegreesRadInXyPlane ops reversedDirectionVector rotationDegrees }

/-- Method `updateSnowmanPosition`: moves the snowman to the first valid candidate
position found by the retry loop. -/
def updateSnowmanPosition (ops : MathOps R) (fuel : Nat) (rnd : Nat → R)
    (snowmanInstanceData : SnowmanInstanceData R) (timeQuantum : R) :
    Option (SnowmanInstanceData R × (Nat → R)) :=
  match updateSnowmanPositionLoop ops timeQuantum fuel rnd snowmanInstanceData with
  | none => none
  | some (snowmanInstanceData, newSnowmanPosition, rnd) =>
    if isPositionValidByConstraints ops snowmanInstanceData newSnowmanPosition then
      some ({ snowmanInstanceData with snowmanPosition := newSnowmanPosition }, rnd)
    else
      some (snowmanInstanceData, rnd)

/-- Method `generateRandomPosition`, with the two draws of `Math.random()` made
explicit: a point at a random distance within the world boundary, at a random
angle around the Y axis. -/
def generateRandomPosition (ops : MathOps R) (u v : R) : Point3d R :=
  let distanceFromWorldCenter := u * constWorldBoundaryDistanceFromCenter
  let angularPlacementAlongDistanceCircle := v * 2.0 * ops.pi
  rotatePointAroundAxisY ops ⟨0.0, 0.0, distanceFromWorldCenter⟩
    angularPlacementAlongDistanceCircle

/-! ## Snowman and snowball bookkeeping -/

/-- Applies an in-place mutation to the snowman object with index `i`. -/
def Scene.modifySnowman (scene : Scene R) (i : Nat)
    (f : SnowmanInstanceData R → SnowmanInstanceData R) : Scene R :=
  match scene.snowmanInstanceDataCollection[i]? with
  | none => scene
  | some snowmanInstanceData =>
    { scene with
      snowmanInstanceDataCollection :=
        scene.snowmanInstanceDataCollection.set i (f snowmanInstanceData) }

/-- Applies an in-place mutation to the snowball object with index `k`. -/
def Scene.modifySnowball (scene : Scene R) (k : Nat)
    (f : SnowballInstanceData R → SnowballInstanceData R) : Scene R :=
  match scene.snowballInstanceDataCollection[k]? with
  | none => scene
  | some snowballInstanceData =>
    { scene with
      snowballInstanceDataCollection :=
        scene.snowballInstanceDataCollection.set k (f snowballInstanceData) }

/-- Method `computeSnowmanHeightForSegmentCount`: height of a snowman body made
of the given number of spheres. -/
def computeSnowmanHeightForSegmentCount (segmentCount : Nat) : R :=
  let totalSphereHeightWithoutOverlap := computeGeometricSeriesSum segmentCount
    (2.0 * constBaseSnowmanSphereRadius) constSnowmanUpperSphereReductionFactor
  let totalOverlapReduction := computeGeometricSeriesSum segmentCount
    (constSnowmanSphereOverlap * constBaseSnowmanSphereRadius)
    (constSnowmanSphereOverlap * constSnowmanUpperSphereReductionFactor)
  totalSphereHeightWithoutOverlap - totalOverlapReduction

/-- Method `computeTotalSnowmanHeightForSegmentCount`. -/
def computeTotalSnowmanHeightForSegmentCount (segmentCount : Nat) : R :=
  computeSnowmanHeightForSegmentCount segmentCount

/-- Method `computeSnowballInitialPositionHeight`: launch altitude of a snowball. -/
def computeSnowballInitialPositionHeight : R :=
  if constSnowmanSegments > 0 then
    computeSnowmanHeightForSegmentCount (constSnowmanSegments - 1)
  else 0.0

/-- Method `resetSnowmanState`: back to traveling, with the state clock restarted
and the throw bookkeeping cleared. -/
def resetSnowmanState (scene : Scene R) (snowmanInstanceData : SnowmanInstanceData R) :
    SnowmanInstanceData R :=
  { snowmanInstanceData with
    snowmanState := SnowmanState.Traveling
    currentStateInitiationTimeMs := scene.totalElapsedSceneTimeMs
    snowballThrownDuringThrowState := false
    currentTargetSnowman := none }

/-! ## Target acquisition -/

/-- The vector from the source snowman to the potential target, as computed in
`isSnowmanInTargetAcquisitionFov`. -/
def sourceToTargetVector (sourceSnowmanInstanceData
    potentialTargetSnowmanInstanceData : SnowmanInstanceData R) : Vector3d R :=
  let targetPositionAsVector :=
    GenerateVector3dFromPoint3d potentialTargetSnowmanInstanceData.snowmanPosition
  targetPositionAsVector.subtractVector
    (GenerateVector3dFromPoint3d sourceSnowmanInstanceData.snowmanPosition)

/-- The angle `sourceToTargetAngleRad` of `isSnowmanInTargetAcquisitionFov`:
the arc cosine of the normalised dot product of the heading and the vector
towards the target. -/
def sourceToTargetAngleRad (ops : MathOps R) (sourceSnowmanInstanceData
    potentialTargetSnowmanInstanceData : SnowmanInstanceData R) : R :=
  ops.acos
    (sourceSnowmanInstanceData.snowmanDirectionNormalVector.dotProduct
        (sourceToTargetVector sourceSnowmanInstanceData potentialTargetSnowmanInstanceData) /
      (sourceSnowmanInstanceData.snowmanDirectionNormalVector.magnitude ops *
        (sourceToTargetVector sourceSnowmanInstanceData
          potentialTargetSnowmanInstanceData).magnitude ops))

/-- Method `isSnowmanInTargetAcquisitionFov`.  When the product of the two
magnitudes is zero the JavaScript quotient is NaN or infinite, its arc cosine is
NaN and the comparison with the field of view is false. -/
def isSnowmanInTargetAcquisitionFov (ops : MathOps R) (sourceSnowmanInstanceData
    potentialTargetSnowmanInstanceData : SnowmanInstanceData R) : Bool :=
  if sourceSnowmanInstanceData.snowmanDirectionNormalVector.magnitude ops *
      (sourceToTargetVector sourceSnowmanInstanceData
        potentialTargetSnowmanInstanceData).magnitude ops = 0 then
    false
  else
    decide (|sourceToTargetAngleRad ops sourceSnowmanInstanceData
        potentialTargetSnowmanInstanceData|
      ≤ sourceSnowmanInstanceData.snowmanTargetAcquisitionFovDegRad)

/-- Loop state of `findPreferredTargetSnowmanForSnowball`: the target found so
far and its distance. -/
structure TargetSearch (R : Type) where
  foundTargetInstance : Option Nat
  currentNearestDistance : R

/-- One iteration of the loop of `findPreferredTargetSnowmanForSnowball`, for
the candidate with index `instanceDataLoop`. -/
def findPreferredTargetStep (ops : MathOps R)
    (collection : List (SnowmanInstanceData R)) (self : Nat)
    (snowmanInstanceData : SnowmanInstanceData R)
    (search : TargetSearch R) (instanceDataLoop : Nat) : TargetSearch R :=
  match collection[instanceDataLoop]? with
  | none => search
  | some candidate =>
    if isSnowmanInTargetAcquisitionFov ops snowmanInstanceData candidate ∧
        self ≠ instanceDataLoop then
      let distanceBetweenSnowmen :=
        snowmanInstanceData.snowmanPosition.distanceFrom ops candidate.snowmanPosition
      if distanceBetweenSnowmen < search.currentNearestDistance ∨
          search.foundTargetInstance = none then
        { foundTargetInstance := some instanceDataLoop
          currentNearestDistance := distanceBetweenSnowmen }
      else search
    else search

/-- Method `findPreferredTargetSnowmanForSnowball`: the index of the target
chosen for the snowman with index `self`, or `none`. -/
def findPreferredTargetSnowmanForSnowball (ops : MathOps R)
    (collection : List (SnowmanInstanceData R)) (self : Nat) : Option Nat :=
  match collection[self]? with
  | none => none
  | some snowmanInstanceData =>
    ((List.range collection.length).foldl
      (findPreferredTargetStep ops collection self snowmanInstanceData)
      { foundTargetInstance := none, currentNearestDistance := 0.0 }).foundTargetInstance

/-- The acceptance test of the loop of `findPreferredTargetSnowmanForSnowball`:
the candidate with index `candidate` is in the field of view of the snowman with
index `self` and is not that snowman. -/
def isEligibleTarget (ops : MathOps R) (collection : List (SnowmanInstanceData R))
    (self candidate : Nat) : Bool :=
  match collection[self]?, collection[candidate]? with
  | some snowmanInstanceData, some candidateData =>
    isSnowmanInTargetAcquisitionFov ops snowmanInstanceData candidateData &&
      decide (self ≠ candidate)
  | _, _ => false

/-- The value `distanceBetweenSnowmen` of the loop of
`findPreferredTargetSnowmanForSnowball` for the candidate with index `candidate`. -/
def distanceBetweenSnowmen (ops : MathOps R) (collection : List (SnowmanInstanceData R))
    (self candidate : Nat) : R :=
  match collection[self]?, collection[candidate]? with
  | some snowmanInstanceData, some candidateData =>
    snowmanInstanceData.snowmanPosition.distanceFrom ops candidateData.snowmanPosition
  | _, _ => 0

/-- Method `conditionallyTransitionToThrowingState`, applied to the snowman with
index `self`. -/
def conditionallyTransitionToThrowingState (ops : MathOps R) (scene : Scene R)
    (self : Nat) : Scene R :=
  match scene.snowmanInstanceDataCollection[self]? with
  | none => scene
  | some snowmanInstanceData =>
    if scene.totalElapsedSceneTimeMs - snowmanInstanceData.lastSnowballThrowTime ≥
        snowmanInstanceData.snowmanMinSnowballThrowIntervalMs then
      match findPreferredTargetSnowmanForSnowball ops
          scene.snowmanInstanceDataCollection self with
      | none => scene
      | some targetSnowman =>
        scene.modifySnowman self (fun snowmanInstanceData =>
          { resetSnowmanState scene snowmanInstanceData with
            currentStateInitiationTimeMs := scene.totalElapsedSceneTimeMs
            currentTargetSnowman := some targetSnowman
            snowmanState := SnowmanState.Throwing
            lastSnowballThrowTime := scene.totalElapsedSceneTimeMs })
    else scene


/-! ## Throwing -/

/-- Method `initializeSnowballState`: the snowball thrown by the snowman with
index `source` at the target, with the draw `u` of `Math.random()` used for the
planar speed. -/
def initializeSnowballState (ops : MathOps R) (source : Nat)
    (sourceSnowmanInstanceData targetSnowmanInstanceData : SnowmanInstanceData R)
    (u : R) : SnowballInstanceData R :=
  let minSnowballVelocity := max
    ((1.0 - constSnowmanThrowVelocityVariance) *
      sourceSnowmanInstanceData.snowmanMeanSnowballThrowVelocity)
    constMinSnowballVelocity
  let maxSnowballVelocity := min
    ((1.0 + constSnowmanThrowVelocityVariance) *
      sourceSnowmanInstanceData.snowmanMeanSnowballThrowVelocity)
    constMaxSnowballVelocity
  let snowballVelocityXyPlane := getRandomValueInRange minSnowballVelocity maxSnowballVelocity u
  let snowballPosition : Point3d R :=
    ⟨sourceSnowmanInstanceData.snowmanPosition.x, computeSnowballInitialPositionHeight,
     sourceSnowmanInstanceData.snowmanPosition.z⟩
  let targetPosition : Point3d R :=
    ⟨targetSnowmanInstanceData.snowmanPosition.x, computeSnowballInitialPositionHeight,
     targetSnowmanInstanceData.snowmanPosition.z⟩
  let velocityVector := GenerateVector3dFromPoint3d targetPosition
  let velocityVector := velocityVector.subtractVector (GenerateVector3dFromPoint3d snowballPosition)
  let velocityVector := velocityVector.normalize ops
  let velocityVector := velocityVector.multiplyByScalar snowballVelocityXyPlane
  let snowballTravelTime :=
    targetSnowmanInstanceData.snowmanPosition.distanceFrom ops snowballPosition /
      snowballVelocityXyPlane
  let snowballVerticalVelocity := (snowballTravelTime / 2.0) * gravitationalAccelerationFtPerMsSq
  { snowballVelocityVector := velocityVector.addVector ⟨0.0, snowballVerticalVelocity, 0.0⟩
    snowballPosition := snowballPosition
    sourceSnowmanInstance := some source
    invalidatedByCollision := false }

/-- Method `generateSnowballInstanceData`: creates the snowball and appends it to
the snowball collection; one draw of `Math.random()` is consumed.  The WebGL
context is taken to be present. -/
def generateSnowballInstanceData (ops : MathOps R) (scene : Scene R) (rnd : Nat → R)
    (source target : Nat) : Scene R × (Nat → R) :=
  match scene.snowmanInstanceDataCollection[source]?,
      scene.snowmanInstanceDataCollection[target]? with
  | some sourceSnowmanInstanceData, some targetSnowmanInstanceData =>
    ({ scene with
       snowballInstanceDataCollection := scene.snowballInstanceDataCollection ++
         [initializeSnowballState ops source sourceSnowmanInstanceData
           targetSnowmanInstanceData (rnd 0)] },
     fun n => rnd (n + 1))
  | _, _ => (scene, rnd)

/-- Method `generateSnowballForSnowman`: throws a snowball at the latched target,
provided there is one and it is not the thrower itself. -/
def generateSnowballForSnowman (ops : MathOps R) (scene : Scene R) (rnd : Nat → R)
    (self : Nat) : Scene R × (Nat → R) :=
  match scene.snowmanInstanceDataCollection[self]? with
  | none => (scene, rnd)
  | some snowmanInstanceData =>
    match snowmanInstanceData.currentTargetSnowman with
    | none => (scene, rnd)
    | some target =>
      if target ≠ self then generateSnowballInstanceData ops scene rnd self target
      else (scene, rnd)

/-- Method `updateSnowmanThrowingState`, applied to the snowman with index `self`. -/
def updateSnowmanThrowingState (ops : MathOps R) (scene : Scene R) (rnd : Nat → R)
    (self : Nat) : Scene R × (Nat → R) :=
  match scene.snowmanInstanceDataCollection[self]? with
  | none => (scene, rnd)
  | some snowmanInstanceData =>
    let snowballThrowStateTimeMs :=
      scene.totalElapsedSceneTimeMs - snowmanInstanceData.lastSnowballThrowTime
    if snowballThrowStateTimeMs ≤ constSnowmanThrowingStateDuration then
      let snowballThrowCompletionFraction :=
        snowballThrowStateTimeMs / constSnowmanThrowingStateDuration
      if snowballThrowCompletionFraction ≥ constThrowStateProjectileLaunchStartFraction ∧
          snowmanInstanceData.snowballThrownDuringThrowState = false then
        let thrown := generateSnowballForSnowman ops scene rnd self
        (thrown.1.modifySnowman self (fun snowmanInstanceData =>
          { snowmanInstanceData with snowballThrownDuringThrowState := true }), thrown.2)
      else (scene, rnd)
    else
      (scene.modifySnowman self (resetSnowmanState scene), rnd)

/-! ## Hit and stunned -/

/-- Method `updateHitState`: after the hit duration the snowman becomes stunned. -/
def updateHitState (scene : Scene R) (snowmanInstanceData : SnowmanInstanceData R) :
    SnowmanInstanceData R :=
  let hitStateTimeMs :=
    scene.totalElapsedSceneTimeMs - snowmanInstanceData.currentStateInitiationTimeMs
  if hitStateTimeMs ≤ constSnowmanHitStateDuration then
    snowmanInstanceData
  else
    { snowmanInstanceData with
      snowmanState := SnowmanState.Stunned
      currentStateInitiationTimeMs := scene.totalElapsedSceneTimeMs }

/-- Method `updateStunnedState`: after the stunned duration the snowman is reset. -/
def updateStunnedState (scene : Scene R) (snowmanInstanceData : SnowmanInstanceData R) :
    SnowmanInstanceData R :=
  let stunnedStateTimeMs :=
    scene.totalElapsedSceneTimeMs - snowmanInstanceData.currentStateInitiationTimeMs
  if stunnedStateTimeMs ≤ constSnowmanStunnedStateDuration then
    snowmanInstanceData
  else
    resetSnowmanState scene snowmanInstanceData

/-! ## The snowman state machine -/

/-- Method `updateSnowmanState`, applied to the snowman with index `self`:
dispatches on the activity state.  The result is `none` when the position retry
loop of a traveling snowman runs out of fuel. -/
def updateSnowmanState (ops : MathOps R) (fuel : Nat) (scene : Scene R) (rnd : Nat → R)
    (self : Nat) (timeQuantum : R) : Option (Scene R × (Nat → R)) :=
  match scene.snowmanInstanceDataCollection[self]? with
  | none => some (scene, rnd)
  | some snowmanInstanceData =>
    match snowmanInstanceData.snowmanState with
    | SnowmanState.Traveling =>
      match updateSnowmanPosition ops fuel rnd snowmanInstanceData timeQuantum with
      | none => none
      | some (moved, rnd) =>
        some (conditionallyTransitionToThrowingState ops
          (scene.modifySnowman self (fun _ => moved)) self, rnd)
    | SnowmanState.Throwing => some (updateSnowmanThrowingState ops scene rnd self)
    | SnowmanState.Hit => some (scene.modifySnowman self (updateHitState scene), rnd)
    | SnowmanState.Stunned => some (scene.modifySnowman self (updateStunnedState scene), rnd)

/-! ## Collisions -/

/-- The value `snowballDistance` computed in `isSnowballInCollisionStateWithSnowman`:
the point-line distance of the snowball from the centre line of the snowman, by
the cross-product formula. -/
def snowballDistance (ops : MathOps R) (snowmanInstanceData : SnowmanInstanceData R)
    (snowballInstanceData : SnowballInstanceData R) : R :=
  let snowmanCenterLineVector : Vector3d R :=
    ⟨0.0, computeTotalSnowmanHeightForSegmentCount constSnowmanSegments, 0.0⟩
  let snowmanBottomPointAsVector :=
    GenerateVector3dFromPoint3d snowmanInstanceData.snowmanPosition
  let snowballPositionAsVector :=
    GenerateVector3dFromPoint3d snowballInstanceData.snowballPosition
  let bottomToSnowballVector :=
    snowballPositionAsVector.subtractVector snowmanBottomPointAsVector
  let topToSnowballVector := snowballPositionAsVector.subtractVector
    (snowmanBottomPointAsVector.addVector snowmanCenterLineVector)
  (bottomToSnowballVector.crossProduct topToSnowballVector).magnitude ops /
    snowmanCenterLineVector.magnitude ops

/-- Method `isSnowballInCollisionStateWithSnowman`: height-band test followed by
the point-line distance test against the vertical axis of the snowman. -/
def isSnowballInCollisionStateWithSnowman (ops : MathOps R)
    (snowmanInstanceData : SnowmanInstanceData R)
    (snowballInstanceData : SnowballInstanceData R) : Bool :=
  let snowballHeightIsValidForCollision : Bool :=
    decide (snowballInstanceData.snowballPosition.y + constSnowballRadius ≥
        snowmanInstanceData.snowmanPosition.y) &&
    decide (snowballInstanceData.snowballPosition.y - constSnowballRadius ≤
        snowmanInstanceData.snowmanPosition.y +
          computeTotalSnowmanHeightForSegmentCount constSnowmanSegments)
  if snowballHeightIsValidForCollision then
    decide (snowballDistance ops snowmanInstanceData snowballInstanceData
      ≤ constSnowballRadius + constBaseSnowmanSphereRadius)
  else false

/-- Method `areInvalidatedSnowballsPresentInCollection`. -/
def areInvalidatedSnowballsPresentInCollection (scene : Scene R) : Bool :=
  scene.snowballInstanceDataCollection.any (fun snowball => snowball.invalidatedByCollision)

/-- Method `removeInvalidatedSnowballsFromCollection`: when an invalidated
snowball is present, the snowballs that are not invalidated are moved to a new
collection, in order. -/
def removeInvalidatedSnowballsFromCollection (scene : Scene R) : Scene R :=
  if areInvalidatedSnowballsPresentInCollection scene then
    { scene with
      snowballInstanceDataCollection :=
        scene.snowballInstanceDataCollection.filter
          (fun snowball => !snowball.invalidatedByCollision) }
  else scene

/-- Method `handleSnowmanSnowballCollision`, for the struck snowman with index
`struck` and the snowball with index `snowball`.  A source index outside the
collection stands for a source reference that is not a snowman, for which the
type validation of the source fails. -/
def handleSnowmanSnowballCollision (scene : Scene R) (struck snowball : Nat) : Scene R :=
  match scene.snowmanInstanceDataCollection[struck]?,
      scene.snowballInstanceDataCollection[snowball]? with
  | some _, some snowballInstanceData =>
    let scene :=
      match snowballInstanceData.sourceSnowmanInstance with
      | none => scene
      | some source =>
        if source < scene.snowmanInstanceDataCollection.length then
          let scene := scene.modifySnowman source (fun sourceSnowman =>
            { sourceSnowman with
              snowmanTargetStrikeCount := sourceSnowman.snowmanTargetStrikeCount + 1 })
          scene.modifySnowman struck (fun snowmanInstanceData =>
            { resetSnowmanState scene
                { snowmanInstanceData with
                  snowmanStrikeReceptionCount :=
                    snowmanInstanceData.snowmanStrikeReceptionCount + 1 } with
              snowmanState := SnowmanState.Hit })
        else scene
    scene.modifySnowball snowball (fun snowballInstanceData =>
      { snowballInstanceData with invalidatedByCollision := true })
  | _, _ => scene

/-- Body of the loop of `processSingleSnowballCollision`, for the snowman with
index `snowman` and the snowball with index `instanceLoop`. -/
def processSingleSnowballCollisionStep (ops : MathOps R) (snowman : Nat)
    (scene : Scene R) (instanceLoop : Nat) : Scene R :=
  match scene.snowmanInstanceDataCollection[snowman]?,
      scene.snowballInstanceDataCollection[instanceLoop]? with
  | some snowmanInstanceData, some snowballInstanceData =>
    let snowballIsAssociatedWithSnowman : Bool :=
      decide (snowballInstanceData.sourceSnowmanInstance = some snowman)
    if !snowballIsAssociatedWithSnowman &&
        isSnowballInCollisionStateWithSnowman ops snowmanInstanceData snowballInstanceData then
      handleSnowmanSnowballCollision scene snowman instanceLoop
    else if snowballInstanceData.snowballPosition.y ≤ 0 then
      scene.modifySnowball instanceLoop (fun snowballInstanceData =>
        { snowballInstanceData with invalidatedByCollision := true })
    else scene
  | _, _ => scene

/-- Method `processSingleSnowballCollision`: tests every snowball of the
collection against the snowman with index `snowman`. -/
def processSingleSnowballCollision (ops : MathOps R) (scene : Scene R) (snowman : Nat) :
    Scene R :=
  (List.range scene.snowballInstanceDataCollection.length).foldl
    (processSingleSnowballCollisionStep ops snowman) scene

/-- Method `processAllSnowballCollisions`: tests every snowman against every
snowball, then removes the invalidated snowballs.  (The guard on
`invalidatedByCollision` of a snowman reads a field that a snowman does not have
and never blocks.) -/
def processAllSnowballCollisions (ops : MathOps R) (scene : Scene R) : Scene R :=
  removeInvalidatedSnowballsFromCollection
    ((List.range scene.snowmanInstanceDataCollection.length).foldl
      (processSingleSnowballCollision ops) scene)


/-! ## The frame step -/

/-- Method `updateStoredSnowmanHighHitCount`: raises the cached high hit count to
the strike count of any snowman that exceeds it. -/
def updateStoredSnowmanHighHitCount (scene : Scene R) : Scene R :=
  scene.snowmanInstanceDataCollection.foldl
    (fun scene snowmanInstanceData =>
      if snowmanInstanceData.snowmanTargetStrikeCount > scene.currentSnowmanHighHitCount then
        { scene with currentSnowmanHighHitCount := snowmanInstanceData.snowmanTargetStrikeCount }
      else scene)
    scene

/-- The loop of `updateStateInformationForSnowmanCollection`: `updateSnowmanState`
for every snowman index of the list, in order. -/
def updateAllSnowmanStates (ops : MathOps R) (fuel : Nat) (timeQuantum : R) :
    List Nat → Scene R → (Nat → R) → Option (Scene R × (Nat → R))
  | [], scene, rnd => some (scene, rnd)
  | instanceDataLoop :: rest, scene, rnd =>
    match updateSnowmanState ops fuel scene rnd instanceDataLoop timeQuantum with
    | none => none
    | some (scene, rnd) => updateAllSnowmanStates ops fuel timeQuantum rest scene rnd

/-- Method `updateStateInformationForSnowmanCollection`: updates every snowman,
resolves the snowball collisions and refreshes the high hit count. -/
def updateStateInformationForSnowmanCollection (ops : MathOps R) (fuel : Nat)
    (scene : Scene R) (rnd : Nat → R) (timeQuantum : R) : Option (Scene R × (Nat → R)) :=
  match updateAllSnowmanStates ops fuel timeQuantum
      (List.range scene.snowmanInstanceDataCollection.length) scene rnd with
  | none => none
  | some (scene, rnd) =>
    some (updateStoredSnowmanHighHitCount (processAllSnowballCollisions ops scene), rnd)

/-- Method `updateSnowballState`: advances the position by the velocity, then
applies gravity to the velocity. -/
def updateSnowballState (snowballInstanceData : SnowballInstanceData R) (timeQuantum : R) :
    SnowballInstanceData R :=
  let snowballPositionAsVector := GenerateVector3dFromPoint3d snowballInstanceData.snowballPosition
  let snowballPositionAsVector := snowballPositionAsVector.addVector
    (snowballInstanceData.snowballVelocityVector.multiplyByScalar timeQuantum)
  let gravityVector : Vector3d R := ⟨0.0, -gravitationalAccelerationFtPerMsSq, 0.0⟩
  let gravityVector := gravityVector.multiplyByScalar timeQuantum
  { snowballInstanceData with
    snowballPosition := GeneratePoint3dFromVector3d snowballPositionAsVector
    snowballVelocityVector := snowballInstanceData.snowballVelocityVector.addVector gravityVector }

/-- Method `updateStateInformationForSnowballCollection`. -/
def updateStateInformationForSnowballCollection (scene : Scene R) (timeQuantum : R) : Scene R :=
  { scene with
    snowballInstanceDataCollection :=
      scene.snowballInstanceDataCollection.map (fun snowball =>
        updateSnowballState snowball timeQuantum) }

/-- Method `executeStep`, restricted to the simulation state: snowmen (with the
collision pass), then snowballs, then the scene clock.  Camera and rendering do
not write the simulation state. -/
def executeStep (ops : MathOps R) (fuel : Nat) (scene : Scene R) (rnd : Nat → R)
    (timeQuantum : R) : Option (Scene R × (Nat → R)) :=
  match updateStateInformationForSnowmanCollection ops fuel scene rnd timeQuantum with
  | none => none
  | some (scene, rnd) =>
    let scene := updateStateInformationForSnowballCollection scene timeQuantum
    some ({ scene with totalElapsedSceneTimeMs := scene.totalElapsedSceneTimeMs + timeQuantum },
      rnd)

/-- Every snowman of the scene is within the world boundary. -/
def Scene.snowmenWithinBoundary (ops : MathOps R) (scene : Scene R) : Prop :=
  ∀ snowman ∈ scene.snowmanInstanceDataCollection,
    snowman.snowmanPosition.distanceFrom ops constWorldCenterPoint
      ≤ constWorldBoundaryDistanceFromCenter


/-! ## Relations between the scenes of one collision pass -/

/-- Two lists have the same length and are related position by position. -/
def ListRel {α : Type} (P : α → α → Prop) (l l' : List α) : Prop :=
  l'.length = l.length ∧ ∀ (i : Nat) (a b : α), l[i]? = some a → l'[i]? = some b → P a b

/-- The snowman `b` stands where the snowman `a` stands. -/
def SamePosition (a b : SnowmanInstanceData R) : Prop :=
  b.snowmanPosition = a.snowmanPosition

/-- The snowball `b` is at the position of the snowball `a`, has the same source,
and is invalidated if `a` is. -/
def SnowballStable (a b : SnowballInstanceData R) : Prop :=
  b.snowballPosition = a.snowballPosition ∧
    b.sourceSnowmanInstance = a.sourceSnowmanInstance ∧
    (a.invalidatedByCollision = true → b.invalidatedByCollision = true)

/-- The later scene `t` has the snowmen of `s` at the same positions, and the
snowballs of `s` at the same positions and with the same sources, none of them
with a flag `invalidatedByCollision` that went back to false. -/
def CollisionPassStable (s t : Scene R) : Prop :=
  ListRel SamePosition s.snowmanInstanceDataCollection t.snowmanInstanceDataCollection ∧
    ListRel SnowballStable s.snowballInstanceDataCollection t.snowballInstanceDataCollection

/-- The snowman `b` is the snowman `a` up to its `snowmanTargetStrikeCount`. -/
def SameButStrikes (a b : SnowmanInstanceData R) : Prop :=
  b = { a with snowmanTargetStrikeCount := b.snowmanTargetStrikeCount }

/-- Every snowball of the scene that is in collision state with the snowman with
index `i` was thrown by that snowman. -/
def OnlyOwnSnowballsOverlap (ops : MathOps R) (i : Nat) (s : Scene R) : Prop :=
  ∀ (k : Nat) (snowman : SnowmanInstanceData R) (snowball : SnowballInstanceData R),
    s.snowmanInstanceDataCollection[i]? = some snowman →
    s.snowballInstanceDataCollection[k]? = some snowball →
    isSnowballInCollisionStateWithSnowman ops snowman snowball = true →
    snowball.sourceSnowmanInstance = some i

/-- The value `snowballVelocityXyPlane` computed in `initializeSnowballState`: the
planar speed of the snowball, drawn around the mean throw velocity of the
thrower and within the global velocity bounds. -/
def snowballVelocityXyPlane (sourceSnowmanInstanceData : SnowmanInstanceData R) (u : R) : R :=
  getRandomValueInRange
    (max ((1.0 - constSnowmanThrowVelocityVariance) *
        sourceSnowmanInstanceData.snowmanMeanSnowballThrowVelocity)
      constMinSnowballVelocity)
    (min ((1.0 + constSnowmanThrowVelocityVariance) *
        sourceSnowmanInstanceData.snowmanMeanSnowballThrowVelocity)
      constMaxSnowballVelocity) u

/-- The value `snowballTravelTime` computed in `initializeSnowballState`: the
distance from the position of the target snowman to the launch position of the
snowball, divided by the planar speed. -/
def snowballTravelTime (ops : MathOps R)
    (sourceSnowmanInstanceData targetSnowmanInstanceData : SnowmanInstanceData R) (u : R) : R :=
  targetSnowmanInstanceData.snowmanPosition.distanceFrom ops
      ⟨sourceSnowmanInstanceData.snowmanPosition.x, computeSnowballInitialPositionHeight,
       sourceSnowmanInstanceData.snowmanPosition.z⟩ /
    snowballVelocityXyPlane sourceSnowmanInstanceData u

/-! ## Throwing episodes -/

/-- A throwing episode of the snowman with index `self`, frame by frame.  A frame
is a time delta, by which the scene clock advances at the end of the previous
step, together with what the rest of the frames does to the scene before the
snowman is updated.  As long as the snowman is throwing,
`updateSnowmanThrowingState` is applied to it (as `updateSnowmanState` does).
Returns the snowballs that these calls appended to the snowball collection, and
the final scene. -/
def throwingEpisode (ops : MathOps R) (self : Nat) :
    List (R × (Scene R → Scene R)) → Scene R → (Nat → R) →
      List (SnowballInstanceData R) × Scene R
  | [], scene, _ => ([], scene)
  | (timeQuantum, restOfFrame) :: frames, scene, rnd =>
    let scene := restOfFrame
      { scene with totalElapsedSceneTimeMs := scene.totalElapsedSceneTimeMs + timeQuantum }
    match scene.snowmanInstanceDataCollection[self]? with
    | none => ([], scene)
    | some snowmanInstanceData =>
      if snowmanInstanceData.snowmanState = SnowmanState.Throwing then
        let updated := updateSnowmanThrowingState ops scene rnd self
        let launched := updated.1.snowballInstanceDataCollection.drop
          scene.snowballInstanceDataCollection.length
        let later := throwingEpisode ops self frames updated.1 updated.2
        (launched ++ later.1, later.2)
      else ([], scene)

/-- The rest of a frame leaves the scene clock, the number of snowmen and the
throw bookkeeping of the snowman with index `self` as they are (the snowman is
not hit). -/
def FrameKeepsThrower (self : Nat) (restOfFrame : Scene R → Scene R) : Prop :=
  ∀ s : Scene R,
    (restOfFrame s).totalElapsedSceneTimeMs = s.totalElapsedSceneTimeMs ∧
    (restOfFrame s).snowmanInstanceDataCollection.length
      = s.snowmanInstanceDataCollection.length ∧
    ∀ a, s.snowmanInstanceDataCollection[self]? = some a →
      ∃ b, (restOfFrame s).snowmanInstanceDataCollection[self]? = some b ∧
        b.snowmanState = a.snowmanState ∧
        b.lastSnowballThrowTime = a.lastSnowballThrowTime ∧
        b.snowballThrownDuringThrowState = a.snowballThrownDuringThrowState ∧
        b.currentTargetSnowman = a.currentTargetSnowman

/-- Starting at the given elapsed time since the throw began, the first frame
whose elapsed time reaches the launch fraction of the throwing duration comes
while the throwing duration has not yet run out. -/
def launchFrameInTime : R → List R → Prop
  | _, [] => False
  | elapsed, timeQuantum :: deltas =>
    (elapsed + timeQuantum ≤ constSnowmanThrowingStateDuration ∧
        (elapsed + timeQuantum) / constSnowmanThrowingStateDuration
          ≥ constThrowStateProjectileLaunchStartFraction) ∨
      (elapsed + timeQuantum ≤ constSnowmanThrowingStateDuration ∧
        ¬ (elapsed + timeQuantum) / constSnowmanThrowingStateDuration
          ≥ constThrowStateProjectileLaunchStartFraction ∧
        launchFrameInTime (elapsed + timeQuantum) deltas)

/-! ## Scene initialisation and reachable scenes -/

/-- Number of snowmen of an ordinary session. -/
def constSnowmanCount : Nat := 15

/-- Number of snowmen of the rare large session. -/
def constSpecialSnowmanCount : Nat := 100

/-- Minimum movement magnitude of a snowman (units per millisecond). -/
def constSnowmanMinMovementMagnitude : R := constWorldBoundaryDistanceFromCenter / 7500.0

/-- Maximum movement magnitude of a snowman (units per millisecond). -/
def constSnowmanMaxMovementMagnitude : R := constWorldBoundaryDistanceFromCenter / 3000.0

/-- Minimum interval between the throws of a snowman (milliseconds). -/
def constSnowmanMinThrowIntervalMs : R := 800.0

/-- Maximum interval between the throws of a snowman (milliseconds). -/
def constSnowmanMaxThrowIntervalMs : R := 4000.0

/-- Minimum target acquisition field of view (radians). -/
def constMinSnowmanTargetAcquisitionFov (ops : MathOps R) : R := ops.pi / 9.0

/-- Maximum target acquisition field of view (radians). -/
def constMaxSnowmanTargetAcquisitionFov (ops : MathOps R) : R := ops.pi / 3.0

/-- Method `determineSnowmanCount`, with its draw `u` of `Math.random()` made
explicit. -/
def determineSnowmanCount (u : R) : Nat :=
  let constMaxProbability : R := 999.0
  let constNormalCountProbability : R := 998.00
  if getRandomValueInRange 0.0 constMaxProbability u > constNormalCountProbability then
    constSpecialSnowmanCount
  else
    constSnowmanCount

/-- Method `generateRandomDirectionVector`, with the two draws made explicit. -/
def generateRandomDirectionVector (ops : MathOps R) (u v : R) : Vector3d R :=
  (GenerateVector3dFromPoint3d (generateRandomPosition ops u v)).normalize ops

/-- Method `initializeSnowmanState`, applied to a snowman object fresh from the
constructor `SnowmanInstanceData` (last throw time zero, no target, nothing
thrown, both strike counts zero).  Eight draws of `Math.random()` are consumed, in
the order of the assignments. -/
def initializeSnowmanState (ops : MathOps R) (totalElapsedSceneTimeMs : R) (rnd : Nat → R) :
    SnowmanInstanceData R × (Nat → R) :=
  ({ snowmanState := SnowmanState.Traveling
     currentStateInitiationTimeMs := totalElapsedSceneTimeMs
     lastSnowballThrowTime := 0.0
     currentTargetSnowman := none
     snowballThrownDuringThrowState := false
     snowmanPosition := generateRandomPosition ops (rnd 0) (rnd 1)
     snowmanDirectionNormalVector := generateRandomDirectionVector ops (rnd 2) (rnd 3)
     snowmanMovementMagnitude := getRandomValueInRange constSnowmanMinMovementMagnitude
       constSnowmanMaxMovementMagnitude (rnd 4)
     snowmanMinSnowballThrowIntervalMs := getRandomValueInRange constSnowmanMinThrowIntervalMs
       constSnowmanMaxThrowIntervalMs (rnd 5)
     snowmanMeanSnowballThrowVelocity := getRandomValueInRange constMinSnowballVelocity
       constMaxSnowballVelocity (rnd 6)
     snowmanTargetAcquisitionFovDegRad := getRandomValueInRange
       (constMinSnowmanTargetAcquisitionFov ops) (constMaxSnowmanTargetAcquisitionFov ops)
       (rnd 7)
     snowmanTargetStrikeCount := 0
     snowmanStrikeReceptionCount := 0 },
   fun n => rnd (n + 8))

/-- The loop of `createSnowmanInstanceDataCollection`: creates and initialises the
given number of snowmen. -/
def createSnowmanInstances (ops : MathOps R) (totalElapsedSceneTimeMs : R) :
    Nat → (Nat → R) → List (SnowmanInstanceData R) × (Nat → R)
  | 0, rnd => ([], rnd)
  | sessionSnowmanCount + 1, rnd =>
    let first := initializeSnowmanState ops totalElapsedSceneTimeMs rnd
    let others := createSnowmanInstances ops totalElapsedSceneTimeMs sessionSnowmanCount first.2
    (first.1 :: others.1, others.2)

/-- Method `createSnowmanInstanceDataCollection`, restricted to the simulation
state; the body geometry and the WebGL context are taken to be present. -/
def createSnowmanInstanceDataCollection (ops : MathOps R) (scene : Scene R) (rnd : Nat → R) :
    Scene R × (Nat → R) :=
  let sessionSnowmanCount := determineSnowmanCount (rnd 0)
  let created := createSnowmanInstances ops scene.totalElapsedSceneTimeMs sessionSnowmanCount
    (fun n => rnd (n + 1))
  ({ scene with snowmanInstanceDataCollection := created.1 }, created.2)

/-- Method `initialize` of the scene, restricted to the simulation state: clock
zero, no snowballs, high hit count zero, and the snowmen created by
`createSnowmanInstanceDataCollection`. -/
def initializeScene (ops : MathOps R) (rnd : Nat → R) : Scene R × (Nat → R) :=
  createSnowmanInstanceDataCollection ops
    { totalElapsedSceneTimeMs := 0.0
      snowmanInstanceDataCollection := []
      snowballInstanceDataCollection := []
      currentSnowmanHighHitCount := 0 } rnd

/-- The scenes reachable from `initialize` by calls of `executeStep`, for any
random stream and any time deltas. -/
inductive FrameReachable (ops : MathOps R) : Scene R → Prop
  | initial (rnd : Nat → R) : FrameReachable ops (initializeScene ops rnd).1
  | step (fuel : Nat) (scene : Scene R) (rnd : Nat → R) (timeQuantum : R)
      (scene' : Scene R) (rest : Nat → R) :
      FrameReachable ops scene →
      executeStep ops fuel scene rnd timeQuantum = some (scene', rest) →
      FrameReachable ops scene'

/-- The scenes that the simulation passes through, including those within a
frame: the initial scene, and from any such scene the one after an update of a
snowman, after one body of the collision loop, after the removal of the
invalidated snowballs, after the refresh of the high hit count, after the
snowball update and after the advance of the clock. -/
inductive SceneReachable (ops : MathOps R) : Scene R → Prop
  | initial (rnd : Nat → R) : SceneReachable ops (initializeScene ops rnd).1
  | snowmanUpdate (fuel : Nat) (scene : Scene R) (rnd : Nat → R) (self : Nat)
      (timeQuantum : R) (scene' : Scene R) (rest : Nat → R) :
      SceneReachable ops scene →
      updateSnowmanState ops fuel scene rnd self timeQuantum = some (scene', rest) →
      SceneReachable ops scene'
  | collisionStep (scene : Scene R) (snowman instanceLoop : Nat) :
      SceneReachable ops scene →
      SceneReachable ops (processSingleSnowballCollisionStep ops snowman scene instanceLoop)
  | removal (scene : Scene R) :
      SceneReachable ops scene →
      SceneReachable ops (removeInvalidatedSnowballsFromCollection scene)
  | highHitCount (scene : Scene R) :
      SceneReachable ops scene →
      SceneReachable ops (updateStoredSnowmanHighHitCount scene)
  | snowballUpdate (scene : Scene R) (timeQuantum : R) :
      SceneReachable ops scene →
      SceneReachable ops (updateStateInformationForSnowballCollection scene timeQuantum)
  | clock (scene : Scene R) (timeQuantum : R) :
      SceneReachable ops scene →
      SceneReachable ops
        { scene with totalElapsedSceneTimeMs := scene.totalElapsedSceneTimeMs + timeQuantum }

/-- Every snowman in the hit state has its throw bookkeeping cleared. -/
def HitBookkeepingCleared (scene : Scene R) : Prop :=
  ∀ (j : Nat) (snowman : SnowmanInstanceData R),
    scene.snowmanInstanceDataCollection[j]? = some snowman →
    snowman.snowmanState = SnowmanState.Hit →
    snowman.snowballThrownDuringThrowState = false ∧ snowman.currentTargetSnowman = none

/-- The bookkeeping of every snowman whose `snowmanState` differs between the two
scenes: in the later scene its state clock is the scene clock, nothing is marked
as thrown, and it has a target exactly when its new state is Throwing. -/
def StateChangeBookkeeping (before after : Scene R) : Prop :=
  ∀ (j : Nat) (a b : SnowmanInstanceData R),
    before.snowmanInstanceDataCollection[j]? = some a →
    after.snowmanInstanceDataCollection[j]? = some b →
    b.snowmanState ≠ a.snowmanState →
    b.currentStateInitiationTimeMs = after.totalElapsedSceneTimeMs ∧
    b.snowballThrownDuringThrowState = false ∧
    (b.snowmanState ≠ SnowmanState.Throwing → b.currentTargetSnowman = none) ∧
    (b.snowmanState = SnowmanState.Throwing → ∃ target, b.currentTargetSnowman = some target)

/-! ## The frame order described by the specification -/

/-- The frame step in the order that the specification describes, to be compared
with `executeStep`: the snowmen are updated, then the snowball physics is advanced
by the time delta, and only then the collisions are resolved and the invalidated
snowballs removed (followed by the refresh of the high hit count and the advance of
the clock). -/
def executeStepPhysicsBeforeCollisions (ops : MathOps R) (fuel : Nat) (scene : Scene R)
    (rnd : Nat → R) (timeQuantum : R) : Option (Scene R × (Nat → R)) :=
  match updateAllSnowmanStates ops fuel timeQuantum
      (List.range scene.snowmanInstanceDataCollection.length) scene rnd with
  | none => none
  | some (scene, rnd) =>
    let scene := updateStateInformationForSnowballCollection scene timeQuantum
    let scene := updateStoredSnowmanHighHitCount (processAllSnowballCollisions ops scene)
    some ({ scene with totalElapsedSceneTimeMs := scene.totalElapsedSceneTimeMs + timeQuantum },
      rnd)

/-- The stored high hit count does not exceed the strike count of every snowman:
some snowman has at least that many strikes. -/
def HighHitCountWithinStrikes (scene : Scene R) : Prop :=
  ∃ (j : Nat) (snowman : SnowmanInstanceData R),
    scene.snowmanInstanceDataCollection[j]? = some snowman ∧
    scene.currentSnowmanHighHitCount ≤ snowman.snowmanTargetStrikeCount

/-! ## Tessellated geometry generators (`TessellatedGeometryGenerators.js`)

`Vertex3d`, `Triangle`, `RgbColor` (`Primitives.js`), `returnValidNumOrZero` and
`validateVarAgainstType` (`Utility.js`) and `MathUtility.rotatePointAroundAxisZ` are
not part of the sources at hand. -/

/-- Modelled from the spec: `RgbColor` (absent), a colour with unit-interval
components. -/
structure RgbColor (R : Type) where
  red : R
  green : R
  blue : R
  alpha : R
deriving DecidableEq, Repr

/-- Modelled from the spec: `Vertex3d` (absent), a position with a normal vector,
surface mapping (texture) coordinates and a colour.  An attribute that has not
been set after `PrimitivesUtil.GenerateVertex3dFromPoint3d` is `none`. -/
structure Vertex3d (R : Type) where
  position : Point3d R
  normalVector : Option (Vector3d R)
  surfaceMappingCoords : Option (R × R)
  color : Option (RgbColor R)
deriving DecidableEq, Repr

/-- Modelled from the spec: `Triangle` (absent), an ordered triple of vertices. -/
structure Triangle (R : Type) where
  firstVertex : Vertex3d R
  secondVertex : Vertex3d R
  thirdVertex : Vertex3d R
deriving DecidableEq, Repr

/-- Modelled from the spec: `PrimitivesUtil.GenerateVertex3dFromPoint3d` (absent),
a vertex at the point, with no attribute set. -/
def GenerateVertex3dFromPoint3d (p : Point3d R) : Vertex3d R :=
  { position := p, normalVector := none, surfaceMappingCoords := none, color := none }

/-- Modelled from the spec: `Vertex3d.setNormalVector` (absent). -/
def Vertex3d.setNormalVector (v : Vertex3d R) (n : Vector3d R) : Vertex3d R :=
  { v with normalVector := some n }

/-- Modelled from the spec: `Vertex3d.setSurfaceMappingCoords` (absent). -/
def Vertex3d.setSurfaceMappingCoords (v : Vertex3d R) (s t : R) : Vertex3d R :=
  { v with surfaceMappingCoords := some (s, t) }

/-- Modelled from the spec: `Vertex3d.setColor` (absent). -/
def Vertex3d.setColor (v : Vertex3d R) (c : RgbColor R) : Vertex3d R :=
  { v with color := some c }

/-- Modelled from the spec: `Point3d.offset` (absent), the point moved by the
given amounts along the axes. -/
def Point3d.offset (p : Point3d R) (dx dy dz : R) : Point3d R :=
  ⟨p.x + dx, p.y + dy, p.z + dz⟩

/-- Modelled from the spec: `Vector3d.getPoint3dRep` (absent), the end point of
the position vector. -/
def Vector3d.getPoint3dRep (v : Vector3d R) : Point3d R :=
  ⟨v.xComponent, v.yComponent, v.zComponent⟩

/-- Modelled from the spec: `MathUtility.rotatePointAroundAxisZ` (absent), the
rotation of a point about the Z axis by an angle in radians. -/
def rotatePointAroundAxisZ (ops : MathOps R) (p : Point3d R) (angle : R) : Point3d R :=
  ⟨p.x * ops.cos angle - p.y * ops.sin angle, p.x * ops.sin angle + p.y * ops.cos angle, p.z⟩

/-- Modelled from the spec: `returnValidNumOrZero` (absent), the value itself if
it is a number and zero otherwise; `none` stands for a value that is not a
number. -/
def returnValidNumOrZero (value : Option R) : R :=
  match value with
  | some number => number
  | none => 0

/-- The loop `while (current < max) { body; current += step; }` of the generators,
run on fuel; the body may itself run a loop and so may run out of fuel. -/
def whileBelow {σ : Type} (max step : R) (body : R → σ → Option σ) :
    Nat → R → σ → Option σ
  | 0, _, _ => none
  | fuel + 1, current, state =>
    if current < max then
      match body current state with
      | none => none
      | some state => whileBelow max step body fuel (current + step) state
    else some state

/-- State of a `TessellatedSphereGenerator`.  The constructor arguments and the
segment counts are JavaScript values: `none` stands for a value that is not a
number (not a `Point3d`, for the centre point). -/
structure TessellatedSphereGenerator (R : Type) where
  sphereRadius : Option R
  centerPoint : Option (Point3d R)
  longitudinalSegmentCount : Option R
  latitudinalSegmentCount : Option R
  sphereColor : RgbColor R
  triangleStore : List (Triangle R)

/-- Method `TessellatedSphereGenerator.areInternalParametersValid`. -/
def TessellatedSphereGenerator.areInternalParametersValid
    (generator : TessellatedSphereGenerator R) : Bool :=
  decide (returnValidNumOrZero generator.sphereRadius > 0) &&
    generator.centerPoint.isSome &&
    decide (returnValidNumOrZero generator.longitudinalSegmentCount > 0) &&
    decide (returnValidNumOrZero generator.latitudinalSegmentCount > 0)

/-- Method `TessellatedSphereGenerator.clearTriangleStore`. -/
def TessellatedSphereGenerator.clearTriangleStore
    (generator : TessellatedSphereGenerator R) : TessellatedSphereGenerator R :=
  { generator with triangleStore := [] }

/-- Method `TessellatedSphereGenerator.getTriangleList`. -/
def TessellatedSphereGenerator.getTriangleList
    (generator : TessellatedSphereGenerator R) : List (Triangle R) :=
  generator.triangleStore

/-- Body of the inner loop of `TessellatedSphereGenerator.generateGeometry`: the two
triangles of the quad at the current latitude and longitude. -/
def sphereQuadTriangles (ops : MathOps R) (sphereColor : RgbColor R) (centerPoint : Point3d R)
    (longitudinalDegreesPerSegment latitudinalDegreesPerSegment : R)
    (upperPoint lowerPoint : Point3d R) (currentLatitude currentLongitude : R) :
    List (Triangle R) :=
  let constMaxLongitude := 2 * ops.pi
  let constMaxLatitude := ops.pi
  let upperPointLeading := rotatePointAroundAxisY ops upperPoint currentLongitude
  let lowerPointLeading := rotatePointAroundAxisY ops lowerPoint currentLongitude
  let upperPointTrailing := rotatePointAroundAxisY ops upperPoint
    (currentLongitude + longitudinalDegreesPerSegment)
  let lowerPointTrailing := rotatePointAroundAxisY ops lowerPoint
    (currentLongitude + longitudinalDegreesPerSegment)
  let upperNormalLeading := (GenerateVector3dFromPoint3d upperPointLeading).normalize ops
  let lowerNormalLeading := (GenerateVector3dFromPoint3d lowerPointLeading).normalize ops
  let upperNormalTrailing := (GenerateVector3dFromPoint3d upperPointTrailing).normalize ops
  let lowerNormalTrailing := (GenerateVector3dFromPoint3d lowerPointTrailing).normalize ops
  let upperPointLeading := upperPointLeading.offset centerPoint.x centerPoint.y centerPoint.z
  let upperVertexLeading := GenerateVertex3dFromPoint3d upperPointLeading
  let upperVertexLeading := upperVertexLeading.setNormalVector upperNormalLeading
  let lowerPointLeading := lowerPointLeading.offset centerPoint.x centerPoint.y centerPoint.z
  let lowerVertexLeading := GenerateVertex3dFromPoint3d lowerPointLeading
  let lowerVertexLeading := lowerVertexLeading.setNormalVector lowerNormalLeading
  let upperPointTrailing := upperPointTrailing.offset centerPoint.x centerPoint.y centerPoint.z
  let upperVertexTrailing := GenerateVertex3dFromPoint3d upperPointTrailing
  let upperVertexTrailing := upperVertexTrailing.setNormalVector upperNormalTrailing
  let lowerPointTrailing := lowerPointTrailing.offset centerPoint.x centerPoint.y centerPoint.z
  let lowerVertexTrailing := GenerateVertex3dFromPoint3d lowerPointTrailing
  let lowerVertexTrailing := lowerVertexTrailing.setNormalVector lowerNormalTrailing
  let upperVertexLeading := upperVertexLeading.setSurfaceMappingCoords
    (currentLatitude / constMaxLatitude) (currentLongitude / constMaxLongitude)
  let lowerVertexLeading := lowerVertexLeading.setSurfaceMappingCoords
    (currentLatitude / constMaxLatitude)
    ((currentLongitude / constMaxLongitude) + longitudinalDegreesPerSegment)
  let upperVertexTrailing := upperVertexTrailing.setSurfaceMappingCoords
    ((currentLatitude / constMaxLatitude) + latitudinalDegreesPerSegment)
    (currentLongitude / constMaxLongitude)
  let lowerVertexTrailing := lowerVertexTrailing.setSurfaceMappingCoords
    ((currentLatitude / constMaxLatitude) + latitudinalDegreesPerSegment)
    ((currentLongitude / constMaxLongitude) + longitudinalDegreesPerSegment)
  let upperVertexLeading := upperVertexLeading.setColor sphereColor
  let lowerVertexLeading := lowerVertexLeading.setColor sphereColor
  let upperVertexTrailing := upperVertexTrailing.setColor sphereColor
  let lowerVertexTrailing := lowerVertexTrailing.setColor sphereColor
  let firstTriangle : Triangle R := ⟨upperVertexLeading, lowerVertexLeading, lowerVertexTrailing⟩
  let secondTriangle : Triangle R :=
    ⟨upperVertexLeading, lowerVertexTrailing, upperVertexTrailing⟩
  [firstTriangle, secondTriangle]

/-- Body of the outer loop of `TessellatedSphereGenerator.generateGeometry`: the
band of quads at the current latitude, pushed onto the triangle store by the
inner loop over the longitude. -/
def sphereLatitudeBand (ops : MathOps R) (sphereColor : RgbColor R) (centerPoint : Point3d R)
    (longitudinalDegreesPerSegment latitudinalDegreesPerSegment : R) (topPoint : Point3d R)
    (fuel : Nat) (currentLatitude : R) (triangleStore : List (Triangle R)) :
    Option (List (Triangle R)) :=
  let constMaxLongitude := 2 * ops.pi
  let upperPoint := rotatePointAroundAxisZ ops topPoint currentLatitude
  let lowerPoint := rotatePointAroundAxisZ ops topPoint
    (currentLatitude + latitudinalDegreesPerSegment)
  whileBelow constMaxLongitude longitudinalDegreesPerSegment
    (fun currentLongitude triangleStore =>
      some (triangleStore ++ sphereQuadTriangles ops sphereColor centerPoint
        longitudinalDegreesPerSegment latitudinalDegreesPerSegment upperPoint lowerPoint
        currentLatitude currentLongitude))
    fuel 0 triangleStore

/-- Method `TessellatedSphereGenerator.generateGeometry`: the returned flag and the
generator afterwards, or `none` when a loop runs out of fuel.  (The last case of
the match is not reached: valid parameters are numbers and a point.) -/
def TessellatedSphereGenerator.generateGeometry (ops : MathOps R) (fuel : Nat)
    (generator : TessellatedSphereGenerator R) :
    Option (Bool × TessellatedSphereGenerator R) :=
  if generator.areInternalParametersValid then
    match generator.sphereRadius, generator.centerPoint, generator.longitudinalSegmentCount,
        generator.latitudinalSegmentCount with
    | some sphereRadius, some centerPoint, some longitudinalSegmentCount,
        some latitudinalSegmentCount =>
      let generator := generator.clearTriangleStore
      let radiusVector : Vector3d R := ⟨0.0, sphereRadius, 0.0⟩
      let topPoint := radiusVector.getPoint3dRep
      let constMaxLongitude := 2 * ops.pi
      let constMaxLatitude := ops.pi
      let longitudinalDegreesPerSegment := constMaxLongitude / longitudinalSegmentCount
      let latitudinalDegreesPerSegment := constMaxLatitude / latitudinalSegmentCount
      match whileBelow constMaxLatitude latitudinalDegreesPerSegment
          (sphereLatitudeBand ops generator.sphereColor centerPoint
            longitudinalDegreesPerSegment latitudinalDegreesPerSegment topPoint fuel)
          fuel 0 generator.triangleStore with
      | none => none
      | some triangleStore => some (true, { generator with triangleStore := triangleStore })
    | _, _, _, _ => some (false, generator)
  else some (false, generator)

/-- State of a `TessellatedConeGenerator`; `none` stands for a value that is not a
number (not a `Point3d`, for the base point). -/
structure TessellatedConeGenerator (R : Type) where
  basePoint : Option (Point3d R)
  coneHeight : Option R
  baseRadius : Option R
  segmentCount : Option R
  coneColor : RgbColor R
  triangleStore : List (Triangle R)

/-- Method `TessellatedConeGenerator.areInternalParametersValid`. -/
def TessellatedConeGenerator.areInternalParametersValid
    (generator : TessellatedConeGenerator R) : Bool :=
  decide (returnValidNumOrZero generator.coneHeight > 0) &&
    generator.basePoint.isSome &&
    decide (returnValidNumOrZero generator.baseRadius > 0) &&
    decide (returnValidNumOrZero generator.segmentCount > 0)

/-- Method `TessellatedConeGenerator.getTriangleList`. -/
def TessellatedConeGenerator.getTriangleList
    (generator : TessellatedConeGenerator R) : List (Triangle R) :=
  generator.triangleStore

/-- Body of the loop of `TessellatedConeGenerator.generateGeometry`: the side
triangle and the bottom triangle of the segment at the current angle.  (The two
calls of `subtractVector` whose results the code does not use leave the edge
vectors as they are.) -/
def coneSegmentTriangles (ops : MathOps R) (coneColor : RgbColor R) (basePoint : Point3d R)
    (degreesPerSegment : R) (edgePoint topCenterPoint bottomCenterPoint : Point3d R)
    (bottomNormalVector : Vector3d R) (currentDegreesRad : R) : List (Triangle R) :=
  let rotatedBaseEdgePointTrailing := rotatePointAroundAxisY ops edgePoint currentDegreesRad
  let rotatedBaseEdgePointLeading := rotatePointAroundAxisY ops edgePoint
    (currentDegreesRad + degreesPerSegment)
  let normalLeading := (GenerateVector3dFromPoint3d rotatedBaseEdgePointLeading).normalize ops
  let normalTrailing := (GenerateVector3dFromPoint3d rotatedBaseEdgePointTrailing).normalize ops
  let topCenterVertex := GenerateVertex3dFromPoint3d topCenterPoint
  let bottomCenterVertex := GenerateVertex3dFromPoint3d bottomCenterPoint
  let leadingEdgeAsVector := GenerateVector3dFromPoint3d topCenterPoint
  let trailingEdgeAsVector := GenerateVector3dFromPoint3d topCenterPoint
  let topNormalVector := (trailingEdgeAsVector.crossProduct leadingEdgeAsVector).normalize ops
  let rotatedBaseEdgePointLeading :=
    rotatedBaseEdgePointLeading.offset basePoint.x basePoint.y basePoint.z
  let rotatedBaseEdgePointTrailing :=
    rotatedBaseEdgePointTrailing.offset basePoint.x basePoint.y basePoint.z
  let edgeVertexLeading := GenerateVertex3dFromPoint3d rotatedBaseEdgePointLeading
  let edgeVertexTrailing := GenerateVertex3dFromPoint3d rotatedBaseEdgePointTrailing
  let bottomVertexLeading := GenerateVertex3dFromPoint3d rotatedBaseEdgePointLeading
  let bottomVertexTrailing := GenerateVertex3dFromPoint3d rotatedBaseEdgePointTrailing
  let topCenterVertex := topCenterVertex.setNormalVector topNormalVector
  let edgeVertexLeading := edgeVertexLeading.setNormalVector normalLeading
  let edgeVertexTrailing := edgeVertexTrailing.setNormalVector normalTrailing
  let bottomVertexLeading := bottomVertexLeading.setNormalVector bottomNormalVector
  let bottomVertexTrailing := bottomVertexTrailing.setNormalVector bottomNormalVector
  let bottomCenterVertex := bottomCenterVertex.setNormalVector bottomNormalVector
  let topCenterVertex := topCenterVertex.setColor coneColor
  let edgeVertexLeading := edgeVertexLeading.setColor coneColor
  let edgeVertexTrailing := edgeVertexTrailing.setColor coneColor
  let bottomVertexLeading := bottomVertexLeading.setColor coneColor
  let bottomVertexTrailing := bottomVertexTrailing.setColor coneColor
  let bottomCenterVertex := bottomCenterVertex.setColor coneColor
  let sideTriangle : Triangle R := ⟨edgeVertexTrailing, edgeVertexLeading, topCenterVertex⟩
  let bottomTriangle : Triangle R :=
    ⟨bottomVertexTrailing, bottomCenterVertex, bottomVertexLeading⟩
  [sideTriangle, bottomTriangle]

/-- Method `TessellatedConeGenerator.generateGeometry`: the returned flag and the
generator afterwards, or `none` when the loop runs out of fuel.  The triangle
store is not cleared.  (The last case of the match is not reached.) -/
def TessellatedConeGenerator.generateGeometry (ops : MathOps R) (fuel : Nat)
    (generator : TessellatedConeGenerator R) : Option (Bool × TessellatedConeGenerator R) :=
  if generator.areInternalParametersValid then
    match generator.coneHeight, generator.basePoint, generator.baseRadius,
        generator.segmentCount with
    | some coneHeight, some basePoint, some baseRadius, some segmentCount =>
      let constMaxDegreesRad := 2 * ops.pi
      let degreesPerSegment := constMaxDegreesRad / segmentCount
      let radiusVector : Vector3d R := ⟨0.0, 0.0, baseRadius⟩
      let edgePoint := radiusVector.getPoint3dRep
      let topCenterPoint : Point3d R := ⟨0.0, coneHeight / 2.0, 0.0⟩
      let topCenterPoint := topCenterPoint.offset basePoint.x basePoint.y basePoint.z
      let bottomCenterPoint : Point3d R := ⟨0.0, 0.0, 0.0⟩
      let bottomCenterPoint := bottomCenterPoint.offset basePoint.x basePoint.y basePoint.z
      let bottomNormalVector : Vector3d R := ⟨0.0, -1.0, 0.0⟩
      match whileBelow constMaxDegreesRad degreesPerSegment
          (fun currentDegreesRad triangleStore =>
            some (triangleStore ++ coneSegmentTriangles ops generator.coneColor basePoint
              degreesPerSegment edgePoint topCenterPoint bottomCenterPoint bottomNormalVector
              currentDegreesRad))
          fuel 0.0 generator.triangleStore with
      | none => none
      | some triangleStore => some (true, { generator with triangleStore := triangleStore })
    | _, _, _, _ => some (false, generator)
  else some (false, generator)

/-- State of a `TessellatedCylinderGenerator`; `none` stands for a value that is not
a number (not a `Point3d`, for the centre point). -/
structure TessellatedCylinderGenerator (R : Type) where
  centerPoint : Option (Point3d R)
  cylinderHeight : Option R
  cylinderRadius : Option R
  segmentCount : Option R
  cylinderColor : RgbColor R
  triangleStore : List (Triangle R)

/-- Method `TessellatedCylinderGenerator.areInternalParametersValid`. -/
def TessellatedCylinderGenerator.areInternalParametersValid
    (generator : TessellatedCylinderGenerator R) : Bool :=
  decide (returnValidNumOrZero generator.cylinderRadius > 0) &&
    decide (returnValidNumOrZero generator.cylinderHeight > 0) &&
    generator.centerPoint.isSome &&
    decide (returnValidNumOrZero generator.segmentCount > 0)

/-- Method `TessellatedCylinderGenerator.getTriangleList`. -/
def TessellatedCylinderGenerator.getTriangleList
    (generator : TessellatedCylinderGenerator R) : List (Triangle R) :=
  generator.triangleStore

/-- Body of the loop of `TessellatedCylinderGenerator.generateGeometry`: the top
triangle, the two side triangles and the bottom triangle of the segment at the
current angle. -/
def cylinderSegmentTriangles (ops : MathOps R) (cylinderColor : RgbColor R)
    (centerPoint : Point3d R) (cylinderHeight degreesPerSegment : R)
    (centerEdgePoint topCenterPoint bottomCenterPoint : Point3d R)
    (topNormalVector bottomNormalVector : Vector3d R) (currentDegreesRad : R) :
    List (Triangle R) :=
  let constMaxDegreesRad := 2 * ops.pi
  let rotatedCenterEdgePointTrailing :=
    rotatePointAroundAxisY ops centerEdgePoint currentDegreesRad
  let rotatedCenterEdgePointLeading := rotatePointAroundAxisY ops centerEdgePoint
    (currentDegreesRad + degreesPerSegment)
  let normalLeading := (GenerateVector3dFromPoint3d rotatedCenterEdgePointLeading).normalize ops
  let normalTrailing :=
    (GenerateVector3dFromPoint3d rotatedCenterEdgePointTrailing).normalize ops
  let topPointTrailing : Point3d R :=
    ⟨rotatedCenterEdgePointTrailing.x, cylinderHeight / 2.0, rotatedCenterEdgePointTrailing.z⟩
  let bottomPointTrailing : Point3d R :=
    ⟨rotatedCenterEdgePointTrailing.x, -cylinderHeight / 2.0, rotatedCenterEdgePointTrailing.z⟩
  let topPointLeading : Point3d R :=
    ⟨rotatedCenterEdgePointLeading.x, cylinderHeight / 2.0, rotatedCenterEdgePointLeading.z⟩
  let bottomPointLeading : Point3d R :=
    ⟨rotatedCenterEdgePointLeading.x, -cylinderHeight / 2.0, rotatedCenterEdgePointLeading.z⟩
  let topCenterVertex := GenerateVertex3dFromPoint3d topCenterPoint
  let bottomCenterVertex := GenerateVertex3dFromPoint3d bottomCenterPoint
  let topPointTrailing := topPointTrailing.offset centerPoint.x centerPoint.y centerPoint.z
  let topVertexTrailing := GenerateVertex3dFromPoint3d topPointTrailing
  let topPointLeading := topPointLeading.offset centerPoint.x centerPoint.y centerPoint.z
  let topVertexLeading := GenerateVertex3dFromPoint3d topPointLeading
  let bottomPointTrailing := bottomPointTrailing.offset centerPoint.x centerPoint.y centerPoint.z
  let bottomVertexTrailing := GenerateVertex3dFromPoint3d bottomPointTrailing
  let bottomPointLeading := bottomPointLeading.offset centerPoint.x centerPoint.y centerPoint.z
  let bottomVertexLeading := GenerateVertex3dFromPoint3d bottomPointLeading
  let sideTopVertexTrailing := GenerateVertex3dFromPoint3d topPointTrailing
  let sideTopVertexLeading := GenerateVertex3dFromPoint3d topPointLeading
  let sideBottomVertexTrailing := GenerateVertex3dFromPoint3d bottomPointTrailing
  let sideBottomVertexLeading := GenerateVertex3dFromPoint3d bottomPointLeading
  let topCenterVertex := topCenterVertex.setNormalVector topNormalVector
  let bottomCenterVertex := bottomCenterVertex.setNormalVector bottomNormalVector
  let sideTopVertexLeading := sideTopVertexLeading.setNormalVector normalLeading
  let sideBottomVertexLeading := sideBottomVertexLeading.setNormalVector normalLeading
  let sideTopVertexTrailing := sideTopVertexTrailing.setNormalVector normalTrailing
  let sideBottomVertexTrailing := sideBottomVertexTrailing.setNormalVector normalTrailing
  let topCenterVertex := topCenterVertex.setColor cylinderColor
  let bottomCenterVertex := bottomCenterVertex.setColor cylinderColor
  let topVertexLeading := topVertexLeading.setColor cylinderColor
  let topVertexTrailing := topVertexTrailing.setColor cylinderColor
  let bottomVertexLeading := bottomVertexLeading.setColor cylinderColor
  let bottomVertexTrailing := bottomVertexTrailing.setColor cylinderColor
  let sideTopVertexLeading := sideTopVertexLeading.setColor cylinderColor
  let sideTopVertexTrailing := sideTopVertexTrailing.setColor cylinderColor
  let sideBottomVertexLeading := sideBottomVertexLeading.setColor cylinderColor
  let sideBottomVertexTrailing := sideBottomVertexTrailing.setColor cylinderColor
  let topCenterVertex := topCenterVertex.setSurfaceMappingCoords 0.5 0.5
  let bottomCenterVertex := bottomCenterVertex.setSurfaceMappingCoords 0.5 0.5
  let topVertexLeading := topVertexLeading.setSurfaceMappingCoords
    (ops.cos (currentDegreesRad + degreesPerSegment) / 2.0 + 0.5)
    (ops.sin (currentDegreesRad + degreesPerSegment) / 2.0 + 0.5)
  let topVertexTrailing := topVertexTrailing.setSurfaceMappingCoords
    (ops.cos currentDegreesRad / 2.0 + 0.5) (ops.sin currentDegreesRad / 2.0 + 0.5)
  let bottomVertexLeading := bottomVertexLeading.setSurfaceMappingCoords
    (ops.cos (currentDegreesRad + degreesPerSegment) / 2.0 + 0.5)
    (ops.sin (currentDegreesRad + degreesPerSegment) / 2.0 + 0.5)
  let bottomVertexTrailing := bottomVertexTrailing.setSurfaceMappingCoords
    (ops.cos currentDegreesRad / 2.0 + 0.5) (ops.sin currentDegreesRad / 2.0 + 0.5)
  let sideTopVertexLeading := sideTopVertexLeading.setSurfaceMappingCoords
    ((currentDegreesRad + degreesPerSegment) / constMaxDegreesRad) 0.0
  let sideTopVertexTrailing := sideTopVertexTrailing.setSurfaceMappingCoords
    (currentDegreesRad / constMaxDegreesRad) 0.0
  let sideBottomVertexLeading := sideBottomVertexLeading.setSurfaceMappingCoords
    ((currentDegreesRad + degreesPerSegment) / constMaxDegreesRad) 1.0
  let sideBottomVertexTrailing := sideBottomVertexTrailing.setSurfaceMappingCoords
    (currentDegreesRad / constMaxDegreesRad) 1.0
  let topTriangle : Triangle R := ⟨topCenterVertex, topVertexTrailing, topVertexLeading⟩
  let firstSideTriangle : Triangle R :=
    ⟨sideTopVertexTrailing, sideBottomVertexTrailing, sideBottomVertexLeading⟩
  let secondSideTriangle : Triangle R :=
    ⟨sideTopVertexTrailing, sideBottomVertexLeading, sideTopVertexLeading⟩
  let bottomTriangle : Triangle R :=
    ⟨bottomCenterVertex, bottomVertexLeading, bottomVertexTrailing⟩
  [topTriangle, firstSideTriangle, secondSideTriangle, bottomTriangle]

/-- Method `TessellatedCylinderGenerator.generateGeometry`: the returned flag and
the generator afterwards, or `none` when the loop runs out of fuel.  The triangle
store is not cleared.  (The last case of the match is not reached.) -/
def TessellatedCylinderGenerator.generateGeometry (ops : MathOps R) (fuel : Nat)
    (generator : TessellatedCylinderGenerator R) :
    Option (Bool × TessellatedCylinderGenerator R) :=
  if generator.areInternalParametersValid then
    match generator.cylinderRadius, generator.cylinderHeight, generator.centerPoint,
        generator.segmentCount with
    | some cylinderRadius, some cylinderHeight, some centerPoint, some segmentCount =>
      let constMaxDegreesRad := 2 * ops.pi
      let degreesPerSegment := constMaxDegreesRad / segmentCount
      let radiusVector : Vector3d R := ⟨0.0, 0.0, cylinderRadius⟩
      let centerEdgePoint := radiusVector.getPoint3dRep
      let topCenterPoint : Point3d R := ⟨0.0, cylinderHeight / 2.0, 0.0⟩
      let topCenterPoint := topCenterPoint.offset centerPoint.x centerPoint.y centerPoint.z
      let bottomCenterPoint : Point3d R := ⟨0.0, -cylinderHeight / 2.0, 0.0⟩
      let bottomCenterPoint :=
        bottomCenterPoint.offset centerPoint.x centerPoint.y centerPoint.z
      let topNormalVector : Vector3d R := ⟨0.0, 1.0, 0.0⟩
      let bottomNormalVector : Vector3d R := ⟨0.0, -1.0, 0.0⟩
      match whileBelow constMaxDegreesRad degreesPerSegment
          (fun currentDegreesRad triangleStore =>
            some (triangleStore ++ cylinderSegmentTriangles ops generator.cylinderColor
              centerPoint cylinderHeight degreesPerSegment centerEdgePoint topCenterPoint
              bottomCenterPoint topNormalVector bottomNormalVector currentDegreesRad))
          fuel 0.0 generator.triangleStore with
      | none => none
      | some triangleStore => some (true, { generator with triangleStore := triangleStore })
    | _, _, _, _ => some (false, generator)
  else some (false, generator)

/-! ## The text scroller (`TextScroller.js`)

Strings are lists of code units.  `validateVar` (`Utility.js`, absent) is taken to
accept every value that is neither `undefined` nor `null`; a reference that may be
absent is an `Option`. -/

/-- Browser API: the part of an `HTMLCanvasElement` that the scroller uses, its
size and the text last drawn on it. -/
structure Canvas (R : Type) where
  width : R
  height : R
  text : Option (List Char)
deriving DecidableEq

/-- Browser API: `document.createElement("canvas")`, a canvas of the default size
300 × 150 with nothing drawn on it. -/
def createCanvasElement : Canvas R :=
  { width := 300, height := 150, text := none }

/-- Browser API: the part of a `CanvasRenderingContext2D` that the scroller uses as
reference: the width of its canvas and the width that `measureText` reports for a
string in the scroller font. -/
structure CanvasContext (R : Type) where
  canvasWidth : R
  measureText : List Char → R

/-- JavaScript built-in `String.prototype.substring`: both indices are clamped to
the string, and swapped when the first exceeds the second. -/
def jsSubstring (s : List Char) (indexStart indexEnd : Int) : List Char :=
  let first := min indexStart.toNat s.length
  let second := min indexEnd.toNat s.length
  (s.take (max first second)).drop (min first second)

/-- State of a `TextScroller`. -/
structure TextScroller (R : Type) where
  sourceString : List Char
  scrollerTextSegments : List (List Char)
  scrollerTextSegmentRenderedLengths : List R
  constFontDescentCompensationFactor : R
  renderedTextFontSizePx : R
  currentSegmentIndex : Nat
  currentPositionInCurrentSegment : R
  scrollIncrement : R
  endOfScrollerReached : Bool
  leadTextCanvas : Canvas R
  trailingTextCanvas : Canvas R

/-- Constructor `TextScroller`: an empty string, no segments, scroll increment 4. -/
def TextScroller.new (fontSizePx : R) : TextScroller R :=
  { sourceString := []
    scrollerTextSegments := []
    scrollerTextSegmentRenderedLengths := []
    constFontDescentCompensationFactor := 1.5
    renderedTextFontSizePx := fontSizePx
    currentSegmentIndex := 0
    currentPositionInCurrentSegment := 0
    scrollIncrement := 4
    endOfScrollerReached := false
    leadTextCanvas := createCanvasElement
    trailingTextCanvas := createCanvasElement }

/-- Method `TextScroller.setSourceString`. -/
def TextScroller.setSourceString (scroller : TextScroller R) (sourceString : List Char) :
    TextScroller R :=
  { scroller with sourceString := sourceString }

/-- Method `TextScroller.getTextAreaHeight`. -/
def TextScroller.getTextAreaHeight (scroller : TextScroller R) : R :=
  scroller.constFontDescentCompensationFactor * scroller.renderedTextFontSizePx

/-- Method `TextScroller.isInitialized`. -/
def TextScroller.isInitialized (scroller : TextScroller R) : Bool :=
  decide (scroller.scrollerTextSegments.length > 0) && !scroller.endOfScrollerReached

/-- Method `TextScroller.renderTextToInternalCanvas`: the canvas sized for the text
and with the text drawn on it; the canvas is left alone when the text is
`undefined`. -/
def TextScroller.renderTextToInternalCanvas (scroller : TextScroller R)
    (targetCanvas : Canvas R) (sourceText : Option (List Char)) (renderedLength : Option R) :
    Canvas R :=
  match sourceText, renderedLength with
  | some sourceText, some renderedLength =>
    { width := renderedLength, height := scroller.getTextAreaHeight, text := some sourceText }
  | _, _ => targetCanvas

/-- Method `TextScroller.clearTextSegmentData`. -/
def TextScroller.clearTextSegmentData (scroller : TextScroller R) : TextScroller R :=
  { scroller with scrollerTextSegments := [], scrollerTextSegmentRenderedLengths := [] }

/-- Body of the loop of `TextScroller.createStringSegments`: the segment with index
`segmentStorageLoop`. -/
def TextScroller.stringSegment [FloorRing R] (sourceString : List Char)
    (numScrollerSegments : Int) (segmentStorageLoop : Nat) : List Char :=
  let segmentStartIndex : Int := segmentStorageLoop *
    ⌈((sourceString.length : Int) : R) / ((numScrollerSegments : Int) : R)⌉
  let segmentEndIndex : Int := (segmentStorageLoop + 1) *
    ⌈((sourceString.length : Int) : R) / ((numScrollerSegments : Int) : R)⌉
  let segmentEndIndex := min segmentEndIndex sourceString.length
  jsSubstring sourceString segmentStartIndex segmentEndIndex

/-- Method `TextScroller.createStringSegments`: one segment and its rounded-up
measured width are pushed for every index below the number of segments. -/
def TextScroller.createStringSegments [FloorRing R] (scroller : TextScroller R)
    (numScrollerSegments : Int) (referenceCanvasContext : Option (CanvasContext R)) :
    TextScroller R :=
  match referenceCanvasContext with
  | none => scroller
  | some referenceCanvasContext =>
    (List.range numScrollerSegments.toNat).foldl
      (fun scroller segmentStorageLoop =>
        let currentStringSegment := TextScroller.stringSegment (R := R) scroller.sourceString
          numScrollerSegments segmentStorageLoop
        { scroller with
          scrollerTextSegments := scroller.scrollerTextSegments ++ [currentStringSegment]
          scrollerTextSegmentRenderedLengths := scroller.scrollerTextSegmentRenderedLengths ++
            [((⌈referenceCanvasContext.measureText currentStringSegment⌉ : Int) : R)] })
      scroller

/-- Method `TextScroller.setupInitialTextSegments`. -/
def TextScroller.setupInitialTextSegments (scroller : TextScroller R)
    (firstSegmentPositionOffset : R) : TextScroller R :=
  let scroller := { scroller with currentPositionInCurrentSegment := -firstSegmentPositionOffset }
  let scroller := { scroller with
    leadTextCanvas := scroller.renderTextToInternalCanvas scroller.leadTextCanvas
      scroller.scrollerTextSegments[0]? scroller.scrollerTextSegmentRenderedLengths[0]? }
  if scroller.scrollerTextSegments.length > 1 then
    { scroller with
      trailingTextCanvas := scroller.renderTextToInternalCanvas scroller.trailingTextCanvas
        scroller.scrollerTextSegments[1]? scroller.scrollerTextSegmentRenderedLengths[1]? }
  else scroller

/-- Method `TextScroller.initializeAfterStringAssignment`. -/
def TextScroller.initializeAfterStringAssignment [FloorRing R] (scroller : TextScroller R)
    (referenceCanvasContext : Option (CanvasContext R)) : TextScroller R :=
  match referenceCanvasContext with
  | none => scroller
  | some context =>
    if context.canvasWidth > 0 then
      let scroller := { scroller with
        endOfScrollerReached := false
        currentSegmentIndex := 0
        currentPositionInCurrentSegment := 0 }
      let totalTextOutputLength := context.measureText scroller.sourceString
      let numScrollerSegments : Int := ⌈totalTextOutputLength / context.canvasWidth⌉
      let scroller := scroller.clearTextSegmentData
      let scroller := scroller.createStringSegments numScrollerSegments referenceCanvasContext
      scroller.setupInitialTextSegments context.canvasWidth
    else scroller

/-- Method `TextScroller.advanceScroller`. -/
def TextScroller.advanceScroller (scroller : TextScroller R) : TextScroller R :=
  let scroller := { scroller with
    currentPositionInCurrentSegment :=
      scroller.currentPositionInCurrentSegment + scroller.scrollIncrement }
  if scroller.currentPositionInCurrentSegment > scroller.leadTextCanvas.width then
    let scroller := { scroller with
      currentPositionInCurrentSegment :=
        scroller.currentPositionInCurrentSegment - scroller.leadTextCanvas.width
      currentSegmentIndex := scroller.currentSegmentIndex + 1 }
    if scroller.currentSegmentIndex < scroller.scrollerTextSegments.length then
      let scroller := { scroller with
        leadTextCanvas := scroller.trailingTextCanvas
        trailingTextCanvas := createCanvasElement }
      if scroller.currentSegmentIndex + 1 < scroller.scrollerTextSegments.length then
        { scroller with
          trailingTextCanvas := scroller.renderTextToInternalCanvas scroller.trailingTextCanvas
            scroller.scrollerTextSegments[scroller.currentSegmentIndex + 1]?
            scroller.scrollerTextSegmentRenderedLengths[scroller.currentSegmentIndex + 1]? }
      else scroller
    else
      { scroller with endOfScrollerReached := true }
  else scroller

/-! ## The display state of the scroller -/

/-- Scroller state: the delay before any of the scroller is displayed. -/
def constScrollerStateLeadIn : Nat := 0

/-- Scroller state: the background fades in. -/
def constScrollerStateFadeIn : Nat := 1

/-- Scroller state: the scroller is operating. -/
def constScrollerStateDisplayText : Nat := 2

/-- Scroller lead-in time (milliseconds). -/
def constScrollerStateLeadInTime : R := 4000

/-- Scroller fade-in time (milliseconds). -/
def constScrollerStateFadeInTime : R := 3000

/-- Display update interval at which the scroller is updated. -/
def constTextScrollerUpdateInterval : Nat := 2

/-- The fields of the scene that `updateScrollerState` reads and writes. -/
structure ScrollerDisplayState (R : Type) where
  currentScrollerState : Nat
  currentScrollerStateTime : R
  textScrollerIntervalCount : Nat
deriving DecidableEq

/-- The scroller display state that `initialize` sets up. -/
def ScrollerDisplayState.initial : ScrollerDisplayState R :=
  { currentScrollerState := constScrollerStateLeadIn
    currentScrollerStateTime := 0
    textScrollerIntervalCount := 0 }

/-- Method `updateScrollerState`. -/
def updateScrollerState (state : ScrollerDisplayState R) (timeQuantum : R) :
    ScrollerDisplayState R :=
  let state := { state with
    currentScrollerStateTime := state.currentScrollerStateTime + timeQuantum }
  let state :=
    if state.currentScrollerState = constScrollerStateLeadIn ∧
        state.currentScrollerStateTime ≥ constScrollerStateLeadInTime then
      { state with
        currentScrollerState := constScrollerStateFadeIn
        currentScrollerStateTime := 0 }
    else if state.currentScrollerState = constScrollerStateFadeIn ∧
        state.currentScrollerStateTime ≥ constScrollerStateFadeInTime then
      { state with
        currentScrollerState := constScrollerStateDisplayText
        currentScrollerStateTime := 0 }
    else state
  let state := { state with textScrollerIntervalCount := state.textScrollerIntervalCount + 1 }
  if state.textScrollerIntervalCount > constTextScrollerUpdateInterval then
    { state with textScrollerIntervalCount := 0 }
  else state

/-! ## Snowman body geometry -/

/-- The loop of method `generateSnowmanBodyGeometry`, for a body of the given number
of segments (the method runs it with `constSnowmanSegments`): the state is the
current offset along the Y axis, and each pass records the radius and the offset
that it hands to `generateSnowmanSegmentGeometry`, which centres a sphere of that
radius at that height on the Y axis. -/
def generateSnowmanBodySpheres (segmentCount : Nat) : List (R × R) :=
  ((List.range segmentCount).foldl
    (fun (state : R × List (R × R)) (currentSegment : Nat) =>
      let currentOffset := state.1
      let currentSphereSizeReductionFactor :=
        constSnowmanUpperSphereReductionFactor ^ currentSegment
      let currentSnowmanSphereRadius :=
        (constBaseSnowmanSphereRadius : R) * currentSphereSizeReductionFactor
      let nextSegmentOverlap := constSnowmanSphereOverlap * currentSnowmanSphereRadius
      (currentOffset + (currentSnowmanSphereRadius *
          (1 + constSnowmanUpperSphereReductionFactor) - nextSegmentOverlap),
        state.2 ++ [(currentSnowmanSphereRadius, currentOffset)]))
    ((constBaseSnowmanSphereRadius : R), [])).2

/-- Height of the body that `generateSnowmanBodyGeometry` builds: the top of the
last sphere, its offset along the Y axis plus its radius (zero without spheres). -/
def snowmanBodyTop (segmentCount : Nat) : R :=
  match (generateSnowmanBodySpheres segmentCount : List (R × R)).getLast? with
  | some (radius, offsetY) => offsetY + radius
  | none => 0

/-! ## Concrete scenes used to exercise the definitions -/

/-- A traveling snowman standing on the world boundary and heading outwards. -/
def boundarySnowman : SnowmanInstanceData R where
  snowmanState := SnowmanState.Traveling
  currentStateInitiationTimeMs := 0
  lastSnowballThrowTime := 0
  currentTargetSnowman := none
  snowballThrownDuringThrowState := false
  snowmanPosition := ⟨0, 0, 0.48⟩
  snowmanDirectionNormalVector := ⟨0, 0, 1⟩
  snowmanMovementMagnitude := 0.0001
  snowmanMinSnowballThrowIntervalMs := 800
  snowmanMeanSnowballThrowVelocity := 0.0015
  snowmanTargetAcquisitionFovDegRad := 1
  snowmanTargetStrikeCount := 0
  snowmanStrikeReceptionCount := 0


/-- A scene at clock 300 ms whose only snowman was hit at clock 0. -/
def hitScene : Scene R where
  totalElapsedSceneTimeMs := 300
  snowmanInstanceDataCollection :=
    [{ (boundarySnowman : SnowmanInstanceData R) with snowmanState := SnowmanState.Hit }]
  snowballInstanceDataCollection := []
  currentSnowmanHighHitCount := 0

/-- Three snowmen on the Z axis: the first one looks along the axis at the other
two, of which the last one is the nearer. -/
def axisCollection : List (SnowmanInstanceData R) :=
  [{ (boundarySnowman : SnowmanInstanceData R) with snowmanPosition := ⟨0, 0, 0⟩ },
   { (boundarySnowman : SnowmanInstanceData R) with snowmanPosition := ⟨0, 0, 0.3⟩ },
   { (boundarySnowman : SnowmanInstanceData R) with snowmanPosition := ⟨0, 0, 0.1⟩ }]

/-- A scene at clock 1000 ms with the snowmen of `axisCollection` and no
snowball. -/
def axisScene : Scene R where
  totalElapsedSceneTimeMs := 1000
  snowmanInstanceDataCollection := axisCollection
  snowballInstanceDataCollection := []
  currentSnowmanHighHitCount := 0

/-- The scene `axisScene` with one snowball, thrown by the first snowman, at the
place of the third snowman. -/
def strikeScene : Scene R where
  totalElapsedSceneTimeMs := 1000
  snowmanInstanceDataCollection := axisCollection
  snowballInstanceDataCollection :=
    [{ snowballVelocityVector := ⟨0, 0, 0⟩
       snowballPosition := ⟨0, 0.05, 0.1⟩
       sourceSnowmanInstance := some 0
       invalidatedByCollision := false }]
  currentSnowmanHighHitCount := 0

/-- The scene `axisScene` with one snowball lying on the ground, far from every
snowman. -/
def groundScene : Scene R where
  totalElapsedSceneTimeMs := 1000
  snowmanInstanceDataCollection := axisCollection
  snowballInstanceDataCollection :=
    [{ snowballVelocityVector := ⟨0, 0, 0⟩
       snowballPosition := ⟨0.4, 0, 0.4⟩
       sourceSnowmanInstance := some 0
       invalidatedByCollision := false }]
  currentSnowmanHighHitCount := 0

/-- The scene `axisScene` with one snowball, thrown by the first snowman, that
still overlaps the first snowman. -/
def ownOverlapScene : Scene R where
  totalElapsedSceneTimeMs := 1000
  snowmanInstanceDataCollection := axisCollection
  snowballInstanceDataCollection :=
    [{ snowballVelocityVector := ⟨0, 0, 0.001⟩
       snowballPosition := ⟨0, 0.05, 0⟩
       sourceSnowmanInstance := some 0
       invalidatedByCollision := false }]
  currentSnowmanHighHitCount := 0

/-- The scene `axisScene` in which the first snowman has just begun, at the scene
clock, a throw at the third snowman. -/
def throwingScene : Scene R where
  totalElapsedSceneTimeMs := 1000
  snowmanInstanceDataCollection :=
    [{ (boundarySnowman : SnowmanInstanceData R) with
       snowmanPosition := ⟨0, 0, 0⟩
       snowmanState := SnowmanState.Throwing
       currentTargetSnowman := some 2
       lastSnowballThrowTime := 1000
       currentStateInitiationTimeMs := 1000 },
     { (boundarySnowman : SnowmanInstanceData R) with snowmanPosition := ⟨0, 0, 0.3⟩ },
     { (boundarySnowman : SnowmanInstanceData R) with snowmanPosition := ⟨0, 0, 0.1⟩ }]
  snowballInstanceDataCollection := []
  currentSnowmanHighHitCount := 0

/-- The scene `hitScene` with one snowball of its snowman, just above the ground
and falling. -/
def descendingScene : Scene R where
  totalElapsedSceneTimeMs := 300
  snowmanInstanceDataCollection :=
    [{ (boundarySnowman : SnowmanInstanceData R) with snowmanState := SnowmanState.Hit }]
  snowballInstanceDataCollection :=
    [{ snowballVelocityVector := ⟨0, -0.001, 0⟩
       snowballPosition := ⟨0.2, 0.01, 0.2⟩
       sourceSnowmanInstance := some 0
       invalidatedByCollision := false }]
  currentSnowmanHighHitCount := 0

/-- A scene with one snowman at the world centre and one snowball of unknown
source lying far from it, its centre above the ground by less than its radius. -/
def restingScene : Scene R where
  totalElapsedSceneTimeMs := 1000
  snowmanInstanceDataCollection :=
    [{ (boundarySnowman : SnowmanInstanceData R) with snowmanPosition := ⟨0, 0, 0⟩ }]
  snowballInstanceDataCollection :=
    [{ snowballVelocityVector := ⟨0, 0, 0⟩
       snowballPosition := ⟨0.4, 0.005, 0.4⟩
       sourceSnowmanInstance := none
       invalidatedByCollision := false }]
  currentSnowmanHighHitCount := 0

/-- A scene with a far thrower and two snowmen standing close together, and one
snowball of the thrower between the two. -/
def doubleStrikeScene : Scene R where
  totalElapsedSceneTimeMs := 1000
  snowmanInstanceDataCollection :=
    [{ (boundarySnowman : SnowmanInstanceData R) with snowmanPosition := ⟨0, 0, 0.3⟩ },
     { (boundarySnowman : SnowmanInstanceData R) with snowmanPosition := ⟨0, 0, 0⟩ },
     { (boundarySnowman : SnowmanInstanceData R) with snowmanPosition := ⟨0, 0, 0.02⟩ }]
  snowballInstanceDataCollection :=
    [{ snowballVelocityVector := ⟨0, 0, -0.001⟩
       snowballPosition := ⟨0, 0.05, 0.01⟩
       sourceSnowmanInstance := some 0
       invalidatedByCollision := false }]
  currentSnowmanHighHitCount := 0

/-- The scene `doubleStrikeScene` after the snowball has struck the second
snowman. -/
def doubleStrikeSceneHit : Scene R where
  totalElapsedSceneTimeMs := 1000
  snowmanInstanceDataCollection :=
    [{ (boundarySnowman : SnowmanInstanceData R) with
       snowmanPosition := ⟨0, 0, 0.3⟩
       snowmanTargetStrikeCount := 1 },
     { (boundarySnowman : SnowmanInstanceData R) with
       snowmanPosition := ⟨0, 0, 0⟩
       snowmanState := SnowmanState.Hit
       currentStateInitiationTimeMs := 1000
       snowmanStrikeReceptionCount := 1 },
     { (boundarySnowman : SnowmanInstanceData R) with snowmanPosition := ⟨0, 0, 0.02⟩ }]
  snowballInstanceDataCollection :=
    [{ snowballVelocityVector := ⟨0, 0, -0.001⟩
       snowballPosition := ⟨0, 0.05, 0.01⟩
       sourceSnowmanInstance := some 0
       invalidatedByCollision := true }]
  currentSnowmanHighHitCount := 0

/-- A cone generator of height 1 and base radius 1 at the origin, with three
segments and an empty triangle store. -/
def unitCone : TessellatedConeGenerator R where
  basePoint := some ⟨0, 0, 0⟩
  coneHeight := some 1
  baseRadius := some 1
  segmentCount := some ((3 : Nat) : R)
  coneColor := ⟨1, 1, 1, 1⟩
  triangleStore := []

/-- A cylinder generator of height 1 and radius 1 at the origin, with three segments
and an empty triangle store. -/
def unitCylinder : TessellatedCylinderGenerator R where
  centerPoint := some ⟨0, 0, 0⟩
  cylinderHeight := some 1
  cylinderRadius := some 1
  segmentCount := some ((3 : Nat) : R)
  cylinderColor := ⟨1, 1, 1, 1⟩
  triangleStore := []

/-- A sphere generator of radius 1 at the origin, with four longitudinal and two
latitudinal segments and an empty triangle store. -/
def unitSphere : TessellatedSphereGenerator R where
  sphereRadius := some 1
  centerPoint := some ⟨0, 0, 0⟩
  longitudinalSegmentCount := some ((4 : Nat) : R)
  latitudinalSegmentCount := some ((2 : Nat) : R)
  sphereColor := ⟨1, 1, 1, 1⟩
  triangleStore := []

/-- A scene at clock 1000 ms with two snowmen, stunned since 900 ms, that have
struck 3 and 1 times, the stored high hit count 3, and one snowball of the first
snowman within reach of the second. -/
def strikeFrameScene : Scene R where
  totalElapsedSceneTimeMs := 1000
  snowmanInstanceDataCollection :=
    [{ (boundarySnowman : SnowmanInstanceData R) with
       snowmanPosition := ⟨0, 0, 0.3⟩
       snowmanState := SnowmanState.Stunned
       currentStateInitiationTimeMs := 900
       snowmanTargetStrikeCount := 3 },
     { (boundarySnowman : SnowmanInstanceData R) with
       snowmanPosition := ⟨0, 0, 0⟩
       snowmanState := SnowmanState.Stunned
       currentStateInitiationTimeMs := 900
       snowmanTargetStrikeCount := 1 }]
  snowballInstanceDataCollection :=
    [{ snowballVelocityVector := ⟨0, 0, -0.001⟩
       snowballPosition := ⟨0, 0.05, 0.01⟩
       sourceSnowmanInstance := some 0
       invalidatedByCollision := false }]
  currentSnowmanHighHitCount := 3

/-- The scene `strikeFrameScene` after the snowman part of a frame: the first
snowman has struck once more, the second one is hit, the snowball is gone, and
the stored high hit count is 4. -/
def strikeFrameSceneAfter : Scene R where
  totalElapsedSceneTimeMs := 1000
  snowmanInstanceDataCollection :=
    [{ (boundarySnowman : SnowmanInstanceData R) with
       snowmanPosition := ⟨0, 0, 0.3⟩
       snowmanState := SnowmanState.Stunned
       currentStateInitiationTimeMs := 900
       snowmanTargetStrikeCount := 4 },
     { (boundarySnowman : SnowmanInstanceData R) with
       snowmanPosition := ⟨0, 0, 0⟩
       snowmanState := SnowmanState.Hit
       currentStateInitiationTimeMs := 1000
       snowmanTargetStrikeCount := 1
       snowmanStrikeReceptionCount := 1 }]
  snowballInstanceDataCollection := []
  currentSnowmanHighHitCount := 4

/-- A scene at clock 1000 ms with three snowmen on the Z axis: the first one,
traveling at the world centre, looks along the axis at the other two; the second
one was hit at clock 0; and one snowball of the first snowman is at the place of
the third. -/
def bookkeepingScene : Scene R where
  totalElapsedSceneTimeMs := 1000
  snowmanInstanceDataCollection :=
    [{ (boundarySnowman : SnowmanInstanceData R) with snowmanPosition := ⟨0, 0, 0⟩ },
     { (boundarySnowman : SnowmanInstanceData R) with
       snowmanPosition := ⟨0, 0, 0.3⟩
       snowmanState := SnowmanState.Hit },
     { (boundarySnowman : SnowmanInstanceData R) with snowmanPosition := ⟨0, 0, 0.1⟩ }]
  snowballInstanceDataCollection :=
    [{ snowballVelocityVector := ⟨0, 0, 0⟩
       snowballPosition := ⟨0, 0.05, 0.1⟩
       sourceSnowmanInstance := some 0
       invalidatedByCollision := false }]
  currentSnowmanHighHitCount := 0

/-- The scene `bookkeepingScene` after the update of its first snowman in a frame of
16 ms: the snowman has moved and begun a throw at the third snowman. -/
def bookkeepingSceneThrowing : Scene R :=
  { (bookkeepingScene : Scene R) with
    snowmanInstanceDataCollection :=
      [{ (boundarySnowman : SnowmanInstanceData R) with
         snowmanPosition := ⟨0, 0, 0.0016⟩
         snowmanState := SnowmanState.Throwing
         currentStateInitiationTimeMs := 1000
         lastSnowballThrowTime := 1000
         currentTargetSnowman := some 2 },
       { (boundarySnowman : SnowmanInstanceData R) with
         snowmanPosition := ⟨0, 0, 0.3⟩
         snowmanState := SnowmanState.Hit },
       { (boundarySnowman : SnowmanInstanceData R) with snowmanPosition := ⟨0, 0, 0.1⟩ }] }

/-- The scene `bookkeepingScene` after the update of its second snowman: the hit
snowman has become stunned. -/
def bookkeepingSceneStunned : Scene R :=
  { (bookkeepingScene : Scene R) with
    snowmanInstanceDataCollection :=
      [{ (boundarySnowman : SnowmanInstanceData R) with snowmanPosition := ⟨0, 0, 0⟩ },
       { (boundarySnowman : SnowmanInstanceData R) with
         snowmanPosition := ⟨0, 0, 0.3⟩
         snowmanState := SnowmanState.Stunned
         currentStateInitiationTimeMs := 1000 },
       { (boundarySnowman : SnowmanInstanceData R) with snowmanPosition := ⟨0, 0, 0.1⟩ }] }

end Model


section Bookkeeping

variable {R : Type}

/-! ## Bookkeeping lemmas -/

@[simp] theorem modifySnowman_snowballs (scene : Scene R) (i : Nat)
    (f : SnowmanInstanceData R → SnowmanInstanceData R) :
    (scene.modifySnowman i f).snowballInstanceDataCollection =
      scene.snowballInstanceDataCollection := by
  unfold Scene.modifySnowman; split <;> rfl

@[simp] theorem modifySnowman_time (scene : Scene R) (i : Nat)
    (f : SnowmanInstanceData R → SnowmanInstanceData R) :
    (scene.modifySnowman i f).totalElapsedSceneTimeMs = scene.totalElapsedSceneTimeMs := by
  unfold Scene.modifySnowman; split <;> rfl

@[simp] theorem modifySnowman_highHitCount (scene : Scene R) (i : Nat)
    (f : SnowmanInstanceData R → SnowmanInstanceData R) :
    (scene.modifySnowman i f).currentSnowmanHighHitCount = scene.currentSnowmanHighHitCount := by
  unfold Scene.modifySnowman; split <;> rfl

@[simp] theorem modifySnowman_length (scene : Scene R) (i : Nat)
    (f : SnowmanInstanceData R → SnowmanInstanceData R) :
    (scene.modifySnowman i f).snowmanInstanceDataCollection.length =
      scene.snowmanInstanceDataCollection.length := by
  unfold Scene.modifySnowman; split <;> simp

theorem modifySnowman_getElem? (scene : Scene R) (i j : Nat)
    (f : SnowmanInstanceData R → SnowmanInstanceData R) :
    (scene.modifySnowman i f).snowmanInstanceDataCollection[j]? =
      if i = j then (scene.snowmanInstanceDataCollection[j]?).map f
      else scene.snowmanInstanceDataCollection[j]? := by
  unfold Scene.modifySnowman
  split
  · next h =>
    by_cases hij : i = j
    · subst hij; simp [h]
    · simp [hij]
  · next sm h =>
    by_cases hij : i = j
    · subst hij
      have hlt : i < scene.snowmanInstanceDataCollection.length :=
        (List.getElem?_eq_some.1 h).1
      simp [h, hlt]
    · simp [hij, List.getElem?_set_ne hij]

@[simp] theorem modifySnowball_snowmen (scene : Scene R) (k : Nat)
    (f : SnowballInstanceData R → SnowballInstanceData R) :
    (scene.modifySnowball k f).snowmanInstanceDataCollection =
      scene.snowmanInstanceDataCollection := by
  unfold Scene.modifySnowball; split <;> rfl

@[simp] theorem modifySnowball_time (scene : Scene R) (k : Nat)
    (f : SnowballInstanceData R → SnowballInstanceData R) :
    (scene.modifySnowball k f).totalElapsedSceneTimeMs = scene.totalElapsedSceneTimeMs := by
  unfold Scene.modifySnowball; split <;> rfl

@[simp] theorem modifySnowball_highHitCount (scene : Scene R) (k : Nat)
    (f : SnowballInstanceData R → SnowballInstanceData R) :
    (scene.modifySnowball k f).currentSnowmanHighHitCount = scene.currentSnowmanHighHitCount := by
  unfold Scene.modifySnowball; split <;> rfl

@[simp] theorem modifySnowball_length (scene : Scene R) (k : Nat)
    (f : SnowballInstanceData R → SnowballInstanceData R) :
    (scene.modifySnowball k f).snowballInstanceDataCollection.length =
      scene.snowballInstanceDataCollection.length := by
  unfold Scene.modifySnowball; split <;> simp

theorem modifySnowball_getElem? (scene : Scene R) (k j : Nat)
    (f : SnowballInstanceData R → SnowballInstanceData R) :
    (scene.modifySnowball k f).snowballInstanceDataCollection[j]? =
      if k = j then (scene.snowballInstanceDataCollection[j]?).map f
      else scene.snowballInstanceDataCollection[j]? := by
  unfold Scene.modifySnowball
  split
  · next h =>
    by_cases hkj : k = j
    · subst hkj; simp [h]
    · simp [hkj]
  · next sb h =>
    by_cases hkj : k = j
    · subst hkj
      have hlt : k < scene.snowballInstanceDataCollection.length :=
        (List.getElem?_eq_some.1 h).1
      simp [h, hlt]
    · simp [hkj, List.getElem?_set_ne hkj]

/-! ## Pointwise relations -/

theorem listRel_refl {α : Type} {P : α → α → Prop} (hP : ∀ a, P a a) (l : List α) :
    ListRel P l l :=
  ⟨rfl, fun _ a b ha hb => by rw [ha] at hb; cases hb; exact hP a⟩

theorem listRel_trans {α : Type} {P : α → α → Prop} (hP : ∀ a b c, P a b → P b c → P a c)
    {l₁ l₂ l₃ : List α} (h₁ : ListRel P l₁ l₂) (h₂ : ListRel P l₂ l₃) : ListRel P l₁ l₃ := by
  refine ⟨h₂.1.trans h₁.1, fun i a c ha hc => ?_⟩
  have hi : i < l₂.length := by
    rw [h₁.1]; exact (List.getElem?_eq_some.1 ha).1
  exact hP a l₂[i] c (h₁.2 i a l₂[i] ha (List.getElem?_eq_getElem hi))
    (h₂.2 i l₂[i] c (List.getElem?_eq_getElem hi) hc)

theorem listRel_exists_of_getElem? {α : Type} {P : α → α → Prop} {l l' : List α}
    (h : ListRel P l l') {i : Nat} {a : α} (ha : l[i]? = some a) :
    ∃ b, l'[i]? = some b ∧ P a b := by
  have hi : i < l'.length := by
    rw [h.1]; exact (List.getElem?_eq_some.1 ha).1
  exact ⟨l'[i], List.getElem?_eq_getElem hi, h.2 i a l'[i] ha (List.getElem?_eq_getElem hi)⟩

theorem modifySnowman_listRel (P : SnowmanInstanceData R → SnowmanInstanceData R → Prop)
    (scene : Scene R) (i : Nat) (f : SnowmanInstanceData R → SnowmanInstanceData R)
    (hrefl : ∀ a, P a a) (hf : ∀ a, scene.snowmanInstanceDataCollection[i]? = some a → P a (f a)) :
    ListRel P scene.snowmanInstanceDataCollection
      (scene.modifySnowman i f).snowmanInstanceDataCollection := by
  refine ⟨modifySnowman_length scene i f, fun j a b ha hb => ?_⟩
  rw [modifySnowman_getElem?] at hb
  by_cases hij : i = j
  · subst hij
    rw [if_pos rfl, ha] at hb
    cases hb
    exact hf a ha
  · rw [if_neg hij, ha] at hb
    cases hb
    exact hrefl a

theorem modifySnowball_listRel (P : SnowballInstanceData R → SnowballInstanceData R → Prop)
    (scene : Scene R) (k : Nat) (f : SnowballInstanceData R → SnowballInstanceData R)
    (hrefl : ∀ a, P a a) (hf : ∀ a, scene.snowballInstanceDataCollection[k]? = some a → P a (f a)) :
    ListRel P scene.snowballInstanceDataCollection
      (scene.modifySnowball k f).snowballInstanceDataCollection := by
  refine ⟨modifySnowball_length scene k f, fun j a b ha hb => ?_⟩
  rw [modifySnowball_getElem?] at hb
  by_cases hkj : k = j
  · subst hkj
    rw [if_pos rfl, ha] at hb
    cases hb
    exact hf a ha
  · rw [if_neg hkj, ha] at hb
    cases hb
    exact hrefl a

/-- A fold whose steps are all related to their input, under an invariant that
the relation preserves, relates its result to its input. -/
theorem foldl_rel_of_step {σ α : Type} (Rel : σ → σ → Prop) (Inv : σ → Prop) (f : σ → α → σ)
    (hrefl : ∀ s, Rel s s) (htrans : ∀ a b c, Rel a b → Rel b c → Rel a c)
    (hinv : ∀ s t, Inv s → Rel s t → Inv t) (hstep : ∀ s x, Inv s → Rel s (f s x)) :
    ∀ (xs : List α) (s : σ), Inv s → Rel s (xs.foldl f s) := by
  intro xs
  induction xs with
  | nil => intro s _; exact hrefl s
  | cons x xs ih =>
    intro s hs
    have h1 := hstep s x hs
    exact htrans _ _ _ h1 (ih (f s x) (hinv s _ hs h1))

theorem samePosition_refl (a : SnowmanInstanceData R) : SamePosition a a := rfl

theorem samePosition_trans (a b c : SnowmanInstanceData R) (hab : SamePosition a b)
    (hbc : SamePosition b c) : SamePosition a c :=
  Eq.trans hbc hab

theorem snowballStable_refl (a : SnowballInstanceData R) : SnowballStable a a :=
  ⟨rfl, rfl, id⟩

theorem snowballStable_trans (a b c : SnowballInstanceData R) (hab : SnowballStable a b)
    (hbc : SnowballStable b c) : SnowballStable a c :=
  ⟨hbc.1.trans hab.1, hbc.2.1.trans hab.2.1, fun h => hbc.2.2 (hab.2.2 h)⟩

theorem collisionPassStable_refl (s : Scene R) : CollisionPassStable s s :=
  ⟨listRel_refl samePosition_refl _, listRel_refl snowballStable_refl _⟩

theorem collisionPassStable_trans {s t u : Scene R} (h₁ : CollisionPassStable s t)
    (h₂ : CollisionPassStable t u) : CollisionPassStable s u :=
  ⟨listRel_trans samePosition_trans h₁.1 h₂.1, listRel_trans snowballStable_trans h₁.2 h₂.2⟩

theorem sameButStrikes_refl (a : SnowmanInstanceData R) : SameButStrikes a a := rfl

theorem sameButStrikes_trans {a b c : SnowmanInstanceData R} (hab : SameButStrikes a b)
    (hbc : SameButStrikes b c) : SameButStrikes a c := by
  unfold SameButStrikes at *
  rw [hbc, hab]

/-! ## Frame of the collision handler -/

/-- The snowmen after `handleSnowmanSnowballCollision`: the struck snowman and the
source may have changed, all others not; positions never change. -/
theorem handleSnowmanSnowballCollision_snowmen (scene : Scene R) (struck snowball : Nat) :
    ListRel SamePosition scene.snowmanInstanceDataCollection
        (handleSnowmanSnowballCollision scene struck snowball).snowmanInstanceDataCollection ∧
    ∀ (j : Nat) (a b : SnowmanInstanceData R), j ≠ struck →
      scene.snowmanInstanceDataCollection[j]? = some a →
      (handleSnowmanSnowballCollision scene struck snowball).snowmanInstanceDataCollection[j]?
        = some b →
      SameButStrikes a b := by
  have hnothing : ∀ t : Scene R,
      t.snowmanInstanceDataCollection = scene.snowmanInstanceDataCollection →
      ListRel SamePosition scene.snowmanInstanceDataCollection t.snowmanInstanceDataCollection ∧
      ∀ (j : Nat) (a b : SnowmanInstanceData R), j ≠ struck →
        scene.snowmanInstanceDataCollection[j]? = some a →
        t.snowmanInstanceDataCollection[j]? = some b → SameButStrikes a b := by
    intro t ht
    rw [ht]
    exact ⟨listRel_refl samePosition_refl _, fun j a b _ ha hb => by
      rw [ha] at hb; cases hb; exact sameButStrikes_refl a⟩
  unfold handleSnowmanSnowballCollision
  split
  · next struckData snowballData hstruck hsnowball =>
    simp only [modifySnowball_snowmen]
    split
    · exact hnothing _ rfl
    · next source hsource =>
      split
      · constructor
        · refine listRel_trans samePosition_trans
            (modifySnowman_listRel SamePosition scene source _ samePosition_refl ?_)
            (modifySnowman_listRel SamePosition _ struck _ samePosition_refl ?_)
          · intro _ _; rfl
          · intro _ _; rfl
        · intro j a b hj ha hb
          rw [modifySnowman_getElem?, if_neg (Ne.symm hj), modifySnowman_getElem?] at hb
          by_cases hsj : source = j
          · rw [if_pos hsj, ha] at hb
            cases hb
            rfl
          · rw [if_neg hsj, ha] at hb
            cases hb
            exact sameButStrikes_refl a
      · exact hnothing _ rfl
  · exact hnothing _ rfl

/-- The snowballs after `handleSnowmanSnowballCollision`: positions and sources
are kept and no flag is cleared. -/
theorem handleSnowmanSnowballCollision_snowballs (scene : Scene R) (struck snowball : Nat) :
    ListRel SnowballStable scene.snowballInstanceDataCollection
      (handleSnowmanSnowballCollision scene struck snowball).snowballInstanceDataCollection := by
  unfold handleSnowmanSnowballCollision
  split
  · next struckData snowballData hstruck hsnowball =>
    have hsame : ∀ t : Scene R,
        t.snowballInstanceDataCollection = scene.snowballInstanceDataCollection →
        ListRel SnowballStable scene.snowballInstanceDataCollection
        (t.modifySnowball snowball (fun snowballInstanceData =>
          { snowballInstanceData with
            invalidatedByCollision := true })).snowballInstanceDataCollection := by
      intro t ht
      rw [← ht]
      refine modifySnowball_listRel SnowballStable t snowball _ snowballStable_refl ?_
      intro _ _
      exact ⟨rfl, rfl, fun _ => rfl⟩
    apply hsame
    split
    · rfl
    · split
      · simp only [modifySnowman_snowballs]
      · rfl
  · exact listRel_refl snowballStable_refl _

/-- The handler always sets the flag of the snowball it is given. -/
theorem handleSnowmanSnowballCollision_invalidates (scene : Scene R) (struck snowball : Nat)
    (struckData : SnowmanInstanceData R) (snowballData : SnowballInstanceData R)
    (hstruck : scene.snowmanInstanceDataCollection[struck]? = some struckData)
    (hsnowball : scene.snowballInstanceDataCollection[snowball]? = some snowballData) :
    ∃ b, (handleSnowmanSnowballCollision scene struck
        snowball).snowballInstanceDataCollection[snowball]? = some b ∧
      b.invalidatedByCollision = true := by
  unfold handleSnowmanSnowballCollision
  simp only [hstruck, hsnowball]
  rw [modifySnowball_getElem?, if_pos rfl]
  have hkeep : ∀ t : Scene R,
      t.snowballInstanceDataCollection = scene.snowballInstanceDataCollection →
      ∃ b, Option.map (fun snowballInstanceData : SnowballInstanceData R =>
          { snowballInstanceData with invalidatedByCollision := true })
          t.snowballInstanceDataCollection[snowball]? = some b ∧
        b.invalidatedByCollision = true := by
    intro t ht
    rw [ht, hsnowball]
    exact ⟨_, rfl, rfl⟩
  apply hkeep
  split
  · rfl
  · split
    · simp only [modifySnowman_snowballs]
    · rfl

theorem handleSnowmanSnowballCollision_stable (scene : Scene R) (struck snowball : Nat) :
    CollisionPassStable scene (handleSnowmanSnowballCollision scene struck snowball) :=
  ⟨(handleSnowmanSnowballCollision_snowmen scene struck snowball).1,
    handleSnowmanSnowballCollision_snowballs scene struck snowball⟩

/-! ## Removal of invalidated snowballs -/

theorem removeInvalidatedSnowballsFromCollection_snowballs (scene : Scene R) :
    (removeInvalidatedSnowballsFromCollection scene).snowballInstanceDataCollection =
      scene.snowballInstanceDataCollection.filter
        (fun snowball => !snowball.invalidatedByCollision) := by
  unfold removeInvalidatedSnowballsFromCollection
  split
  · rfl
  · next h =>
    symm
    rw [List.filter_eq_self]
    intro b hb
    unfold areInvalidatedSnowballsPresentInCollection at h
    rw [List.any_eq_true] at h
    cases hflag : b.invalidatedByCollision with
    | false => rfl
    | true => exact absurd ⟨b, hb, hflag⟩ h

theorem removeInvalidatedSnowballsFromCollection_snowmen (scene : Scene R) :
    (removeInvalidatedSnowballsFromCollection scene).snowmanInstanceDataCollection =
      scene.snowmanInstanceDataCollection := by
  unfold removeInvalidatedSnowballsFromCollection
  split <;> rfl

theorem removeInvalidatedSnowballsFromCollection_of_none (scene : Scene R)
    (h : areInvalidatedSnowballsPresentInCollection scene = false) :
    removeInvalidatedSnowballsFromCollection scene = scene := by
  unfold removeInvalidatedSnowballsFromCollection
  rw [h]
  rfl

/-- Claim C9: `removeInvalidatedSnowballsFromCollection` leaves exactly the
snowballs whose `invalidatedByCollision` flag was false, in their original order
(and nothing else of the scene changes), so no invalidated snowball remains; a
second application changes nothing. -/
theorem removeInvalidatedSnowballsFromCollection_spec (scene : Scene R) :
    (removeInvalidatedSnowballsFromCollection scene).snowballInstanceDataCollection =
        scene.snowballInstanceDataCollection.filter
          (fun snowball => !snowball.invalidatedByCollision) ∧
    (removeInvalidatedSnowballsFromCollection scene).snowmanInstanceDataCollection =
        scene.snowmanInstanceDataCollection ∧
    (∀ snowball ∈ (removeInvalidatedSnowballsFromCollection scene).snowballInstanceDataCollection,
        snowball.invalidatedByCollision = false) ∧
    areInvalidatedSnowballsPresentInCollection (removeInvalidatedSnowballsFromCollection scene)
        = false ∧
    removeInvalidatedSnowballsFromCollection (removeInvalidatedSnowballsFromCollection scene) =
        removeInvalidatedSnowballsFromCollection scene := by
  have hclean : ∀ snowball ∈
      (removeInvalidatedSnowballsFromCollection scene).snowballInstanceDataCollection,
      snowball.invalidatedByCollision = false := by
    intro b hb
    rw [removeInvalidatedSnowballsFromCollection_snowballs, List.mem_filter] at hb
    simpa using hb.2
  have hnone : areInvalidatedSnowballsPresentInCollection
      (removeInvalidatedSnowballsFromCollection scene) = false := by
    unfold areInvalidatedSnowballsPresentInCollection
    rw [List.any_eq_false]
    intro b hb
    rw [hclean b hb]
    simp
  refine ⟨removeInvalidatedSnowballsFromCollection_snowballs scene,
    removeInvalidatedSnowballsFromCollection_snowmen scene, hclean, hnone, ?_⟩
  exact removeInvalidatedSnowballsFromCollection_of_none _ hnone

/-! ## Collision resolution -/

/-- Claim C8: for a struck snowman and a snowball whose source is another
snowman, `handleSnowmanSnowballCollision` adds one to the source's
`snowmanTargetStrikeCount` (the source is otherwise unchanged), adds one to the
struck snowman's `snowmanStrikeReceptionCount` and puts it into Hit (with the
state clock restarted and the throw bookkeeping cleared) whatever its previous
state, sets the `invalidatedByCollision` flag of the snowball, and leaves every
other snowman and every other snowball as it was. -/
theorem handleSnowmanSnowballCollision_spec (scene : Scene R) (struck snowball source : Nat)
    (struckData sourceData : SnowmanInstanceData R) (snowballData : SnowballInstanceData R)
    (hstruck : scene.snowmanInstanceDataCollection[struck]? = some struckData)
    (hsnowball : scene.snowballInstanceDataCollection[snowball]? = some snowballData)
    (hsource : snowballData.sourceSnowmanInstance = some source)
    (hsourceData : scene.snowmanInstanceDataCollection[source]? = some sourceData)
    (hother : source ≠ struck) :
    (handleSnowmanSnowballCollision scene struck snowball).snowmanInstanceDataCollection[source]?
        = some { sourceData with
                 snowmanTargetStrikeCount := sourceData.snowmanTargetStrikeCount + 1 } ∧
    (handleSnowmanSnowballCollision scene struck snowball).snowmanInstanceDataCollection[struck]?
        = some { struckData with
                 snowmanStrikeReceptionCount := struckData.snowmanStrikeReceptionCount + 1
                 snowmanState := SnowmanState.Hit
                 currentStateInitiationTimeMs := scene.totalElapsedSceneTimeMs
                 snowballThrownDuringThrowState := false
                 currentTargetSnowman := none } ∧
    (∀ j, j ≠ source → j ≠ struck →
      (handleSnowmanSnowballCollision scene struck snowball).snowmanInstanceDataCollection[j]?
        = scene.snowmanInstanceDataCollection[j]?) ∧
    (handleSnowmanSnowballCollision scene struck snowball).snowballInstanceDataCollection[snowball]?
        = some { snowballData with invalidatedByCollision := true } ∧
    (∀ k, k ≠ snowball →
      (handleSnowmanSnowballCollision scene struck snowball).snowballInstanceDataCollection[k]?
        = scene.snowballInstanceDataCollection[k]?) := by
  have hlt : source < scene.snowmanInstanceDataCollection.length :=
    (List.getElem?_eq_some.1 hsourceData).1
  unfold handleSnowmanSnowballCollision
  simp only [hstruck, hsnowball, hsource, hlt, if_true, modifySnowball_snowmen]
  refine ⟨?_, ?_, ?_, ?_, ?_⟩
  · rw [modifySnowman_getElem?, if_neg (Ne.symm hother), modifySnowman_getElem?, if_pos rfl,
      hsourceData]
    rfl
  · rw [modifySnowman_getElem?, if_pos rfl, modifySnowman_getElem?, if_neg hother, hstruck]
    simp [resetSnowmanState]
  · intro j hjs hjt
    rw [modifySnowman_getElem?, if_neg (Ne.symm hjt), modifySnowman_getElem?,
      if_neg (Ne.symm hjs)]
  · rw [modifySnowball_getElem?, if_pos rfl]
    simp [hsnowball, hsource]
  · intro k hk
    rw [modifySnowball_getElem?, if_neg (Ne.symm hk)]
    simp

/-- In `strikeScene` the snowball thrown by the first snowman strikes the third:
the third snowman is put into Hit and its reception count becomes one. -/
theorem handleSnowmanSnowballCollision_spec_witness :
    (strikeScene : Scene ℝ).snowmanInstanceDataCollection[2]?
        = some { (boundarySnowman : SnowmanInstanceData ℝ) with snowmanPosition := ⟨0, 0, 0.1⟩ } ∧
    (strikeScene : Scene ℝ).snowballInstanceDataCollection[0]?
        = some { snowballVelocityVector := ⟨0, 0, 0⟩
                 snowballPosition := ⟨0, 0.05, 0.1⟩
                 sourceSnowmanInstance := some 0
                 invalidatedByCollision := false } ∧
    (strikeScene : Scene ℝ).snowmanInstanceDataCollection[0]?
        = some { (boundarySnowman : SnowmanInstanceData ℝ) with snowmanPosition := ⟨0, 0, 0⟩ } ∧
    (0 : Nat) ≠ 2 ∧
    (handleSnowmanSnowballCollision (strikeScene : Scene ℝ) 2 0).snowmanInstanceDataCollection[2]?
        = some { (boundarySnowman : SnowmanInstanceData ℝ) with
                 snowmanPosition := ⟨0, 0, 0.1⟩
                 snowmanStrikeReceptionCount := 1
                 snowmanState := SnowmanState.Hit
                 currentStateInitiationTimeMs := 1000
                 snowballThrownDuringThrowState := false
                 currentTargetSnowman := none } :=
  ⟨rfl, rfl, rfl, by decide,
    (handleSnowmanSnowballCollision_spec (strikeScene : Scene ℝ) 2 0 0 _ _ _
      rfl rfl rfl rfl (by decide)).2.1⟩

theorem updateStoredSnowmanHighHitCount_snowmen (scene : Scene R) :
    (updateStoredSnowmanHighHitCount scene).snowmanInstanceDataCollection
      = scene.snowmanInstanceDataCollection := by
  unfold updateStoredSnowmanHighHitCount
  have hfold : ∀ (l : List (SnowmanInstanceData R)) (s : Scene R),
      (l.foldl (fun scene snowmanInstanceData =>
        if snowmanInstanceData.snowmanTargetStrikeCount > scene.currentSnowmanHighHitCount then
          { scene with
            currentSnowmanHighHitCount := snowmanInstanceData.snowmanTargetStrikeCount }
        else scene) s).snowmanInstanceDataCollection = s.snowmanInstanceDataCollection := by
    intro l
    induction l with
    | nil => intro s; rfl
    | cons a l ih =>
      intro s
      rw [List.foldl_cons, ih]
      split <;> rfl
  exact hfold _ scene

/-- A frame whose remaining work leaves the scene alone keeps the thrower. -/
theorem frameKeepsThrower_id (self : Nat) : FrameKeepsThrower self (id : Scene R → Scene R) :=
  fun _ => ⟨rfl, rfl, fun a ha => ⟨a, ha, rfl, rfl, rfl, rfl⟩⟩

/-- The record of a snowman after `handleSnowmanSnowballCollision`: the old record
up to its strike count, or a record in the hit state with the state clock at the
scene clock and the throw bookkeeping cleared. -/
theorem handleSnowmanSnowballCollision_record (scene : Scene R) (struck snowball j : Nat)
    (a b : SnowmanInstanceData R)
    (ha : scene.snowmanInstanceDataCollection[j]? = some a)
    (hb : (handleSnowmanSnowballCollision scene struck snowball).snowmanInstanceDataCollection[j]?
      = some b) :
    SameButStrikes a b ∨
      (b.snowmanState = SnowmanState.Hit ∧
        b.currentStateInitiationTimeMs = scene.totalElapsedSceneTimeMs ∧
        b.snowballThrownDuringThrowState = false ∧ b.currentTargetSnowman = none) := by
  by_cases hj : j = struck
  · subst hj
    unfold handleSnowmanSnowballCollision at hb
    split at hb
    · simp only [modifySnowball_snowmen] at hb
      split at hb
      · rw [ha] at hb; cases hb; exact Or.inl (sameButStrikes_refl a)
      · split at hb
        · right
          rw [modifySnowman_getElem?, if_pos rfl] at hb
          cases hrec : (scene.modifySnowman _ (fun sourceSnowman : SnowmanInstanceData R =>
              { sourceSnowman with
                snowmanTargetStrikeCount :=
                  sourceSnowman.snowmanTargetStrikeCount + 1 })).snowmanInstanceDataCollection[j]?
            with
          | none => rw [hrec] at hb; cases hb
          | some c =>
            rw [hrec] at hb
            simp only [Option.map_some', Option.some.injEq] at hb
            rw [← hb]
            simp [resetSnowmanState]
        · rw [ha] at hb; cases hb; exact Or.inl (sameButStrikes_refl a)
    · rw [ha] at hb; cases hb; exact Or.inl (sameButStrikes_refl a)
  · exact Or.inl ((handleSnowmanSnowballCollision_snowmen scene struck snowball).2 j a b hj ha hb)

theorem handleSnowmanSnowballCollision_time (scene : Scene R) (struck snowball : Nat) :
    (handleSnowmanSnowballCollision scene struck snowball).totalElapsedSceneTimeMs
      = scene.totalElapsedSceneTimeMs := by
  unfold handleSnowmanSnowballCollision
  split
  · rw [modifySnowball_time]
    split
    · rfl
    · split
      · simp only [modifySnowman_time]
      · rfl
  · rfl

/-- A property kept by every step of a left fold is kept by the fold. -/
theorem foldl_preserves {σ α : Type} (P : σ → Prop) (f : σ → α → σ)
    (hstep : ∀ s a, P s → P (f s a)) : ∀ (l : List α) (s : σ), P s → P (l.foldl f s) := by
  intro l
  induction l with
  | nil => intro s hs; exact hs
  | cons a l ih => intro s hs; exact ih _ (hstep s a hs)

/-- A state change made by `handleSnowmanSnowballCollision` leaves the bookkeeping
as a transition should. -/
theorem handleSnowmanSnowballCollision_stateChangeBookkeeping (scene : Scene R)
    (struck snowball : Nat) :
    StateChangeBookkeeping scene (handleSnowmanSnowballCollision scene struck snowball) := by
  intro j a b ha hb hchange
  rcases handleSnowmanSnowballCollision_record scene struck snowball j a b ha hb with
    h | ⟨hhit, hclock, hthrown, htarget⟩
  · have hb' : b = { a with snowmanTargetStrikeCount := b.snowmanTargetStrikeCount } := h
    rw [hb'] at hchange
    exact absurd rfl hchange
  · rw [handleSnowmanSnowballCollision_time]
    refine ⟨hclock, hthrown, fun _ => htarget, fun hthrowing => ?_⟩
    rw [hhit] at hthrowing
    cases hthrowing

theorem updateStoredSnowmanHighHitCount_snowballs (scene : Scene R) :
    (updateStoredSnowmanHighHitCount scene).snowballInstanceDataCollection
      = scene.snowballInstanceDataCollection := by
  unfold updateStoredSnowmanHighHitCount
  exact foldl_preserves
    (fun s : Scene R => s.snowballInstanceDataCollection = scene.snowballInstanceDataCollection)
    _ (fun s a hs => by dsimp only; split <;> exact hs) _ scene rfl

/-- The collision handler keeps the stored high hit count. -/
theorem handleSnowmanSnowballCollision_highHitCount (scene : Scene R) (struck snowball : Nat) :
    (handleSnowmanSnowballCollision scene struck snowball).currentSnowmanHighHitCount
      = scene.currentSnowmanHighHitCount := by
  unfold handleSnowmanSnowballCollision
  split
  · rw [modifySnowball_highHitCount]
    split
    · rfl
    · split
      · simp only [modifySnowman_highHitCount]
      · rfl
  · rfl

/-- The collision handler lowers no strike count. -/
theorem handleSnowmanSnowballCollision_strikeCount (scene : Scene R) (struck snowball j : Nat)
    (a : SnowmanInstanceData R) (ha : scene.snowmanInstanceDataCollection[j]? = some a) :
    ∃ b, (handleSnowmanSnowballCollision scene struck snowball).snowmanInstanceDataCollection[j]?
        = some b ∧
      a.snowmanTargetStrikeCount ≤ b.snowmanTargetStrikeCount := by
  unfold handleSnowmanSnowballCollision
  split
  · simp only [modifySnowball_snowmen]
    split
    · exact ⟨a, ha, le_rfl⟩
    · next source _ =>
      split
      · rw [modifySnowman_getElem?, modifySnowman_getElem?, ha]
        by_cases hs : source = j <;> by_cases ht : struck = j <;>
          simp only [hs, ht, if_true, if_false, Option.map_some'] <;>
          refine ⟨_, rfl, ?_⟩ <;> simp [resetSnowmanState]
      · exact ⟨a, ha, le_rfl⟩
  · exact ⟨a, ha, le_rfl⟩

/-- The loop of `updateStoredSnowmanHighHitCount`: the resulting count bounds the
strike counts of the snowmen visited, is not below the count before, and is the
count before or the strike count of a snowman visited. -/
theorem updateStoredSnowmanHighHitCount_fold :
    ∀ (l : List (SnowmanInstanceData R)) (s : Scene R),
      (∀ snowman ∈ l, snowman.snowmanTargetStrikeCount ≤
        (l.foldl (fun scene snowmanInstanceData =>
          if snowmanInstanceData.snowmanTargetStrikeCount > scene.currentSnowmanHighHitCount then
            { scene with
              currentSnowmanHighHitCount := snowmanInstanceData.snowmanTargetStrikeCount }
          else scene) s).currentSnowmanHighHitCount) ∧
      s.currentSnowmanHighHitCount ≤
        (l.foldl (fun scene snowmanInstanceData =>
          if snowmanInstanceData.snowmanTargetStrikeCount > scene.currentSnowmanHighHitCount then
            { scene with
              currentSnowmanHighHitCount := snowmanInstanceData.snowmanTargetStrikeCount }
          else scene) s).currentSnowmanHighHitCount ∧
      ((l.foldl (fun scene snowmanInstanceData =>
          if snowmanInstanceData.snowmanTargetStrikeCount > scene.currentSnowmanHighHitCount then
            { scene with
              currentSnowmanHighHitCount := snowmanInstanceData.snowmanTargetStrikeCount }
          else scene) s).currentSnowmanHighHitCount = s.currentSnowmanHighHitCount ∨
        ∃ snowman ∈ l, snowman.snowmanTargetStrikeCount =
          (l.foldl (fun scene snowmanInstanceData =>
            if snowmanInstanceData.snowmanTargetStrikeCount > scene.currentSnowmanHighHitCount
            then
              { scene with
                currentSnowmanHighHitCount := snowmanInstanceData.snowmanTargetStrikeCount }
            else scene) s).currentSnowmanHighHitCount) := by
  intro l
  induction l with
  | nil => intro s; simp
  | cons a l ih =>
    intro s
    rw [List.foldl_cons]
    by_cases hgt : a.snowmanTargetStrikeCount > s.currentSnowmanHighHitCount
    · rw [if_pos hgt]
      obtain ⟨h₁, h₂, h₃⟩ := ih { s with currentSnowmanHighHitCount := a.snowmanTargetStrikeCount }
      refine ⟨?_, ?_, ?_⟩
      · intro snowman hmem
        rcases List.mem_cons.1 hmem with h | h
        · rw [h]; exact h₂
        · exact h₁ snowman h
      · exact le_trans (le_of_lt hgt) h₂
      · right
        rcases h₃ with h | ⟨snowman, hmem, h⟩
        · exact ⟨a, List.mem_cons_self _ _, h.symm⟩
        · exact ⟨snowman, List.mem_cons_of_mem _ hmem, h⟩
    · rw [if_neg hgt]
      obtain ⟨h₁, h₂, h₃⟩ := ih s
      refine ⟨?_, h₂, ?_⟩
      · intro snowman hmem
        rcases List.mem_cons.1 hmem with h | h
        · rw [h]; exact le_trans (not_lt.1 hgt) h₂
        · exact h₁ snowman h
      · rcases h₃ with h | ⟨snowman, hmem, h⟩
        · exact Or.inl h
        · exact Or.inr ⟨snowman, List.mem_cons_of_mem _ hmem, h⟩

/-- The count stored by `updateStoredSnowmanHighHitCount` bounds every strike
count, is not below the count before, and is the count before or the strike count
of a snowman. -/
theorem updateStoredSnowmanHighHitCount_highHitCount (scene : Scene R) :
    (∀ snowman ∈ scene.snowmanInstanceDataCollection,
      snowman.snowmanTargetStrikeCount ≤
        (updateStoredSnowmanHighHitCount scene).currentSnowmanHighHitCount) ∧
    scene.currentSnowmanHighHitCount ≤
      (updateStoredSnowmanHighHitCount scene).currentSnowmanHighHitCount ∧
    ((updateStoredSnowmanHighHitCount scene).currentSnowmanHighHitCount
        = scene.currentSnowmanHighHitCount ∨
      ∃ snowman ∈ scene.snowmanInstanceDataCollection,
        snowman.snowmanTargetStrikeCount =
          (updateStoredSnowmanHighHitCount scene).currentSnowmanHighHitCount) :=
  updateStoredSnowmanHighHitCount_fold scene.snowmanInstanceDataCollection scene

/-- For indices in order, `substring` is the slice between them. -/
theorem jsSubstring_of_le (s : List Char) (a b : Nat) (hab : a ≤ b) :
    jsSubstring s (a : Int) (b : Int) = (s.take b).drop a := by
  unfold jsSubstring
  simp only [Int.toNat_ofNat]
  have hle : min a s.length ≤ min b s.length := min_le_min hab le_rfl
  rw [max_eq_right hle, min_eq_left hle]
  have htake : s.take (min b s.length) = s.take b := by
    rcases le_total b s.length with h | h
    · rw [min_eq_left h]
    · rw [min_eq_right h, List.take_of_length_le le_rfl, List.take_of_length_le h]
  rw [htake]
  rcases le_total a s.length with h | h
  · rw [min_eq_left h]
  · rw [min_eq_right h]
    have hlen : (s.take b).length ≤ s.length := by
      rw [List.length_take]; exact min_le_right _ _
    rw [List.drop_eq_nil_of_le hlen, List.drop_eq_nil_of_le (le_trans hlen h)]

/-- Consecutive slices of equal length join to a front part of the list. -/
theorem join_slices (s : List Char) (c : Nat) :
    ∀ m : Nat,
      ((List.range m).map (fun k => (s.take ((k + 1) * c)).drop (k * c))).flatten
        = s.take (m * c) := by
  intro m
  induction m with
  | zero => simp
  | succ m ih =>
    rw [List.range_succ, List.map_append, List.flatten_append, ih]
    simp only [List.map_cons, List.map_nil, List.flatten_cons, List.flatten_nil, List.append_nil]
    have hle : m * c ≤ (m + 1) * c := Nat.mul_le_mul_right c (Nat.le_succ m)
    have htake : s.take (m * c) = (s.take ((m + 1) * c)).take (m * c) := by
      rw [List.take_take, min_eq_left hle]
    rw [htake]
    exact List.take_append_drop _ _

end Bookkeeping

section Properties

variable {R : Type} [LinearOrderedField R]

/-! ## Movement -/

/-- The retry loop only returns a candidate that passes the boundary test, and it
leaves the position of the snowman as it was. -/
theorem updateSnowmanPositionLoop_spec (ops : MathOps R) (timeQuantum : R) :
    ∀ (fuel : Nat) (rnd : Nat → R) (snowman : SnowmanInstanceData R)
      (result : SnowmanInstanceData R) (candidate : Point3d R) (rest : Nat → R),
      updateSnowmanPositionLoop ops timeQuantum fuel rnd snowman
          = some (result, candidate, rest) →
        isPositionValidByConstraints ops result candidate = true ∧
          result.snowmanPosition = snowman.snowmanPosition := by
  intro fuel
  induction fuel with
  | zero => intro rnd snowman result candidate rest h; simp [updateSnowmanPositionLoop] at h
  | succ n ih =>
    intro rnd snowman result candidate rest h
    unfold updateSnowmanPositionLoop at h
    by_cases hv : isPositionValidByConstraints ops snowman
        (computeNewSnowmanPosition snowman timeQuantum) = true
    · simp only [hv, if_true] at h
      cases h
      exact ⟨hv, rfl⟩
    · simp only [hv] at h
      have := ih _ _ _ _ _ h
      exact ⟨this.1, this.2⟩

theorem isPositionValidByConstraints_iff (ops : MathOps R) (snowman : SnowmanInstanceData R)
    (p : Point3d R) :
    isPositionValidByConstraints ops snowman p = true ↔
      p.distanceFrom ops constWorldCenterPoint ≤ constWorldBoundaryDistanceFromCenter := by
  unfold isPositionValidByConstraints
  split
  · next h => simp; exact h
  · next h => simp; exact not_lt.1 h

/-- Claim C1: whenever `updateSnowmanPosition` returns, the position of the
snowman it returns is within `constWorldBoundaryDistanceFromCenter` of the world
centre. -/
theorem updateSnowmanPosition_within_boundary (ops : MathOps R) (fuel : Nat) (rnd : Nat → R)
    (snowman : SnowmanInstanceData R) (timeQuantum : R)
    (moved : SnowmanInstanceData R) (rest : Nat → R)
    (hret : updateSnowmanPosition ops fuel rnd snowman timeQuantum = some (moved, rest)) :
    moved.snowmanPosition.distanceFrom ops constWorldCenterPoint
      ≤ constWorldBoundaryDistanceFromCenter := by
  unfold updateSnowmanPosition at hret
  split at hret
  · simp at hret
  · next result candidate rest' hloop =>
    have hspec := updateSnowmanPositionLoop_spec ops timeQuantum fuel rnd snowman _ _ _ hloop
    simp only [hspec.1, if_true] at hret
    cases hret
    exact (isPositionValidByConstraints_iff ops result candidate).1 hspec.1

/-- The retry loop changes nothing but the heading of the snowman. -/
theorem updateSnowmanPositionLoop_frame (ops : MathOps R) (timeQuantum : R) :
    ∀ (fuel : Nat) (rnd : Nat → R) (snowman : SnowmanInstanceData R)
      (result : SnowmanInstanceData R) (candidate : Point3d R) (rest : Nat → R),
      updateSnowmanPositionLoop ops timeQuantum fuel rnd snowman
          = some (result, candidate, rest) →
        ∃ d, result = { snowman with snowmanDirectionNormalVector := d } := by
  intro fuel
  induction fuel with
  | zero => intro rnd snowman result candidate rest h; simp [updateSnowmanPositionLoop] at h
  | succ n ih =>
    intro rnd snowman result candidate rest h
    unfold updateSnowmanPositionLoop at h
    by_cases hv : isPositionValidByConstraints ops snowman
        (computeNewSnowmanPosition snowman timeQuantum) = true
    · simp only [hv, if_true] at h
      cases h
      exact ⟨_, rfl⟩
    · simp only [hv] at h
      obtain ⟨d, hd⟩ := ih _ _ _ _ _ h
      exact ⟨d, hd⟩

/-- Moving a snowman changes nothing but its position and heading. -/
theorem updateSnowmanPosition_frame (ops : MathOps R) (fuel : Nat) (rnd : Nat → R)
    (snowman : SnowmanInstanceData R) (timeQuantum : R)
    (moved : SnowmanInstanceData R) (rest : Nat → R)
    (hret : updateSnowmanPosition ops fuel rnd snowman timeQuantum = some (moved, rest)) :
    ∃ p d, moved =
      { snowman with snowmanPosition := p, snowmanDirectionNormalVector := d } := by
  unfold updateSnowmanPosition at hret
  split at hret
  · simp at hret
  · next result candidate rest' hloop =>
    obtain ⟨d, hd⟩ := updateSnowmanPositionLoop_frame ops timeQuantum fuel rnd snowman _ _ _ hloop
    split at hret
    · cases hret
      exact ⟨candidate, d, by rw [hd]⟩
    · cases hret
      exact ⟨snowman.snowmanPosition, d, by rw [hd]⟩

/-- The snowman returned by `updateSnowmanPosition` stands at a position that
passes the boundary test. -/
theorem updateSnowmanPosition_valid (ops : MathOps R) (fuel : Nat) (rnd : Nat → R)
    (snowman : SnowmanInstanceData R) (timeQuantum : R)
    (moved : SnowmanInstanceData R) (rest : Nat → R)
    (hret : updateSnowmanPosition ops fuel rnd snowman timeQuantum = some (moved, rest)) :
    isPositionValidByConstraints ops moved moved.snowmanPosition = true := by
  unfold updateSnowmanPosition at hret
  split at hret
  · simp at hret
  · next result candidate rest' hloop =>
    have hspec := updateSnowmanPositionLoop_spec ops timeQuantum fuel rnd snowman _ _ _ hloop
    simp only [hspec.1, if_true] at hret
    cases hret
    exact hspec.1

theorem real_distanceFrom_le_iff (p q : Point3d ℝ) (b : ℝ) (hb : 0 ≤ b) :
    p.distanceFrom realOps q ≤ b ↔
      (p.x - q.x) * (p.x - q.x) + (p.y - q.y) * (p.y - q.y) + (p.z - q.z) * (p.z - q.z)
        ≤ b ^ 2 := by
  unfold Point3d.distanceFrom realOps
  exact Real.sqrt_le_left hb

theorem real_isPositionValidByConstraints_iff (snowman : SnowmanInstanceData ℝ)
    (p : Point3d ℝ) :
    isPositionValidByConstraints realOps snowman p = true ↔
      p.x * p.x + p.y * p.y + p.z * p.z ≤ 0.48 ^ 2 := by
  rw [isPositionValidByConstraints_iff, real_distanceFrom_le_iff _ _ _
    (by norm_num [constWorldBoundaryDistanceFromCenter, constWorldScale])]
  norm_num [constWorldCenterPoint, constWorldBoundaryDistanceFromCenter, constWorldScale]

/-! ## State machine -/

theorem conditionallyTransitionToThrowingState_getElem?_ne (ops : MathOps R) (scene : Scene R)
    (self j : Nat) (hj : self ≠ j) :
    (conditionallyTransitionToThrowingState ops scene self).snowmanInstanceDataCollection[j]?
      = scene.snowmanInstanceDataCollection[j]? := by
  unfold conditionallyTransitionToThrowingState
  split
  · rfl
  · split
    · split
      · rfl
      · rw [modifySnowman_getElem?, if_neg hj]
    · rfl

/-- The snowman that `conditionallyTransitionToThrowingState` is applied to is
either left as it is or put into the throwing state. -/
theorem conditionallyTransitionToThrowingState_self (ops : MathOps R) (scene : Scene R)
    (self : Nat) (snowman : SnowmanInstanceData R)
    (hself : scene.snowmanInstanceDataCollection[self]? = some snowman) :
    ∃ after,
      (conditionallyTransitionToThrowingState ops scene self).snowmanInstanceDataCollection[self]?
        = some after ∧
      (after = snowman ∨ after.snowmanState = SnowmanState.Throwing) := by
  unfold conditionallyTransitionToThrowingState
  simp only [hself]
  split
  · split
    · exact ⟨snowman, hself, Or.inl rfl⟩
    · rw [modifySnowman_getElem?, if_pos rfl, hself]
      exact ⟨_, rfl, Or.inr rfl⟩
  · exact ⟨snowman, hself, Or.inl rfl⟩

theorem generateSnowballForSnowman_snowmen (ops : MathOps R) (scene : Scene R)
    (rnd : Nat → R) (self : Nat) :
    (generateSnowballForSnowman ops scene rnd self).1.snowmanInstanceDataCollection
      = scene.snowmanInstanceDataCollection := by
  unfold generateSnowballForSnowman
  split
  · rfl
  · split
    · rfl
    · split
      · unfold generateSnowballInstanceData
        split <;> rfl
      · rfl

theorem updateSnowmanThrowingState_getElem?_ne (ops : MathOps R) (scene : Scene R)
    (rnd : Nat → R) (self j : Nat) (hj : self ≠ j) :
    (updateSnowmanThrowingState ops scene rnd self).1.snowmanInstanceDataCollection[j]?
      = scene.snowmanInstanceDataCollection[j]? := by
  unfold updateSnowmanThrowingState
  split
  · rfl
  · dsimp only
    split
    · split
      · simp only [modifySnowman_getElem?, if_neg hj, generateSnowballForSnowman_snowmen]
      · rfl
    · simp only [modifySnowman_getElem?, if_neg hj]

/-- The snowman that `updateSnowmanThrowingState` is applied to keeps its state
or is reset to traveling. -/
theorem updateSnowmanThrowingState_self (ops : MathOps R) (scene : Scene R)
    (rnd : Nat → R) (self : Nat) (snowman : SnowmanInstanceData R)
    (hself : scene.snowmanInstanceDataCollection[self]? = some snowman) :
    ∃ after,
      (updateSnowmanThrowingState ops scene rnd self).1.snowmanInstanceDataCollection[self]?
        = some after ∧
      (after.snowmanState = snowman.snowmanState ∨
        after.snowmanState = SnowmanState.Traveling) := by
  unfold updateSnowmanThrowingState
  simp only [hself]
  split
  · split
    · simp only [modifySnowman_getElem?, if_true, generateSnowballForSnowman_snowmen, hself,
        Option.map_some']
      exact ⟨_, rfl, Or.inl rfl⟩
    · exact ⟨snowman, hself, Or.inl rfl⟩
  · simp only [modifySnowman_getElem?, if_true, hself, Option.map_some']
    exact ⟨_, rfl, Or.inr rfl⟩

/-- A call of `updateSnowmanState` leaves every other snowman as it was. -/
theorem updateSnowmanState_getElem?_ne (ops : MathOps R) (fuel : Nat) (scene : Scene R)
    (rnd : Nat → R) (self : Nat) (timeQuantum : R) (scene' : Scene R) (rest : Nat → R)
    (hret : updateSnowmanState ops fuel scene rnd self timeQuantum = some (scene', rest))
    (j : Nat) (hj : self ≠ j) :
    scene'.snowmanInstanceDataCollection[j]? = scene.snowmanInstanceDataCollection[j]? := by
  unfold updateSnowmanState at hret
  split at hret
  · cases hret; rfl
  · next snowman hself =>
    split at hret
    · split at hret
      · simp at hret
      · next moved rnd' hmove =>
        cases hret
        rw [conditionallyTransitionToThrowingState_getElem?_ne _ _ _ _ hj,
          modifySnowman_getElem?, if_neg hj]
    · have hs : scene' = (updateSnowmanThrowingState ops scene rnd self).1 := by
        simp only [Option.some.injEq] at hret
        rw [hret]
      rw [hs, updateSnowmanThrowingState_getElem?_ne _ _ _ _ _ hj]
    · cases hret
      simp only [modifySnowman_getElem?, if_neg hj]
    · cases hret
      simp only [modifySnowman_getElem?, if_neg hj]

theorem conditionallyTransitionToThrowingState_length (ops : MathOps R) (scene : Scene R)
    (self : Nat) :
    (conditionallyTransitionToThrowingState ops scene self).snowmanInstanceDataCollection.length
      = scene.snowmanInstanceDataCollection.length := by
  unfold conditionallyTransitionToThrowingState
  split
  · rfl
  · split
    · split
      · rfl
      · rw [modifySnowman_length]
    · rfl

theorem updateSnowmanThrowingState_length (ops : MathOps R) (scene : Scene R)
    (rnd : Nat → R) (self : Nat) :
    (updateSnowmanThrowingState ops scene rnd self).1.snowmanInstanceDataCollection.length
      = scene.snowmanInstanceDataCollection.length := by
  unfold updateSnowmanThrowingState
  split
  · rfl
  · dsimp only
    split
    · split
      · rw [modifySnowman_length, generateSnowballForSnowman_snowmen]
      · rfl
    · rw [modifySnowman_length]

/-- A call of `updateSnowmanState` keeps the length of the snowman collection. -/
theorem updateSnowmanState_length (ops : MathOps R) (fuel : Nat) (scene : Scene R)
    (rnd : Nat → R) (self : Nat) (timeQuantum : R) (scene' : Scene R) (rest : Nat → R)
    (hret : updateSnowmanState ops fuel scene rnd self timeQuantum = some (scene', rest)) :
    scene'.snowmanInstanceDataCollection.length
      = scene.snowmanInstanceDataCollection.length := by
  unfold updateSnowmanState at hret
  split at hret
  · cases hret; rfl
  · split at hret
    · split at hret
      · simp at hret
      · cases hret
        rw [conditionallyTransitionToThrowingState_length, modifySnowman_length]
    · have hs : scene' = (updateSnowmanThrowingState ops scene rnd self).1 := by
        simp only [Option.some.injEq] at hret
        rw [hret]
      rw [hs, updateSnowmanThrowingState_length]
    · cases hret
      rw [modifySnowman_length]
    · cases hret
      rw [modifySnowman_length]

theorem updateHitState_state (scene : Scene R) (snowman : SnowmanInstanceData R) :
    (updateHitState scene snowman).snowmanState = snowman.snowmanState ∨
      (updateHitState scene snowman).snowmanState = SnowmanState.Stunned := by
  unfold updateHitState
  dsimp only
  split
  · exact Or.inl rfl
  · exact Or.inr rfl

theorem updateStunnedState_state (scene : Scene R) (snowman : SnowmanInstanceData R) :
    (updateStunnedState scene snowman).snowmanState = snowman.snowmanState ∨
      (updateStunnedState scene snowman).snowmanState = SnowmanState.Traveling := by
  unfold updateStunnedState
  dsimp only
  split
  · exact Or.inl rfl
  · exact Or.inr rfl

/-- The snowman that `updateSnowmanState` is applied to keeps its state or takes
the one transition that its state allows. -/
theorem updateSnowmanState_self (ops : MathOps R) (fuel : Nat) (scene : Scene R)
    (rnd : Nat → R) (self : Nat) (timeQuantum : R) (scene' : Scene R) (rest : Nat → R)
    (hret : updateSnowmanState ops fuel scene rnd self timeQuantum = some (scene', rest))
    (before : SnowmanInstanceData R)
    (hself : scene.snowmanInstanceDataCollection[self]? = some before) :
    ∃ after, scene'.snowmanInstanceDataCollection[self]? = some after ∧
      (after.snowmanState = before.snowmanState ∨
        (before.snowmanState = SnowmanState.Traveling ∧
          after.snowmanState = SnowmanState.Throwing) ∨
        (before.snowmanState = SnowmanState.Throwing ∧
          after.snowmanState = SnowmanState.Traveling) ∨
        (before.snowmanState = SnowmanState.Hit ∧
          after.snowmanState = SnowmanState.Stunned) ∨
        (before.snowmanState = SnowmanState.Stunned ∧
          after.snowmanState = SnowmanState.Traveling)) := by
  unfold updateSnowmanState at hret
  simp only [hself] at hret
  split at hret
  · next hstate =>
    split at hret
    · simp at hret
    · next moved rnd' hmove =>
      cases hret
      obtain ⟨p, d, hmoved⟩ := updateSnowmanPosition_frame ops fuel rnd before timeQuantum _ _ hmove
      have hput : (scene.modifySnowman self (fun _ => moved)).snowmanInstanceDataCollection[self]?
          = some moved := by
        rw [modifySnowman_getElem?, if_pos rfl, hself]; rfl
      obtain ⟨after, hafter, hcase⟩ :=
        conditionallyTransitionToThrowingState_self ops _ self moved hput
      refine ⟨after, hafter, ?_⟩
      rcases hcase with h | h
      · left; rw [h, hmoved]
      · right; left; exact ⟨hstate, h⟩
  · next hstate =>
    have hs : scene' = (updateSnowmanThrowingState ops scene rnd self).1 := by
      simp only [Option.some.injEq] at hret
      rw [hret]
    obtain ⟨after, hafter, hcase⟩ := updateSnowmanThrowingState_self ops scene rnd self before hself
    refine ⟨after, by rw [hs]; exact hafter, ?_⟩
    rcases hcase with h | h
    · left; exact h
    · right; right; left; exact ⟨hstate, h⟩
  · next hstate =>
    cases hret
    refine ⟨updateHitState scene before, ?_, ?_⟩
    · rw [modifySnowman_getElem?, if_pos rfl, hself]; rfl
    · rcases updateHitState_state scene before with h | h
      · left; exact h
      · right; right; right; left; exact ⟨hstate, h⟩
  · next hstate =>
    cases hret
    refine ⟨updateStunnedState scene before, ?_, ?_⟩
    · rw [modifySnowman_getElem?, if_pos rfl, hself]; rfl
    · rcases updateStunnedState_state scene before with h | h
      · left; exact h
      · right; right; right; right; exact ⟨hstate, h⟩

/-- Claim C2: whenever `updateSnowmanState` returns, the snowman collection has
the same length and every snowman (the one updated and all others) either keeps
its `snowmanState` or has moved along Traveling→Throwing, Throwing→Traveling,
Hit→Stunned or Stunned→Traveling; in particular no snowman is put into Hit, and
a snowman that was in Hit is afterwards in Hit or in Stunned. -/
theorem updateSnowmanState_transitions (ops : MathOps R) (fuel : Nat) (scene : Scene R)
    (rnd : Nat → R) (self : Nat) (timeQuantum : R) (scene' : Scene R) (rest : Nat → R)
    (hret : updateSnowmanState ops fuel scene rnd self timeQuantum = some (scene', rest)) :
    scene'.snowmanInstanceDataCollection.length
        = scene.snowmanInstanceDataCollection.length ∧
    ∀ (j : Nat) (before after : SnowmanInstanceData R),
      scene.snowmanInstanceDataCollection[j]? = some before →
      scene'.snowmanInstanceDataCollection[j]? = some after →
        (after.snowmanState = before.snowmanState ∨
          (before.snowmanState = SnowmanState.Traveling ∧
            after.snowmanState = SnowmanState.Throwing) ∨
          (before.snowmanState = SnowmanState.Throwing ∧
            after.snowmanState = SnowmanState.Traveling) ∨
          (before.snowmanState = SnowmanState.Hit ∧
            after.snowmanState = SnowmanState.Stunned) ∨
          (before.snowmanState = SnowmanState.Stunned ∧
            after.snowmanState = SnowmanState.Traveling)) ∧
        (after.snowmanState = SnowmanState.Hit → before.snowmanState = SnowmanState.Hit) ∧
        (before.snowmanState = SnowmanState.Hit →
          after.snowmanState = SnowmanState.Hit ∨ after.snowmanState = SnowmanState.Stunned) := by
  refine ⟨updateSnowmanState_length ops fuel scene rnd self timeQuantum scene' rest hret, ?_⟩
  intro j before after hbefore hafter
  have hstep : after.snowmanState = before.snowmanState ∨
      (before.snowmanState = SnowmanState.Traveling ∧
        after.snowmanState = SnowmanState.Throwing) ∨
      (before.snowmanState = SnowmanState.Throwing ∧
        after.snowmanState = SnowmanState.Traveling) ∨
      (before.snowmanState = SnowmanState.Hit ∧
        after.snowmanState = SnowmanState.Stunned) ∨
      (before.snowmanState = SnowmanState.Stunned ∧
        after.snowmanState = SnowmanState.Traveling) := by
    by_cases hj : self = j
    · subst hj
      obtain ⟨after', hafter', hcase⟩ :=
        updateSnowmanState_self ops fuel scene rnd self timeQuantum scene' rest hret before hbefore
      rw [hafter] at hafter'
      cases hafter'
      exact hcase
    · have := updateSnowmanState_getElem?_ne ops fuel scene rnd self timeQuantum scene' rest
        hret j hj
      rw [hbefore, hafter] at this
      cases this
      exact Or.inl rfl
  refine ⟨hstep, ?_, ?_⟩
  · intro hhit
    rcases hstep with h | ⟨_, h⟩ | ⟨_, h⟩ | ⟨_, h⟩ | ⟨_, h⟩
    · rw [← h]; exact hhit
    all_goals (rw [h] at hhit; cases hhit)
  · intro hhit
    rcases hstep with h | ⟨h, _⟩ | ⟨h, _⟩ | ⟨_, h⟩ | ⟨h, _⟩
    · left; rw [h]; exact hhit
    · rw [h] at hhit; cases hhit
    · rw [h] at hhit; cases hhit
    · right; exact h
    · rw [h] at hhit; cases hhit

/-- A snowman hit 300 ms ago (the hit state lasts 200 ms) becomes stunned. -/
theorem updateSnowmanState_transitions_witness :
    updateSnowmanState realOps 1 (hitScene : Scene ℝ) (fun _ => 0) 0 16
        = some ({ (hitScene : Scene ℝ) with
                  snowmanInstanceDataCollection :=
                    [{ (boundarySnowman : SnowmanInstanceData ℝ) with
                       snowmanState := SnowmanState.Stunned
                       currentStateInitiationTimeMs := 300 }] }, fun _ => 0) ∧
      ([{ (boundarySnowman : SnowmanInstanceData ℝ) with
          snowmanState := SnowmanState.Stunned
          currentStateInitiationTimeMs := 300 }] : List (SnowmanInstanceData ℝ)).length
        = (hitScene : Scene ℝ).snowmanInstanceDataCollection.length := by
  have hrun : updateSnowmanState realOps 1 (hitScene : Scene ℝ) (fun _ => 0) 0 16
      = some ({ (hitScene : Scene ℝ) with
                snowmanInstanceDataCollection :=
                  [{ (boundarySnowman : SnowmanInstanceData ℝ) with
                     snowmanState := SnowmanState.Stunned
                     currentStateInitiationTimeMs := 300 }] }, fun _ => 0) := by
    simp [updateSnowmanState, hitScene, Scene.modifySnowman, updateHitState, boundarySnowman,
      constSnowmanHitStateDuration]
    norm_num
  exact ⟨hrun, (updateSnowmanState_transitions _ _ _ _ _ _ _ _ hrun).1⟩

/-! ## Target acquisition -/

/-- One loop iteration, expressed with the acceptance test and the distance. -/
theorem findPreferredTargetStep_eq (ops : MathOps R)
    (collection : List (SnowmanInstanceData R)) (self : Nat)
    (snowman : SnowmanInstanceData R) (hself : collection[self]? = some snowman)
    (search : TargetSearch R) (n : Nat) :
    findPreferredTargetStep ops collection self snowman search n =
      if isEligibleTarget ops collection self n = true then
        if distanceBetweenSnowmen ops collection self n < search.currentNearestDistance ∨
            search.foundTargetInstance = none then
          { foundTargetInstance := some n
            currentNearestDistance := distanceBetweenSnowmen ops collection self n }
        else search
      else search := by
  unfold findPreferredTargetStep isEligibleTarget distanceBetweenSnowmen
  rw [hself]
  cases hn : collection[n]? with
  | none => simp
  | some candidate => simp

/-- Loop invariant of `findPreferredTargetSnowmanForSnowball` after the
candidates with index below `n` have been examined. -/
theorem findPreferredTarget_invariant (ops : MathOps R)
    (collection : List (SnowmanInstanceData R)) (self : Nat)
    (snowman : SnowmanInstanceData R) (hself : collection[self]? = some snowman) (n : Nat) :
    let search := (List.range n).foldl
      (findPreferredTargetStep ops collection self snowman)
      { foundTargetInstance := none, currentNearestDistance := 0.0 }
    (search.foundTargetInstance = none →
        ∀ k, k < n → isEligibleTarget ops collection self k = false) ∧
    (∀ j, search.foundTargetInstance = some j →
        j < n ∧ isEligibleTarget ops collection self j = true ∧
        search.currentNearestDistance = distanceBetweenSnowmen ops collection self j ∧
        ∀ k, k < n → isEligibleTarget ops collection self k = true →
          distanceBetweenSnowmen ops collection self j
              ≤ distanceBetweenSnowmen ops collection self k ∧
            (distanceBetweenSnowmen ops collection self k
              = distanceBetweenSnowmen ops collection self j → j ≤ k)) := by
  induction n with
  | zero =>
    refine ⟨fun _ k hk => absurd hk (Nat.not_lt_zero k), fun j hj => ?_⟩
    simp at hj
  | succ n ih =>
    intro search
    have hsearch : search = findPreferredTargetStep ops collection self snowman
        ((List.range n).foldl (findPreferredTargetStep ops collection self snowman)
          { foundTargetInstance := none, currentNearestDistance := 0.0 }) n := by
      show (List.range (n + 1)).foldl _ _ = _
      rw [List.range_succ, List.foldl_append]
      rfl
    clear_value search
    generalize (List.range n).foldl (findPreferredTargetStep ops collection self snowman)
      { foundTargetInstance := none, currentNearestDistance := 0.0 } = prev at ih hsearch
    obtain ⟨ihnone, ihsome⟩ := ih
    rw [findPreferredTargetStep_eq ops collection self snowman hself] at hsearch
    by_cases helig : isEligibleTarget ops collection self n = true
    · rw [if_pos helig] at hsearch
      by_cases hbetter : distanceBetweenSnowmen ops collection self n
          < prev.currentNearestDistance ∨ prev.foundTargetInstance = none
      · rw [if_pos hbetter] at hsearch
        subst hsearch
        refine ⟨fun h => by simp at h, fun j hj => ?_⟩
        simp only [Option.some.injEq] at hj
        subst hj
        refine ⟨Nat.lt_succ_self _, helig, rfl, fun k hk hkel => ?_⟩
        rcases Nat.lt_succ_iff_lt_or_eq.1 hk with hlt | heq
        · rcases hbetter with hless | hnone
          · cases hprev : prev.foundTargetInstance with
            | none =>
              have := ihnone hprev k hlt
              rw [this] at hkel
              cases hkel
            | some j' =>
              obtain ⟨_, _, hdist, hmin⟩ := ihsome j' hprev
              have hk' := (hmin k hlt hkel).1
              rw [hdist] at hless
              have hstrict := lt_of_lt_of_le hless hk'
              exact ⟨le_of_lt hstrict, fun heq => absurd heq (ne_of_gt hstrict)⟩
          · have := ihnone hnone k hlt
            rw [this] at hkel
            cases hkel
        · subst heq
          exact ⟨le_refl _, fun _ => le_refl _⟩
      · rw [if_neg hbetter] at hsearch
        subst hsearch
        have hnot := not_or.1 hbetter
        refine ⟨fun h => absurd h hnot.2, fun j hj => ?_⟩
        obtain ⟨hjn, hjel, hdist, hmin⟩ := ihsome j hj
        refine ⟨Nat.lt_succ_of_lt hjn, hjel, hdist, fun k hk hkel => ?_⟩
        rcases Nat.lt_succ_iff_lt_or_eq.1 hk with hlt | heq
        · exact hmin k hlt hkel
        · subst heq
          have hle : distanceBetweenSnowmen ops collection self j
              ≤ distanceBetweenSnowmen ops collection self k := by
            rw [← hdist]; exact not_lt.1 hnot.1
          exact ⟨hle, fun _ => le_of_lt hjn⟩
    · rw [if_neg helig] at hsearch
      subst hsearch
      have helig' : isEligibleTarget ops collection self n = false := by
        simpa using helig
      refine ⟨fun h k hk => ?_, fun j hj => ?_⟩
      · rcases Nat.lt_succ_iff_lt_or_eq.1 hk with hlt | heq
        · exact ihnone h k hlt
        · subst heq; exact helig'
      · obtain ⟨hjn, hjel, hdist, hmin⟩ := ihsome j hj
        refine ⟨Nat.lt_succ_of_lt hjn, hjel, hdist, fun k hk hkel => ?_⟩
        rcases Nat.lt_succ_iff_lt_or_eq.1 hk with hlt | heq
        · exact hmin k hlt hkel
        · subst heq
          rw [helig'] at hkel
          cases hkel

theorem isEligibleTarget_iff (ops : MathOps R)
    (collection : List (SnowmanInstanceData R)) (self k : Nat) :
    isEligibleTarget ops collection self k = true ↔
      ∃ acquirer candidate, collection[self]? = some acquirer ∧
        collection[k]? = some candidate ∧
        isSnowmanInTargetAcquisitionFov ops acquirer candidate = true ∧ self ≠ k := by
  unfold isEligibleTarget
  cases hs : collection[self]? with
  | none => simp
  | some acquirer =>
    cases hc : collection[k]? with
    | none => simp
    | some candidate => simp

theorem isEligibleTarget_lt_length (ops : MathOps R)
    (collection : List (SnowmanInstanceData R)) (self k : Nat)
    (h : isEligibleTarget ops collection self k = true) : k < collection.length := by
  by_contra hk
  have hnone : collection[k]? = none := List.getElem?_eq_none (not_lt.1 hk)
  unfold isEligibleTarget at h
  rw [hnone] at h
  cases hs : collection[self]? <;> simp [hs] at h

/-- What `findPreferredTargetSnowmanForSnowball` returns: `none` exactly when no
candidate passes the acceptance test, and otherwise an accepted candidate that
is nearest, with the lowest index among the nearest. -/
theorem findPreferredTarget_spec (ops : MathOps R)
    (collection : List (SnowmanInstanceData R)) (self : Nat) :
    (findPreferredTargetSnowmanForSnowball ops collection self = none ↔
        ∀ k, isEligibleTarget ops collection self k = false) ∧
    (∀ j, findPreferredTargetSnowmanForSnowball ops collection self = some j →
        j < collection.length ∧ isEligibleTarget ops collection self j = true ∧
        ∀ k, isEligibleTarget ops collection self k = true →
          distanceBetweenSnowmen ops collection self j
              ≤ distanceBetweenSnowmen ops collection self k ∧
            (distanceBetweenSnowmen ops collection self k
              = distanceBetweenSnowmen ops collection self j → j ≤ k)) := by
  cases hself : collection[self]? with
  | none =>
    have hfind : findPreferredTargetSnowmanForSnowball ops collection self = none := by
      unfold findPreferredTargetSnowmanForSnowball; rw [hself]
    refine ⟨⟨fun _ k => ?_, fun _ => hfind⟩, fun j hj => ?_⟩
    · unfold isEligibleTarget; rw [hself]
    · rw [hfind] at hj; cases hj
  | some snowman =>
    have hinv := findPreferredTarget_invariant ops collection self snowman hself
      collection.length
    have hfind : findPreferredTargetSnowmanForSnowball ops collection self =
        ((List.range collection.length).foldl
          (findPreferredTargetStep ops collection self snowman)
          { foundTargetInstance := none, currentNearestDistance := 0.0 }).foundTargetInstance := by
      unfold findPreferredTargetSnowmanForSnowball; rw [hself]
    rw [hfind]
    obtain ⟨hnone, hsome⟩ := hinv
    refine ⟨⟨fun h k => ?_, fun h => ?_⟩, fun j hj => ?_⟩
    · by_cases hk : k < collection.length
      · exact hnone h k hk
      · by_contra hel
        have hel' : isEligibleTarget ops collection self k = true := by simpa using hel
        exact hk (isEligibleTarget_lt_length ops collection self k hel')
    · by_contra hne
      obtain ⟨j, hj⟩ := Option.ne_none_iff_exists'.1 hne
      have := (hsome j hj).2.1
      rw [h j] at this
      cases this
    · obtain ⟨hjn, hjel, _, hmin⟩ := hsome j hj
      exact ⟨hjn, hjel, fun k hkel =>
        hmin k (isEligibleTarget_lt_length ops collection self k hkel) hkel⟩

/-- Claim C4: `findPreferredTargetSnowmanForSnowball` returns either null or a
member of the collection that is not the acquirer itself and for which
`isSnowmanInTargetAcquisitionFov` holds, so that the angle between the heading of
the acquirer and the vector towards the candidate is at most the acquirer's
`snowmanTargetAcquisitionFovDegRad`. -/
theorem findPreferredTarget_in_fov_not_self (ops : MathOps R)
    (collection : List (SnowmanInstanceData R)) (self : Nat) :
    findPreferredTargetSnowmanForSnowball ops collection self = none ∨
    ∃ (j : Nat) (acquirer candidate : SnowmanInstanceData R),
      findPreferredTargetSnowmanForSnowball ops collection self = some j ∧
      collection[self]? = some acquirer ∧
      collection[j]? = some candidate ∧
      j ≠ self ∧
      isSnowmanInTargetAcquisitionFov ops acquirer candidate = true ∧
      sourceToTargetAngleRad ops acquirer candidate
        ≤ acquirer.snowmanTargetAcquisitionFovDegRad := by
  cases hfind : findPreferredTargetSnowmanForSnowball ops collection self with
  | none => exact Or.inl rfl
  | some j =>
    right
    have hel := ((findPreferredTarget_spec ops collection self).2 j hfind).2.1
    obtain ⟨acquirer, candidate, hs, hc, hfov, hne⟩ :=
      (isEligibleTarget_iff ops collection self j).1 hel
    refine ⟨j, acquirer, candidate, rfl, hs, hc, fun h => hne h.symm, hfov, ?_⟩
    unfold isSnowmanInTargetAcquisitionFov at hfov
    split at hfov
    · cases hfov
    · exact le_trans (le_abs_self _) (of_decide_eq_true hfov)

/-- Claim C5: whenever an eligible candidate exists (in the field of view of the
acquirer and not the acquirer), `findPreferredTargetSnowmanForSnowball` returns an
eligible candidate whose distance from the acquirer is minimal among the eligible
candidates and whose index is the lowest among the eligible candidates at that
distance; and it returns null exactly when no eligible candidate exists. -/
theorem findPreferredTarget_nearest_first (ops : MathOps R)
    (collection : List (SnowmanInstanceData R)) (self : Nat) :
    ((∃ k, isEligibleTarget ops collection self k = true) →
      ∃ j, findPreferredTargetSnowmanForSnowball ops collection self = some j ∧
        isEligibleTarget ops collection self j = true ∧
        ∀ k, isEligibleTarget ops collection self k = true →
          distanceBetweenSnowmen ops collection self j
              ≤ distanceBetweenSnowmen ops collection self k ∧
            (distanceBetweenSnowmen ops collection self k
              = distanceBetweenSnowmen ops collection self j → j ≤ k)) ∧
    (findPreferredTargetSnowmanForSnowball ops collection self = none ↔
      ¬ ∃ k, isEligibleTarget ops collection self k = true) := by
  obtain ⟨hnone, hsome⟩ := findPreferredTarget_spec ops collection self
  constructor
  · rintro ⟨k, hk⟩
    cases hfind : findPreferredTargetSnowmanForSnowball ops collection self with
    | none =>
      have := hnone.1 hfind k
      rw [this] at hk
      cases hk
    | some j =>
      obtain ⟨_, hjel, hmin⟩ := hsome j hfind
      exact ⟨j, rfl, hjel, hmin⟩
  · rw [hnone]
    constructor
    · rintro h ⟨k, hk⟩
      rw [h k] at hk
      cases hk
    · intro h k
      by_contra hk
      exact h ⟨k, by simpa using hk⟩

theorem real_sqrt_sq_z (z : ℝ) (hz : 0 ≤ z) :
    realOps.sqrt (0 * 0 + 0 * 0 + z * z) = z := by
  show Real.sqrt (0 * 0 + 0 * 0 + z * z) = z
  rw [show (0 : ℝ) * 0 + 0 * 0 + z * z = z * z by ring]
  exact Real.sqrt_mul_self hz

theorem axisCollection_eligible :
    isEligibleTarget realOps (axisCollection : List (SnowmanInstanceData ℝ)) 0 1 = true := by
  have h1 := real_sqrt_sq_z 1 (by norm_num)
  have h2 := real_sqrt_sq_z 0.3 (by norm_num)
  have hacos : realOps.acos 1 = 0 := Real.arccos_one
  simp [isEligibleTarget, axisCollection, isSnowmanInTargetAcquisitionFov,
    sourceToTargetAngleRad, sourceToTargetVector, boundarySnowman, Vector3d.magnitude,
    Vector3d.dotProduct, Vector3d.subtractVector, GenerateVector3dFromPoint3d]
  norm_num at h1 h2 ⊢
  simp [h1, h2, hacos]

/-- In `axisCollection` the first snowman has an eligible target, and the search
returns a nearest eligible one. -/
theorem findPreferredTarget_nearest_first_witness :
    (∃ k, isEligibleTarget realOps (axisCollection : List (SnowmanInstanceData ℝ)) 0 k = true) ∧
    ∃ j, findPreferredTargetSnowmanForSnowball realOps
        (axisCollection : List (SnowmanInstanceData ℝ)) 0 = some j ∧
      isEligibleTarget realOps (axisCollection : List (SnowmanInstanceData ℝ)) 0 j = true ∧
      ∀ k, isEligibleTarget realOps (axisCollection : List (SnowmanInstanceData ℝ)) 0 k = true →
        distanceBetweenSnowmen realOps (axisCollection : List (SnowmanInstanceData ℝ)) 0 j
            ≤ distanceBetweenSnowmen realOps (axisCollection : List (SnowmanInstanceData ℝ)) 0 k ∧
          (distanceBetweenSnowmen realOps (axisCollection : List (SnowmanInstanceData ℝ)) 0 k
            = distanceBetweenSnowmen realOps (axisCollection : List (SnowmanInstanceData ℝ)) 0 j →
            j ≤ k) :=
  ⟨⟨1, axisCollection_eligible⟩,
    (findPreferredTarget_nearest_first realOps axisCollection 0).1 ⟨1, axisCollection_eligible⟩⟩

/-- Claim C3: for a traveling snowman, `conditionallyTransitionToThrowingState`
puts it into Throwing, with `currentTargetSnowman` the target chosen by
`findPreferredTargetSnowmanForSnowball` and `lastSnowballThrowTime` (and the state
clock) set to the scene clock, whenever the time since its last throw is at least
(in particular: exceeds) its `snowmanMinSnowballThrowIntervalMs` and an eligible
target exists; and it leaves the whole scene, hence the state, timestamps and
target of the snowman, unchanged whenever the time since its last throw is less
than that interval or no eligible target exists. -/
theorem conditionallyTransitionToThrowingState_spec (ops : MathOps R) (scene : Scene R)
    (self : Nat) (snowman : SnowmanInstanceData R)
    (hself : scene.snowmanInstanceDataCollection[self]? = some snowman)
    (htraveling : snowman.snowmanState = SnowmanState.Traveling) :
    (snowman.snowmanMinSnowballThrowIntervalMs
          ≤ scene.totalElapsedSceneTimeMs - snowman.lastSnowballThrowTime →
      (∃ k, isEligibleTarget ops scene.snowmanInstanceDataCollection self k = true) →
      ∃ target,
        findPreferredTargetSnowmanForSnowball ops scene.snowmanInstanceDataCollection self
          = some target ∧
        (conditionallyTransitionToThrowingState ops scene self).snowmanInstanceDataCollection[self]?
          = some { snowman with
                   snowmanState := SnowmanState.Throwing
                   currentTargetSnowman := some target
                   lastSnowballThrowTime := scene.totalElapsedSceneTimeMs
                   currentStateInitiationTimeMs := scene.totalElapsedSceneTimeMs
                   snowballThrownDuringThrowState := false }) ∧
    ((scene.totalElapsedSceneTimeMs - snowman.lastSnowballThrowTime
          < snowman.snowmanMinSnowballThrowIntervalMs ∨
        ¬ ∃ k, isEligibleTarget ops scene.snowmanInstanceDataCollection self k = true) →
      conditionallyTransitionToThrowingState ops scene self = scene ∧
        ((conditionallyTransitionToThrowingState ops scene
            self).snowmanInstanceDataCollection[self]?).map (fun after => after.snowmanState)
          = some SnowmanState.Traveling) := by
  obtain ⟨hnone, _⟩ := findPreferredTarget_spec ops scene.snowmanInstanceDataCollection self
  constructor
  · rintro hdue ⟨k, hk⟩
    cases hfind : findPreferredTargetSnowmanForSnowball ops
        scene.snowmanInstanceDataCollection self with
    | none =>
      have := hnone.1 hfind k
      rw [this] at hk
      cases hk
    | some target =>
      refine ⟨target, rfl, ?_⟩
      unfold conditionallyTransitionToThrowingState
      simp only [hself, ge_iff_le, hdue, if_true, hfind]
      rw [modifySnowman_getElem?, if_pos rfl, hself]
      rfl
  · intro h
    have hsame : conditionallyTransitionToThrowingState ops scene self = scene := by
      unfold conditionallyTransitionToThrowingState
      simp only [hself, ge_iff_le]
      rcases h with hearly | hnoelig
      · rw [if_neg (not_le.2 hearly)]
      · have hfind : findPreferredTargetSnowmanForSnowball ops
          scene.snowmanInstanceDataCollection self = none := by
          rw [hnone]
          intro k
          by_contra hk
          exact hnoelig ⟨k, by simpa using hk⟩
        rw [hfind]
        split <;> rfl
    refine ⟨hsame, ?_⟩
    rw [hsame, hself, Option.map_some', htraveling]

/-- In `axisCollection` the first snowman chooses the third one, the nearer of
the two snowmen it sees. -/
theorem findPreferredTarget_axisCollection :
    findPreferredTargetSnowmanForSnowball realOps
        (axisCollection : List (SnowmanInstanceData ℝ)) 0 = some 2 := by
  have h0 : realOps.sqrt 0 = 0 := Real.sqrt_zero
  have h1 := real_sqrt_sq_z 1 (by norm_num)
  have h2 := real_sqrt_sq_z 0.3 (by norm_num)
  have h3 := real_sqrt_sq_z 0.1 (by norm_num)
  have hacos : realOps.acos 1 = 0 := Real.arccos_one
  norm_num at h1 h2 h3
  simp [findPreferredTargetSnowmanForSnowball, findPreferredTargetStep, axisCollection,
    List.range_succ, isSnowmanInTargetAcquisitionFov,
    sourceToTargetAngleRad, sourceToTargetVector, boundarySnowman, Vector3d.magnitude,
    Vector3d.dotProduct, Vector3d.subtractVector, GenerateVector3dFromPoint3d,
    Point3d.distanceFrom, h0]
  norm_num [h0, h1, h2, h3, hacos]

/-- In `axisScene` (clock 1000 ms, last throw at 0, interval 800 ms) the first
snowman starts a throw at the third one. -/
theorem conditionallyTransitionToThrowingState_spec_witness :
    (axisScene : Scene ℝ).snowmanInstanceDataCollection[0]?
        = some { (boundarySnowman : SnowmanInstanceData ℝ) with snowmanPosition := ⟨0, 0, 0⟩ } ∧
      (conditionallyTransitionToThrowingState realOps
          (axisScene : Scene ℝ) 0).snowmanInstanceDataCollection[0]?
        = some { (boundarySnowman : SnowmanInstanceData ℝ) with
                 snowmanPosition := ⟨0, 0, 0⟩
                 snowmanState := SnowmanState.Throwing
                 currentTargetSnowman := some 2
                 lastSnowballThrowTime := 1000
                 currentStateInitiationTimeMs := 1000
                 snowballThrownDuringThrowState := false } := by
  have hself : (axisScene : Scene ℝ).snowmanInstanceDataCollection[0]?
      = some { (boundarySnowman : SnowmanInstanceData ℝ) with snowmanPosition := ⟨0, 0, 0⟩ } := rfl
  refine ⟨hself, ?_⟩
  obtain ⟨target, hfind, hres⟩ :=
    (conditionallyTransitionToThrowingState_spec realOps axisScene 0 _ hself rfl).1
      (by norm_num [axisScene, boundarySnowman]) ⟨1, axisCollection_eligible⟩
  have htarget : target = 2 := by
    have := findPreferredTarget_axisCollection
    rw [show (axisScene : Scene ℝ).snowmanInstanceDataCollection = axisCollection from rfl] at hfind
    rw [this] at hfind
    exact (Option.some.inj hfind).symm
  subst htarget
  exact hres

/-! ## Collision test -/

/-- The total body height of the three-segment snowman is positive. -/
theorem computeTotalSnowmanHeight_pos :
    (0 : R) < computeTotalSnowmanHeightForSegmentCount constSnowmanSegments := by
  simp only [computeTotalSnowmanHeightForSegmentCount, computeSnowmanHeightForSegmentCount,
    computeGeometricSeriesSum, constSnowmanSegments, constBaseSnowmanSphereRadius,
    constSnowmanUpperSphereReductionFactor, constSnowmanSphereOverlap, constWorldScale,
    List.range_succ, List.range_zero, List.nil_append, List.cons_append, List.map_cons,
    List.map_nil, List.sum_cons, List.sum_nil]
  norm_num

/-- Over the reals, the cross-product point-line distance from the vertical
centre line of the snowman is the horizontal distance. -/
theorem real_snowballDistance_eq (snowman : SnowmanInstanceData ℝ)
    (snowball : SnowballInstanceData ℝ) :
    snowballDistance realOps snowman snowball =
      Real.sqrt ((snowball.snowballPosition.x - snowman.snowmanPosition.x) ^ 2 +
        (snowball.snowballPosition.z - snowman.snowmanPosition.z) ^ 2) := by
  have hH : (0 : ℝ) < computeTotalSnowmanHeightForSegmentCount constSnowmanSegments :=
    computeTotalSnowmanHeight_pos
  generalize hHdef : (computeTotalSnowmanHeightForSegmentCount constSnowmanSegments : ℝ) = H
    at hH
  simp only [snowballDistance, hHdef, Vector3d.magnitude, Vector3d.crossProduct,
    Vector3d.subtractVector, Vector3d.addVector, GenerateVector3dFromPoint3d, realOps]
  have hline : Real.sqrt ((0.0 : ℝ) * 0.0 + H * H + 0.0 * 0.0) = H := by
    rw [show (0.0 : ℝ) * 0.0 + H * H + 0.0 * 0.0 = H * H by norm_num]
    exact Real.sqrt_mul_self hH.le
  rw [hline]
  set dx := snowball.snowballPosition.x - snowman.snowmanPosition.x with hdx
  set dz := snowball.snowballPosition.z - snowman.snowmanPosition.z with hdz
  have hcross :
      ((snowball.snowballPosition.y - snowman.snowmanPosition.y) *
            (snowball.snowballPosition.z - (snowman.snowmanPosition.z + 0.0)) -
          dz * (snowball.snowballPosition.y - (snowman.snowmanPosition.y + H))) *
        ((snowball.snowballPosition.y - snowman.snowmanPosition.y) *
            (snowball.snowballPosition.z - (snowman.snowmanPosition.z + 0.0)) -
          dz * (snowball.snowballPosition.y - (snowman.snowmanPosition.y + H))) +
      (dz * (snowball.snowballPosition.x - (snowman.snowmanPosition.x + 0.0)) -
          dx * (snowball.snowballPosition.z - (snowman.snowmanPosition.z + 0.0))) *
        (dz * (snowball.snowballPosition.x - (snowman.snowmanPosition.x + 0.0)) -
          dx * (snowball.snowballPosition.z - (snowman.snowmanPosition.z + 0.0))) +
      (dx * (snowball.snowballPosition.y - (snowman.snowmanPosition.y + H)) -
          (snowball.snowballPosition.y - snowman.snowmanPosition.y) *
            (snowball.snowballPosition.x - (snowman.snowmanPosition.x + 0.0))) *
        (dx * (snowball.snowballPosition.y - (snowman.snowmanPosition.y + H)) -
          (snowball.snowballPosition.y - snowman.snowmanPosition.y) *
            (snowball.snowballPosition.x - (snowman.snowmanPosition.x + 0.0)))
      = H ^ 2 * (dx ^ 2 + dz ^ 2) := by
    rw [hdx, hdz]
    norm_num
    ring
  rw [hcross, Real.sqrt_mul (sq_nonneg H), Real.sqrt_sq hH.le]
  field_simp

/-- Claim C6: over the reals, the total body height `H` is positive, the distance
computed by the cross-product formula equals the horizontal distance
`sqrt((b.x − p.x)² + (b.z − p.z)²)`, and `isSnowballInCollisionStateWithSnowman`
returns true if and only if the height band overlaps
(`b.y + constSnowballRadius ≥ p.y` and `b.y − constSnowballRadius ≤ p.y + H`) and
that distance is at most `constSnowballRadius + constBaseSnowmanSphereRadius`. -/
theorem isSnowballInCollisionStateWithSnowman_iff (snowman : SnowmanInstanceData ℝ)
    (snowball : SnowballInstanceData ℝ) :
    (0 : ℝ) < computeTotalSnowmanHeightForSegmentCount constSnowmanSegments ∧
    snowballDistance realOps snowman snowball =
      Real.sqrt ((snowball.snowballPosition.x - snowman.snowmanPosition.x) ^ 2 +
        (snowball.snowballPosition.z - snowman.snowmanPosition.z) ^ 2) ∧
    (isSnowballInCollisionStateWithSnowman realOps snowman snowball = true ↔
      (snowball.snowballPosition.y + constSnowballRadius ≥ snowman.snowmanPosition.y ∧
        snowball.snowballPosition.y - constSnowballRadius ≤
          snowman.snowmanPosition.y +
            computeTotalSnowmanHeightForSegmentCount constSnowmanSegments) ∧
      Real.sqrt ((snowball.snowballPosition.x - snowman.snowmanPosition.x) ^ 2 +
          (snowball.snowballPosition.z - snowman.snowmanPosition.z) ^ 2)
        ≤ constSnowballRadius + constBaseSnowmanSphereRadius) := by
  refine ⟨computeTotalSnowmanHeight_pos, real_snowballDistance_eq snowman snowball, ?_⟩
  unfold isSnowballInCollisionStateWithSnowman
  rw [real_snowballDistance_eq]
  simp only [ge_iff_le, Bool.and_eq_true, decide_eq_true_eq]
  constructor
  · intro h
    split at h
    · next hband => exact ⟨hband, of_decide_eq_true h⟩
    · cases h
  · rintro ⟨hband, hdist⟩
    rw [if_pos hband]
    exact decide_eq_true hdist

/-! ## The collision pass -/

theorem processSingleSnowballCollisionStep_stable (ops : MathOps R) (snowman : Nat)
    (scene : Scene R) (k : Nat) :
    CollisionPassStable scene (processSingleSnowballCollisionStep ops snowman scene k) := by
  unfold processSingleSnowballCollisionStep
  split
  · dsimp only
    split
    · exact handleSnowmanSnowballCollision_stable scene snowman k
    · split
      · refine ⟨?_, ?_⟩
        · rw [modifySnowball_snowmen]
          exact listRel_refl samePosition_refl _
        · refine modifySnowball_listRel SnowballStable scene k _ snowballStable_refl ?_
          intro _ _
          exact ⟨rfl, rfl, fun _ => rfl⟩
      · exact collisionPassStable_refl scene
  · exact collisionPassStable_refl scene

/-- A snowball at or below ground level is invalidated by the loop body, whether
or not it is in collision state with the snowman. -/
theorem processSingleSnowballCollisionStep_invalidates_ground (ops : MathOps R)
    (snowman : Nat) (scene : Scene R) (k : Nat)
    (snowmanData : SnowmanInstanceData R) (snowballData : SnowballInstanceData R)
    (hsnowman : scene.snowmanInstanceDataCollection[snowman]? = some snowmanData)
    (hsnowball : scene.snowballInstanceDataCollection[k]? = some snowballData)
    (hground : snowballData.snowballPosition.y ≤ 0) :
    ∃ b, (processSingleSnowballCollisionStep ops snowman scene
        k).snowballInstanceDataCollection[k]? = some b ∧
      b.invalidatedByCollision = true := by
  unfold processSingleSnowballCollisionStep
  simp only [hsnowman, hsnowball]
  split
  · exact handleSnowmanSnowballCollision_invalidates scene snowman k _ _ hsnowman hsnowball
  · rw [modifySnowball_getElem?, if_pos rfl, hsnowball]
    exact ⟨_, rfl, rfl⟩

theorem processSingleSnowballCollision_stable (ops : MathOps R) (scene : Scene R)
    (snowman : Nat) :
    CollisionPassStable scene (processSingleSnowballCollision ops scene snowman) := by
  unfold processSingleSnowballCollision
  exact foldl_rel_of_step CollisionPassStable (fun _ => True)
    (processSingleSnowballCollisionStep ops snowman)
    collisionPassStable_refl (fun _ _ _ h₁ h₂ => collisionPassStable_trans h₁ h₂) (fun _ _ _ _ => trivial)
    (fun s x _ => processSingleSnowballCollisionStep_stable ops snowman s x) _ scene trivial

/-- After the snowballs with index below `n` have been tested against a snowman,
those of them that are at or below ground level are invalidated. -/
theorem processSingleSnowballCollision_upTo (ops : MathOps R) (scene : Scene R)
    (snowman : Nat) (snowmanData : SnowmanInstanceData R)
    (hsnowman : scene.snowmanInstanceDataCollection[snowman]? = some snowmanData) (n : Nat) :
    CollisionPassStable scene
        ((List.range n).foldl (processSingleSnowballCollisionStep ops snowman) scene) ∧
    ∀ (k : Nat) (snowballData : SnowballInstanceData R), k < n →
      scene.snowballInstanceDataCollection[k]? = some snowballData →
      snowballData.snowballPosition.y ≤ 0 →
      ∃ b, ((List.range n).foldl (processSingleSnowballCollisionStep ops snowman)
          scene).snowballInstanceDataCollection[k]? = some b ∧
        b.invalidatedByCollision = true := by
  induction n with
  | zero =>
    exact ⟨collisionPassStable_refl scene, fun k _ hk => absurd hk (Nat.not_lt_zero k)⟩
  | succ n ih =>
    rw [List.range_succ, List.foldl_append]
    obtain ⟨hstable, hdone⟩ := ih
    generalize (List.range n).foldl (processSingleSnowballCollisionStep ops snowman) scene = t
      at hstable hdone
    have hstep := processSingleSnowballCollisionStep_stable ops snowman t n
    refine ⟨collisionPassStable_trans hstable hstep, fun k snowballData hk hsnowball hground => ?_⟩
    show ∃ b, (processSingleSnowballCollisionStep ops snowman t
      n).snowballInstanceDataCollection[k]? = some b ∧ _
    rcases Nat.lt_succ_iff_lt_or_eq.1 hk with hlt | heq
    · obtain ⟨b, hb, hflag⟩ := hdone k snowballData hlt hsnowball hground
      obtain ⟨b', hb', hrel⟩ := listRel_exists_of_getElem? hstep.2 hb
      exact ⟨b', hb', hrel.2.2 hflag⟩
    · subst heq
      obtain ⟨bt, hbt, hrel⟩ := listRel_exists_of_getElem? hstable.2 hsnowball
      obtain ⟨at', hat, _⟩ := listRel_exists_of_getElem? hstable.1 hsnowman
      exact processSingleSnowballCollisionStep_invalidates_ground ops snowman t k at' bt hat hbt
        (by rw [hrel.1]; exact hground)

/-- Testing all snowballs against one snowman of the collection invalidates every
snowball that is at or below ground level. -/
theorem processSingleSnowballCollision_invalidates_ground (ops : MathOps R) (scene : Scene R)
    (snowman : Nat) (snowmanData : SnowmanInstanceData R)
    (hsnowman : scene.snowmanInstanceDataCollection[snowman]? = some snowmanData)
    (k : Nat) (snowballData : SnowballInstanceData R)
    (hsnowball : scene.snowballInstanceDataCollection[k]? = some snowballData)
    (hground : snowballData.snowballPosition.y ≤ 0) :
    ∃ b, (processSingleSnowballCollision ops scene
        snowman).snowballInstanceDataCollection[k]? = some b ∧
      b.invalidatedByCollision = true :=
  (processSingleSnowballCollision_upTo ops scene snowman snowmanData hsnowman
    scene.snowballInstanceDataCollection.length).2 k snowballData
    (List.getElem?_eq_some.1 hsnowball).1 hsnowball hground

theorem processAllSnowballCollisions_fold_stable (ops : MathOps R) (indices : List Nat)
    (scene : Scene R) :
    CollisionPassStable scene (indices.foldl (processSingleSnowballCollision ops) scene) :=
  foldl_rel_of_step CollisionPassStable (fun _ => True) (processSingleSnowballCollision ops)
    collisionPassStable_refl (fun _ _ _ h₁ h₂ => collisionPassStable_trans h₁ h₂) (fun _ _ _ _ => trivial)
    (fun s x _ => processSingleSnowballCollision_stable ops s x) indices scene trivial

/-- Claim C10: for a scene with at least one snowman, no snowball whose position
has `y ≤ 0` remains in `snowballInstanceDataCollection` after
`processAllSnowballCollisions`, whether or not it is within collision range of a
snowman. -/
theorem processAllSnowballCollisions_removes_grounded (ops : MathOps R) (scene : Scene R)
    (hsnowmen : 0 < scene.snowmanInstanceDataCollection.length) :
    ∀ snowball ∈ (processAllSnowballCollisions ops scene).snowballInstanceDataCollection,
      ¬ snowball.snowballPosition.y ≤ 0 := by
  intro snowball hmem hground
  unfold processAllSnowballCollisions at hmem
  rw [removeInvalidatedSnowballsFromCollection_snowballs, List.mem_filter] at hmem
  obtain ⟨hmem, hvalid⟩ := hmem
  obtain ⟨m, hm⟩ := Nat.exists_eq_succ_of_ne_zero (Nat.pos_iff_ne_zero.1 hsnowmen)
  rw [hm, List.range_succ_eq_map, List.foldl_cons] at hmem
  have hfirst := processSingleSnowballCollision_stable ops scene 0
  have hrest := processAllSnowballCollisions_fold_stable ops (List.map Nat.succ (List.range m))
    (processSingleSnowballCollision ops scene 0)
  generalize (List.map Nat.succ (List.range m)).foldl (processSingleSnowballCollision ops)
    (processSingleSnowballCollision ops scene 0) = final at hmem hrest
  obtain ⟨k, hk⟩ := List.mem_iff_getElem?.1 hmem
  have hklt : k < scene.snowballInstanceDataCollection.length := by
    rw [← hfirst.2.1, ← hrest.2.1]
    exact (List.getElem?_eq_some.1 hk).1
  have horig := List.getElem?_eq_getElem hklt
  obtain ⟨b₁, hb₁, hrel₁⟩ := listRel_exists_of_getElem? hfirst.2 horig
  have hrel₂ := hrest.2.2 k b₁ snowball hb₁ hk
  have hpos : scene.snowballInstanceDataCollection[k].snowballPosition
      = snowball.snowballPosition := by
    rw [hrel₂.1, hrel₁.1]
  obtain ⟨b₁', hb₁', hflag⟩ := processSingleSnowballCollision_invalidates_ground ops scene 0
    scene.snowmanInstanceDataCollection[0] (List.getElem?_eq_getElem hsnowmen) k _ horig
    (by rw [hpos]; exact hground)
  rw [hb₁] at hb₁'
  cases hb₁'
  have := hrel₂.2.2 hflag
  rw [this] at hvalid
  simp at hvalid

/-! ## The world boundary along a frame step -/

theorem snowmenWithinBoundary_of_samePosition (ops : MathOps R) {s t : Scene R}
    (hrel : ListRel SamePosition s.snowmanInstanceDataCollection t.snowmanInstanceDataCollection)
    (hs : s.snowmenWithinBoundary ops) : t.snowmenWithinBoundary ops := by
  intro b hb
  obtain ⟨j, hj⟩ := List.mem_iff_getElem?.1 hb
  have hjlt : j < s.snowmanInstanceDataCollection.length := by
    rw [← hrel.1]; exact (List.getElem?_eq_some.1 hj).1
  have hpos := hrel.2 j _ b (List.getElem?_eq_getElem hjlt) hj
  rw [show b.snowmanPosition = _ from hpos]
  exact hs _ (List.getElem_mem hjlt)

theorem conditionallyTransitionToThrowingState_samePosition (ops : MathOps R)
    (scene : Scene R) (self : Nat) :
    ListRel SamePosition scene.snowmanInstanceDataCollection
      (conditionallyTransitionToThrowingState ops scene self).snowmanInstanceDataCollection := by
  unfold conditionallyTransitionToThrowingState
  split
  · exact listRel_refl samePosition_refl _
  · split
    · split
      · exact listRel_refl samePosition_refl _
      · refine modifySnowman_listRel SamePosition scene self _ samePosition_refl ?_
        intro _ _; rfl
    · exact listRel_refl samePosition_refl _

theorem updateSnowmanThrowingState_samePosition (ops : MathOps R) (scene : Scene R)
    (rnd : Nat → R) (self : Nat) :
    ListRel SamePosition scene.snowmanInstanceDataCollection
      (updateSnowmanThrowingState ops scene rnd self).1.snowmanInstanceDataCollection := by
  unfold updateSnowmanThrowingState
  split
  · exact listRel_refl samePosition_refl _
  · dsimp only
    split
    · split
      · have h := modifySnowman_listRel SamePosition
          (generateSnowballForSnowman ops scene rnd self).1 self
          (fun snowmanInstanceData =>
            { snowmanInstanceData with snowballThrownDuringThrowState := true })
          samePosition_refl (fun _ _ => rfl)
        rw [generateSnowballForSnowman_snowmen] at h
        exact h
      · exact listRel_refl samePosition_refl _
    · refine modifySnowman_listRel SamePosition scene self _ samePosition_refl ?_
      intro _ _; rfl

/-- A call of `updateSnowmanState` keeps every snowman within the world boundary. -/
theorem updateSnowmanState_withinBoundary (ops : MathOps R) (fuel : Nat) (scene : Scene R)
    (rnd : Nat → R) (self : Nat) (timeQuantum : R) (scene' : Scene R) (rest : Nat → R)
    (hret : updateSnowmanState ops fuel scene rnd self timeQuantum = some (scene', rest))
    (hin : scene.snowmenWithinBoundary ops) : scene'.snowmenWithinBoundary ops := by
  unfold updateSnowmanState at hret
  split at hret
  · cases hret; exact hin
  · next snowman hself =>
    split at hret
    · split at hret
      · simp at hret
      · next moved rnd' hmove =>
        cases hret
        refine snowmenWithinBoundary_of_samePosition ops
          (conditionallyTransitionToThrowingState_samePosition ops _ self) ?_
        intro b hb
        obtain ⟨j, hj⟩ := List.mem_iff_getElem?.1 hb
        rw [modifySnowman_getElem?] at hj
        by_cases hij : self = j
        · subst hij
          rw [if_pos rfl, hself] at hj
          cases hj
          exact (isPositionValidByConstraints_iff ops moved moved.snowmanPosition).1
            (updateSnowmanPosition_valid ops fuel rnd snowman timeQuantum moved _ hmove)
        · rw [if_neg hij] at hj
          exact hin b (List.mem_iff_getElem?.2 ⟨j, hj⟩)
    · have hs : scene' = (updateSnowmanThrowingState ops scene rnd self).1 := by
        simp only [Option.some.injEq] at hret
        rw [hret]
      rw [hs]
      exact snowmenWithinBoundary_of_samePosition ops
        (updateSnowmanThrowingState_samePosition ops scene rnd self) hin
    · cases hret
      refine snowmenWithinBoundary_of_samePosition ops
        (modifySnowman_listRel SamePosition scene self _ samePosition_refl ?_) hin
      intro a _
      unfold updateHitState
      dsimp only
      split <;> rfl
    · cases hret
      refine snowmenWithinBoundary_of_samePosition ops
        (modifySnowman_listRel SamePosition scene self _ samePosition_refl ?_) hin
      intro a _
      unfold updateStunnedState
      dsimp only
      split <;> rfl

theorem updateAllSnowmanStates_withinBoundary (ops : MathOps R) (fuel : Nat) (timeQuantum : R) :
    ∀ (indices : List Nat) (scene : Scene R) (rnd : Nat → R) (scene' : Scene R)
      (rest : Nat → R),
      updateAllSnowmanStates ops fuel timeQuantum indices scene rnd = some (scene', rest) →
      scene.snowmenWithinBoundary ops → scene'.snowmenWithinBoundary ops := by
  intro indices
  induction indices with
  | nil =>
    intro scene rnd scene' rest hret hin
    simp only [updateAllSnowmanStates, Option.some.injEq, Prod.mk.injEq] at hret
    rw [← hret.1]; exact hin
  | cons i indices ih =>
    intro scene rnd scene' rest hret hin
    unfold updateAllSnowmanStates at hret
    split at hret
    · simp at hret
    · next scene₁ rnd₁ hstep =>
      exact ih scene₁ rnd₁ scene' rest hret
        (updateSnowmanState_withinBoundary ops fuel scene rnd i timeQuantum scene₁ rnd₁ hstep hin)

/-- The simulation part of a frame keeps every snowman within the world boundary:
no state update other than `updateSnowmanPosition` moves a snowman. -/
theorem executeStep_withinBoundary (ops : MathOps R) (fuel : Nat) (scene : Scene R)
    (rnd : Nat → R) (timeQuantum : R) (scene' : Scene R) (rest : Nat → R)
    (hret : executeStep ops fuel scene rnd timeQuantum = some (scene', rest))
    (hin : scene.snowmenWithinBoundary ops) : scene'.snowmenWithinBoundary ops := by
  unfold executeStep updateStateInformationForSnowmanCollection at hret
  split at hret
  · simp at hret
  · next scene₂ rnd₂ hsnowmen =>
    split at hsnowmen
    · simp at hsnowmen
    · next scene₁ rnd₁ hall =>
      simp only [Option.some.injEq, Prod.mk.injEq] at hret hsnowmen
      have h₁ := updateAllSnowmanStates_withinBoundary ops fuel timeQuantum _ scene rnd scene₁
        rnd₁ hall hin
      have h₂ : (processAllSnowballCollisions ops scene₁).snowmenWithinBoundary ops := by
        refine snowmenWithinBoundary_of_samePosition ops ?_ h₁
        unfold processAllSnowballCollisions
        rw [removeInvalidatedSnowballsFromCollection_snowmen]
        exact (processAllSnowballCollisions_fold_stable ops _ scene₁).1
      intro b hb
      rw [← hret.1] at hb
      have hb' : b ∈ scene₂.snowmanInstanceDataCollection := hb
      rw [← hsnowmen.1, updateStoredSnowmanHighHitCount_snowmen] at hb'
      exact h₂ b hb'

/-- Over the reals, the position that `generateRandomPosition` gives a new snowman
is within the world boundary, for draws in the unit interval. -/
theorem real_generateRandomPosition_within (u v : ℝ) (hu₀ : 0 ≤ u) (hu₁ : u ≤ 1) :
    (generateRandomPosition realOps u v).distanceFrom realOps constWorldCenterPoint
      ≤ constWorldBoundaryDistanceFromCenter := by
  have hB : (0 : ℝ) ≤ constWorldBoundaryDistanceFromCenter := by
    norm_num [constWorldBoundaryDistanceFromCenter, constWorldScale]
  rw [real_distanceFrom_le_iff _ _ _ hB]
  simp only [generateRandomPosition, rotatePointAroundAxisY, constWorldCenterPoint, realOps]
  generalize (constWorldBoundaryDistanceFromCenter : ℝ) = B at hB ⊢
  generalize v * 2.0 * Real.pi = θ
  have htrig := Real.sin_sq_add_cos_sq θ
  have hsq : (0.0 * Real.cos θ + u * B * Real.sin θ - 0.0) *
        (0.0 * Real.cos θ + u * B * Real.sin θ - 0.0) + (0.0 - 0.0) * (0.0 - 0.0) +
      (u * B * Real.cos θ - 0.0 * Real.sin θ - 0.0) *
        (u * B * Real.cos θ - 0.0 * Real.sin θ - 0.0)
      = (u * B) ^ 2 * (Real.sin θ ^ 2 + Real.cos θ ^ 2) := by
    rw [htrig]
    norm_num
    linear_combination (u ^ 2 * B ^ 2) * htrig
  rw [hsq, htrig, mul_one]
  have huB : u * B ≤ B := by nlinarith
  have huB₀ : 0 ≤ u * B := mul_nonneg hu₀ hB
  nlinarith

/-- In `groundScene` there are snowmen, and the collision pass leaves no snowball
at or below ground level. -/
theorem processAllSnowballCollisions_removes_grounded_witness :
    0 < (groundScene : Scene ℝ).snowmanInstanceDataCollection.length ∧
    ∀ snowball ∈ (processAllSnowballCollisions realOps
        (groundScene : Scene ℝ)).snowballInstanceDataCollection,
      ¬ snowball.snowballPosition.y ≤ 0 :=
  ⟨by decide, processAllSnowballCollisions_removes_grounded realOps groundScene (by decide)⟩

/-- The collision test reads nothing but the two positions. -/
theorem isSnowballInCollisionStateWithSnowman_congr (ops : MathOps R)
    (a a' : SnowmanInstanceData R) (b b' : SnowballInstanceData R)
    (ha : a'.snowmanPosition = a.snowmanPosition)
    (hb : b'.snowballPosition = b.snowballPosition) :
    isSnowballInCollisionStateWithSnowman ops a' b' =
      isSnowballInCollisionStateWithSnowman ops a b := by
  unfold isSnowballInCollisionStateWithSnowman snowballDistance
  rw [ha, hb]

theorem onlyOwnSnowballsOverlap_of_stable (ops : MathOps R) (i : Nat) {s t : Scene R}
    (hown : OnlyOwnSnowballsOverlap ops i s) (hst : CollisionPassStable s t) :
    OnlyOwnSnowballsOverlap ops i t := by
  intro k a' b' ha' hb' hcollide
  have hi : i < s.snowmanInstanceDataCollection.length := by
    rw [← hst.1.1]; exact (List.getElem?_eq_some.1 ha').1
  have hk : k < s.snowballInstanceDataCollection.length := by
    rw [← hst.2.1]; exact (List.getElem?_eq_some.1 hb').1
  have hrela := hst.1.2 i _ a' (List.getElem?_eq_getElem hi) ha'
  have hrelb := hst.2.2 k _ b' (List.getElem?_eq_getElem hk) hb'
  rw [isSnowballInCollisionStateWithSnowman_congr ops _ a' _ b' hrela hrelb.1] at hcollide
  rw [hrelb.2.1]
  exact hown k _ _ (List.getElem?_eq_getElem hi) (List.getElem?_eq_getElem hk) hcollide

/-- The loop body of `processSingleSnowballCollision` does not call the collision
handler for a snowball and its own source: all it may do is invalidate the
snowball when it is at or below ground level. -/
theorem processSingleSnowballCollisionStep_own (ops : MathOps R) (snowman : Nat)
    (scene : Scene R) (k : Nat) (snowmanData : SnowmanInstanceData R)
    (snowballData : SnowballInstanceData R)
    (hsnowman : scene.snowmanInstanceDataCollection[snowman]? = some snowmanData)
    (hsnowball : scene.snowballInstanceDataCollection[k]? = some snowballData)
    (hown : snowballData.sourceSnowmanInstance = some snowman) :
    processSingleSnowballCollisionStep ops snowman scene k =
      if snowballData.snowballPosition.y ≤ 0 then
        scene.modifySnowball k (fun snowballInstanceData =>
          { snowballInstanceData with invalidatedByCollision := true })
      else scene := by
  unfold processSingleSnowballCollisionStep
  simp only [hsnowman, hsnowball, hown, decide_True, Bool.not_true, Bool.false_and,
    Bool.false_eq_true, if_false]

/-- When only its own snowballs overlap the snowman with index `i`, one loop body
of `processSingleSnowballCollision` (for any snowman under test and any snowball)
leaves that snowman as it was, up to its strike count. -/
theorem processSingleSnowballCollisionStep_untouched (ops : MathOps R) (i snowman : Nat)
    (scene : Scene R) (k : Nat) (hown : OnlyOwnSnowballsOverlap ops i scene)
    (a b : SnowmanInstanceData R)
    (ha : scene.snowmanInstanceDataCollection[i]? = some a)
    (hb : (processSingleSnowballCollisionStep ops snowman scene
      k).snowmanInstanceDataCollection[i]? = some b) :
    SameButStrikes a b := by
  unfold processSingleSnowballCollisionStep at hb
  split at hb
  · next snowmanData snowballData hsnowman hsnowball =>
    dsimp only at hb
    split at hb
    · next hguard =>
      by_cases hi : i = snowman
      · subst hi
        rw [Bool.and_eq_true] at hguard
        have hsource := hown k snowmanData snowballData hsnowman hsnowball hguard.2
        rw [hsource] at hguard
        simp at hguard
      · exact (handleSnowmanSnowballCollision_snowmen scene snowman k).2 i a b hi ha hb
    · split at hb
      · rw [modifySnowball_snowmen, ha] at hb
        cases hb
        exact sameButStrikes_refl a
      · rw [ha] at hb
        cases hb
        exact sameButStrikes_refl a
  · rw [ha] at hb
    cases hb
    exact sameButStrikes_refl a

/-- When only its own snowballs overlap the snowman with index `i`, a fold of
steps that each keep the pass stable and the snowman untouched does so too. -/
theorem foldl_untouched (ops : MathOps R) (i : Nat) {α : Type} (f : Scene R → α → Scene R)
    (hstable : ∀ s x, CollisionPassStable s (f s x))
    (hstep : ∀ s x, OnlyOwnSnowballsOverlap ops i s →
      ∀ a b, s.snowmanInstanceDataCollection[i]? = some a →
        (f s x).snowmanInstanceDataCollection[i]? = some b → SameButStrikes a b)
    (xs : List α) (scene : Scene R) (hown : OnlyOwnSnowballsOverlap ops i scene) :
    CollisionPassStable scene (xs.foldl f scene) ∧
    ∀ a b, scene.snowmanInstanceDataCollection[i]? = some a →
      (xs.foldl f scene).snowmanInstanceDataCollection[i]? = some b → SameButStrikes a b := by
  refine foldl_rel_of_step
    (fun s t => CollisionPassStable s t ∧
      ∀ a b, s.snowmanInstanceDataCollection[i]? = some a →
        t.snowmanInstanceDataCollection[i]? = some b → SameButStrikes a b)
    (OnlyOwnSnowballsOverlap ops i) f ?_ ?_ ?_ ?_ xs scene hown
  · intro s
    exact ⟨collisionPassStable_refl s, fun a b ha hb => by
      rw [ha] at hb; cases hb; exact sameButStrikes_refl a⟩
  · intro s t u hst htu
    refine ⟨collisionPassStable_trans hst.1 htu.1, fun a c ha hc => ?_⟩
    obtain ⟨b, hb, _⟩ := listRel_exists_of_getElem? hst.1.1 ha
    exact sameButStrikes_trans (hst.2 a b ha hb) (htu.2 b c hb hc)
  · intro s t hs hst
    exact onlyOwnSnowballsOverlap_of_stable ops i hs hst.1
  · intro s x hs
    exact ⟨hstable s x, hstep s x hs⟩

/-- Claim C7: `processAllSnowballCollisions` never registers a collision between a
snowball and its own source.  The loop body of `processSingleSnowballCollision`,
given a snowball whose source is the snowman under test, does not call
`handleSnowmanSnowballCollision` whatever the geometry (it leaves the scene as
it is, or only invalidates the snowball when it is at or below ground level);
and a snowman that is overlapped by no snowball other than its own comes out of
the whole pass with its state, its `snowmanStrikeReceptionCount` and every other
field but its own strike count unchanged. -/
theorem processAllSnowballCollisions_never_own_source (ops : MathOps R) (scene : Scene R) :
    (∀ (i k : Nat) (snowmanData : SnowmanInstanceData R) (snowballData : SnowballInstanceData R),
      scene.snowmanInstanceDataCollection[i]? = some snowmanData →
      scene.snowballInstanceDataCollection[k]? = some snowballData →
      snowballData.sourceSnowmanInstance = some i →
      processSingleSnowballCollisionStep ops i scene k =
        if snowballData.snowballPosition.y ≤ 0 then
          scene.modifySnowball k (fun snowballInstanceData =>
            { snowballInstanceData with invalidatedByCollision := true })
        else scene) ∧
    (∀ (i : Nat) (before after : SnowmanInstanceData R),
      OnlyOwnSnowballsOverlap ops i scene →
      scene.snowmanInstanceDataCollection[i]? = some before →
      (processAllSnowballCollisions ops scene).snowmanInstanceDataCollection[i]? = some after →
      after.snowmanState = before.snowmanState ∧
        after.snowmanStrikeReceptionCount = before.snowmanStrikeReceptionCount ∧
        SameButStrikes before after) := by
  refine ⟨fun i k snowmanData snowballData hsnowman hsnowball hown =>
    processSingleSnowballCollisionStep_own ops i scene k snowmanData snowballData
      hsnowman hsnowball hown, ?_⟩
  intro i before after hown hbefore hafter
  unfold processAllSnowballCollisions at hafter
  rw [removeInvalidatedSnowballsFromCollection_snowmen] at hafter
  have hpass := (foldl_untouched ops i (processSingleSnowballCollision ops)
    (fun s x => processSingleSnowballCollision_stable ops s x)
    (fun s x hs a b ha hb => by
      unfold processSingleSnowballCollision at hb
      exact (foldl_untouched ops i (processSingleSnowballCollisionStep ops x)
        (fun s' k => processSingleSnowballCollisionStep_stable ops x s' k)
        (fun s' k hs' a' b' ha' hb' =>
          processSingleSnowballCollisionStep_untouched ops i x s' k hs' a' b' ha' hb')
        _ s hs).2 a b ha hb)
    (List.range scene.snowmanInstanceDataCollection.length) scene hown).2 before after
      hbefore hafter
  have hsame : after = { before with snowmanTargetStrikeCount := after.snowmanTargetStrikeCount } :=
    hpass
  refine ⟨?_, ?_, hpass⟩
  · rw [hsame]
  · rw [hsame]

/-- In `ownOverlapScene` the only snowball overlaps the snowman that threw it. -/
theorem ownOverlapScene_overlaps :
    isSnowballInCollisionStateWithSnowman realOps
      { (boundarySnowman : SnowmanInstanceData ℝ) with snowmanPosition := ⟨0, 0, 0⟩ }
      { snowballVelocityVector := ⟨0, 0, 0.001⟩
        snowballPosition := ⟨0, 0.05, 0⟩
        sourceSnowmanInstance := some 0
        invalidatedByCollision := false } = true := by
  unfold isSnowballInCollisionStateWithSnowman
  rw [real_snowballDistance_eq]
  simp only [computeTotalSnowmanHeightForSegmentCount, computeSnowmanHeightForSegmentCount,
    computeGeometricSeriesSum, constSnowmanSegments, constBaseSnowmanSphereRadius,
    constSnowmanUpperSphereReductionFactor, constSnowmanSphereOverlap, constWorldScale,
    constSnowballRadius,
    List.range_succ, List.range_zero, List.nil_append, List.cons_append, List.map_cons,
    List.map_nil, List.sum_cons, List.sum_nil]
  norm_num

theorem ownOverlapScene_onlyOwn :
    OnlyOwnSnowballsOverlap realOps 0 (ownOverlapScene : Scene ℝ) := by
  intro k a b _ hb _
  cases k with
  | zero =>
    simp only [ownOverlapScene, List.getElem?_cons_zero, Option.some.injEq] at hb
    rw [← hb]
  | succ k => simp [ownOverlapScene] at hb

/-- In `ownOverlapScene` the first snowman is overlapped by the snowball it threw
and by no other; after the collision pass it is still traveling and has received
no strike. -/
theorem processAllSnowballCollisions_never_own_source_witness :
    isSnowballInCollisionStateWithSnowman realOps
      { (boundarySnowman : SnowmanInstanceData ℝ) with snowmanPosition := ⟨0, 0, 0⟩ }
      { snowballVelocityVector := ⟨0, 0, 0.001⟩
        snowballPosition := ⟨0, 0.05, 0⟩
        sourceSnowmanInstance := some 0
        invalidatedByCollision := false } = true ∧
    OnlyOwnSnowballsOverlap realOps 0 (ownOverlapScene : Scene ℝ) ∧
    ∀ after : SnowmanInstanceData ℝ,
      (processAllSnowballCollisions realOps
        (ownOverlapScene : Scene ℝ)).snowmanInstanceDataCollection[0]? = some after →
      after.snowmanState = SnowmanState.Traveling ∧ after.snowmanStrikeReceptionCount = 0 :=
  ⟨ownOverlapScene_overlaps, ownOverlapScene_onlyOwn, fun after hafter =>
    let h := (processAllSnowballCollisions_never_own_source realOps ownOverlapScene).2 0
      { (boundarySnowman : SnowmanInstanceData ℝ) with snowmanPosition := ⟨0, 0, 0⟩ } after
      ownOverlapScene_onlyOwn rfl hafter
    ⟨h.1, h.2.1⟩⟩

theorem realOps_sin_zero : realOps.sin 0 = 0 := Real.sin_zero

theorem realOps_cos_zero : realOps.cos 0 = 1 := Real.cos_zero

/-- A snowman on the boundary heading outwards: the first candidate is rejected,
the heading is reversed (the draw `1/2` gives a zero perturbation) and the second
candidate, inside the boundary, is taken. -/
theorem updateSnowmanPosition_within_boundary_witness :
    updateSnowmanPosition realOps 2 (fun _ => 1 / 2) (boundarySnowman : SnowmanInstanceData ℝ) 16
        = some ({ (boundarySnowman : SnowmanInstanceData ℝ) with
                  snowmanPosition := ⟨0, 0, 0.4784⟩
                  snowmanDirectionNormalVector := ⟨0, 0, -1⟩ }, fun _ => 1 / 2) ∧
      Point3d.distanceFrom realOps (⟨0, 0, 0.4784⟩ : Point3d ℝ) constWorldCenterPoint
        ≤ constWorldBoundaryDistanceFromCenter := by
  have hrun : updateSnowmanPosition realOps 2 (fun _ => 1 / 2)
      (boundarySnowman : SnowmanInstanceData ℝ) 16
        = some ({ (boundarySnowman : SnowmanInstanceData ℝ) with
                  snowmanPosition := ⟨0, 0, 0.4784⟩
                  snowmanDirectionNormalVector := ⟨0, 0, -1⟩ }, fun _ => 1 / 2) := by
    have hpi : (0 : ℝ) ≤ Real.pi := Real.pi_pos.le
    have hrot : getRandomValueInRange (-constReversedVectorRandomAdjustmentMaxDegRad realOps)
        (constReversedVectorRandomAdjustmentMaxDegRad realOps) (1 / 2 : ℝ) = 0 := by
      have h1 : -(Real.pi / 4.0) ≤ Real.pi / 4.0 := by linarith
      simp only [getRandomValueInRange, constReversedVectorRandomAdjustmentMaxDegRad, realOps,
        min_eq_left h1, max_eq_right h1]
      ring
    simp only [updateSnowmanPosition, updateSnowmanPositionLoop]
    rw [hrot]
    simp [real_isPositionValidByConstraints_iff, computeNewSnowmanPosition, boundarySnowman,
      GenerateVector3dFromPoint3d, GeneratePoint3dFromVector3d, Vector3d.addVector,
      Vector3d.subtractVector, Vector3d.multiplyByScalar, constWorldCenterPoint,
      adjustVectorByDegreesRadInXyPlane, rotatePointAroundAxisY, realOps_sin_zero,
      realOps_cos_zero]
    norm_num
  exact ⟨hrun, updateSnowmanPosition_within_boundary _ _ _ _ _ _ _ hrun⟩

/-! ## Snowball launch -/

/-- The vertical velocity given to a new snowball is half the value of
`snowballTravelTime` times the gravitational acceleration. -/
theorem initializeSnowballState_verticalVelocity (ops : MathOps R) (source : Nat)
    (thrower target : SnowmanInstanceData R) (u : R) :
    (initializeSnowballState ops source thrower target u).snowballVelocityVector.yComponent =
      (snowballTravelTime ops thrower target u / 2.0) * gravitationalAccelerationFtPerMsSq := by
  simp [initializeSnowballState, snowballTravelTime, snowballVelocityXyPlane,
    Vector3d.addVector, Vector3d.multiplyByScalar, Vector3d.normalize, Vector3d.subtractVector,
    GenerateVector3dFromPoint3d]

/-- The launch altitude of a snowball, the height of a two-segment snowman. -/
theorem computeSnowballInitialPositionHeight_eq :
    (computeSnowballInitialPositionHeight : R) = 0.08664 := by
  simp only [computeSnowballInitialPositionHeight, computeSnowmanHeightForSegmentCount,
    computeGeometricSeriesSum, constSnowmanSegments, constBaseSnowmanSphereRadius,
    constSnowmanUpperSphereReductionFactor, constSnowmanSphereOverlap, constWorldScale,
    List.range_succ, List.range_zero, List.nil_append, List.cons_append, List.map_cons,
    List.map_nil, List.sum_cons, List.sum_nil]
  norm_num

/-- The planar speed drawn for the snowman `boundarySnowman` with the draw `0`. -/
theorem snowballVelocityXyPlane_boundarySnowman (p : Point3d ℝ) :
    snowballVelocityXyPlane
      { (boundarySnowman : SnowmanInstanceData ℝ) with snowmanPosition := p } 0 = 0.001275 := by
  simp only [snowballVelocityXyPlane, getRandomValueInRange, boundarySnowman,
    constSnowmanThrowVelocityVariance, constMinSnowballVelocity, constMaxSnowballVelocity,
    constWorldScale]
  norm_num

/-- Claim C11: evaluation at the failing input.  The thrower stands at the
world centre, the target at horizontal distance `0.3`, the planar speed is
`0.001275`, so the flight time of the claim is `T = 0.3 / 0.001275`.  The vertical
velocity that `initializeSnowballState` gives the snowball is strictly greater
than `g × (T / 2)`, and after an update by `T / 2` the vertical velocity is still
positive instead of zero: the code divides the distance from the target's ground
position to the launch point, which includes the launch height, by the planar
speed. -/
theorem initializeSnowballState_apex_after_half_flight :
    snowballVelocityXyPlane
        { (boundarySnowman : SnowmanInstanceData ℝ) with snowmanPosition := ⟨0, 0, 0⟩ } 0
      = 0.001275 ∧
    Real.sqrt (((0 : ℝ) - 0) ^ 2 + (0.3 - 0) ^ 2) = 0.3 ∧
    (initializeSnowballState realOps 0
        { (boundarySnowman : SnowmanInstanceData ℝ) with snowmanPosition := ⟨0, 0, 0⟩ }
        { (boundarySnowman : SnowmanInstanceData ℝ) with snowmanPosition := ⟨0, 0, 0.3⟩ }
        0).snowballVelocityVector.yComponent
      > gravitationalAccelerationFtPerMsSq * ((0.3 / 0.001275) / 2) ∧
    (updateSnowballState
        (initializeSnowballState realOps 0
          { (boundarySnowman : SnowmanInstanceData ℝ) with snowmanPosition := ⟨0, 0, 0⟩ }
          { (boundarySnowman : SnowmanInstanceData ℝ) with snowmanPosition := ⟨0, 0, 0.3⟩ }
          0)
        ((0.3 / 0.001275) / 2)).snowballVelocityVector.yComponent > 0 := by
  have hv := snowballVelocityXyPlane_boundarySnowman ⟨0, 0, 0⟩
  have hd : Real.sqrt (((0 : ℝ) - 0) ^ 2 + (0.3 - 0) ^ 2) = 0.3 := by
    rw [show ((0 : ℝ) - 0) ^ 2 + (0.3 - 0) ^ 2 = 0.3 ^ 2 by norm_num]
    exact Real.sqrt_sq (by norm_num)
  have hslant : (0.3 : ℝ) < Real.sqrt ((0 - 0) * (0 - 0)
      + (0 - computeSnowballInitialPositionHeight) * (0 - computeSnowballInitialPositionHeight)
      + (0.3 - 0) * (0.3 - 0)) := by
    rw [Real.lt_sqrt (by norm_num), computeSnowballInitialPositionHeight_eq]
    norm_num
  have hvy : (initializeSnowballState realOps 0
        { (boundarySnowman : SnowmanInstanceData ℝ) with snowmanPosition := ⟨0, 0, 0⟩ }
        { (boundarySnowman : SnowmanInstanceData ℝ) with snowmanPosition := ⟨0, 0, 0.3⟩ }
        0).snowballVelocityVector.yComponent
      > gravitationalAccelerationFtPerMsSq * ((0.3 / 0.001275) / 2) := by
    rw [initializeSnowballState_verticalVelocity]
    unfold snowballTravelTime
    rw [hv]
    simp only [Point3d.distanceFrom, realOps, boundarySnowman]
    have hg : (0 : ℝ) < gravitationalAccelerationFtPerMsSq := by
      norm_num [gravitationalAccelerationFtPerMsSq, constWorldScale]
    generalize Real.sqrt ((0 - 0) * (0 - 0)
      + (0 - computeSnowballInitialPositionHeight) * (0 - computeSnowballInitialPositionHeight)
      + (0.3 - 0) * (0.3 - 0)) = D at hslant
    generalize (gravitationalAccelerationFtPerMsSq : ℝ) = g at hg
    have h1 : (0.3 : ℝ) / 0.001275 / 2 < D / 0.001275 / 2.0 := by
      norm_num
      linarith
    calc g * (0.3 / 0.001275 / 2) < g * (D / 0.001275 / 2.0) :=
          mul_lt_mul_of_pos_left h1 hg
      _ = D / 0.001275 / 2.0 * g := mul_comm _ _
  refine ⟨hv, hd, hvy, ?_⟩
  have hstep : (updateSnowballState
        (initializeSnowballState realOps 0
          { (boundarySnowman : SnowmanInstanceData ℝ) with snowmanPosition := ⟨0, 0, 0⟩ }
          { (boundarySnowman : SnowmanInstanceData ℝ) with snowmanPosition := ⟨0, 0, 0.3⟩ }
          0)
        ((0.3 / 0.001275) / 2)).snowballVelocityVector.yComponent
      = (initializeSnowballState realOps 0
        { (boundarySnowman : SnowmanInstanceData ℝ) with snowmanPosition := ⟨0, 0, 0⟩ }
        { (boundarySnowman : SnowmanInstanceData ℝ) with snowmanPosition := ⟨0, 0, 0.3⟩ }
        0).snowballVelocityVector.yComponent
        + -gravitationalAccelerationFtPerMsSq * ((0.3 / 0.001275) / 2) := rfl
  rw [hstep]
  linarith

/-- The planar speed lies between the two bounds computed in
`initializeSnowballState`, whenever the lower bound does not exceed the upper one
and the draw is in the unit interval. -/
theorem getRandomValueInRange_mem {lo hi u : R} (h : lo ≤ hi) (hu₀ : 0 ≤ u) (hu₁ : u ≤ 1) :
    lo ≤ getRandomValueInRange lo hi u ∧ getRandomValueInRange lo hi u ≤ hi := by
  unfold getRandomValueInRange
  simp only [min_eq_left h, max_eq_right h]
  have hd : 0 ≤ hi - lo := sub_nonneg.2 h
  constructor
  · nlinarith [mul_nonneg hd hu₀]
  · nlinarith [mul_nonneg hd (sub_nonneg.2 hu₁)]

/-- Claim C12: for a thrower whose mean throw velocity `m` lies between
`constMinSnowballVelocity` and `constMaxSnowballVelocity` and a draw in `[0, 1)`,
the planar speed chosen by `initializeSnowballState` lies in
`[max(0.85·m, constMinSnowballVelocity), min(1.15·m, constMaxSnowballVelocity)]`,
a non-empty range contained in the global velocity range; and over the reals the
horizontal `(x, z)` part of the velocity of the new snowball has exactly that
magnitude when thrower and target are at different horizontal positions. -/
theorem initializeSnowballState_planar_speed (source : Nat)
    (thrower target : SnowmanInstanceData ℝ) (u : ℝ)
    (hmin : constMinSnowballVelocity ≤ thrower.snowmanMeanSnowballThrowVelocity)
    (hmax : thrower.snowmanMeanSnowballThrowVelocity ≤ constMaxSnowballVelocity)
    (hu₀ : 0 ≤ u) (hu₁ : u < 1) :
    max (0.85 * thrower.snowmanMeanSnowballThrowVelocity) constMinSnowballVelocity
        ≤ snowballVelocityXyPlane thrower u ∧
    snowballVelocityXyPlane thrower u
        ≤ min (1.15 * thrower.snowmanMeanSnowballThrowVelocity) constMaxSnowballVelocity ∧
    max (0.85 * thrower.snowmanMeanSnowballThrowVelocity) constMinSnowballVelocity
        ≤ min (1.15 * thrower.snowmanMeanSnowballThrowVelocity) constMaxSnowballVelocity ∧
    constMinSnowballVelocity
        ≤ max (0.85 * thrower.snowmanMeanSnowballThrowVelocity) constMinSnowballVelocity ∧
    min (1.15 * thrower.snowmanMeanSnowballThrowVelocity) constMaxSnowballVelocity
        ≤ constMaxSnowballVelocity ∧
    ((thrower.snowmanPosition.x ≠ target.snowmanPosition.x ∨
        thrower.snowmanPosition.z ≠ target.snowmanPosition.z) →
      Real.sqrt
          ((initializeSnowballState realOps source thrower target
              u).snowballVelocityVector.xComponent ^ 2 +
            (initializeSnowballState realOps source thrower target
              u).snowballVelocityVector.zComponent ^ 2)
        = snowballVelocityXyPlane thrower u) := by
  have hcmin : (0 : ℝ) < constMinSnowballVelocity := by
    norm_num [constMinSnowballVelocity, constWorldScale]
  have hcle : (constMinSnowballVelocity : ℝ) ≤ constMaxSnowballVelocity := le_trans hmin hmax
  have hm : 0 < thrower.snowmanMeanSnowballThrowVelocity := lt_of_lt_of_le hcmin hmin
  have hrange : max (0.85 * thrower.snowmanMeanSnowballThrowVelocity) constMinSnowballVelocity
      ≤ min (1.15 * thrower.snowmanMeanSnowballThrowVelocity) constMaxSnowballVelocity := by
    refine max_le (le_min ?_ ?_) (le_min ?_ hcle) <;> nlinarith
  have hdef : snowballVelocityXyPlane thrower u =
      getRandomValueInRange
        (max (0.85 * thrower.snowmanMeanSnowballThrowVelocity) constMinSnowballVelocity)
        (min (1.15 * thrower.snowmanMeanSnowballThrowVelocity) constMaxSnowballVelocity) u := by
    unfold snowballVelocityXyPlane constSnowmanThrowVelocityVariance
    norm_num
  have hmem := getRandomValueInRange_mem hrange hu₀ hu₁.le
  rw [← hdef] at hmem
  refine ⟨hmem.1, hmem.2, hrange, le_max_right _ _, min_le_right _ _, fun hdiff => ?_⟩
  have hv : 0 < snowballVelocityXyPlane thrower u :=
    lt_of_lt_of_le hcmin (le_trans (le_max_right _ _) hmem.1)
  generalize hvdef : snowballVelocityXyPlane thrower u = v at hv
  have hvel : (initializeSnowballState realOps source thrower target u).snowballVelocityVector
      = ((((⟨target.snowmanPosition.x, computeSnowballInitialPositionHeight,
              target.snowmanPosition.z⟩ : Vector3d ℝ).subtractVector
            ⟨thrower.snowmanPosition.x, computeSnowballInitialPositionHeight,
              thrower.snowmanPosition.z⟩).normalize realOps).multiplyByScalar v).addVector
          ⟨0.0, (snowballTravelTime realOps thrower target u / 2.0)
            * gravitationalAccelerationFtPerMsSq, 0.0⟩ := by
    rw [← hvdef]; rfl
  rw [hvel]
  simp only [Vector3d.addVector, Vector3d.multiplyByScalar, Vector3d.normalize,
    Vector3d.subtractVector, Vector3d.magnitude, realOps, sub_self, mul_zero, add_zero]
  set dx := target.snowmanPosition.x - thrower.snowmanPosition.x with hdx
  set dz := target.snowmanPosition.z - thrower.snowmanPosition.z with hdz
  have hpos : 0 < dx * dx + dz * dz := by
    rcases hdiff with h | h
    · have : dx ≠ 0 := sub_ne_zero.2 (Ne.symm h)
      nlinarith [mul_self_pos.2 this, mul_self_nonneg dz]
    · have : dz ≠ 0 := sub_ne_zero.2 (Ne.symm h)
      nlinarith [mul_self_pos.2 this, mul_self_nonneg dx]
  have hn : 0 < Real.sqrt (dx * dx + dz * dz) := Real.sqrt_pos.2 hpos
  have hnn : Real.sqrt (dx * dx + dz * dz) * Real.sqrt (dx * dx + dz * dz) = dx * dx + dz * dz :=
    Real.mul_self_sqrt hpos.le
  generalize Real.sqrt (dx * dx + dz * dz) = n at hn hnn
  have hsq : (dx / n * v + 0.0) ^ 2 + (dz / n * v + 0.0) ^ 2 = v ^ 2 := by
    have hne : n ≠ 0 := hn.ne'
    field_simp
    norm_num
    nlinarith
  rw [hsq]
  exact Real.sqrt_sq hv.le

/-- The thrower `boundarySnowman` (mean throw velocity `0.0015`) at the world
centre, a target at `(0, 0, 0.3)` and the draw `0`. -/
theorem initializeSnowballState_planar_speed_witness :
    (constMinSnowballVelocity : ℝ) ≤ 0.0015 ∧ (0.0015 : ℝ) ≤ constMaxSnowballVelocity ∧
    Real.sqrt
        ((initializeSnowballState realOps 0
            { (boundarySnowman : SnowmanInstanceData ℝ) with snowmanPosition := ⟨0, 0, 0⟩ }
            { (boundarySnowman : SnowmanInstanceData ℝ) with snowmanPosition := ⟨0, 0, 0.3⟩ }
            0).snowballVelocityVector.xComponent ^ 2 +
          (initializeSnowballState realOps 0
            { (boundarySnowman : SnowmanInstanceData ℝ) with snowmanPosition := ⟨0, 0, 0⟩ }
            { (boundarySnowman : SnowmanInstanceData ℝ) with snowmanPosition := ⟨0, 0, 0.3⟩ }
            0).snowballVelocityVector.zComponent ^ 2)
      = snowballVelocityXyPlane
          { (boundarySnowman : SnowmanInstanceData ℝ) with snowmanPosition := ⟨0, 0, 0⟩ } 0 := by
  have h₁ : (constMinSnowballVelocity : ℝ) ≤ 0.0015 := by
    norm_num [constMinSnowballVelocity, constWorldScale]
  have h₂ : (0.0015 : ℝ) ≤ constMaxSnowballVelocity := by
    norm_num [constMaxSnowballVelocity, constWorldScale]
  exact ⟨h₁, h₂,
    (initializeSnowballState_planar_speed 0
      { (boundarySnowman : SnowmanInstanceData ℝ) with snowmanPosition := ⟨0, 0, 0⟩ }
      { (boundarySnowman : SnowmanInstanceData ℝ) with snowmanPosition := ⟨0, 0, 0.3⟩ }
      0 h₁ h₂ le_rfl (by norm_num)).2.2.2.2.2 (Or.inr (by norm_num))⟩

/-! ## Throwing episodes -/

/-- A call of `updateSnowmanThrowingState` inside the launch window, for a snowman
that has not thrown yet: the snowball built by `initializeSnowballState` for the
latched target is appended, and the snowman is marked as having thrown. -/
theorem updateSnowmanThrowingState_launch (ops : MathOps R) (scene : Scene R)
    (rnd : Nat → R) (self target : Nat) (a b : SnowmanInstanceData R)
    (ha : scene.snowmanInstanceDataCollection[self]? = some a)
    (hb : scene.snowmanInstanceDataCollection[target]? = some b)
    (htarget : a.currentTargetSnowman = some target) (hne : target ≠ self)
    (hthrown : a.snowballThrownDuringThrowState = false)
    (hin : scene.totalElapsedSceneTimeMs - a.lastSnowballThrowTime
      ≤ constSnowmanThrowingStateDuration)
    (hfrac : (scene.totalElapsedSceneTimeMs - a.lastSnowballThrowTime)
      / constSnowmanThrowingStateDuration ≥ constThrowStateProjectileLaunchStartFraction) :
    (updateSnowmanThrowingState ops scene rnd self).1.snowballInstanceDataCollection
        = scene.snowballInstanceDataCollection ++ [initializeSnowballState ops self a b (rnd 0)] ∧
      (updateSnowmanThrowingState ops scene rnd self).1.snowmanInstanceDataCollection[self]?
        = some { a with snowballThrownDuringThrowState := true } := by
  have hgen : generateSnowballForSnowman ops scene rnd self
      = ({ scene with
           snowballInstanceDataCollection := scene.snowballInstanceDataCollection ++
             [initializeSnowballState ops self a b (rnd 0)] },
         fun n => rnd (n + 1)) := by
    unfold generateSnowballForSnowman
    simp only [ha, htarget, if_pos hne]
    unfold generateSnowballInstanceData
    simp only [ha, hb]
  unfold updateSnowmanThrowingState
  simp only [ha]
  rw [if_pos hin, if_pos ⟨hfrac, hthrown⟩, hgen]
  constructor
  · rw [modifySnowman_snowballs]
  · rw [modifySnowman_getElem?, if_pos rfl]
    simp only [ha, Option.map_some']

/-- A call of `updateSnowmanThrowingState` within the throwing duration, but before
the launch window or after the snowball was thrown, changes nothing. -/
theorem updateSnowmanThrowingState_idle (ops : MathOps R) (scene : Scene R)
    (rnd : Nat → R) (self : Nat) (a : SnowmanInstanceData R)
    (ha : scene.snowmanInstanceDataCollection[self]? = some a)
    (hin : scene.totalElapsedSceneTimeMs - a.lastSnowballThrowTime
      ≤ constSnowmanThrowingStateDuration)
    (hno : ¬ ((scene.totalElapsedSceneTimeMs - a.lastSnowballThrowTime)
        / constSnowmanThrowingStateDuration ≥ constThrowStateProjectileLaunchStartFraction ∧
      a.snowballThrownDuringThrowState = false)) :
    updateSnowmanThrowingState ops scene rnd self = (scene, rnd) := by
  unfold updateSnowmanThrowingState
  simp only [ha]
  rw [if_pos hin, if_neg hno]

/-- A call of `updateSnowmanThrowingState` after the throwing duration resets the
snowman and adds no snowball. -/
theorem updateSnowmanThrowingState_expire (ops : MathOps R) (scene : Scene R)
    (rnd : Nat → R) (self : Nat) (a : SnowmanInstanceData R)
    (ha : scene.snowmanInstanceDataCollection[self]? = some a)
    (hout : ¬ scene.totalElapsedSceneTimeMs - a.lastSnowballThrowTime
      ≤ constSnowmanThrowingStateDuration) :
    (updateSnowmanThrowingState ops scene rnd self).1.snowballInstanceDataCollection
        = scene.snowballInstanceDataCollection ∧
      (updateSnowmanThrowingState ops scene rnd self).1.snowmanInstanceDataCollection[self]?
        = some (resetSnowmanState scene a) := by
  unfold updateSnowmanThrowingState
  simp only [ha]
  rw [if_neg hout]
  constructor
  · rw [modifySnowman_snowballs]
  · rw [modifySnowman_getElem?, if_pos rfl]
    simp only [ha, Option.map_some']

/-- One frame of a throwing episode in which the snowman is present and throwing. -/
theorem throwingEpisode_cons_throwing (ops : MathOps R) (self : Nat) (timeQuantum : R)
    (restOfFrame : Scene R → Scene R) (frames : List (R × (Scene R → Scene R)))
    (scene : Scene R) (rnd : Nat → R) (b : SnowmanInstanceData R)
    (hb : (restOfFrame { scene with
        totalElapsedSceneTimeMs := scene.totalElapsedSceneTimeMs + timeQuantum
      }).snowmanInstanceDataCollection[self]? = some b)
    (hstate : b.snowmanState = SnowmanState.Throwing) :
    throwingEpisode ops self ((timeQuantum, restOfFrame) :: frames) scene rnd =
      ((updateSnowmanThrowingState ops (restOfFrame { scene with
            totalElapsedSceneTimeMs := scene.totalElapsedSceneTimeMs + timeQuantum })
          rnd self).1.snowballInstanceDataCollection.drop
          (restOfFrame { scene with
            totalElapsedSceneTimeMs := scene.totalElapsedSceneTimeMs + timeQuantum
          }).snowballInstanceDataCollection.length ++
        (throwingEpisode ops self frames
          (updateSnowmanThrowingState ops (restOfFrame { scene with
            totalElapsedSceneTimeMs := scene.totalElapsedSceneTimeMs + timeQuantum })
            rnd self).1
          (updateSnowmanThrowingState ops (restOfFrame { scene with
            totalElapsedSceneTimeMs := scene.totalElapsedSceneTimeMs + timeQuantum })
            rnd self).2).1,
       (throwingEpisode ops self frames
          (updateSnowmanThrowingState ops (restOfFrame { scene with
            totalElapsedSceneTimeMs := scene.totalElapsedSceneTimeMs + timeQuantum })
            rnd self).1
          (updateSnowmanThrowingState ops (restOfFrame { scene with
            totalElapsedSceneTimeMs := scene.totalElapsedSceneTimeMs + timeQuantum })
            rnd self).2).2) := by
  rw [throwingEpisode]
  simp only [hb, hstate, if_true]

/-- One frame of a throwing episode in which the snowman is no longer throwing:
the episode is over. -/
theorem throwingEpisode_cons_over (ops : MathOps R) (self : Nat) (timeQuantum : R)
    (restOfFrame : Scene R → Scene R) (frames : List (R × (Scene R → Scene R)))
    (scene : Scene R) (rnd : Nat → R) (b : SnowmanInstanceData R)
    (hb : (restOfFrame { scene with
        totalElapsedSceneTimeMs := scene.totalElapsedSceneTimeMs + timeQuantum
      }).snowmanInstanceDataCollection[self]? = some b)
    (hstate : b.snowmanState ≠ SnowmanState.Throwing) :
    (throwingEpisode ops self ((timeQuantum, restOfFrame) :: frames) scene rnd).1 = [] := by
  rw [throwingEpisode]
  simp only [hb, hstate, if_false]

/-- Once the snowman has thrown, or is no longer throwing, the rest of the episode
adds no snowball. -/
theorem throwingEpisode_done (ops : MathOps R) (self : Nat) :
    ∀ (frames : List (R × (Scene R → Scene R))),
      (∀ frame ∈ frames, FrameKeepsThrower self frame.2) →
      ∀ (scene : Scene R) (rnd : Nat → R) (a : SnowmanInstanceData R),
        scene.snowmanInstanceDataCollection[self]? = some a →
        (a.snowmanState ≠ SnowmanState.Throwing ∨ a.snowballThrownDuringThrowState = true) →
        (throwingEpisode ops self frames scene rnd).1 = [] := by
  intro frames
  induction frames with
  | nil => intro _ scene rnd a _ _; rfl
  | cons frame frames ih =>
    obtain ⟨timeQuantum, restOfFrame⟩ := frame
    intro hkeep scene rnd a ha hdone
    have hrest : FrameKeepsThrower self restOfFrame := hkeep _ (List.mem_cons_self _ _)
    have hkeep' : ∀ frame ∈ frames, FrameKeepsThrower self frame.2 :=
      fun f hf => hkeep f (List.mem_cons_of_mem _ hf)
    obtain ⟨_, _, hb⟩ := hrest
      { scene with totalElapsedSceneTimeMs := scene.totalElapsedSceneTimeMs + timeQuantum }
    obtain ⟨b, hb, hstate, _, hthrown, _⟩ := hb a ha
    by_cases hthrowing : b.snowmanState = SnowmanState.Throwing
    · have hbt : b.snowballThrownDuringThrowState = true := by
        rcases hdone with h | h
        · exact absurd (hstate ▸ hthrowing) h
        · rw [hthrown, h]
      rw [throwingEpisode_cons_throwing ops self timeQuantum restOfFrame frames scene rnd b hb
        hthrowing]
      by_cases hin : (restOfFrame { scene with
          totalElapsedSceneTimeMs := scene.totalElapsedSceneTimeMs + timeQuantum
        }).totalElapsedSceneTimeMs - b.lastSnowballThrowTime ≤ constSnowmanThrowingStateDuration
      · rw [updateSnowmanThrowingState_idle ops _ rnd self b hb hin
          (fun h => by rw [hbt] at h; exact Bool.noConfusion h.2)]
        simp only [List.drop_length, List.nil_append]
        exact ih hkeep' _ _ b hb (Or.inr hbt)
      · obtain ⟨hballs, hself⟩ := updateSnowmanThrowingState_expire ops _ rnd self b hb hin
        rw [hballs]
        simp only [List.drop_length, List.nil_append]
        exact ih hkeep' _ _ _ hself (Or.inl (by simp [resetSnowmanState]))
    · exact throwingEpisode_cons_over ops self timeQuantum restOfFrame frames scene rnd b hb
        hthrowing

/-- The snowballs launched during a throwing episode of a snowman that has latched
the target `target` and has not thrown yet: at most one, built by
`initializeSnowballState` for the thrower and the latched target, and exactly one
precisely when the launch frame comes in time. -/
theorem throwingEpisode_launches (ops : MathOps R) (self target : Nat) (hne : target ≠ self) :
    ∀ (frames : List (R × (Scene R → Scene R))),
      (∀ frame ∈ frames, FrameKeepsThrower self frame.2) →
      ∀ (scene : Scene R) (rnd : Nat → R) (a : SnowmanInstanceData R),
        scene.snowmanInstanceDataCollection[self]? = some a →
        a.snowmanState = SnowmanState.Throwing →
        a.snowballThrownDuringThrowState = false →
        a.currentTargetSnowman = some target →
        target < scene.snowmanInstanceDataCollection.length →
        (throwingEpisode ops self frames scene rnd).1.length ≤ 1 ∧
        (∀ ball ∈ (throwingEpisode ops self frames scene rnd).1,
          ball.sourceSnowmanInstance = some self ∧
          ∃ (before : List (R × (Scene R → Scene R))) (timeQuantum : R)
              (restOfFrame : Scene R → Scene R) (after : List (R × (Scene R → Scene R)))
              (launcher targetData : SnowmanInstanceData R),
            frames = before ++ (timeQuantum, restOfFrame) :: after ∧
            (throwingEpisode ops self before scene rnd).1 = [] ∧
            (restOfFrame { (throwingEpisode ops self before scene rnd).2 with
                totalElapsedSceneTimeMs :=
                  (throwingEpisode ops self before scene rnd).2.totalElapsedSceneTimeMs
                    + timeQuantum }).snowmanInstanceDataCollection[self]? = some launcher ∧
            launcher.snowmanState = SnowmanState.Throwing ∧
            launcher.currentTargetSnowman = some target ∧
            (restOfFrame { (throwingEpisode ops self before scene rnd).2 with
                totalElapsedSceneTimeMs :=
                  (throwingEpisode ops self before scene rnd).2.totalElapsedSceneTimeMs
                    + timeQuantum }).snowmanInstanceDataCollection[target]? = some targetData ∧
            ball = initializeSnowballState ops self launcher targetData (rnd 0)) ∧
        ((throwingEpisode ops self frames scene rnd).1.length = 1 ↔
          launchFrameInTime (scene.totalElapsedSceneTimeMs - a.lastSnowballThrowTime)
            (frames.map Prod.fst)) := by
  intro frames
  induction frames with
  | nil =>
    intro _ scene rnd a _ _ _ _ _
    simp [throwingEpisode, launchFrameInTime]
  | cons frame frames ih =>
    obtain ⟨timeQuantum, restOfFrame⟩ := frame
    intro hkeep scene rnd a ha hthrowing hthrown htarget hlt
    have hrest : FrameKeepsThrower self restOfFrame := hkeep _ (List.mem_cons_self _ _)
    have hkeep' : ∀ frame ∈ frames, FrameKeepsThrower self frame.2 :=
      fun f hf => hkeep f (List.mem_cons_of_mem _ hf)
    obtain ⟨hclock, hlen, hb⟩ := hrest
      { scene with totalElapsedSceneTimeMs := scene.totalElapsedSceneTimeMs + timeQuantum }
    obtain ⟨b, hb, hstate, hlast, hbthrown, hbtarget⟩ := hb a ha
    rw [hthrowing] at hstate
    rw [hthrown] at hbthrown
    rw [htarget] at hbtarget
    have helapsed : (restOfFrame { scene with
          totalElapsedSceneTimeMs := scene.totalElapsedSceneTimeMs + timeQuantum
        }).totalElapsedSceneTimeMs - b.lastSnowballThrowTime
        = scene.totalElapsedSceneTimeMs - a.lastSnowballThrowTime + timeQuantum := by
      rw [hclock, hlast]; ring
    have hlt' : target < (restOfFrame { scene with
          totalElapsedSceneTimeMs := scene.totalElapsedSceneTimeMs + timeQuantum
        }).snowmanInstanceDataCollection.length := by
      rw [hlen]; exact hlt
    rw [throwingEpisode_cons_throwing ops self timeQuantum restOfFrame frames scene rnd b hb
      hstate]
    simp only [List.map_cons, launchFrameInTime]
    rw [← helapsed]
    by_cases hin : (restOfFrame { scene with
        totalElapsedSceneTimeMs := scene.totalElapsedSceneTimeMs + timeQuantum
      }).totalElapsedSceneTimeMs - b.lastSnowballThrowTime ≤ constSnowmanThrowingStateDuration
    · by_cases hfrac : ((restOfFrame { scene with
          totalElapsedSceneTimeMs := scene.totalElapsedSceneTimeMs + timeQuantum
        }).totalElapsedSceneTimeMs - b.lastSnowballThrowTime)
          / constSnowmanThrowingStateDuration ≥ constThrowStateProjectileLaunchStartFraction
      · obtain ⟨targetData, htd⟩ : ∃ targetData, (restOfFrame { scene with
            totalElapsedSceneTimeMs := scene.totalElapsedSceneTimeMs + timeQuantum
          }).snowmanInstanceDataCollection[target]? = some targetData :=
          ⟨_, List.getElem?_eq_getElem hlt'⟩
        obtain ⟨hballs, hself⟩ := updateSnowmanThrowingState_launch ops _ rnd self target b
          targetData hb htd hbtarget hne hbthrown hin hfrac
        have hlater := throwingEpisode_done ops self frames hkeep' _
          (updateSnowmanThrowingState ops (restOfFrame { scene with
            totalElapsedSceneTimeMs := scene.totalElapsedSceneTimeMs + timeQuantum })
            rnd self).2 _ hself (Or.inr rfl)
        rw [hlater, hballs]
        simp only [List.drop_left, List.append_nil, List.length_singleton, le_refl,
          List.mem_singleton, true_and, forall_eq]
        refine ⟨⟨rfl, [], timeQuantum, restOfFrame, frames, b, targetData, rfl, rfl, hb, hstate,
          hbtarget, htd, rfl⟩, ?_⟩
        exact ⟨fun _ => Or.inl ⟨hin, hfrac⟩, fun _ => trivial⟩
      · rw [updateSnowmanThrowingState_idle ops _ rnd self b hb hin (fun h => hfrac h.1)]
        simp only [List.drop_length, List.nil_append]
        obtain ⟨h₁, h₂, h₃⟩ := ih hkeep' _ rnd b hb hstate hbthrown hbtarget hlt'
        have hbefore : ∀ before : List (R × (Scene R → Scene R)),
            throwingEpisode ops self ((timeQuantum, restOfFrame) :: before) scene rnd
              = throwingEpisode ops self before (restOfFrame { scene with
                  totalElapsedSceneTimeMs := scene.totalElapsedSceneTimeMs + timeQuantum })
                  rnd := by
          intro before
          rw [throwingEpisode_cons_throwing ops self timeQuantum restOfFrame before scene rnd b
            hb hstate,
            updateSnowmanThrowingState_idle ops _ rnd self b hb hin (fun h => hfrac h.1)]
          simp only [List.drop_length, List.nil_append]
        refine ⟨h₁, ?_, ?_⟩
        · intro ball hball
          obtain ⟨hsource, before, timeQuantum', restOfFrame', after, launcher, targetData,
            hframes, hnone, hlauncher, hlstate, hltarget, htargetData, hbuilt⟩ := h₂ ball hball
          refine ⟨hsource, (timeQuantum, restOfFrame) :: before, timeQuantum', restOfFrame',
            after, launcher, targetData, ?_, ?_, ?_, hlstate, hltarget, ?_, hbuilt⟩
          · rw [hframes]; rfl
          · rw [hbefore]; exact hnone
          · rw [hbefore]; exact hlauncher
          · rw [hbefore]; exact htargetData
        rw [h₃]
        constructor
        · intro h; exact Or.inr ⟨hin, hfrac, h⟩
        · rintro (⟨_, h⟩ | ⟨_, _, h⟩)
          · exact absurd h hfrac
          · exact h
    · obtain ⟨hballs, hself⟩ := updateSnowmanThrowingState_expire ops _ rnd self b hb hin
      have hlater := throwingEpisode_done ops self frames hkeep' _
        (updateSnowmanThrowingState ops (restOfFrame { scene with
          totalElapsedSceneTimeMs := scene.totalElapsedSceneTimeMs + timeQuantum })
          rnd self).2 _ hself (Or.inl (by simp [resetSnowmanState]))
      rw [hlater, hballs]
      simp only [List.drop_length, List.append_nil, List.length_nil, zero_le, List.not_mem_nil,
        false_implies, implies_true, true_and, zero_ne_one, false_iff]
      rintro (⟨h, _⟩ | ⟨h, _⟩) <;> exact hin h

/-- Claim C13, counterexample: in `throwingScene` the first snowman has just entered
the throwing state.  With the frame time deltas 60 ms and 150 ms its updates see the
elapsed times 60 ms (before the launch fraction of the 200 ms throwing duration)
and 210 ms (after the throwing duration): the episode runs to its expiry, the
snowman is traveling again, and no snowball was added. -/
theorem throwingEpisode_skips_launch_window :
    (throwingScene : Scene ℝ).snowmanInstanceDataCollection[0]?
        = some { (boundarySnowman : SnowmanInstanceData ℝ) with
                 snowmanPosition := ⟨0, 0, 0⟩
                 snowmanState := SnowmanState.Throwing
                 currentTargetSnowman := some 2
                 lastSnowballThrowTime := 1000
                 currentStateInitiationTimeMs := 1000 } ∧
      (throwingEpisode realOps 0 [(60, id), (150, id)] (throwingScene : Scene ℝ)
        (fun _ => 0)).1 = [] ∧
      ((throwingEpisode realOps 0 [(60, id), (150, id)] (throwingScene : Scene ℝ)
        (fun _ => 0)).2.snowmanInstanceDataCollection[0]?).map (fun s => s.snowmanState)
        = some SnowmanState.Traveling ∧
      (throwingEpisode realOps 0 [(60, id), (150, id)] (throwingScene : Scene ℝ)
        (fun _ => 0)).2.snowballInstanceDataCollection = [] := by
  have h₁ : updateSnowmanThrowingState realOps
      { (throwingScene : Scene ℝ) with totalElapsedSceneTimeMs := 1000 + 60 } (fun _ => 0) 0
      = ({ (throwingScene : Scene ℝ) with totalElapsedSceneTimeMs := 1000 + 60 }, fun _ => 0) := by
    refine updateSnowmanThrowingState_idle realOps _ _ 0 _ rfl ?_ ?_
    · norm_num [throwingScene, boundarySnowman, constSnowmanThrowingStateDuration]
    · norm_num [throwingScene, boundarySnowman, constSnowmanThrowingStateDuration,
        constThrowStateProjectileLaunchStartFraction]
  have h₂ := updateSnowmanThrowingState_expire realOps
      { (throwingScene : Scene ℝ) with totalElapsedSceneTimeMs := 1000 + 60 + 150 }
      (fun _ => 0) 0 _ rfl
      (by norm_num [throwingScene, boundarySnowman, constSnowmanThrowingStateDuration])
  refine ⟨rfl, ?_⟩
  rw [throwingEpisode_cons_throwing realOps 0 60 id _ throwingScene _ _ rfl rfl]
  simp only [id, show (throwingScene : Scene ℝ).totalElapsedSceneTimeMs = 1000 from rfl]
  rw [h₁]
  simp only []
  rw [throwingEpisode_cons_throwing realOps 0 150 id _
    { (throwingScene : Scene ℝ) with totalElapsedSceneTimeMs := 1000 + 60 } _ _ rfl rfl]
  simp only [id, throwingEpisode, List.append_nil]
  rw [h₂.1, h₂.2]
  simp [throwingScene, resetSnowmanState]

/-- Claim C13 (amended): during a throwing episode of a snowman that is not hit
(every frame keeps its throw bookkeeping), starting with the snowman throwing at
a latched target other than itself and not having thrown yet, the snowman's
updates add at most one snowball.  An added snowball has the snowman as source and
is aimed at the latched target: it is launched in one of the frames of the
episode, no snowball having been added in the frames `before` it, and it is the
snowball that `initializeSnowballState` builds, with the next draw of
`Math.random()`, from the thrower and from the snowman under the latched index
`target`, both as they stand in the scene which that frame presents to the
thrower's update (the scene left by the frames before, its clock advanced by the
time delta of the frame, the rest of the frame applied); the thrower is still
throwing and its latched target is still `target` there.  Exactly one snowball is
added if and only if the first frame whose elapsed throw time reaches the launch
fraction of the throwing duration comes before the throwing duration has run
out. -/
theorem throwingEpisode_at_most_one_snowball (ops : MathOps R) (self target : Nat)
    (frames : List (R × (Scene R → Scene R))) (scene : Scene R) (rnd : Nat → R)
    (thrower : SnowmanInstanceData R)
    (hkeep : ∀ frame ∈ frames, FrameKeepsThrower self frame.2)
    (hself : scene.snowmanInstanceDataCollection[self]? = some thrower)
    (hthrowing : thrower.snowmanState = SnowmanState.Throwing)
    (hthrown : thrower.snowballThrownDuringThrowState = false)
    (htarget : thrower.currentTargetSnowman = some target)
    (hne : target ≠ self)
    (hlt : target < scene.snowmanInstanceDataCollection.length) :
    (throwingEpisode ops self frames scene rnd).1.length ≤ 1 ∧
    (∀ ball ∈ (throwingEpisode ops self frames scene rnd).1,
      ball.sourceSnowmanInstance = some self ∧
      ∃ (before : List (R × (Scene R → Scene R))) (timeQuantum : R)
          (restOfFrame : Scene R → Scene R) (after : List (R × (Scene R → Scene R)))
          (launcher targetData : SnowmanInstanceData R),
        frames = before ++ (timeQuantum, restOfFrame) :: after ∧
        (throwingEpisode ops self before scene rnd).1 = [] ∧
        (restOfFrame { (throwingEpisode ops self before scene rnd).2 with
            totalElapsedSceneTimeMs :=
              (throwingEpisode ops self before scene rnd).2.totalElapsedSceneTimeMs
                + timeQuantum }).snowmanInstanceDataCollection[self]? = some launcher ∧
        launcher.snowmanState = SnowmanState.Throwing ∧
        launcher.currentTargetSnowman = some target ∧
        (restOfFrame { (throwingEpisode ops self before scene rnd).2 with
            totalElapsedSceneTimeMs :=
              (throwingEpisode ops self before scene rnd).2.totalElapsedSceneTimeMs
                + timeQuantum }).snowmanInstanceDataCollection[target]? = some targetData ∧
        ball = initializeSnowballState ops self launcher targetData (rnd 0)) ∧
    ((throwingEpisode ops self frames scene rnd).1.length = 1 ↔
      launchFrameInTime (scene.totalElapsedSceneTimeMs - thrower.lastSnowballThrowTime)
        (frames.map Prod.fst)) :=
  throwingEpisode_launches ops self target hne frames hkeep scene rnd thrower hself hthrowing
    hthrown htarget hlt

/-- In `throwingScene`, with four frames of 60 ms each, the snowball launched in the
second frame is the one that `initializeSnowballState` builds from the thrower and
the third snowman, its latched target. -/
theorem throwingScene_episode_launch :
    (throwingEpisode realOps 0 [(60, id), (60, id), (60, id), (60, id)]
        (throwingScene : Scene ℝ) (fun _ => 0)).1
      = [initializeSnowballState realOps 0
          { (boundarySnowman : SnowmanInstanceData ℝ) with
            snowmanPosition := ⟨0, 0, 0⟩
            snowmanState := SnowmanState.Throwing
            currentTargetSnowman := some 2
            lastSnowballThrowTime := 1000
            currentStateInitiationTimeMs := 1000 }
          { (boundarySnowman : SnowmanInstanceData ℝ) with snowmanPosition := ⟨0, 0, 0.1⟩ }
          0] := by
  have h₁ : updateSnowmanThrowingState realOps
      { (throwingScene : Scene ℝ) with totalElapsedSceneTimeMs := 1000 + 60 } (fun _ => 0) 0
      = ({ (throwingScene : Scene ℝ) with totalElapsedSceneTimeMs := 1000 + 60 }, fun _ => 0) := by
    refine updateSnowmanThrowingState_idle realOps _ _ 0 _ rfl ?_ ?_
    · norm_num [throwingScene, boundarySnowman, constSnowmanThrowingStateDuration]
    · norm_num [throwingScene, boundarySnowman, constSnowmanThrowingStateDuration,
        constThrowStateProjectileLaunchStartFraction]
  obtain ⟨hballs, hself⟩ := updateSnowmanThrowingState_launch realOps
      { (throwingScene : Scene ℝ) with totalElapsedSceneTimeMs := 1000 + 60 + 60 }
      (fun _ => 0) 0 2 _ _ rfl rfl rfl (by decide) rfl
      (by norm_num [throwingScene, boundarySnowman, constSnowmanThrowingStateDuration])
      (by norm_num [throwingScene, boundarySnowman, constSnowmanThrowingStateDuration,
        constThrowStateProjectileLaunchStartFraction])
  have hkeep : ∀ frame ∈ ([(60, id), (60, id)] : List (ℝ × (Scene ℝ → Scene ℝ))),
      FrameKeepsThrower 0 frame.2 := by
    intro frame hframe
    simp only [List.mem_cons, List.mem_singleton, List.not_mem_nil, or_false, or_self]
      at hframe
    rw [hframe]
    exact frameKeepsThrower_id 0
  have hlater := throwingEpisode_done realOps 0 [(60, id), (60, id)] hkeep _
    (updateSnowmanThrowingState realOps
      { (throwingScene : Scene ℝ) with totalElapsedSceneTimeMs := 1000 + 60 + 60 }
      (fun _ => 0) 0).2 _ hself (Or.inr rfl)
  rw [throwingEpisode_cons_throwing realOps 0 60 id _ throwingScene _ _ rfl rfl]
  simp only [id, show (throwingScene : Scene ℝ).totalElapsedSceneTimeMs = 1000 from rfl]
  rw [h₁]
  simp only []
  rw [throwingEpisode_cons_throwing realOps 0 60 id _
    { (throwingScene : Scene ℝ) with totalElapsedSceneTimeMs := 1000 + 60 } _ _ rfl rfl]
  simp only [id]
  rw [hlater, hballs]
  simp [throwingScene]

/-- In `throwingScene`, with four frames of 60 ms each, the first snowman's updates
see the elapsed times 60, 120, 180 and 240 ms: the snowball is launched in the
second frame, it is the only one, and it is the snowball built from the thrower
and the third snowman, the latched target. -/
theorem throwingEpisode_at_most_one_snowball_witness :
    (throwingScene : Scene ℝ).snowmanInstanceDataCollection[0]?
        = some { (boundarySnowman : SnowmanInstanceData ℝ) with
                 snowmanPosition := ⟨0, 0, 0⟩
                 snowmanState := SnowmanState.Throwing
                 currentTargetSnowman := some 2
                 lastSnowballThrowTime := 1000
                 currentStateInitiationTimeMs := 1000 } ∧
      (throwingScene : Scene ℝ).snowmanInstanceDataCollection[2]?
        = some { (boundarySnowman : SnowmanInstanceData ℝ) with snowmanPosition := ⟨0, 0, 0.1⟩ } ∧
      launchFrameInTime ((throwingScene : Scene ℝ).totalElapsedSceneTimeMs - 1000)
        [60, 60, 60, 60] ∧
      (throwingEpisode realOps 0 [(60, id), (60, id), (60, id), (60, id)]
        (throwingScene : Scene ℝ) (fun _ => 0)).1.length = 1 ∧
      (throwingEpisode realOps 0 [(60, id), (60, id), (60, id), (60, id)]
          (throwingScene : Scene ℝ) (fun _ => 0)).1
        = [initializeSnowballState realOps 0
            { (boundarySnowman : SnowmanInstanceData ℝ) with
              snowmanPosition := ⟨0, 0, 0⟩
              snowmanState := SnowmanState.Throwing
              currentTargetSnowman := some 2
              lastSnowballThrowTime := 1000
              currentStateInitiationTimeMs := 1000 }
            { (boundarySnowman : SnowmanInstanceData ℝ) with snowmanPosition := ⟨0, 0, 0.1⟩ }
            0] := by
  have hwindow : launchFrameInTime ((throwingScene : Scene ℝ).totalElapsedSceneTimeMs - 1000)
      [60, 60, 60, 60] := by
    norm_num [launchFrameInTime, throwingScene, constSnowmanThrowingStateDuration,
      constThrowStateProjectileLaunchStartFraction]
  refine ⟨rfl, rfl, hwindow, ?_, throwingScene_episode_launch⟩
  exact (throwingEpisode_at_most_one_snowball realOps 0 2
    [(60, id), (60, id), (60, id), (60, id)] throwingScene (fun _ => 0) _
    (fun frame hframe => by
      simp only [List.mem_cons, List.mem_singleton, List.not_mem_nil, or_false, or_self]
        at hframe
      rw [hframe]
      exact frameKeepsThrower_id 0)
    rfl rfl rfl rfl (by decide) (by decide)).2.2.2 hwindow

/-! ## Bookkeeping at state changes -/

theorem conditionallyTransitionToThrowingState_time (ops : MathOps R) (scene : Scene R)
    (self : Nat) :
    (conditionallyTransitionToThrowingState ops scene self).totalElapsedSceneTimeMs
      = scene.totalElapsedSceneTimeMs := by
  unfold conditionallyTransitionToThrowingState
  split
  · rfl
  · split
    · split
      · rfl
      · rw [modifySnowman_time]
    · rfl

theorem generateSnowballForSnowman_time (ops : MathOps R) (scene : Scene R)
    (rnd : Nat → R) (self : Nat) :
    (generateSnowballForSnowman ops scene rnd self).1.totalElapsedSceneTimeMs
      = scene.totalElapsedSceneTimeMs := by
  unfold generateSnowballForSnowman
  split
  · rfl
  · split
    · rfl
    · split
      · unfold generateSnowballInstanceData
        split <;> rfl
      · rfl

theorem updateSnowmanThrowingState_time (ops : MathOps R) (scene : Scene R)
    (rnd : Nat → R) (self : Nat) :
    (updateSnowmanThrowingState ops scene rnd self).1.totalElapsedSceneTimeMs
      = scene.totalElapsedSceneTimeMs := by
  unfold updateSnowmanThrowingState
  split
  · rfl
  · dsimp only
    split
    · split
      · rw [modifySnowman_time, generateSnowballForSnowman_time]
      · rfl
    · rw [modifySnowman_time]

/-- A call of `updateSnowmanState` keeps the scene clock. -/
theorem updateSnowmanState_time (ops : MathOps R) (fuel : Nat) (scene : Scene R)
    (rnd : Nat → R) (self : Nat) (timeQuantum : R) (scene' : Scene R) (rest : Nat → R)
    (hret : updateSnowmanState ops fuel scene rnd self timeQuantum = some (scene', rest)) :
    scene'.totalElapsedSceneTimeMs = scene.totalElapsedSceneTimeMs := by
  unfold updateSnowmanState at hret
  split at hret
  · cases hret; rfl
  · split at hret
    · split at hret
      · simp at hret
      · cases hret
        rw [conditionallyTransitionToThrowingState_time, modifySnowman_time]
    · have hs : scene' = (updateSnowmanThrowingState ops scene rnd self).1 := by
        simp only [Option.some.injEq] at hret
        rw [hret]
      rw [hs, updateSnowmanThrowingState_time]
    · cases hret
      rw [modifySnowman_time]
    · cases hret
      rw [modifySnowman_time]

/-- The snowman that `conditionallyTransitionToThrowingState` is applied to is left
as it is, or it latches the target found and begins a throw at the scene clock. -/
theorem conditionallyTransitionToThrowingState_self_eq (ops : MathOps R) (scene : Scene R)
    (self : Nat) (snowman : SnowmanInstanceData R)
    (hself : scene.snowmanInstanceDataCollection[self]? = some snowman) :
    (conditionallyTransitionToThrowingState ops scene self).snowmanInstanceDataCollection[self]?
        = some snowman ∨
      ∃ target,
        findPreferredTargetSnowmanForSnowball ops scene.snowmanInstanceDataCollection self
          = some target ∧
        (conditionallyTransitionToThrowingState ops scene self).snowmanInstanceDataCollection[self]?
          = some { snowman with
                   snowmanState := SnowmanState.Throwing
                   currentTargetSnowman := some target
                   lastSnowballThrowTime := scene.totalElapsedSceneTimeMs
                   currentStateInitiationTimeMs := scene.totalElapsedSceneTimeMs
                   snowballThrownDuringThrowState := false } := by
  unfold conditionallyTransitionToThrowingState
  simp only [hself]
  split
  · split
    · exact Or.inl hself
    · next target hfind =>
      right
      refine ⟨target, hfind, ?_⟩
      rw [modifySnowman_getElem?, if_pos rfl, hself]
      rfl
  · exact Or.inl hself

/-- The snowman that `updateSnowmanThrowingState` is applied to keeps its state (and
is at most marked as having thrown), or is reset. -/
theorem updateSnowmanThrowingState_self_eq (ops : MathOps R) (scene : Scene R)
    (rnd : Nat → R) (self : Nat) (snowman : SnowmanInstanceData R)
    (hself : scene.snowmanInstanceDataCollection[self]? = some snowman) :
    (∃ after,
      (updateSnowmanThrowingState ops scene rnd self).1.snowmanInstanceDataCollection[self]?
        = some after ∧ after.snowmanState = snowman.snowmanState) ∨
    (updateSnowmanThrowingState ops scene rnd self).1.snowmanInstanceDataCollection[self]?
        = some (resetSnowmanState scene snowman) := by
  unfold updateSnowmanThrowingState
  simp only [hself]
  split
  · split
    · simp only [modifySnowman_getElem?, if_true, generateSnowballForSnowman_snowmen, hself,
        Option.map_some']
      exact Or.inl ⟨_, rfl, rfl⟩
    · exact Or.inl ⟨snowman, hself, rfl⟩
  · right
    rw [modifySnowman_getElem?, if_pos rfl, hself]
    rfl

/-- The record of the snowman that `updateSnowmanState` is applied to: unchanged in
its state (and entirely unchanged if it is in the hit state), or thrown into one
of the four transitions with the record that the transition writes. -/
theorem updateSnowmanState_self_record (ops : MathOps R) (fuel : Nat) (scene : Scene R)
    (rnd : Nat → R) (self : Nat) (timeQuantum : R) (scene' : Scene R) (rest : Nat → R)
    (hret : updateSnowmanState ops fuel scene rnd self timeQuantum = some (scene', rest))
    (before : SnowmanInstanceData R)
    (hself : scene.snowmanInstanceDataCollection[self]? = some before) :
    ∃ after, scene'.snowmanInstanceDataCollection[self]? = some after ∧
      ((after.snowmanState = before.snowmanState ∧
          (before.snowmanState = SnowmanState.Hit → after = before)) ∨
        (∃ moved rnd' target,
          updateSnowmanPosition ops fuel rnd before timeQuantum = some (moved, rnd') ∧
          findPreferredTargetSnowmanForSnowball ops
            (scene.modifySnowman self (fun _ => moved)).snowmanInstanceDataCollection self
            = some target ∧
          after = { moved with
                    snowmanState := SnowmanState.Throwing
                    currentTargetSnowman := some target
                    lastSnowballThrowTime := scene.totalElapsedSceneTimeMs
                    currentStateInitiationTimeMs := scene.totalElapsedSceneTimeMs
                    snowballThrownDuringThrowState := false }) ∨
        after = resetSnowmanState scene before ∨
        (before.snowmanState = SnowmanState.Hit ∧
          after = { before with
                    snowmanState := SnowmanState.Stunned
                    currentStateInitiationTimeMs := scene.totalElapsedSceneTimeMs })) := by
  unfold updateSnowmanState at hret
  simp only [hself] at hret
  split at hret
  · next hstate =>
    split at hret
    · simp at hret
    · next moved rnd' hmove =>
      cases hret
      obtain ⟨p, d, hmoved⟩ := updateSnowmanPosition_frame ops fuel rnd before timeQuantum _ _ hmove
      have hput : (scene.modifySnowman self (fun _ => moved)).snowmanInstanceDataCollection[self]?
          = some moved := by
        rw [modifySnowman_getElem?, if_pos rfl, hself]; rfl
      rcases conditionallyTransitionToThrowingState_self_eq ops _ self moved hput with h | h
      · refine ⟨moved, h, Or.inl ⟨by rw [hmoved], ?_⟩⟩
        intro hhit
        rw [hstate] at hhit
        cases hhit
      · obtain ⟨target, hfind, hafter⟩ := h
        rw [modifySnowman_time] at hafter
        exact ⟨_, hafter, Or.inr (Or.inl ⟨moved, _, target, hmove, hfind, rfl⟩)⟩
  · next hstate =>
    have hs : scene' = (updateSnowmanThrowingState ops scene rnd self).1 := by
      simp only [Option.some.injEq] at hret
      rw [hret]
    rw [hs]
    rcases updateSnowmanThrowingState_self_eq ops scene rnd self before hself with
      ⟨after, hafter, hsame⟩ | h
    · refine ⟨after, hafter, Or.inl ⟨hsame, ?_⟩⟩
      intro hhit
      rw [hstate] at hhit
      cases hhit
    · exact ⟨_, h, Or.inr (Or.inr (Or.inl rfl))⟩
  · next hstate =>
    cases hret
    refine ⟨updateHitState scene before, ?_, ?_⟩
    · rw [modifySnowman_getElem?, if_pos rfl, hself]; rfl
    · unfold updateHitState
      dsimp only
      split
      · exact Or.inl ⟨rfl, fun _ => rfl⟩
      · exact Or.inr (Or.inr (Or.inr ⟨hstate, rfl⟩))
  · next hstate =>
    cases hret
    refine ⟨updateStunnedState scene before, ?_, ?_⟩
    · rw [modifySnowman_getElem?, if_pos rfl, hself]; rfl
    · unfold updateStunnedState
      dsimp only
      split
      · refine Or.inl ⟨rfl, fun _ => rfl⟩
      · exact Or.inr (Or.inr (Or.inl rfl))

/-- The snowmen created at initialisation are traveling and have struck nobody. -/
theorem createSnowmanInstances_fresh (ops : MathOps R) (totalElapsedSceneTimeMs : R) :
    ∀ (sessionSnowmanCount : Nat) (rnd : Nat → R),
      ∀ snowman ∈ (createSnowmanInstances ops totalElapsedSceneTimeMs sessionSnowmanCount rnd).1,
        snowman.snowmanState = SnowmanState.Traveling ∧ snowman.snowmanTargetStrikeCount = 0 := by
  intro sessionSnowmanCount
  induction sessionSnowmanCount with
  | zero => intro rnd snowman h; simp [createSnowmanInstances] at h
  | succ n ih =>
    intro rnd snowman h
    simp only [createSnowmanInstances, List.mem_cons] at h
    rcases h with h | h
    · rw [h]; exact ⟨rfl, rfl⟩
    · exact ih _ snowman h

/-- The initial scene: every snowman is traveling with strike count zero, and the
stored high hit count is zero. -/
theorem initializeScene_fresh (ops : MathOps R) (rnd : Nat → R) :
    (∀ snowman ∈ (initializeScene ops rnd).1.snowmanInstanceDataCollection,
      snowman.snowmanState = SnowmanState.Traveling ∧ snowman.snowmanTargetStrikeCount = 0) ∧
    (initializeScene ops rnd).1.currentSnowmanHighHitCount = 0 :=
  ⟨fun snowman h => createSnowmanInstances_fresh ops _ _ _ snowman h, rfl⟩

/-- The record of a snowman after one body of the collision loop. -/
theorem processSingleSnowballCollisionStep_record (ops : MathOps R) (snowman : Nat)
    (scene : Scene R) (instanceLoop j : Nat) (a b : SnowmanInstanceData R)
    (ha : scene.snowmanInstanceDataCollection[j]? = some a)
    (hb : (processSingleSnowballCollisionStep ops snowman scene
      instanceLoop).snowmanInstanceDataCollection[j]? = some b) :
    SameButStrikes a b ∨
      (b.snowmanState = SnowmanState.Hit ∧
        b.currentStateInitiationTimeMs = scene.totalElapsedSceneTimeMs ∧
        b.snowballThrownDuringThrowState = false ∧ b.currentTargetSnowman = none) := by
  unfold processSingleSnowballCollisionStep at hb
  split at hb
  · dsimp only at hb
    split at hb
    · exact handleSnowmanSnowballCollision_record scene snowman instanceLoop j a b ha hb
    · split at hb
      · rw [modifySnowball_snowmen, ha] at hb
        cases hb; exact Or.inl (sameButStrikes_refl a)
      · rw [ha] at hb; cases hb; exact Or.inl (sameButStrikes_refl a)
  · rw [ha] at hb; cases hb; exact Or.inl (sameButStrikes_refl a)

/-- An update of a snowman keeps the throw bookkeeping of the hit snowmen cleared. -/
theorem updateSnowmanState_hitBookkeepingCleared (ops : MathOps R) (fuel : Nat)
    (scene : Scene R) (rnd : Nat → R) (self : Nat) (timeQuantum : R) (scene' : Scene R)
    (rest : Nat → R)
    (hret : updateSnowmanState ops fuel scene rnd self timeQuantum = some (scene', rest))
    (hinv : HitBookkeepingCleared scene) : HitBookkeepingCleared scene' := by
  intro j b hb hhit
  by_cases hj : self = j
  · subst hj
    have hlen := updateSnowmanState_length ops fuel scene rnd self timeQuantum scene' rest hret
    have hlt : self < scene.snowmanInstanceDataCollection.length := by
      rw [← hlen]; exact (List.getElem?_eq_some.1 hb).1
    obtain ⟨after, hafter, hcase⟩ := updateSnowmanState_self_record ops fuel scene rnd self
      timeQuantum scene' rest hret _ (List.getElem?_eq_getElem hlt)
    rw [hb] at hafter
    cases hafter
    rcases hcase with ⟨hsame, hkeep⟩ | ⟨_, _, _, _, _, h⟩ | h | ⟨_, h⟩
    · rw [hhit] at hsame
      rw [hkeep hsame.symm]
      exact hinv self _ (List.getElem?_eq_getElem hlt) hsame.symm
    · rw [h] at hhit; cases hhit
    · rw [h] at hhit; cases hhit
    · rw [h] at hhit; cases hhit
  · rw [updateSnowmanState_getElem?_ne ops fuel scene rnd self timeQuantum scene' rest hret j hj]
      at hb
    exact hinv j b hb hhit

/-- One body of the collision loop keeps the throw bookkeeping of the hit snowmen
cleared. -/
theorem processSingleSnowballCollisionStep_hitBookkeepingCleared (ops : MathOps R)
    (snowman : Nat) (scene : Scene R) (instanceLoop : Nat)
    (hinv : HitBookkeepingCleared scene) :
    HitBookkeepingCleared (processSingleSnowballCollisionStep ops snowman scene instanceLoop) := by
  intro j b hb hhit
  have hlen : (processSingleSnowballCollisionStep ops snowman scene
      instanceLoop).snowmanInstanceDataCollection.length
      = scene.snowmanInstanceDataCollection.length :=
    (processSingleSnowballCollisionStep_stable ops snowman scene instanceLoop).1.1
  have hlt : j < scene.snowmanInstanceDataCollection.length := by
    rw [← hlen]; exact (List.getElem?_eq_some.1 hb).1
  rcases processSingleSnowballCollisionStep_record ops snowman scene instanceLoop j _ b
    (List.getElem?_eq_getElem hlt) hb with h | ⟨_, _, h⟩
  · have hb' : b = { scene.snowmanInstanceDataCollection[j] with
        snowmanTargetStrikeCount := b.snowmanTargetStrikeCount } := h
    have := hinv j _ (List.getElem?_eq_getElem hlt) (by rw [hb'] at hhit; exact hhit)
    rw [hb']
    exact this
  · exact h

/-- In every scene that the simulation passes through, the snowmen in the hit state
have their throw bookkeeping cleared. -/
theorem sceneReachable_hitBookkeepingCleared (ops : MathOps R) (scene : Scene R)
    (hreach : SceneReachable ops scene) : HitBookkeepingCleared scene := by
  induction hreach with
  | initial rnd =>
    intro j snowman hj hhit
    have := ((initializeScene_fresh ops rnd).1 snowman (List.getElem?_mem hj)).1
    rw [this] at hhit
    cases hhit
  | snowmanUpdate fuel scene rnd self timeQuantum scene' rest _ hret ih =>
    exact updateSnowmanState_hitBookkeepingCleared ops fuel scene rnd self timeQuantum scene'
      rest hret ih
  | collisionStep scene snowman instanceLoop _ ih =>
    exact processSingleSnowballCollisionStep_hitBookkeepingCleared ops snowman scene
      instanceLoop ih
  | removal scene _ ih =>
    intro j snowman hj
    rw [removeInvalidatedSnowballsFromCollection_snowmen] at hj
    exact ih j snowman hj
  | highHitCount scene _ ih =>
    intro j snowman hj
    rw [updateStoredSnowmanHighHitCount_snowmen] at hj
    exact ih j snowman hj
  | snowballUpdate scene timeQuantum _ ih => exact ih
  | clock scene timeQuantum _ ih => exact ih

/-- The loop over the snowmen stays within the scenes that the simulation passes
through. -/
theorem updateAllSnowmanStates_sceneReachable (ops : MathOps R) (fuel : Nat) (timeQuantum : R) :
    ∀ (indices : List Nat) (scene : Scene R) (rnd : Nat → R) (scene' : Scene R)
      (rest : Nat → R),
      updateAllSnowmanStates ops fuel timeQuantum indices scene rnd = some (scene', rest) →
      SceneReachable ops scene → SceneReachable ops scene' := by
  intro indices
  induction indices with
  | nil =>
    intro scene rnd scene' rest hret hreach
    simp only [updateAllSnowmanStates, Option.some.injEq, Prod.mk.injEq] at hret
    rw [← hret.1]; exact hreach
  | cons i indices ih =>
    intro scene rnd scene' rest hret hreach
    simp only [updateAllSnowmanStates] at hret
    split at hret
    · cases hret
    · next mid rnd' hmid =>
      exact ih mid rnd' scene' rest hret
        (SceneReachable.snowmanUpdate fuel scene rnd i timeQuantum mid rnd' hreach hmid)

/-- The collision pass stays within the scenes that the simulation passes through. -/
theorem processAllSnowballCollisions_sceneReachable (ops : MathOps R) (scene : Scene R)
    (hreach : SceneReachable ops scene) :
    SceneReachable ops (processAllSnowballCollisions ops scene) := by
  unfold processAllSnowballCollisions
  refine SceneReachable.removal _ ?_
  refine foldl_preserves (SceneReachable ops) _ ?_ _ scene hreach
  intro s snowman hs
  unfold processSingleSnowballCollision
  exact foldl_preserves (SceneReachable ops) _
    (fun t k ht => SceneReachable.collisionStep t snowman k ht) _ s hs

/-- The snowman part of a frame stays within the scenes that the simulation passes
through. -/
theorem updateStateInformationForSnowmanCollection_sceneReachable (ops : MathOps R)
    (fuel : Nat) (scene : Scene R) (rnd : Nat → R) (timeQuantum : R) (scene' : Scene R)
    (rest : Nat → R)
    (hret : updateStateInformationForSnowmanCollection ops fuel scene rnd timeQuantum
      = some (scene', rest))
    (hreach : SceneReachable ops scene) : SceneReachable ops scene' := by
  unfold updateStateInformationForSnowmanCollection at hret
  split at hret
  · cases hret
  · next mid rnd' hmid =>
    simp only [Option.some.injEq, Prod.mk.injEq] at hret
    rw [← hret.1]
    exact SceneReachable.highHitCount _ (processAllSnowballCollisions_sceneReachable ops mid
      (updateAllSnowmanStates_sceneReachable ops fuel timeQuantum _ scene rnd mid rnd' hmid
        hreach))

/-- A frame step stays within the scenes that the simulation passes through. -/
theorem executeStep_sceneReachable (ops : MathOps R) (fuel : Nat) (scene : Scene R)
    (rnd : Nat → R) (timeQuantum : R) (scene' : Scene R) (rest : Nat → R)
    (hret : executeStep ops fuel scene rnd timeQuantum = some (scene', rest))
    (hreach : SceneReachable ops scene) : SceneReachable ops scene' := by
  unfold executeStep at hret
  split at hret
  · cases hret
  · next mid rnd' hmid =>
    simp only [Option.some.injEq, Prod.mk.injEq] at hret
    rw [← hret.1]
    exact SceneReachable.clock _ timeQuantum (SceneReachable.snowballUpdate mid timeQuantum
      (updateStateInformationForSnowmanCollection_sceneReachable ops fuel scene rnd timeQuantum
        mid rnd' hmid hreach))

/-- Every scene reachable from `initialize` by calls of `executeStep` is among the
scenes that the simulation passes through. -/
theorem frameReachable_sceneReachable (ops : MathOps R) (scene : Scene R)
    (hreach : FrameReachable ops scene) : SceneReachable ops scene := by
  induction hreach with
  | initial rnd => exact SceneReachable.initial rnd
  | step fuel scene rnd timeQuantum scene' rest _ hret ih =>
    exact executeStep_sceneReachable ops fuel scene rnd timeQuantum scene' rest hret ih

/-- A state change made by `updateSnowmanState`, in a scene whose hit snowmen have
their throw bookkeeping cleared, leaves the bookkeeping as a transition should. -/
theorem updateSnowmanState_stateChangeBookkeeping (ops : MathOps R) (fuel : Nat)
    (scene : Scene R) (rnd : Nat → R) (self : Nat) (timeQuantum : R) (scene' : Scene R)
    (rest : Nat → R)
    (hret : updateSnowmanState ops fuel scene rnd self timeQuantum = some (scene', rest))
    (hinv : HitBookkeepingCleared scene) : StateChangeBookkeeping scene scene' := by
  intro j a b ha hb hchange
  have htime := updateSnowmanState_time ops fuel scene rnd self timeQuantum scene' rest hret
  by_cases hj : self = j
  · subst hj
    obtain ⟨after, hafter, hcase⟩ := updateSnowmanState_self_record ops fuel scene rnd self
      timeQuantum scene' rest hret a ha
    rw [hb] at hafter
    cases hafter
    rw [htime]
    rcases hcase with ⟨hsame, _⟩ | ⟨_, _, target, _, _, h⟩ | h | ⟨hhit, h⟩
    · exact absurd hsame hchange
    · rw [h]
      exact ⟨rfl, rfl, fun hne => absurd rfl hne, fun _ => ⟨target, rfl⟩⟩
    · rw [h]
      refine ⟨rfl, rfl, fun _ => rfl, fun hthrowing => ?_⟩
      simp [resetSnowmanState] at hthrowing
    · obtain ⟨hthrown, htarget⟩ := hinv self a ha hhit
      rw [h]
      refine ⟨rfl, hthrown, fun _ => htarget, fun hthrowing => ?_⟩
      simp at hthrowing
  · rw [updateSnowmanState_getElem?_ne ops fuel scene rnd self timeQuantum scene' rest hret j hj,
      ha] at hb
    cases hb
    exact absurd rfl hchange

/-- Claim C14: every scene that the simulation passes through (the initial scene
and every scene reached from it by the updates that make up the frames, the
scenes within a frame included) has the throw bookkeeping of its hit snowmen
cleared, because the hit state is only entered through `resetSnowmanState`.  In
every scene with that property, so in every reachable scene, a returning call of
`updateSnowmanState` and a call of `handleSnowmanSnowballCollision` leave every
snowman whose `snowmanState` they changed with `currentStateInitiationTimeMs` equal
to the scene clock, `snowballThrownDuringThrowState` false, and
`currentTargetSnowman` none unless the new state is Throwing; in that case it is
the target that `findPreferredTargetSnowmanForSnowball` found for the snowman after
its move. -/
theorem stateChange_resets_bookkeeping (ops : MathOps R) (scene : Scene R)
    (hcleared : HitBookkeepingCleared scene) :
    (∀ reached : Scene R, SceneReachable ops reached → HitBookkeepingCleared reached) ∧
    (∀ (fuel : Nat) (rnd : Nat → R) (self : Nat) (timeQuantum : R) (scene' : Scene R)
        (rest : Nat → R),
      updateSnowmanState ops fuel scene rnd self timeQuantum = some (scene', rest) →
      StateChangeBookkeeping scene scene' ∧
      ∀ (a b : SnowmanInstanceData R),
        scene.snowmanInstanceDataCollection[self]? = some a →
        scene'.snowmanInstanceDataCollection[self]? = some b →
        b.snowmanState ≠ a.snowmanState → b.snowmanState = SnowmanState.Throwing →
        ∃ moved rnd',
          updateSnowmanPosition ops fuel rnd a timeQuantum = some (moved, rnd') ∧
          b.currentTargetSnowman = findPreferredTargetSnowmanForSnowball ops
            (scene.modifySnowman self (fun _ => moved)).snowmanInstanceDataCollection self) ∧
    (∀ (struck snowball : Nat),
      StateChangeBookkeeping scene (handleSnowmanSnowballCollision scene struck snowball)) := by
  refine ⟨fun reached hreach => sceneReachable_hitBookkeepingCleared ops reached hreach, ?_,
    fun struck snowball =>
      handleSnowmanSnowballCollision_stateChangeBookkeeping scene struck snowball⟩
  intro fuel rnd self timeQuantum scene' rest hret
  refine ⟨updateSnowmanState_stateChangeBookkeeping ops fuel scene rnd self timeQuantum scene'
    rest hret hcleared, ?_⟩
  intro a b ha hb hchange hthrowing
  obtain ⟨after, hafter, hcase⟩ := updateSnowmanState_self_record ops fuel scene rnd self
    timeQuantum scene' rest hret a ha
  rw [hb] at hafter
  cases hafter
  rcases hcase with ⟨hsame, _⟩ | ⟨moved, rnd', target, hmove, hfind, h⟩ | h | ⟨_, h⟩
  · exact absurd hsame hchange
  · refine ⟨moved, rnd', hmove, ?_⟩
    rw [hfind, h]
  · rw [h] at hthrowing
    simp [resetSnowmanState] at hthrowing
  · rw [h] at hthrowing
    simp at hthrowing

/-- Every hit snowman of `bookkeepingScene` has its throw bookkeeping cleared. -/
theorem bookkeepingScene_hitBookkeepingCleared :
    HitBookkeepingCleared (bookkeepingScene : Scene ℝ) := by
  intro j snowman hj _
  have hmem := List.getElem?_mem hj
  simp only [bookkeepingScene, List.mem_cons, List.mem_singleton, List.not_mem_nil, or_false]
    at hmem
  rcases hmem with h | h | h <;> rw [h] <;> exact ⟨rfl, rfl⟩

/-- The update of a traveling snowman: the move, then the conditional transition to
the throwing state in the scene with the moved snowman. -/
theorem updateSnowmanState_traveling (ops : MathOps R) (fuel : Nat) (scene : Scene R)
    (rnd : Nat → R) (self : Nat) (timeQuantum : R) (snowman : SnowmanInstanceData R)
    (hself : scene.snowmanInstanceDataCollection[self]? = some snowman)
    (htraveling : snowman.snowmanState = SnowmanState.Traveling) :
    updateSnowmanState ops fuel scene rnd self timeQuantum
      = match updateSnowmanPosition ops fuel rnd snowman timeQuantum with
        | none => none
        | some (moved, rnd) =>
          some (conditionallyTransitionToThrowingState ops
            (scene.modifySnowman self (fun _ => moved)) self, rnd) := by
  unfold updateSnowmanState
  simp only [hself, htraveling]

/-- In a frame of 16 ms the first snowman of `bookkeepingScene` moves from the world
centre to `0.0016` along the Z axis. -/
theorem bookkeepingScene_thrower_moves (rnd : Nat → ℝ) :
    updateSnowmanPosition realOps 1 rnd
        { (boundarySnowman : SnowmanInstanceData ℝ) with snowmanPosition := ⟨0, 0, 0⟩ } 16
      = some ({ (boundarySnowman : SnowmanInstanceData ℝ) with
                snowmanPosition := ⟨0, 0, 0.0016⟩ }, rnd) := by
  simp [updateSnowmanPosition, updateSnowmanPositionLoop, real_isPositionValidByConstraints_iff,
    computeNewSnowmanPosition, boundarySnowman, GenerateVector3dFromPoint3d,
    GeneratePoint3dFromVector3d, Vector3d.addVector, Vector3d.subtractVector,
    Vector3d.multiplyByScalar, constWorldCenterPoint]
  norm_num

/-- After its move the first snowman of `bookkeepingScene` sees the other two along
its heading and chooses the third one, the nearer. -/
theorem bookkeepingScene_thrower_finds_target :
    findPreferredTargetSnowmanForSnowball realOps
        ([{ (boundarySnowman : SnowmanInstanceData ℝ) with snowmanPosition := ⟨0, 0, 0.0016⟩ },
          { (boundarySnowman : SnowmanInstanceData ℝ) with
            snowmanPosition := ⟨0, 0, 0.3⟩
            snowmanState := SnowmanState.Hit },
          { (boundarySnowman : SnowmanInstanceData ℝ) with snowmanPosition := ⟨0, 0, 0.1⟩ }]) 0
      = some 2 := by
  have h0 : realOps.sqrt 0 = 0 := Real.sqrt_zero
  have h1 := real_sqrt_sq_z 1 (by norm_num)
  have h2 := real_sqrt_sq_z 0.2984 (by norm_num)
  have h3 := real_sqrt_sq_z 0.0984 (by norm_num)
  have hacos : realOps.acos 1 = 0 := Real.arccos_one
  norm_num at h1 h2 h3
  simp [findPreferredTargetSnowmanForSnowball, findPreferredTargetStep,
    List.range_succ, isSnowmanInTargetAcquisitionFov,
    sourceToTargetAngleRad, sourceToTargetVector, boundarySnowman, Vector3d.magnitude,
    Vector3d.dotProduct, Vector3d.subtractVector, GenerateVector3dFromPoint3d,
    Point3d.distanceFrom, h0]
  norm_num [h0, h1, h2, h3, hacos]

/-- The update of the first snowman of `bookkeepingScene` in a frame of 16 ms: it
moves and, its throw interval having passed, starts a throw at the third snowman. -/
theorem bookkeepingScene_updateSnowmanState_thrower (rnd : Nat → ℝ) :
    updateSnowmanState realOps 1 (bookkeepingScene : Scene ℝ) rnd 0 16
      = some (bookkeepingSceneThrowing, rnd) := by
  rw [updateSnowmanState_traveling realOps 1 bookkeepingScene rnd 0 16
    { (boundarySnowman : SnowmanInstanceData ℝ) with snowmanPosition := ⟨0, 0, 0⟩ } rfl rfl,
    bookkeepingScene_thrower_moves]
  simp only [conditionallyTransitionToThrowingState, bookkeepingScene, Scene.modifySnowman,
    List.getElem?_cons_zero, List.set_cons_zero, bookkeepingScene_thrower_finds_target]
  simp [bookkeepingSceneThrowing, bookkeepingScene, resetSnowmanState, boundarySnowman]
  norm_num

/-- The update of the second snowman of `bookkeepingScene`, hit 1000 ms ago: it
becomes stunned. -/
theorem bookkeepingScene_updateSnowmanState_hit (rnd : Nat → ℝ) :
    updateSnowmanState realOps 1 (bookkeepingScene : Scene ℝ) rnd 1 16
      = some (bookkeepingSceneStunned, rnd) := by
  simp [updateSnowmanState, bookkeepingScene, bookkeepingSceneStunned, Scene.modifySnowman,
    updateHitState, boundarySnowman, constSnowmanHitStateDuration]
  norm_num

/-- The snowball of `bookkeepingScene` strikes the third snowman, who is put into
the hit state. -/
theorem bookkeepingScene_strike :
    ((handleSnowmanSnowballCollision (bookkeepingScene : Scene ℝ) 2
        0).snowmanInstanceDataCollection[2]?).map
        (fun snowman => (snowman.snowmanState, snowman.currentStateInitiationTimeMs,
          snowman.snowballThrownDuringThrowState, snowman.currentTargetSnowman))
      = some (SnowmanState.Hit, 1000, false, none) := by
  simp [handleSnowmanSnowballCollision, bookkeepingScene, Scene.modifySnowman,
    Scene.modifySnowball, resetSnowmanState, boundarySnowman]

/-- Three state changes in `bookkeepingScene` (clock 1000 ms), whose hit snowman has
its throw bookkeeping cleared.  In a frame of 16 ms the update of the first
snowman takes it from Traveling to Throwing, with the third snowman as its newly
latched target; the update of the second snowman takes it from Hit to Stunned;
and the snowball strikes the third snowman, taking it from Traveling to Hit.  Each
time the bookkeeping is as claimed: state clock 1000, nothing marked as thrown,
and a target only in the throwing state. -/
theorem stateChange_resets_bookkeeping_witness :
    HitBookkeepingCleared (bookkeepingScene : Scene ℝ) ∧
    (bookkeepingScene : Scene ℝ).snowmanInstanceDataCollection.map
        (fun snowman => snowman.snowmanState)
      = [SnowmanState.Traveling, SnowmanState.Hit, SnowmanState.Traveling] ∧
    updateSnowmanState realOps 1 (bookkeepingScene : Scene ℝ) (fun _ => 0) 0 16
      = some (bookkeepingSceneThrowing, fun _ => 0) ∧
    StateChangeBookkeeping (bookkeepingScene : Scene ℝ) bookkeepingSceneThrowing ∧
    ((bookkeepingSceneThrowing : Scene ℝ).snowmanInstanceDataCollection[0]?).map
        (fun snowman => (snowman.snowmanState, snowman.currentStateInitiationTimeMs,
          snowman.snowballThrownDuringThrowState, snowman.currentTargetSnowman))
      = some (SnowmanState.Throwing, 1000, false, some 2) ∧
    updateSnowmanState realOps 1 (bookkeepingScene : Scene ℝ) (fun _ => 0) 1 16
      = some (bookkeepingSceneStunned, fun _ => 0) ∧
    StateChangeBookkeeping (bookkeepingScene : Scene ℝ) bookkeepingSceneStunned ∧
    ((bookkeepingSceneStunned : Scene ℝ).snowmanInstanceDataCollection[1]?).map
        (fun snowman => (snowman.snowmanState, snowman.currentStateInitiationTimeMs,
          snowman.snowballThrownDuringThrowState, snowman.currentTargetSnowman))
      = some (SnowmanState.Stunned, 1000, false, none) ∧
    StateChangeBookkeeping (bookkeepingScene : Scene ℝ)
      (handleSnowmanSnowballCollision (bookkeepingScene : Scene ℝ) 2 0) ∧
    ((handleSnowmanSnowballCollision (bookkeepingScene : Scene ℝ) 2
        0).snowmanInstanceDataCollection[2]?).map
        (fun snowman => (snowman.snowmanState, snowman.currentStateInitiationTimeMs,
          snowman.snowballThrownDuringThrowState, snowman.currentTargetSnowman))
      = some (SnowmanState.Hit, 1000, false, none) := by
  have hclaim := stateChange_resets_bookkeeping realOps (bookkeepingScene : Scene ℝ)
    bookkeepingScene_hitBookkeepingCleared
  exact ⟨bookkeepingScene_hitBookkeepingCleared, rfl,
    bookkeepingScene_updateSnowmanState_thrower _,
    (hclaim.2.1 1 (fun _ => 0) 0 16 bookkeepingSceneThrowing (fun _ => 0)
      (bookkeepingScene_updateSnowmanState_thrower _)).1,
    rfl,
    bookkeepingScene_updateSnowmanState_hit _,
    (hclaim.2.1 1 (fun _ => 0) 1 16 bookkeepingSceneStunned (fun _ => 0)
      (bookkeepingScene_updateSnowmanState_hit _)).1,
    rfl,
    hclaim.2.2 2 0,
    bookkeepingScene_strike⟩

/-! ## The retry loop of the movement -/

/-- Reversing a heading and rotating it about the Y axis keeps its length. -/
theorem real_adjustVector_reversed_sq (v : Vector3d ℝ) (angle : ℝ) :
    (adjustVectorByDegreesRadInXyPlane realOps (v.multiplyByScalar (-1.0)) angle).xComponent ^ 2 +
      (adjustVectorByDegreesRadInXyPlane realOps
        (v.multiplyByScalar (-1.0)) angle).yComponent ^ 2 +
      (adjustVectorByDegreesRadInXyPlane realOps
        (v.multiplyByScalar (-1.0)) angle).zComponent ^ 2
      = v.xComponent ^ 2 + v.yComponent ^ 2 + v.zComponent ^ 2 := by
  have htrig := Real.sin_sq_add_cos_sq angle
  simp only [adjustVectorByDegreesRadInXyPlane, rotatePointAroundAxisY,
    GenerateVector3dFromPoint3d, GeneratePoint3dFromVector3d, Vector3d.multiplyByScalar, realOps]
  linear_combination (v.xComponent ^ 2 + v.zComponent ^ 2) * htrig

/-- In coordinates: a step longer than the diameter of the world, along a unit
heading, ends outside the world from every position inside it. -/
theorem real_overlong_step_outside (px py pz dx dy dz s : ℝ)
    (hinside : px * px + py * py + pz * pz ≤ 0.48 ^ 2)
    (hunit : dx ^ 2 + dy ^ 2 + dz ^ 2 = 1) (hstep : 0.96 < s) :
    ¬ ((px - 0.0 + dx * s) * (px - 0.0 + dx * s) + (py - 0.0 + dy * s) * (py - 0.0 + dy * s)
      + (pz - 0.0 + dz * s) * (pz - 0.0 + dz * s) ≤ 0.48 ^ 2) := by
  intro hvalid
  have hlagrange : (px * dx + py * dy + pz * dz) ^ 2
      + ((px * dy - py * dx) ^ 2 + (py * dz - pz * dy) ^ 2 + (pz * dx - px * dz) ^ 2)
      = (px * px + py * py + pz * pz) * (dx ^ 2 + dy ^ 2 + dz ^ 2) := by ring
  rw [hunit, mul_one] at hlagrange
  have hcs : (px * dx + py * dy + pz * dz) ^ 2 ≤ 0.48 ^ 2 := by
    nlinarith [sq_nonneg (px * dy - py * dx), sq_nonneg (py * dz - pz * dy),
      sq_nonneg (pz * dx - px * dz)]
  have hc : -(0.48 : ℝ) ≤ px * dx + py * dy + pz * dz := by
    have := abs_le_of_sq_le_sq' hcs (by norm_num)
    exact this.1
  have hexpand : (px - 0.0 + dx * s) * (px - 0.0 + dx * s) + (py - 0.0 + dy * s) * (py - 0.0 + dy * s)
      + (pz - 0.0 + dz * s) * (pz - 0.0 + dz * s)
      = (px * px + py * py + pz * pz) + 2 * s * (px * dx + py * dy + pz * dz)
        + s ^ 2 * (dx ^ 2 + dy ^ 2 + dz ^ 2) := by ring
  rw [hexpand, hunit] at hvalid
  have hpp : (px * dx + py * dy + pz * dz) ^ 2 ≤ px * px + py * py + pz * pz := by
    nlinarith [sq_nonneg (px * dy - py * dx), sq_nonneg (py * dz - pz * dy),
      sq_nonneg (pz * dx - px * dz)]
  have hsum : 0.48 < s + (px * dx + py * dy + pz * dz) := by linarith
  nlinarith [hsum, hpp, hvalid]

/-- A step longer than the diameter of the world leaves the world from every
position inside it, whatever the unit heading. -/
theorem real_candidate_outside (snowman : SnowmanInstanceData ℝ) (timeQuantum : ℝ)
    (hinside : snowman.snowmanPosition.x * snowman.snowmanPosition.x +
      snowman.snowmanPosition.y * snowman.snowmanPosition.y +
      snowman.snowmanPosition.z * snowman.snowmanPosition.z ≤ 0.48 ^ 2)
    (hunit : snowman.snowmanDirectionNormalVector.xComponent ^ 2 +
      snowman.snowmanDirectionNormalVector.yComponent ^ 2 +
      snowman.snowmanDirectionNormalVector.zComponent ^ 2 = 1)
    (hstep : 0.96 < snowman.snowmanMovementMagnitude * timeQuantum) :
    isPositionValidByConstraints realOps snowman
      (computeNewSnowmanPosition snowman timeQuantum) = false := by
  rw [← Bool.not_eq_true, real_isPositionValidByConstraints_iff]
  simp only [computeNewSnowmanPosition, GenerateVector3dFromPoint3d, GeneratePoint3dFromVector3d,
    Vector3d.addVector, Vector3d.subtractVector, Vector3d.multiplyByScalar, constWorldCenterPoint]
  exact real_overlong_step_outside _ _ _ _ _ _ _ hinside hunit hstep

/-- With a step longer than the diameter of the world the retry loop of
`updateSnowmanPosition` finds no valid candidate, whatever the fuel and the
random draws. -/
theorem real_updateSnowmanPositionLoop_overlong (timeQuantum : ℝ) :
    ∀ (fuel : Nat) (rnd : Nat → ℝ) (snowman : SnowmanInstanceData ℝ),
      snowman.snowmanPosition.x * snowman.snowmanPosition.x +
        snowman.snowmanPosition.y * snowman.snowmanPosition.y +
        snowman.snowmanPosition.z * snowman.snowmanPosition.z ≤ 0.48 ^ 2 →
      snowman.snowmanDirectionNormalVector.xComponent ^ 2 +
        snowman.snowmanDirectionNormalVector.yComponent ^ 2 +
        snowman.snowmanDirectionNormalVector.zComponent ^ 2 = 1 →
      0.96 < snowman.snowmanMovementMagnitude * timeQuantum →
      updateSnowmanPositionLoop realOps timeQuantum fuel rnd snowman = none := by
  intro fuel
  induction fuel with
  | zero => intro rnd snowman _ _ _; rfl
  | succ fuel ih =>
    intro rnd snowman hinside hunit hstep
    rw [updateSnowmanPositionLoop]
    simp only [real_candidate_outside snowman timeQuantum hinside hunit hstep]
    refine ih _ _ hinside ?_ hstep
    rw [← hunit]
    exact real_adjustVector_reversed_sq _ _

/-- Claim C15: evaluation at the failing input.  The snowman `boundarySnowman`
(unit heading, movement magnitude `0.0001` per millisecond) stands at the world
centre, inside the world boundary, and the time delta is `10000` ms, so that every
candidate position is at distance `1` from the snowman while the world has
diameter `0.96`.  For every amount of fuel and every sequence of random draws the
retry loop of `updateSnowmanPosition` finds no valid candidate: the call does not
return. -/
theorem updateSnowmanPosition_overlong_step_never_returns :
    Point3d.distanceFrom realOps (⟨0, 0, 0⟩ : Point3d ℝ) constWorldCenterPoint
        ≤ constWorldBoundaryDistanceFromCenter ∧
      (0 : ℝ) ≤ 10000 ∧
      ∀ (fuel : Nat) (rnd : Nat → ℝ),
        updateSnowmanPosition realOps fuel rnd
          { (boundarySnowman : SnowmanInstanceData ℝ) with snowmanPosition := ⟨0, 0, 0⟩ } 10000
          = none := by
  refine ⟨?_, by norm_num, ?_⟩
  · rw [real_distanceFrom_le_iff _ _ _
      (by norm_num [constWorldBoundaryDistanceFromCenter, constWorldScale])]
    norm_num [constWorldCenterPoint, constWorldBoundaryDistanceFromCenter, constWorldScale]
  · intro fuel rnd
    unfold updateSnowmanPosition
    rw [real_updateSnowmanPositionLoop_overlong 10000 fuel rnd _
      (by norm_num) (by norm_num [boundarySnowman]) (by norm_num [boundarySnowman])]

/-! ## The order of collision resolution and snowball physics -/

/-- The snowmen of `descendingScene` after their update for a frame: the hit
snowman has become stunned. -/
theorem descendingScene_updateAllSnowmanStates (fuel : Nat) (rnd : Nat → ℝ) :
    updateAllSnowmanStates realOps fuel 16 (List.range 1) (descendingScene : Scene ℝ) rnd
      = some ({ (descendingScene : Scene ℝ) with
                snowmanInstanceDataCollection :=
                  [{ (boundarySnowman : SnowmanInstanceData ℝ) with
                     snowmanState := SnowmanState.Stunned
                     currentStateInitiationTimeMs := 300 }] }, rnd) := by
  simp only [List.range_succ, List.range_zero, List.nil_append, updateAllSnowmanStates,
    updateSnowmanState, descendingScene, List.getElem?_cons_zero, Scene.modifySnowman,
    updateHitState, boundarySnowman, constSnowmanHitStateDuration]
  norm_num

/-- Claim C16, counterexample: in `descendingScene` a snowball at height `0.01`
falls with vertical velocity `-0.001` per millisecond.  In a frame of 16 ms
`executeStep` resolves the collisions while the snowball is still above the
ground and advances it afterwards: the snowball ends the frame below the ground
(height `-0.006`) and is still in the collection.  With the physics advanced
before the collision resolution the same frame removes the snowball. -/
theorem executeStep_resolves_collisions_before_physics :
    (executeStep realOps 1 (descendingScene : Scene ℝ) (fun _ => 0) 16).map
        (fun r => r.1.snowballInstanceDataCollection.map (fun b => b.snowballPosition))
      = some [⟨0.2, -0.006, 0.2⟩] ∧
    (executeStepPhysicsBeforeCollisions realOps 1 (descendingScene : Scene ℝ)
        (fun _ => 0) 16).map (fun r => r.1.snowballInstanceDataCollection)
      = some [] := by
  have hlen : (descendingScene : Scene ℝ).snowmanInstanceDataCollection.length = 1 := rfl
  constructor
  · simp only [executeStep, updateStateInformationForSnowmanCollection, hlen,
      descendingScene_updateAllSnowmanStates]
    simp only [processAllSnowballCollisions, processSingleSnowballCollision,
      processSingleSnowballCollisionStep, descendingScene, List.length_singleton,
      List.range_succ, List.range_zero, List.nil_append, List.foldl_cons, List.foldl_nil,
      List.getElem?_cons_zero, decide_True, Bool.not_true, Bool.false_and]
    norm_num [removeInvalidatedSnowballsFromCollection,
      areInvalidatedSnowballsPresentInCollection, updateStoredSnowmanHighHitCount,
      updateStateInformationForSnowballCollection, updateSnowballState, boundarySnowman,
      GenerateVector3dFromPoint3d, GeneratePoint3dFromVector3d, Vector3d.addVector,
      Vector3d.multiplyByScalar]
  · simp only [executeStepPhysicsBeforeCollisions, hlen, descendingScene_updateAllSnowmanStates]
    simp only [updateStateInformationForSnowballCollection, updateSnowballState,
      processAllSnowballCollisions, processSingleSnowballCollision,
      processSingleSnowballCollisionStep, descendingScene, List.length_singleton, List.map_cons,
      List.map_nil, List.range_succ, List.range_zero, List.nil_append, List.foldl_cons,
      List.foldl_nil, List.getElem?_cons_zero, decide_True, Bool.not_true, Bool.false_and]
    norm_num [removeInvalidatedSnowballsFromCollection,
      areInvalidatedSnowballsPresentInCollection, updateStoredSnowmanHighHitCount,
      boundarySnowman, Scene.modifySnowball,
      GenerateVector3dFromPoint3d, GeneratePoint3dFromVector3d, Vector3d.addVector,
      Vector3d.multiplyByScalar]

/-- The frame step as one expression: the snowmen are updated, the collisions are
resolved, the high hit count is refreshed, the snowballs are advanced and the
clock is advanced. -/
theorem executeStep_eq (ops : MathOps R) (fuel : Nat) (scene : Scene R) (rnd : Nat → R)
    (timeQuantum : R) :
    executeStep ops fuel scene rnd timeQuantum =
      (updateAllSnowmanStates ops fuel timeQuantum
        (List.range scene.snowmanInstanceDataCollection.length) scene rnd).map
        (fun r =>
          ({ updateStateInformationForSnowballCollection
                (updateStoredSnowmanHighHitCount (processAllSnowballCollisions ops r.1))
                timeQuantum with
             totalElapsedSceneTimeMs :=
               (updateStoredSnowmanHighHitCount
                 (processAllSnowballCollisions ops r.1)).totalElapsedSceneTimeMs + timeQuantum },
           r.2)) := by
  unfold executeStep updateStateInformationForSnowmanCollection
  cases updateAllSnowmanStates ops fuel timeQuantum
      (List.range scene.snowmanInstanceDataCollection.length) scene rnd with
  | none => rfl
  | some r => rfl

/-- Claim C16 (amended): within one `executeStep` the collisions are resolved and
the invalidated snowballs removed (`processAllSnowballCollisions`) right after the
update of the snowmen and before the snowball physics update of the frame: the
snowballs at the end of the frame are the snowballs that the collision pass left,
each advanced by `updateSnowballState` with the time delta of the frame, so that
the collisions of a frame are tested against the snowball positions that the
previous frame left; the snowmen are those that the collision pass left. -/
theorem executeStep_collisions_before_physics (ops : MathOps R) (fuel : Nat) (scene : Scene R)
    (rnd : Nat → R) (timeQuantum : R) (scene' : Scene R) (rest : Nat → R)
    (hret : executeStep ops fuel scene rnd timeQuantum = some (scene', rest)) :
    ∃ afterSnowmen,
      updateAllSnowmanStates ops fuel timeQuantum
          (List.range scene.snowmanInstanceDataCollection.length) scene rnd
        = some (afterSnowmen, rest) ∧
      scene'.snowballInstanceDataCollection =
        (processAllSnowballCollisions ops afterSnowmen).snowballInstanceDataCollection.map
          (fun snowball => updateSnowballState snowball timeQuantum) ∧
      scene'.snowmanInstanceDataCollection =
        (processAllSnowballCollisions ops afterSnowmen).snowmanInstanceDataCollection := by
  rw [executeStep_eq] at hret
  cases hall : updateAllSnowmanStates ops fuel timeQuantum
      (List.range scene.snowmanInstanceDataCollection.length) scene rnd with
  | none => rw [hall] at hret; cases hret
  | some r =>
    obtain ⟨afterSnowmen, rnd'⟩ := r
    rw [hall] at hret
    simp only [Option.map_some', Option.some.injEq, Prod.mk.injEq] at hret
    obtain ⟨hscene, hrest⟩ := hret
    refine ⟨afterSnowmen, by rw [hrest], ?_, ?_⟩
    · rw [← hscene]
      simp only [updateStateInformationForSnowballCollection,
        updateStoredSnowmanHighHitCount_snowballs]
    · rw [← hscene]
      simp only [updateStateInformationForSnowballCollection,
        updateStoredSnowmanHighHitCount_snowmen]

/-- The frame of 16 ms in `descendingScene`: the collision pass, run before the
snowball is advanced, finds it above the ground and keeps it; the frame ends with
that snowball advanced by `updateSnowballState`. -/
theorem executeStep_collisions_before_physics_witness :
    ∃ (scene' : Scene ℝ) (rest : Nat → ℝ),
      executeStep realOps 1 (descendingScene : Scene ℝ) (fun _ => 0) 16 = some (scene', rest) ∧
      scene'.snowballInstanceDataCollection =
        [updateSnowballState
          ({ snowballVelocityVector := ⟨0, -0.001, 0⟩
             snowballPosition := ⟨0.2, 0.01, 0.2⟩
             sourceSnowmanInstance := some 0
             invalidatedByCollision := false } : SnowballInstanceData ℝ) 16] := by
  have hall := descendingScene_updateAllSnowmanStates 1 (fun _ => 0)
  have hrun := executeStep_eq realOps 1 (descendingScene : Scene ℝ) (fun _ => 0) 16
  rw [show (descendingScene : Scene ℝ).snowmanInstanceDataCollection.length = 1 from rfl, hall,
    Option.map_some'] at hrun
  obtain ⟨afterSnowmen, hafter, hballs, _⟩ :=
    executeStep_collisions_before_physics realOps 1 descendingScene (fun _ => 0) 16 _ _ hrun
  rw [show (descendingScene : Scene ℝ).snowmanInstanceDataCollection.length = 1 from rfl, hall]
    at hafter
  simp only [Option.some.injEq, Prod.mk.injEq] at hafter
  refine ⟨_, _, hrun, hballs.trans ?_⟩
  rw [← hafter.1]
  simp only [processAllSnowballCollisions, processSingleSnowballCollision,
    processSingleSnowballCollisionStep, descendingScene, List.length_singleton,
    List.range_succ, List.range_zero, List.nil_append, List.foldl_cons, List.foldl_nil,
    List.getElem?_cons_zero, decide_True, Bool.not_true, Bool.false_and]
  norm_num [removeInvalidatedSnowballsFromCollection,
    areInvalidatedSnowballsPresentInCollection]

/-! ## The stored high hit count -/

theorem conditionallyTransitionToThrowingState_highHitCount (ops : MathOps R) (scene : Scene R)
    (self : Nat) :
    (conditionallyTransitionToThrowingState ops scene self).currentSnowmanHighHitCount
      = scene.currentSnowmanHighHitCount := by
  unfold conditionallyTransitionToThrowingState
  split
  · rfl
  · split
    · split
      · rfl
      · rw [modifySnowman_highHitCount]
    · rfl

theorem generateSnowballForSnowman_highHitCount (ops : MathOps R) (scene : Scene R)
    (rnd : Nat → R) (self : Nat) :
    (generateSnowballForSnowman ops scene rnd self).1.currentSnowmanHighHitCount
      = scene.currentSnowmanHighHitCount := by
  unfold generateSnowballForSnowman
  split
  · rfl
  · split
    · rfl
    · split
      · unfold generateSnowballInstanceData
        split <;> rfl
      · rfl

theorem updateSnowmanThrowingState_highHitCount (ops : MathOps R) (scene : Scene R)
    (rnd : Nat → R) (self : Nat) :
    (updateSnowmanThrowingState ops scene rnd self).1.currentSnowmanHighHitCount
      = scene.currentSnowmanHighHitCount := by
  unfold updateSnowmanThrowingState
  split
  · rfl
  · dsimp only
    split
    · split
      · rw [modifySnowman_highHitCount, generateSnowballForSnowman_highHitCount]
      · rfl
    · rw [modifySnowman_highHitCount]

/-- A call of `updateSnowmanState` keeps the stored high hit count. -/
theorem updateSnowmanState_highHitCount (ops : MathOps R) (fuel : Nat) (scene : Scene R)
    (rnd : Nat → R) (self : Nat) (timeQuantum : R) (scene' : Scene R) (rest : Nat → R)
    (hret : updateSnowmanState ops fuel scene rnd self timeQuantum = some (scene', rest)) :
    scene'.currentSnowmanHighHitCount = scene.currentSnowmanHighHitCount := by
  unfold updateSnowmanState at hret
  split at hret
  · cases hret; rfl
  · split at hret
    · split at hret
      · simp at hret
      · cases hret
        rw [conditionallyTransitionToThrowingState_highHitCount, modifySnowman_highHitCount]
    · have hs : scene' = (updateSnowmanThrowingState ops scene rnd self).1 := by
        simp only [Option.some.injEq] at hret
        rw [hret]
      rw [hs, updateSnowmanThrowingState_highHitCount]
    · cases hret
      rw [modifySnowman_highHitCount]
    · cases hret
      rw [modifySnowman_highHitCount]

/-- The snowman that `updateSnowmanThrowingState` is applied to keeps its strike
count. -/
theorem updateSnowmanThrowingState_strikeCount (ops : MathOps R) (scene : Scene R)
    (rnd : Nat → R) (self : Nat) (snowman : SnowmanInstanceData R)
    (hself : scene.snowmanInstanceDataCollection[self]? = some snowman) :
    ∃ after,
      (updateSnowmanThrowingState ops scene rnd self).1.snowmanInstanceDataCollection[self]?
        = some after ∧
      after.snowmanTargetStrikeCount = snowman.snowmanTargetStrikeCount := by
  unfold updateSnowmanThrowingState
  simp only [hself]
  split
  · split
    · simp only [modifySnowman_getElem?, if_true, generateSnowballForSnowman_snowmen, hself,
        Option.map_some']
      exact ⟨_, rfl, rfl⟩
    · exact ⟨snowman, hself, rfl⟩
  · rw [modifySnowman_getElem?, if_pos rfl, hself]
    exact ⟨_, rfl, rfl⟩

/-- A call of `updateSnowmanState` keeps the strike count of every snowman. -/
theorem updateSnowmanState_strikeCount (ops : MathOps R) (fuel : Nat) (scene : Scene R)
    (rnd : Nat → R) (self : Nat) (timeQuantum : R) (scene' : Scene R) (rest : Nat → R)
    (hret : updateSnowmanState ops fuel scene rnd self timeQuantum = some (scene', rest))
    (j : Nat) (a : SnowmanInstanceData R)
    (ha : scene.snowmanInstanceDataCollection[j]? = some a) :
    ∃ b, scene'.snowmanInstanceDataCollection[j]? = some b ∧
      b.snowmanTargetStrikeCount = a.snowmanTargetStrikeCount := by
  by_cases hj : self = j
  · subst hj
    unfold updateSnowmanState at hret
    simp only [ha] at hret
    split at hret
    · split at hret
      · simp at hret
      · next moved _ hmove =>
        cases hret
        obtain ⟨p, d, hmoved⟩ := updateSnowmanPosition_frame ops fuel rnd a timeQuantum _ _ hmove
        have hput : (scene.modifySnowman self (fun _ => moved)).snowmanInstanceDataCollection[self]?
            = some moved := by
          rw [modifySnowman_getElem?, if_pos rfl, ha]; rfl
        rcases conditionallyTransitionToThrowingState_self_eq ops _ self moved hput with h | h
        · exact ⟨moved, h, by rw [hmoved]⟩
        · obtain ⟨target, _, hafter⟩ := h
          exact ⟨_, hafter, by rw [hmoved]⟩
    · have hs : scene' = (updateSnowmanThrowingState ops scene rnd self).1 := by
        simp only [Option.some.injEq] at hret
        rw [hret]
      rw [hs]
      exact updateSnowmanThrowingState_strikeCount ops scene rnd self a ha
    · cases hret
      refine ⟨updateHitState scene a, ?_, ?_⟩
      · rw [modifySnowman_getElem?, if_pos rfl, ha]; rfl
      · unfold updateHitState
        dsimp only
        split <;> rfl
    · cases hret
      refine ⟨updateStunnedState scene a, ?_, ?_⟩
      · rw [modifySnowman_getElem?, if_pos rfl, ha]; rfl
      · unfold updateStunnedState
        dsimp only
        split <;> rfl
  · exact ⟨a, by rw [updateSnowmanState_getElem?_ne ops fuel scene rnd self timeQuantum scene'
      rest hret j hj]; exact ha, rfl⟩

/-- One body of the collision loop keeps the stored high hit count. -/
theorem processSingleSnowballCollisionStep_highHitCount (ops : MathOps R) (snowman : Nat)
    (scene : Scene R) (instanceLoop : Nat) :
    (processSingleSnowballCollisionStep ops snowman scene
      instanceLoop).currentSnowmanHighHitCount = scene.currentSnowmanHighHitCount := by
  unfold processSingleSnowballCollisionStep
  split
  · dsimp only
    split
    · rw [handleSnowmanSnowballCollision_highHitCount]
    · split
      · rw [modifySnowball_highHitCount]
      · rfl
  · rfl

/-- One body of the collision loop lowers no strike count. -/
theorem processSingleSnowballCollisionStep_strikeCount (ops : MathOps R) (snowman : Nat)
    (scene : Scene R) (instanceLoop j : Nat) (a : SnowmanInstanceData R)
    (ha : scene.snowmanInstanceDataCollection[j]? = some a) :
    ∃ b, (processSingleSnowballCollisionStep ops snowman scene
        instanceLoop).snowmanInstanceDataCollection[j]? = some b ∧
      a.snowmanTargetStrikeCount ≤ b.snowmanTargetStrikeCount := by
  unfold processSingleSnowballCollisionStep
  split
  · dsimp only
    split
    · exact handleSnowmanSnowballCollision_strikeCount scene snowman instanceLoop j a ha
    · split
      · rw [modifySnowball_snowmen]
        exact ⟨a, ha, le_rfl⟩
      · exact ⟨a, ha, le_rfl⟩
  · exact ⟨a, ha, le_rfl⟩

/-- At least one snowman is created. -/
theorem determineSnowmanCount_pos (u : R) : 0 < determineSnowmanCount u := by
  unfold determineSnowmanCount
  dsimp only
  split <;> decide

theorem createSnowmanInstances_head (ops : MathOps R) (totalElapsedSceneTimeMs : R)
    (sessionSnowmanCount : Nat) (rnd : Nat → R) (hpos : 0 < sessionSnowmanCount) :
    ∃ snowman, (createSnowmanInstances ops totalElapsedSceneTimeMs sessionSnowmanCount
      rnd).1[0]? = some snowman := by
  cases sessionSnowmanCount with
  | zero => cases hpos
  | succ n =>
    exact ⟨(initializeSnowmanState ops totalElapsedSceneTimeMs rnd).1,
      by simp only [createSnowmanInstances, List.getElem?_cons_zero]⟩

/-- In every scene that the simulation passes through, some snowman has at least
as many strikes as the stored high hit count. -/
theorem sceneReachable_highHitCountWithinStrikes (ops : MathOps R) (scene : Scene R)
    (hreach : SceneReachable ops scene) : HighHitCountWithinStrikes scene := by
  induction hreach with
  | initial rnd =>
    obtain ⟨snowman, hsnowman⟩ := createSnowmanInstances_head ops (0.0 : R)
      (determineSnowmanCount (rnd 0)) (fun n => rnd (n + 1)) (determineSnowmanCount_pos _)
    exact ⟨0, snowman, hsnowman, Nat.zero_le _⟩
  | snowmanUpdate fuel scene rnd self timeQuantum scene' rest _ hret ih =>
    obtain ⟨j, a, ha, hle⟩ := ih
    obtain ⟨b, hb, hstrike⟩ := updateSnowmanState_strikeCount ops fuel scene rnd self
      timeQuantum scene' rest hret j a ha
    refine ⟨j, b, hb, ?_⟩
    rw [updateSnowmanState_highHitCount ops fuel scene rnd self timeQuantum scene' rest hret,
      hstrike]
    exact hle
  | collisionStep scene snowman instanceLoop _ ih =>
    obtain ⟨j, a, ha, hle⟩ := ih
    obtain ⟨b, hb, hstrike⟩ := processSingleSnowballCollisionStep_strikeCount ops snowman scene
      instanceLoop j a ha
    refine ⟨j, b, hb, ?_⟩
    rw [processSingleSnowballCollisionStep_highHitCount]
    exact le_trans hle hstrike
  | removal scene _ ih =>
    obtain ⟨j, a, ha, hle⟩ := ih
    refine ⟨j, a, by rw [removeInvalidatedSnowballsFromCollection_snowmen]; exact ha, ?_⟩
    unfold removeInvalidatedSnowballsFromCollection
    split <;> exact hle
  | highHitCount scene _ ih =>
    obtain ⟨j, a, ha, hle⟩ := ih
    obtain ⟨_, _, hcase⟩ := updateStoredSnowmanHighHitCount_highHitCount scene
    rcases hcase with h | ⟨snowman, hmem, h⟩
    · exact ⟨j, a, by rw [updateStoredSnowmanHighHitCount_snowmen]; exact ha, by rw [h]; exact hle⟩
    · obtain ⟨k, hk⟩ := List.mem_iff_getElem?.1 hmem
      exact ⟨k, snowman, by rw [updateStoredSnowmanHighHitCount_snowmen]; exact hk, by rw [h]⟩
  | snowballUpdate scene timeQuantum _ ih => exact ih
  | clock scene timeQuantum _ ih => exact ih

/-- An update of a snowman keeps the stored high hit count within the strike
counts. -/
theorem updateSnowmanState_highHitCountWithinStrikes (ops : MathOps R) (fuel : Nat)
    (scene : Scene R) (rnd : Nat → R) (self : Nat) (timeQuantum : R) (scene' : Scene R)
    (rest : Nat → R)
    (hret : updateSnowmanState ops fuel scene rnd self timeQuantum = some (scene', rest))
    (hwithin : HighHitCountWithinStrikes scene) : HighHitCountWithinStrikes scene' := by
  obtain ⟨j, a, ha, hle⟩ := hwithin
  obtain ⟨b, hb, hstrike⟩ := updateSnowmanState_strikeCount ops fuel scene rnd self
    timeQuantum scene' rest hret j a ha
  refine ⟨j, b, hb, ?_⟩
  rw [updateSnowmanState_highHitCount ops fuel scene rnd self timeQuantum scene' rest hret,
    hstrike]
  exact hle

/-- The loop over the snowmen keeps the stored high hit count within the strike
counts. -/
theorem updateAllSnowmanStates_highHitCountWithinStrikes (ops : MathOps R) (fuel : Nat)
    (timeQuantum : R) :
    ∀ (indices : List Nat) (scene : Scene R) (rnd : Nat → R) (scene' : Scene R)
      (rest : Nat → R),
      updateAllSnowmanStates ops fuel timeQuantum indices scene rnd = some (scene', rest) →
      HighHitCountWithinStrikes scene → HighHitCountWithinStrikes scene' := by
  intro indices
  induction indices with
  | nil =>
    intro scene rnd scene' rest hret hwithin
    simp only [updateAllSnowmanStates, Option.some.injEq, Prod.mk.injEq] at hret
    rw [← hret.1]; exact hwithin
  | cons i indices ih =>
    intro scene rnd scene' rest hret hwithin
    simp only [updateAllSnowmanStates] at hret
    split at hret
    · cases hret
    · next mid rnd' hmid =>
      exact ih mid rnd' scene' rest hret
        (updateSnowmanState_highHitCountWithinStrikes ops fuel scene rnd i timeQuantum mid rnd'
          hmid hwithin)

/-- The collision pass keeps the stored high hit count within the strike counts:
it raises strike counts only and leaves the stored count alone. -/
theorem processAllSnowballCollisions_highHitCountWithinStrikes (ops : MathOps R)
    (scene : Scene R) (hwithin : HighHitCountWithinStrikes scene) :
    HighHitCountWithinStrikes (processAllSnowballCollisions ops scene) := by
  have hfold : HighHitCountWithinStrikes
      ((List.range scene.snowmanInstanceDataCollection.length).foldl
        (processSingleSnowballCollision ops) scene) := by
    refine foldl_preserves HighHitCountWithinStrikes _ ?_ _ scene hwithin
    intro s snowman hs
    unfold processSingleSnowballCollision
    refine foldl_preserves HighHitCountWithinStrikes _ ?_ _ s hs
    intro t k ht
    obtain ⟨j, a, ha, hle⟩ := ht
    obtain ⟨b, hb, hstrike⟩ := processSingleSnowballCollisionStep_strikeCount ops snowman t k j a
      ha
    refine ⟨j, b, hb, ?_⟩
    rw [processSingleSnowballCollisionStep_highHitCount]
    exact le_trans hle hstrike
  obtain ⟨j, a, ha, hle⟩ := hfold
  unfold processAllSnowballCollisions
  refine ⟨j, a, by rw [removeInvalidatedSnowballsFromCollection_snowmen]; exact ha, ?_⟩
  unfold removeInvalidatedSnowballsFromCollection
  split <;> exact hle

/-- Claim C17: every scene reachable from `initialize` by calls of `executeStep` has a
snowman with at least as many strikes as the stored `currentSnowmanHighHitCount`
(the count starts at zero, strike counts never go down, and the count is only ever
set to a strike count).  In every scene with that property, so in every reachable
scene, when `updateStateInformationForSnowmanCollection` returns, the stored
`currentSnowmanHighHitCount` is the maximum `snowmanTargetStrikeCount` over the
snowmen of `snowmanInstanceDataCollection`: no snowman has a higher strike count,
and some snowman has exactly that strike count. -/
theorem updateStateInformationForSnowmanCollection_highHitCount (ops : MathOps R) (fuel : Nat)
    (scene : Scene R) (rnd : Nat → R) (timeQuantum : R) (scene' : Scene R) (rest : Nat → R)
    (hwithin : HighHitCountWithinStrikes scene)
    (hret : updateStateInformationForSnowmanCollection ops fuel scene rnd timeQuantum
      = some (scene', rest)) :
    (∀ reached : Scene R, FrameReachable ops reached → HighHitCountWithinStrikes reached) ∧
    (∀ snowman ∈ scene'.snowmanInstanceDataCollection,
      snowman.snowmanTargetStrikeCount ≤ scene'.currentSnowmanHighHitCount) ∧
    (∃ snowman ∈ scene'.snowmanInstanceDataCollection,
      snowman.snowmanTargetStrikeCount = scene'.currentSnowmanHighHitCount) := by
  refine ⟨fun reached hreach => sceneReachable_highHitCountWithinStrikes ops reached
    (frameReachable_sceneReachable ops reached hreach), ?_⟩
  unfold updateStateInformationForSnowmanCollection at hret
  split at hret
  · cases hret
  · next mid rnd' hmid =>
    simp only [Option.some.injEq, Prod.mk.injEq] at hret
    rw [← hret.1]
    obtain ⟨j, a, ha, hle⟩ := processAllSnowballCollisions_highHitCountWithinStrikes ops mid
      (updateAllSnowmanStates_highHitCountWithinStrikes ops fuel timeQuantum _ scene rnd mid rnd'
        hmid hwithin)
    obtain ⟨hbound, _, hcase⟩ :=
      updateStoredSnowmanHighHitCount_highHitCount (processAllSnowballCollisions ops mid)
    rw [updateStoredSnowmanHighHitCount_snowmen]
    refine ⟨hbound, ?_⟩
    rcases hcase with h | h
    · refine ⟨a, List.getElem?_mem ha, le_antisymm (hbound a (List.getElem?_mem ha)) ?_⟩
      rw [h]; exact hle
    · exact h

/-- With a zero time delta the candidate position is the current position. -/
theorem computeNewSnowmanPosition_zero (snowman : SnowmanInstanceData R) :
    computeNewSnowmanPosition snowman (0 : R) = snowman.snowmanPosition := by
  obtain ⟨_, _, _, _, _, ⟨px, py, pz⟩, _, _, _, _, _, _, _⟩ := snowman
  simp only [computeNewSnowmanPosition, GenerateVector3dFromPoint3d, GeneratePoint3dFromVector3d,
    Vector3d.addVector, Vector3d.subtractVector, Vector3d.multiplyByScalar, constWorldCenterPoint]
  norm_num

/-- With a zero time delta a snowman within the world boundary stays where it is:
`updateSnowmanPosition` returns at the first candidate. -/
theorem updateSnowmanPosition_zero (ops : MathOps R) (fuel : Nat) (rnd : Nat → R)
    (snowman : SnowmanInstanceData R)
    (hin : snowman.snowmanPosition.distanceFrom ops constWorldCenterPoint
      ≤ constWorldBoundaryDistanceFromCenter) :
    updateSnowmanPosition ops (fuel + 1) rnd snowman 0 = some (snowman, rnd) := by
  have hvalid : isPositionValidByConstraints ops snowman snowman.snowmanPosition = true := by
    rw [isPositionValidByConstraints_iff]
    exact hin
  unfold updateSnowmanPosition
  rw [updateSnowmanPositionLoop]
  simp only [computeNewSnowmanPosition_zero, hvalid, if_true]

/-- With a zero time delta and every snowman within the world boundary, the update
of a snowman returns. -/
theorem updateSnowmanState_zero_returns (ops : MathOps R) (fuel : Nat) (scene : Scene R)
    (rnd : Nat → R) (self : Nat) (hin : scene.snowmenWithinBoundary ops) :
    ∃ result, updateSnowmanState ops (fuel + 1) scene rnd self 0 = some result := by
  unfold updateSnowmanState
  split
  · exact ⟨_, rfl⟩
  · next snowman hself =>
    split
    · rw [updateSnowmanPosition_zero ops fuel rnd snowman (hin snowman (List.getElem?_mem hself))]
      exact ⟨_, rfl⟩
    · exact ⟨_, rfl⟩
    · exact ⟨_, rfl⟩
    · exact ⟨_, rfl⟩

/-- With a zero time delta and every snowman within the world boundary, the loop
over the snowmen returns. -/
theorem updateAllSnowmanStates_zero_returns (ops : MathOps R) (fuel : Nat) :
    ∀ (indices : List Nat) (scene : Scene R) (rnd : Nat → R),
      scene.snowmenWithinBoundary ops →
      ∃ result, updateAllSnowmanStates ops (fuel + 1) 0 indices scene rnd = some result := by
  intro indices
  induction indices with
  | nil => intro scene rnd _; exact ⟨_, rfl⟩
  | cons i indices ih =>
    intro scene rnd hin
    obtain ⟨⟨mid, rnd'⟩, hmid⟩ := updateSnowmanState_zero_returns ops fuel scene rnd i hin
    rw [updateAllSnowmanStates, hmid]
    exact ih mid rnd'
      (updateSnowmanState_withinBoundary ops (fuel + 1) scene rnd i 0 mid rnd' hmid hin)

/-- With a zero time delta and every snowman within the world boundary,
`updateStateInformationForSnowmanCollection` returns. -/
theorem updateStateInformationForSnowmanCollection_zero_returns (ops : MathOps R) (fuel : Nat)
    (scene : Scene R) (rnd : Nat → R) (hin : scene.snowmenWithinBoundary ops) :
    ∃ result,
      updateStateInformationForSnowmanCollection ops (fuel + 1) scene rnd 0 = some result := by
  obtain ⟨⟨mid, rnd'⟩, hmid⟩ := updateAllSnowmanStates_zero_returns ops fuel
    (List.range scene.snowmanInstanceDataCollection.length) scene rnd hin
  unfold updateStateInformationForSnowmanCollection
  rw [hmid]
  exact ⟨_, rfl⟩

/-- Over the reals, for random draws in the unit interval, every snowman created at
initialisation is within the world boundary. -/
theorem real_createSnowmanInstances_within (totalElapsedSceneTimeMs : ℝ) :
    ∀ (sessionSnowmanCount : Nat) (rnd : Nat → ℝ), (∀ k, 0 ≤ rnd k ∧ rnd k ≤ 1) →
      ∀ snowman ∈ (createSnowmanInstances realOps totalElapsedSceneTimeMs sessionSnowmanCount
          rnd).1,
        snowman.snowmanPosition.distanceFrom realOps constWorldCenterPoint
          ≤ constWorldBoundaryDistanceFromCenter := by
  intro sessionSnowmanCount
  induction sessionSnowmanCount with
  | zero => intro rnd _ snowman h; simp [createSnowmanInstances] at h
  | succ n ih =>
    intro rnd hrnd snowman h
    simp only [createSnowmanInstances, List.mem_cons] at h
    rcases h with h | h
    · rw [h]
      exact real_generateRandomPosition_within (rnd 0) (rnd 1) (hrnd 0).1 (hrnd 0).2
    · exact ih _ (fun k => hrnd (k + 8)) snowman h

/-- Over the reals, for random draws in the unit interval, every snowman of the
initial scene is within the world boundary. -/
theorem real_initializeScene_within (rnd : Nat → ℝ) (hrnd : ∀ k, 0 ≤ rnd k ∧ rnd k ≤ 1) :
    (initializeScene realOps rnd).1.snowmenWithinBoundary realOps :=
  fun snowman h => real_createSnowmanInstances_within _ _ _ (fun k => hrnd (k + 1)) snowman h

/-- A snowball at height `0.05` within `0.01` of the centre line of a snowman is in
collision state with it, whatever its flag. -/
theorem real_collision_near_axis (z : ℝ) (hz : z = 0 ∨ z = 0.02)
    (snowman : SnowmanInstanceData ℝ) (snowball : SnowballInstanceData ℝ)
    (hsnowman : snowman.snowmanPosition = ⟨0, 0, z⟩)
    (hsnowball : snowball.snowballPosition = ⟨0, 0.05, 0.01⟩) :
    isSnowballInCollisionStateWithSnowman realOps snowman snowball = true := by
  unfold isSnowballInCollisionStateWithSnowman
  rw [real_snowballDistance_eq, hsnowman, hsnowball]
  have hnear : Real.sqrt (((0 : ℝ) - 0) ^ 2 + ((0.01 : ℝ) - z) ^ 2)
      ≤ constSnowballRadius + constBaseSnowmanSphereRadius := by
    rw [Real.sqrt_le_left (by
      norm_num [constSnowballRadius, constBaseSnowmanSphereRadius, constWorldScale])]
    rcases hz with h | h <;> rw [h] <;>
      norm_num [constSnowballRadius, constBaseSnowmanSphereRadius, constWorldScale]
  simp only [computeTotalSnowmanHeightForSegmentCount, computeSnowmanHeightForSegmentCount,
    computeGeometricSeriesSum, constSnowmanSegments, constBaseSnowmanSphereRadius,
    constSnowmanUpperSphereReductionFactor, constSnowmanSphereOverlap, constWorldScale,
    constSnowballRadius,
    List.range_succ, List.range_zero, List.nil_append, List.cons_append, List.map_cons,
    List.map_nil, List.sum_cons, List.sum_nil] at hnear ⊢
  simp only [hnear, decide_True]
  norm_num

/-- The snowmen of `strikeFrameScene` after their update for a frame of 16 ms: both
stay stunned, as they are. -/
theorem strikeFrameScene_updateAllSnowmanStates (fuel : Nat) (rnd : Nat → ℝ) :
    updateAllSnowmanStates realOps fuel 16 (List.range 2) (strikeFrameScene : Scene ℝ) rnd
      = some (strikeFrameScene, rnd) := by
  simp only [List.range_succ, List.range_zero, List.nil_append, List.cons_append,
    updateAllSnowmanStates, updateSnowmanState, strikeFrameScene, List.getElem?_cons_zero,
    List.getElem?_cons_succ, Scene.modifySnowman, updateStunnedState, boundarySnowman,
    constSnowmanStunnedStateDuration]
  norm_num

/-- The collision pass in `strikeFrameScene`: the snowball of the first snowman
strikes the second one and is removed. -/
theorem strikeFrameScene_processAllSnowballCollisions :
    processAllSnowballCollisions realOps (strikeFrameScene : Scene ℝ)
      = { (strikeFrameSceneAfter : Scene ℝ) with currentSnowmanHighHitCount := 3 } := by
  have h₀ : processSingleSnowballCollision realOps (strikeFrameScene : Scene ℝ) 0
      = strikeFrameScene := by
    unfold processSingleSnowballCollision
    simp only [show (strikeFrameScene : Scene ℝ).snowballInstanceDataCollection.length = 1
      from rfl, List.range_succ, List.range_zero, List.nil_append, List.foldl_cons,
      List.foldl_nil]
    unfold processSingleSnowballCollisionStep
    simp only [strikeFrameScene, List.getElem?_cons_zero, decide_True, Bool.not_true,
      Bool.false_and]
    norm_num
  have h₁ : processSingleSnowballCollision realOps (strikeFrameScene : Scene ℝ) 1
      = handleSnowmanSnowballCollision strikeFrameScene 1 0 := by
    unfold processSingleSnowballCollision
    simp only [show (strikeFrameScene : Scene ℝ).snowballInstanceDataCollection.length = 1
      from rfl, List.range_succ, List.range_zero, List.nil_append, List.foldl_cons,
      List.foldl_nil]
    unfold processSingleSnowballCollisionStep
    rw [show (strikeFrameScene : Scene ℝ).snowmanInstanceDataCollection[1]?
        = some { (boundarySnowman : SnowmanInstanceData ℝ) with
                 snowmanPosition := ⟨0, 0, 0⟩
                 snowmanState := SnowmanState.Stunned
                 currentStateInitiationTimeMs := 900
                 snowmanTargetStrikeCount := 1 } from rfl,
      show (strikeFrameScene : Scene ℝ).snowballInstanceDataCollection[0]?
        = some { snowballVelocityVector := ⟨0, 0, -0.001⟩
                 snowballPosition := ⟨0, 0.05, 0.01⟩
                 sourceSnowmanInstance := some 0
                 invalidatedByCollision := false } from rfl]
    have hcollision : isSnowballInCollisionStateWithSnowman realOps
        { (boundarySnowman : SnowmanInstanceData ℝ) with
          snowmanPosition := ⟨0, 0, 0⟩
          snowmanState := SnowmanState.Stunned
          currentStateInitiationTimeMs := 900
          snowmanTargetStrikeCount := 1 }
        { snowballVelocityVector := ⟨0, 0, -0.001⟩
          snowballPosition := ⟨0, 0.05, 0.01⟩
          sourceSnowmanInstance := some 0
          invalidatedByCollision := false } = true :=
      real_collision_near_axis 0 (Or.inl rfl) _ _ rfl rfl
    dsimp only
    rw [if_pos (by simp [hcollision])]
  unfold processAllSnowballCollisions
  simp only [show (strikeFrameScene : Scene ℝ).snowmanInstanceDataCollection.length = 2
    from rfl, List.range_succ, List.range_zero, List.nil_append, List.cons_append,
    List.foldl_cons, List.foldl_nil, h₀, h₁]
  simp [handleSnowmanSnowballCollision, strikeFrameScene, strikeFrameSceneAfter,
    Scene.modifySnowman, Scene.modifySnowball, resetSnowmanState, boundarySnowman,
    removeInvalidatedSnowballsFromCollection, areInvalidatedSnowballsPresentInCollection]

/-- The snowman part of a frame of 16 ms in `strikeFrameScene`, where the strike
counts are 3 and 1 and the stored count is 3: the snowball of the first snowman
strikes the second one, and the scene afterwards is `strikeFrameSceneAfter`. -/
theorem strikeFrameScene_updateStateInformationForSnowmanCollection (rnd : Nat → ℝ) :
    updateStateInformationForSnowmanCollection realOps 1 (strikeFrameScene : Scene ℝ) rnd 16
      = some (strikeFrameSceneAfter, rnd) := by
  unfold updateStateInformationForSnowmanCollection
  rw [show (strikeFrameScene : Scene ℝ).snowmanInstanceDataCollection.length = 2 from rfl,
    strikeFrameScene_updateAllSnowmanStates]
  simp only [strikeFrameScene_processAllSnowballCollisions]
  simp [updateStoredSnowmanHighHitCount, strikeFrameSceneAfter, boundarySnowman]

/-- The scene `strikeFrameScene`, with strike counts 3 and 1 and the stored count 3,
and a frame of 16 ms in which the snowball of the first snowman strikes the
second one: `updateStateInformationForSnowmanCollection` returns, the strike
counts are 4 and 1 afterwards, and the stored high hit count has been raised from
3 to 4, the maximum strike count. -/
theorem updateStateInformationForSnowmanCollection_highHitCount_witness :
    HighHitCountWithinStrikes (strikeFrameScene : Scene ℝ) ∧
    (strikeFrameScene : Scene ℝ).currentSnowmanHighHitCount = 3 ∧
    updateStateInformationForSnowmanCollection realOps 1 (strikeFrameScene : Scene ℝ)
        (fun _ => 0) 16 = some (strikeFrameSceneAfter, fun _ => 0) ∧
    (strikeFrameSceneAfter : Scene ℝ).snowmanInstanceDataCollection.map
        (fun snowman => snowman.snowmanTargetStrikeCount) = [4, 1] ∧
    (strikeFrameSceneAfter : Scene ℝ).currentSnowmanHighHitCount = 4 ∧
    (∀ snowman ∈ (strikeFrameSceneAfter : Scene ℝ).snowmanInstanceDataCollection,
      snowman.snowmanTargetStrikeCount
        ≤ (strikeFrameSceneAfter : Scene ℝ).currentSnowmanHighHitCount) ∧
    (∃ snowman ∈ (strikeFrameSceneAfter : Scene ℝ).snowmanInstanceDataCollection,
      snowman.snowmanTargetStrikeCount
        = (strikeFrameSceneAfter : Scene ℝ).currentSnowmanHighHitCount) :=
  ⟨⟨0, _, rfl, le_refl _⟩, rfl, strikeFrameScene_updateStateInformationForSnowmanCollection _,
    rfl, rfl,
    (updateStateInformationForSnowmanCollection_highHitCount realOps 1 strikeFrameScene
      (fun _ => 0) 16 strikeFrameSceneAfter (fun _ => 0) ⟨0, _, rfl, le_refl _⟩
      (strikeFrameScene_updateStateInformationForSnowmanCollection _)).2⟩

/-! ## The loops of the geometry generators -/

/-- A loop `while (current < max) { body; current += step; }` whose test holds at
the first `n` values of the loop variable and fails at the next one runs its
body exactly at those `n` values, given more than `n` units of fuel. -/
theorem whileBelow_iterate {σ : Type} (max step : R) (body : R → σ → σ) :
    ∀ (n fuel : Nat) (start : R) (state : σ), n < fuel →
      (∀ k : Nat, k < n → start + k * step < max) → ¬ (start + n * step < max) →
      whileBelow max step (fun current state => some (body current state)) fuel start state
        = some ((List.range n).foldl
          (fun state (k : Nat) => body (start + (k : R) * step) state) state) := by
  intro n
  induction n with
  | zero =>
    intro fuel start state hfuel _ hstop
    obtain ⟨fuel, rfl⟩ := Nat.exists_eq_succ_of_ne_zero (Nat.pos_iff_ne_zero.1 hfuel)
    have hstop' : ¬ start < max := by simpa using hstop
    simp only [whileBelow, if_neg hstop', List.range_zero, List.foldl_nil]
  | succ n ih =>
    intro fuel start state hfuel hbelow hstop
    obtain ⟨fuel, rfl⟩ := Nat.exists_eq_succ_of_ne_zero
      (Nat.pos_iff_ne_zero.1 (lt_of_le_of_lt (Nat.zero_le _) hfuel))
    have hfirst : start < max := by simpa using hbelow 0 (Nat.succ_pos n)
    have hshift : ∀ k : Nat, start + step + k * step = start + ((k + 1 : Nat) : R) * step := by
      intro k; push_cast; ring
    simp only [whileBelow, if_pos hfirst]
    rw [ih fuel (start + step) (body start state) (Nat.lt_of_succ_lt_succ hfuel)
      (fun k hk => by rw [hshift]; exact hbelow (k + 1) (Nat.succ_lt_succ hk))
      (by rw [hshift]; exact hstop)]
    rw [List.range_succ_eq_map, List.foldl_cons, List.foldl_map]
    simp only [hshift, Nat.cast_zero, zero_mul, add_zero, Nat.succ_eq_add_one]

/-- The loop over a full turn in `count` equal steps, for a positive whole number
`count`, runs its body exactly `count` times. -/
theorem whileBelow_whole_count {σ : Type} (max : R) (hmax : 0 < max) (count : Nat)
    (hcount : 0 < count) (body : R → σ → σ) (fuel : Nat) (hfuel : count < fuel) (state : σ) :
    whileBelow max (max / (count : R)) (fun current state => some (body current state)) fuel 0
        state
      = some ((List.range count).foldl
          (fun state (k : Nat) => body (0 + (k : R) * (max / (count : R))) state) state) := by
  have hc : (0 : R) < count := Nat.cast_pos.2 hcount
  refine whileBelow_iterate max _ body count fuel 0 state hfuel ?_ ?_
  · intro k hk
    have hk' : (k : R) < count := Nat.cast_lt.2 hk
    rw [zero_add, ← mul_div_assoc, div_lt_iff₀ hc]
    rw [mul_comm]
    exact mul_lt_mul_of_pos_left hk' hmax
  · rw [zero_add, mul_div_cancel₀ _ (ne_of_gt hc)]
    exact lt_irrefl _

/-- A fold whose every step lengthens the list by `c` lengthens it by `c` times the
number of steps. -/
theorem foldl_length_of_step {α β : Type} (c : Nat) (g : List α → β → List α)
    (hstep : ∀ s b, (g s b).length = s.length + c) :
    ∀ (l : List β) (s : List α), (l.foldl g s).length = s.length + c * l.length := by
  intro l
  induction l with
  | nil => intro s; simp
  | cons b l ih =>
    intro s
    rw [List.foldl_cons, ih, hstep, List.length_cons]
    ring

/-! ## The sphere generator -/

/-- The quad of the sphere consists of two triangles. -/
theorem sphereQuadTriangles_length (ops : MathOps R) (sphereColor : RgbColor R)
    (centerPoint : Point3d R) (longitudinalDegreesPerSegment latitudinalDegreesPerSegment : R)
    (upperPoint lowerPoint : Point3d R) (currentLatitude currentLongitude : R) :
    (sphereQuadTriangles ops sphereColor centerPoint longitudinalDegreesPerSegment
      latitudinalDegreesPerSegment upperPoint lowerPoint currentLatitude
      currentLongitude).length = 2 := rfl

/-- For a whole number of longitudinal segments the inner loop of the sphere
generator returns, given enough fuel, having pushed the quad of each segment. -/
theorem sphereLatitudeBand_whole_count (ops : MathOps R) (hpi : 0 < ops.pi)
    (sphereColor : RgbColor R) (centerPoint : Point3d R) (latitudinalDegreesPerSegment : R)
    (topPoint : Point3d R) (count : Nat) (hcount : 0 < count) (fuel : Nat)
    (hfuel : count < fuel) (currentLatitude : R) (triangleStore : List (Triangle R)) :
    sphereLatitudeBand ops sphereColor centerPoint (2 * ops.pi / (count : R))
        latitudinalDegreesPerSegment topPoint fuel currentLatitude triangleStore
      = some ((List.range count).foldl
          (fun triangleStore (k : Nat) =>
            triangleStore ++ sphereQuadTriangles ops sphereColor centerPoint
              (2 * ops.pi / (count : R)) latitudinalDegreesPerSegment
              (rotatePointAroundAxisZ ops topPoint currentLatitude)
              (rotatePointAroundAxisZ ops topPoint
                (currentLatitude + latitudinalDegreesPerSegment))
              currentLatitude (0 + (k : R) * (2 * ops.pi / (count : R))))
          triangleStore) := by
  unfold sphereLatitudeBand
  dsimp only
  rw [whileBelow_whole_count (2 * ops.pi) (by linarith) count hcount
    (fun currentLongitude triangleStore =>
      triangleStore ++ sphereQuadTriangles ops sphereColor centerPoint
        (2 * ops.pi / (count : R)) latitudinalDegreesPerSegment
        (rotatePointAroundAxisZ ops topPoint currentLatitude)
        (rotatePointAroundAxisZ ops topPoint (currentLatitude + latitudinalDegreesPerSegment))
        currentLatitude currentLongitude) fuel hfuel triangleStore]

/-- Claim C18: a sphere generator with positive radius, a centre point and positive
whole segment counts `L` (longitudinal) and `M` (latitudinal): given fuel beyond
both counts, `generateGeometry` returns true and leaves exactly `2·L·M` triangles
in the triangle list, whatever the list held before (the arithmetic is the exact
arithmetic of an ordered field, with `Math.PI` positive). -/
theorem sphere_generateGeometry_triangle_count (ops : MathOps R) (hpi : 0 < ops.pi)
    (generator : TessellatedSphereGenerator R) (radius : R) (centre : Point3d R) (L M : Nat)
    (hradius : generator.sphereRadius = some radius) (hpositive : 0 < radius)
    (hcentre : generator.centerPoint = some centre)
    (hlong : generator.longitudinalSegmentCount = some (L : R)) (hL : 0 < L)
    (hlat : generator.latitudinalSegmentCount = some (M : R)) (hM : 0 < M)
    (fuel : Nat) (hfuelL : L < fuel) (hfuelM : M < fuel) :
    ∃ generator',
      generator.generateGeometry ops fuel = some (true, generator') ∧
      generator'.getTriangleList.length = 2 * L * M := by
  have hvalid : generator.areInternalParametersValid = true := by
    simp [TessellatedSphereGenerator.areInternalParametersValid, returnValidNumOrZero, hradius,
      hcentre, hlong, hlat, hpositive, hL, hM]
  have hbody : sphereLatitudeBand ops generator.sphereColor centre
      (2 * ops.pi / (L : R)) (ops.pi / (M : R))
      (Vector3d.getPoint3dRep (⟨0.0, radius, 0.0⟩ : Vector3d R)) fuel
      = fun currentLatitude triangleStore =>
          some ((List.range L).foldl
            (fun triangleStore (k : Nat) =>
              triangleStore ++ sphereQuadTriangles ops generator.sphereColor centre
                (2 * ops.pi / (L : R)) (ops.pi / (M : R))
                (rotatePointAroundAxisZ ops
                  (Vector3d.getPoint3dRep (⟨0.0, radius, 0.0⟩ : Vector3d R)) currentLatitude)
                (rotatePointAroundAxisZ ops
                  (Vector3d.getPoint3dRep (⟨0.0, radius, 0.0⟩ : Vector3d R))
                  (currentLatitude + ops.pi / (M : R)))
                currentLatitude (0 + (k : R) * (2 * ops.pi / (L : R))))
            triangleStore) := by
    funext currentLatitude triangleStore
    exact sphereLatitudeBand_whole_count ops hpi _ _ _ _ L hL fuel hfuelL _ _
  unfold TessellatedSphereGenerator.generateGeometry
  rw [if_pos hvalid]
  simp only [hradius, hcentre, hlong, hlat, TessellatedSphereGenerator.clearTriangleStore]
  rw [hbody, whileBelow_whole_count ops.pi hpi M hM _ fuel hfuelM]
  refine ⟨_, rfl, ?_⟩
  simp only [TessellatedSphereGenerator.getTriangleList]
  rw [foldl_length_of_step (2 * L) _ (fun s j => by
    rw [foldl_length_of_step 2 _ (fun s k => by
      rw [List.length_append, sphereQuadTriangles_length]), List.length_range]),
    List.length_range, List.length_nil]
  ring

/-- The scenario of four longitudinal and two latitudinal segments: a unit sphere
at the origin gets sixteen triangles. -/
theorem sphere_generateGeometry_triangle_count_witness :
    ∃ generator',
      TessellatedSphereGenerator.generateGeometry realOps 5
          { sphereRadius := some 1
            centerPoint := some ⟨0, 0, 0⟩
            longitudinalSegmentCount := some ((4 : Nat) : ℝ)
            latitudinalSegmentCount := some ((2 : Nat) : ℝ)
            sphereColor := ⟨1, 1, 1, 1⟩
            triangleStore := [] } = some (true, generator') ∧
      generator'.getTriangleList.length = 16 :=
  sphere_generateGeometry_triangle_count realOps Real.pi_pos _ 1 ⟨0, 0, 0⟩ 4 2 rfl one_pos rfl
    rfl (by decide) rfl (by decide) 5 (by decide) (by decide)

/-! ## Validity of the generator parameters -/

/-- The test `returnValidNumOrZero(value) > 0` holds exactly for positive numbers. -/
theorem returnValidNumOrZero_pos_iff (value : Option R) :
    returnValidNumOrZero value > 0 ↔ ∃ number, value = some number ∧ 0 < number := by
  cases value with
  | none => simp [returnValidNumOrZero]
  | some number => simp [returnValidNumOrZero]

/-- Over the reals, the loop over a full turn in steps of `max / count`, for a
positive number `count`, runs its body at the first `⌈count⌉` multiples of the
step and returns, given more than `⌈count⌉` units of fuel. -/
theorem real_whileBelow_count {σ : Type} (max : ℝ) (hmax : 0 < max) (count : ℝ)
    (hcount : 0 < count) (body : ℝ → σ → σ) (fuel : Nat) (hfuel : ⌈count⌉₊ < fuel)
    (state : σ) :
    whileBelow max (max / count) (fun current state => some (body current state)) fuel 0 state
      = some ((List.range ⌈count⌉₊).foldl
          (fun state (k : Nat) => body (0 + (k : ℝ) * (max / count)) state) state) := by
  refine whileBelow_iterate max _ body ⌈count⌉₊ fuel 0 state hfuel ?_ ?_
  · intro k hk
    have hk' : (k : ℝ) < count := Nat.lt_ceil.1 hk
    rw [zero_add, ← mul_div_assoc, div_lt_iff₀ hcount, mul_comm]
    exact mul_lt_mul_of_pos_left hk' hmax
  · have hle : count ≤ (⌈count⌉₊ : ℝ) := Nat.le_ceil count
    rw [zero_add, ← mul_div_assoc, div_lt_iff₀ hcount, mul_comm, not_lt]
    exact mul_le_mul_of_nonneg_left hle hmax.le

/-- The sphere generator takes its parameters as valid exactly when the radius and
both segment counts are positive numbers and the centre point is a point. -/
theorem sphere_areInternalParametersValid_iff (generator : TessellatedSphereGenerator R) :
    generator.areInternalParametersValid = true ↔
      ∃ radius centre long lat,
        generator.sphereRadius = some radius ∧ 0 < radius ∧
        generator.centerPoint = some centre ∧
        generator.longitudinalSegmentCount = some long ∧ 0 < long ∧
        generator.latitudinalSegmentCount = some lat ∧ 0 < lat := by
  simp only [TessellatedSphereGenerator.areInternalParametersValid, Bool.and_eq_true,
    decide_eq_true_eq, returnValidNumOrZero_pos_iff, Option.isSome_iff_exists]
  constructor
  · rintro ⟨⟨⟨⟨r, hr, hr0⟩, ⟨c, hc⟩⟩, ⟨l, hl, hl0⟩⟩, ⟨m, hm, hm0⟩⟩
    exact ⟨r, c, l, m, hr, hr0, hc, hl, hl0, hm, hm0⟩
  · rintro ⟨r, c, l, m, hr, hr0, hc, hl, hl0, hm, hm0⟩
    exact ⟨⟨⟨⟨r, hr, hr0⟩, ⟨c, hc⟩⟩, ⟨l, hl, hl0⟩⟩, ⟨m, hm, hm0⟩⟩

/-- With invalid parameters the sphere generator returns false and is left as it
was. -/
theorem sphere_generateGeometry_invalid (ops : MathOps R) (fuel : Nat)
    (generator : TessellatedSphereGenerator R)
    (hinvalid : generator.areInternalParametersValid = false) :
    generator.generateGeometry ops fuel = some (false, generator) := by
  unfold TessellatedSphereGenerator.generateGeometry
  rw [hinvalid]
  rfl

/-- With valid parameters the sphere generator does not return false. -/
theorem sphere_generateGeometry_flag (ops : MathOps R) (fuel : Nat)
    (generator generator' : TessellatedSphereGenerator R) (flag : Bool)
    (hvalid : generator.areInternalParametersValid = true)
    (hret : generator.generateGeometry ops fuel = some (flag, generator')) : flag = true := by
  obtain ⟨r, c, l, m, hr, _, hc, hl, _, hm, _⟩ :=
    (sphere_areInternalParametersValid_iff generator).1 hvalid
  unfold TessellatedSphereGenerator.generateGeometry at hret
  rw [if_pos hvalid] at hret
  simp only [hr, hc, hl, hm] at hret
  split at hret
  · cases hret
  · simp only [Option.some.injEq, Prod.mk.injEq] at hret
    exact hret.1.symm

/-- Over the reals, with valid parameters, the sphere generator returns true once
the fuel exceeds the rounded-up segment counts. -/
theorem real_sphere_generateGeometry_valid (generator : TessellatedSphereGenerator ℝ)
    (hvalid : generator.areInternalParametersValid = true) :
    ∃ fuel₀ : Nat, ∀ fuel, fuel₀ ≤ fuel →
      ∃ generator', generator.generateGeometry realOps fuel = some (true, generator') := by
  obtain ⟨r, c, l, m, hr, _, hc, hl, hl0, hm, hm0⟩ :=
    (sphere_areInternalParametersValid_iff generator).1 hvalid
  refine ⟨max ⌈l⌉₊ ⌈m⌉₊ + 1, fun fuel hfuel => ?_⟩
  have hfuelL : ⌈l⌉₊ < fuel := lt_of_le_of_lt (le_max_left _ _) (Nat.lt_of_succ_le hfuel)
  have hfuelM : ⌈m⌉₊ < fuel := lt_of_le_of_lt (le_max_right _ _) (Nat.lt_of_succ_le hfuel)
  have hpi : (0 : ℝ) < realOps.pi := Real.pi_pos
  have hbody : sphereLatitudeBand realOps generator.sphereColor c
      (2 * realOps.pi / l) (realOps.pi / m)
      (Vector3d.getPoint3dRep (⟨0.0, r, 0.0⟩ : Vector3d ℝ)) fuel
      = fun currentLatitude triangleStore =>
          some ((List.range ⌈l⌉₊).foldl
            (fun triangleStore (k : Nat) =>
              triangleStore ++ sphereQuadTriangles realOps generator.sphereColor c
                (2 * realOps.pi / l) (realOps.pi / m)
                (rotatePointAroundAxisZ realOps
                  (Vector3d.getPoint3dRep (⟨0.0, r, 0.0⟩ : Vector3d ℝ)) currentLatitude)
                (rotatePointAroundAxisZ realOps
                  (Vector3d.getPoint3dRep (⟨0.0, r, 0.0⟩ : Vector3d ℝ))
                  (currentLatitude + realOps.pi / m))
                currentLatitude (0 + (k : ℝ) * (2 * realOps.pi / l)))
            triangleStore) := by
    funext currentLatitude triangleStore
    unfold sphereLatitudeBand
    dsimp only
    rw [real_whileBelow_count (2 * realOps.pi) (by linarith) l hl0
      (fun currentLongitude triangleStore =>
        triangleStore ++ sphereQuadTriangles realOps generator.sphereColor c
          (2 * realOps.pi / l) (realOps.pi / m)
          (rotatePointAroundAxisZ realOps
            (Vector3d.getPoint3dRep (⟨0.0, r, 0.0⟩ : Vector3d ℝ)) currentLatitude)
          (rotatePointAroundAxisZ realOps
            (Vector3d.getPoint3dRep (⟨0.0, r, 0.0⟩ : Vector3d ℝ))
            (currentLatitude + realOps.pi / m))
          currentLatitude currentLongitude) fuel hfuelL triangleStore]
  unfold TessellatedSphereGenerator.generateGeometry
  rw [if_pos hvalid]
  simp only [hr, hc, hl, hm, TessellatedSphereGenerator.clearTriangleStore]
  rw [hbody, real_whileBelow_count realOps.pi hpi m hm0 _ fuel hfuelM]
  exact ⟨_, rfl⟩

/-- The cone generator takes its parameters as valid exactly when the height, the
base radius and the segment count are positive numbers and the base point is a
point. -/
theorem cone_areInternalParametersValid_iff (generator : TessellatedConeGenerator R) :
    generator.areInternalParametersValid = true ↔
      ∃ height base radius count,
        generator.coneHeight = some height ∧ 0 < height ∧
        generator.basePoint = some base ∧
        generator.baseRadius = some radius ∧ 0 < radius ∧
        generator.segmentCount = some count ∧ 0 < count := by
  simp only [TessellatedConeGenerator.areInternalParametersValid, Bool.and_eq_true,
    decide_eq_true_eq, returnValidNumOrZero_pos_iff, Option.isSome_iff_exists]
  constructor
  · rintro ⟨⟨⟨⟨h, hh, hh0⟩, ⟨b, hb⟩⟩, ⟨r, hr, hr0⟩⟩, ⟨n, hn, hn0⟩⟩
    exact ⟨h, b, r, n, hh, hh0, hb, hr, hr0, hn, hn0⟩
  · rintro ⟨h, b, r, n, hh, hh0, hb, hr, hr0, hn, hn0⟩
    exact ⟨⟨⟨⟨h, hh, hh0⟩, ⟨b, hb⟩⟩, ⟨r, hr, hr0⟩⟩, ⟨n, hn, hn0⟩⟩

/-- With invalid parameters the cone generator returns false and is left as it
was. -/
theorem cone_generateGeometry_invalid (ops : MathOps R) (fuel : Nat)
    (generator : TessellatedConeGenerator R)
    (hinvalid : generator.areInternalParametersValid = false) :
    generator.generateGeometry ops fuel = some (false, generator) := by
  unfold TessellatedConeGenerator.generateGeometry
  rw [hinvalid]
  rfl

/-- With valid parameters the cone generator does not return false. -/
theorem cone_generateGeometry_flag (ops : MathOps R) (fuel : Nat)
    (generator generator' : TessellatedConeGenerator R) (flag : Bool)
    (hvalid : generator.areInternalParametersValid = true)
    (hret : generator.generateGeometry ops fuel = some (flag, generator')) : flag = true := by
  obtain ⟨h, b, r, n, hh, _, hb, hr, _, hn, _⟩ :=
    (cone_areInternalParametersValid_iff generator).1 hvalid
  unfold TessellatedConeGenerator.generateGeometry at hret
  rw [if_pos hvalid] at hret
  simp only [hh, hb, hr, hn] at hret
  split at hret
  · cases hret
  · simp only [Option.some.injEq, Prod.mk.injEq] at hret
    exact hret.1.symm

/-- Over the reals, with valid parameters, the cone generator returns true once
the fuel exceeds the rounded-up segment count. -/
theorem real_cone_generateGeometry_valid (generator : TessellatedConeGenerator ℝ)
    (hvalid : generator.areInternalParametersValid = true) :
    ∃ fuel₀ : Nat, ∀ fuel, fuel₀ ≤ fuel →
      ∃ generator', generator.generateGeometry realOps fuel = some (true, generator') := by
  obtain ⟨h, b, r, n, hh, _, hb, hr, _, hn, hn0⟩ :=
    (cone_areInternalParametersValid_iff generator).1 hvalid
  refine ⟨⌈n⌉₊ + 1, fun fuel hfuel => ?_⟩
  have hpi : (0 : ℝ) < realOps.pi := Real.pi_pos
  have hzero : (0.0 : ℝ) = 0 := by norm_num
  unfold TessellatedConeGenerator.generateGeometry
  rw [if_pos hvalid]
  simp only [hh, hb, hr, hn]
  rw [hzero, real_whileBelow_count (2 * realOps.pi) (by linarith) n hn0 _ fuel
    (Nat.lt_of_succ_le hfuel)]
  exact ⟨_, rfl⟩

/-- The cylinder generator takes its parameters as valid exactly when the radius,
the height and the segment count are positive numbers and the centre point is a
point. -/
theorem cylinder_areInternalParametersValid_iff (generator : TessellatedCylinderGenerator R) :
    generator.areInternalParametersValid = true ↔
      ∃ radius height centre count,
        generator.cylinderRadius = some radius ∧ 0 < radius ∧
        generator.cylinderHeight = some height ∧ 0 < height ∧
        generator.centerPoint = some centre ∧
        generator.segmentCount = some count ∧ 0 < count := by
  simp only [TessellatedCylinderGenerator.areInternalParametersValid, Bool.and_eq_true,
    decide_eq_true_eq, returnValidNumOrZero_pos_iff, Option.isSome_iff_exists]
  constructor
  · rintro ⟨⟨⟨⟨r, hr, hr0⟩, ⟨h, hh, hh0⟩⟩, ⟨c, hc⟩⟩, ⟨n, hn, hn0⟩⟩
    exact ⟨r, h, c, n, hr, hr0, hh, hh0, hc, hn, hn0⟩
  · rintro ⟨r, h, c, n, hr, hr0, hh, hh0, hc, hn, hn0⟩
    exact ⟨⟨⟨⟨r, hr, hr0⟩, ⟨h, hh, hh0⟩⟩, ⟨c, hc⟩⟩, ⟨n, hn, hn0⟩⟩

/-- With invalid parameters the cylinder generator returns false and is left as it
was. -/
theorem cylinder_generateGeometry_invalid (ops : MathOps R) (fuel : Nat)
    (generator : TessellatedCylinderGenerator R)
    (hinvalid : generator.areInternalParametersValid = false) :
    generator.generateGeometry ops fuel = some (false, generator) := by
  unfold TessellatedCylinderGenerator.generateGeometry
  rw [hinvalid]
  rfl

/-- With valid parameters the cylinder generator does not return false. -/
theorem cylinder_generateGeometry_flag (ops : MathOps R) (fuel : Nat)
    (generator generator' : TessellatedCylinderGenerator R) (flag : Bool)
    (hvalid : generator.areInternalParametersValid = true)
    (hret : generator.generateGeometry ops fuel = some (flag, generator')) : flag = true := by
  obtain ⟨r, h, c, n, hr, _, hh, _, hc, hn, _⟩ :=
    (cylinder_areInternalParametersValid_iff generator).1 hvalid
  unfold TessellatedCylinderGenerator.generateGeometry at hret
  rw [if_pos hvalid] at hret
  simp only [hr, hh, hc, hn] at hret
  split at hret
  · cases hret
  · simp only [Option.some.injEq, Prod.mk.injEq] at hret
    exact hret.1.symm

/-- Over the reals, with valid parameters, the cylinder generator returns true once
the fuel exceeds the rounded-up segment count. -/
theorem real_cylinder_generateGeometry_valid (generator : TessellatedCylinderGenerator ℝ)
    (hvalid : generator.areInternalParametersValid = true) :
    ∃ fuel₀ : Nat, ∀ fuel, fuel₀ ≤ fuel →
      ∃ generator', generator.generateGeometry realOps fuel = some (true, generator') := by
  obtain ⟨r, h, c, n, hr, _, hh, _, hc, hn, hn0⟩ :=
    (cylinder_areInternalParametersValid_iff generator).1 hvalid
  refine ⟨⌈n⌉₊ + 1, fun fuel hfuel => ?_⟩
  have hpi : (0 : ℝ) < realOps.pi := Real.pi_pos
  have hzero : (0.0 : ℝ) = 0 := by norm_num
  unfold TessellatedCylinderGenerator.generateGeometry
  rw [if_pos hvalid]
  simp only [hr, hh, hc, hn]
  rw [hzero, real_whileBelow_count (2 * realOps.pi) (by linarith) n hn0 _ fuel
    (Nat.lt_of_succ_le hfuel)]
  exact ⟨_, rfl⟩

/-- Claim C19: for each of the sphere, cone and cylinder generators, over the reals:
with invalid parameters `generateGeometry` returns false and leaves the generator,
in particular its triangle list, unchanged; with valid parameters it returns true
once the fuel of the loops suffices; and whenever it returns, the flag is true
exactly when `areInternalParametersValid` holds, and a false flag comes with an
unchanged triangle list. -/
theorem generateGeometry_true_iff_valid (sphere : TessellatedSphereGenerator ℝ)
    (cone : TessellatedConeGenerator ℝ) (cylinder : TessellatedCylinderGenerator ℝ) :
    ((sphere.areInternalParametersValid = false →
        ∀ fuel, sphere.generateGeometry realOps fuel = some (false, sphere)) ∧
      (sphere.areInternalParametersValid = true →
        ∃ fuel₀ : Nat, ∀ fuel, fuel₀ ≤ fuel →
          ∃ generator', sphere.generateGeometry realOps fuel = some (true, generator')) ∧
      (∀ fuel flag generator',
        sphere.generateGeometry realOps fuel = some (flag, generator') →
        (flag = true ↔ sphere.areInternalParametersValid = true) ∧
        (flag = false → generator'.getTriangleList = sphere.getTriangleList))) ∧
    ((cone.areInternalParametersValid = false →
        ∀ fuel, cone.generateGeometry realOps fuel = some (false, cone)) ∧
      (cone.areInternalParametersValid = true →
        ∃ fuel₀ : Nat, ∀ fuel, fuel₀ ≤ fuel →
          ∃ generator', cone.generateGeometry realOps fuel = some (true, generator')) ∧
      (∀ fuel flag generator',
        cone.generateGeometry realOps fuel = some (flag, generator') →
        (flag = true ↔ cone.areInternalParametersValid = true) ∧
        (flag = false → generator'.getTriangleList = cone.getTriangleList))) ∧
    ((cylinder.areInternalParametersValid = false →
        ∀ fuel, cylinder.generateGeometry realOps fuel = some (false, cylinder)) ∧
      (cylinder.areInternalParametersValid = true →
        ∃ fuel₀ : Nat, ∀ fuel, fuel₀ ≤ fuel →
          ∃ generator', cylinder.generateGeometry realOps fuel = some (true, generator')) ∧
      (∀ fuel flag generator',
        cylinder.generateGeometry realOps fuel = some (flag, generator') →
        (flag = true ↔ cylinder.areInternalParametersValid = true) ∧
        (flag = false → generator'.getTriangleList = cylinder.getTriangleList))) := by
  refine ⟨⟨fun h fuel => sphere_generateGeometry_invalid realOps fuel sphere h,
      real_sphere_generateGeometry_valid sphere, ?_⟩,
    ⟨fun h fuel => cone_generateGeometry_invalid realOps fuel cone h,
      real_cone_generateGeometry_valid cone, ?_⟩,
    ⟨fun h fuel => cylinder_generateGeometry_invalid realOps fuel cylinder h,
      real_cylinder_generateGeometry_valid cylinder, ?_⟩⟩
  · intro fuel flag generator' hret
    cases hvalid : sphere.areInternalParametersValid with
    | false =>
      rw [sphere_generateGeometry_invalid realOps fuel sphere hvalid] at hret
      simp only [Option.some.injEq, Prod.mk.injEq] at hret
      rw [← hret.1, ← hret.2]
      simp
    | true =>
      have := sphere_generateGeometry_flag realOps fuel sphere generator' flag hvalid hret
      rw [this]
      simp
  · intro fuel flag generator' hret
    cases hvalid : cone.areInternalParametersValid with
    | false =>
      rw [cone_generateGeometry_invalid realOps fuel cone hvalid] at hret
      simp only [Option.some.injEq, Prod.mk.injEq] at hret
      rw [← hret.1, ← hret.2]
      simp
    | true =>
      have := cone_generateGeometry_flag realOps fuel cone generator' flag hvalid hret
      rw [this]
      simp
  · intro fuel flag generator' hret
    cases hvalid : cylinder.areInternalParametersValid with
    | false =>
      rw [cylinder_generateGeometry_invalid realOps fuel cylinder hvalid] at hret
      simp only [Option.some.injEq, Prod.mk.injEq] at hret
      rw [← hret.1, ← hret.2]
      simp
    | true =>
      have := cylinder_generateGeometry_flag realOps fuel cylinder generator' flag hvalid hret
      rw [this]
      simp

/-! ## The text scroller -/

/-- The loop of `createStringSegments`, over any list of indices: the segments and
their rounded-up widths are appended in order, and nothing else changes. -/
theorem createStringSegments_fold [FloorRing R] (context : CanvasContext R)
    (numScrollerSegments : Int) :
    ∀ (indices : List Nat) (scroller : TextScroller R),
      indices.foldl
        (fun scroller segmentStorageLoop =>
          { scroller with
            scrollerTextSegments := scroller.scrollerTextSegments ++
              [TextScroller.stringSegment (R := R) scroller.sourceString numScrollerSegments
                segmentStorageLoop]
            scrollerTextSegmentRenderedLengths := scroller.scrollerTextSegmentRenderedLengths ++
              [((⌈context.measureText (TextScroller.stringSegment (R := R) scroller.sourceString
                numScrollerSegments segmentStorageLoop)⌉ : Int) : R)] })
        scroller
      = { scroller with
          scrollerTextSegments := scroller.scrollerTextSegments ++
            indices.map (TextScroller.stringSegment (R := R) scroller.sourceString
              numScrollerSegments)
          scrollerTextSegmentRenderedLengths := scroller.scrollerTextSegmentRenderedLengths ++
            indices.map (fun segmentStorageLoop =>
              ((⌈context.measureText (TextScroller.stringSegment (R := R) scroller.sourceString
                numScrollerSegments segmentStorageLoop)⌉ : Int) : R)) } := by
  intro indices
  induction indices with
  | nil => intro scroller; simp
  | cons i indices ih =>
    intro scroller
    rw [List.foldl_cons, ih]
    simp only [List.map_cons, List.append_assoc, List.singleton_append]

/-- The segments and widths that `createStringSegments` leaves. -/
theorem createStringSegments_eq [FloorRing R] (scroller : TextScroller R)
    (numScrollerSegments : Int) (context : CanvasContext R) :
    scroller.createStringSegments numScrollerSegments (some context)
      = { scroller with
          scrollerTextSegments := scroller.scrollerTextSegments ++
            (List.range numScrollerSegments.toNat).map
              (TextScroller.stringSegment (R := R) scroller.sourceString numScrollerSegments)
          scrollerTextSegmentRenderedLengths := scroller.scrollerTextSegmentRenderedLengths ++
            (List.range numScrollerSegments.toNat).map (fun segmentStorageLoop =>
              ((⌈context.measureText (TextScroller.stringSegment (R := R) scroller.sourceString
                numScrollerSegments segmentStorageLoop)⌉ : Int) : R)) } := by
  unfold TextScroller.createStringSegments
  exact createStringSegments_fold context numScrollerSegments _ scroller

/-- The method `setupInitialTextSegments` writes the position and the two canvases
only. -/
theorem setupInitialTextSegments_frame (scroller : TextScroller R)
    (firstSegmentPositionOffset : R) :
    (scroller.setupInitialTextSegments firstSegmentPositionOffset).scrollerTextSegments
        = scroller.scrollerTextSegments ∧
    (scroller.setupInitialTextSegments
        firstSegmentPositionOffset).scrollerTextSegmentRenderedLengths
        = scroller.scrollerTextSegmentRenderedLengths ∧
    (scroller.setupInitialTextSegments firstSegmentPositionOffset).currentSegmentIndex
        = scroller.currentSegmentIndex ∧
    (scroller.setupInitialTextSegments firstSegmentPositionOffset).endOfScrollerReached
        = scroller.endOfScrollerReached ∧
    (scroller.setupInitialTextSegments firstSegmentPositionOffset).sourceString
        = scroller.sourceString := by
  unfold TextScroller.setupInitialTextSegments
  dsimp only
  split <;> exact ⟨rfl, rfl, rfl, rfl, rfl⟩

/-- The scroller after `initializeAfterStringAssignment` with a reference canvas of
positive width: the segments are those of the source string for the number of
segments computed, with their rounded-up widths; the segment index is zero and the
end has not been reached. -/
theorem initializeAfterStringAssignment_segments [FloorRing R] (scroller : TextScroller R)
    (context : CanvasContext R) (hwidth : 0 < context.canvasWidth) :
    (scroller.initializeAfterStringAssignment (some context)).scrollerTextSegments
        = (List.range ⌈context.measureText scroller.sourceString / context.canvasWidth⌉.toNat).map
            (TextScroller.stringSegment (R := R) scroller.sourceString
              ⌈context.measureText scroller.sourceString / context.canvasWidth⌉) ∧
    (scroller.initializeAfterStringAssignment (some context)).scrollerTextSegmentRenderedLengths
        = (List.range ⌈context.measureText scroller.sourceString / context.canvasWidth⌉.toNat).map
            (fun segmentStorageLoop =>
              ((⌈context.measureText (TextScroller.stringSegment (R := R) scroller.sourceString
                ⌈context.measureText scroller.sourceString / context.canvasWidth⌉
                segmentStorageLoop)⌉ : Int) : R)) ∧
    (scroller.initializeAfterStringAssignment (some context)).currentSegmentIndex = 0 ∧
    (scroller.initializeAfterStringAssignment (some context)).endOfScrollerReached = false := by
  unfold TextScroller.initializeAfterStringAssignment
  simp only [gt_iff_lt, hwidth, if_true]
  obtain ⟨h₁, h₂, h₃, h₄, _⟩ := setupInitialTextSegments_frame
    (TextScroller.createStringSegments
      (TextScroller.clearTextSegmentData
        { scroller with
          endOfScrollerReached := false
          currentSegmentIndex := 0
          currentPositionInCurrentSegment := 0 })
      ⌈context.measureText scroller.sourceString / context.canvasWidth⌉ (some context))
    context.canvasWidth
  rw [h₁, h₂, h₃, h₄, createStringSegments_eq]
  simp [TextScroller.clearTextSegmentData]

/-- Claim C20: for every scroller (whatever its source string), and every reference
canvas of positive width `V` on which the source string measures `W`,
`initializeAfterStringAssignment` leaves `⌈W / V⌉` entries in `scrollerTextSegments`
and as many in `scrollerTextSegmentRenderedLengths` (the loop runs for the indices
below `⌈W / V⌉`, which for a width `W ≥ 0` is that many), with `currentSegmentIndex`
zero and `endOfScrollerReached` false. -/
theorem initializeAfterStringAssignment_segment_count [FloorRing R] (scroller : TextScroller R)
    (context : CanvasContext R) (hwidth : 0 < context.canvasWidth)
    (hmeasure : 0 ≤ context.measureText scroller.sourceString) :
    (((scroller.initializeAfterStringAssignment (some context)).scrollerTextSegments.length
        : Nat) : Int)
      = ⌈context.measureText scroller.sourceString / context.canvasWidth⌉ ∧
    (((scroller.initializeAfterStringAssignment
        (some context)).scrollerTextSegmentRenderedLengths.length : Nat) : Int)
      = ⌈context.measureText scroller.sourceString / context.canvasWidth⌉ ∧
    (scroller.initializeAfterStringAssignment (some context)).currentSegmentIndex = 0 ∧
    (scroller.initializeAfterStringAssignment (some context)).endOfScrollerReached = false := by
  obtain ⟨h₁, h₂, h₃, h₄⟩ := initializeAfterStringAssignment_segments scroller context hwidth
  have hceil : 0 ≤ ⌈context.measureText scroller.sourceString / context.canvasWidth⌉ :=
    Int.ceil_nonneg (div_nonneg hmeasure hwidth.le)
  refine ⟨?_, ?_, h₃, h₄⟩
  · rw [h₁, List.length_map, List.length_range, Int.toNat_of_nonneg hceil]
  · rw [h₂, List.length_map, List.length_range, Int.toNat_of_nonneg hceil]

/-- A string of four characters that are 10 pixels wide each, on a reference canvas
15 pixels wide: three segments. -/
theorem initializeAfterStringAssignment_segment_count_witness :
    ((((TextScroller.new (16 : ℝ)).setSourceString ['a', 'b', 'c', 'd']
        ).initializeAfterStringAssignment
          (some { canvasWidth := 15, measureText := fun s => 10 * (s.length : ℝ) })
        ).scrollerTextSegments.length : Int) = 3 := by
  have h := (initializeAfterStringAssignment_segment_count
    ((TextScroller.new (16 : ℝ)).setSourceString ['a', 'b', 'c', 'd'])
    { canvasWidth := 15, measureText := fun s => 10 * (s.length : ℝ) }
    (by norm_num) (by simp [TextScroller.setSourceString, TextScroller.new])).1
  rw [h]
  simp only [TextScroller.setSourceString, TextScroller.new, List.length_cons, List.length_nil]
  rw [Int.ceil_eq_iff]
  norm_num

/-- Claim C21: evaluation at the failing input.  The source string `abc`, every
character 5 pixels wide, and a reference canvas 8 pixels wide: the text measures
15 pixels, so two segments are made, of `⌈3 / 2⌉ = 2` characters at most.  The
first segment `ab` has the rendered width 10, which exceeds the canvas width 8. -/
theorem initializeAfterStringAssignment_segment_wider_than_canvas :
    (((TextScroller.new (16 : ℝ)).setSourceString ['a', 'b', 'c']
        ).initializeAfterStringAssignment
          (some { canvasWidth := 8, measureText := fun s => 5 * (s.length : ℝ) })
        ).scrollerTextSegments = [['a', 'b'], ['c']] ∧
    (((TextScroller.new (16 : ℝ)).setSourceString ['a', 'b', 'c']
        ).initializeAfterStringAssignment
          (some { canvasWidth := 8, measureText := fun s => 5 * (s.length : ℝ) })
        ).scrollerTextSegmentRenderedLengths = [10, 5] ∧
    (8 : ℝ) < 10 := by
  have hcount : ⌈(5 * ((3 : Nat) : ℝ)) / 8⌉ = 2 := by
    rw [Int.ceil_eq_iff]; norm_num
  have hchars : ⌈(((3 : Nat) : Int) : ℝ) / ((2 : Int) : ℝ)⌉ = 2 := by
    rw [Int.ceil_eq_iff]; norm_num
  have hten : ⌈(5 * ((2 : Nat) : ℝ))⌉ = 10 := by
    rw [Int.ceil_eq_iff]; norm_num
  have hfive : ⌈(5 * ((1 : Nat) : ℝ))⌉ = 5 := by
    rw [Int.ceil_eq_iff]; norm_num
  obtain ⟨h₁, h₂, _, _⟩ := initializeAfterStringAssignment_segments
    ((TextScroller.new (16 : ℝ)).setSourceString ['a', 'b', 'c'])
    { canvasWidth := 8, measureText := fun s => 5 * (s.length : ℝ) } (by norm_num)
  have hsegments : ∀ k : Nat,
      TextScroller.stringSegment (R := ℝ) ['a', 'b', 'c'] 2 k
        = jsSubstring ['a', 'b', 'c'] ((k : Int) * 2) (min (((k : Int) + 1) * 2) 3) := by
    intro k
    simp only [TextScroller.stringSegment, List.length_cons, List.length_nil]
    rw [hchars]
    rfl
  refine ⟨?_, ?_, by norm_num⟩
  · rw [h₁]
    simp only [TextScroller.setSourceString, TextScroller.new, List.length_cons,
      List.length_nil]
    rw [hcount]
    simp only [show (2 : Int).toNat = 2 from rfl, List.range_succ, List.range_zero,
      List.nil_append, List.map_cons, List.map_nil, List.cons_append, hsegments]
    decide
  · rw [h₂]
    simp only [TextScroller.setSourceString, TextScroller.new, List.length_cons,
      List.length_nil]
    rw [hcount]
    simp only [show (2 : Int).toNat = 2 from rfl, List.range_succ, List.range_zero,
      List.nil_append, List.map_cons, List.map_nil, List.cons_append, hsegments]
    rw [show jsSubstring ['a', 'b', 'c'] (((0 : Nat) : Int) * 2)
        (min ((((0 : Nat) : Int) + 1) * 2) 3) = ['a', 'b'] by decide,
      show jsSubstring ['a', 'b', 'c'] (((1 : Nat) : Int) * 2)
        (min ((((1 : Nat) : Int) + 1) * 2) 3) = ['c'] by decide]
    simp only [List.length_cons, List.length_nil]
    rw [hten, hfive]
    norm_num

/-- Claim C22: for every scroller state, `advanceScroller` adds `scrollIncrement` to
`currentPositionInCurrentSegment`.  If the result does not exceed the width of the
lead canvas, nothing else changes.  If it exceeds that width, the lead width is
subtracted from the position and `currentSegmentIndex` increases by one; when the
new index is not less than the number of segments `endOfScrollerReached` is set
and the canvases are kept, otherwise the flag is left as it was (false stays
false) and the trailing canvas becomes the lead canvas.  The segments are never
changed. -/
theorem advanceScroller_spec (scroller : TextScroller R) :
    (¬ scroller.currentPositionInCurrentSegment + scroller.scrollIncrement
          > scroller.leadTextCanvas.width →
      scroller.advanceScroller = { scroller with
        currentPositionInCurrentSegment :=
          scroller.currentPositionInCurrentSegment + scroller.scrollIncrement }) ∧
    (scroller.currentPositionInCurrentSegment + scroller.scrollIncrement
          > scroller.leadTextCanvas.width →
      scroller.advanceScroller.currentPositionInCurrentSegment
        = scroller.currentPositionInCurrentSegment + scroller.scrollIncrement
          - scroller.leadTextCanvas.width ∧
      scroller.advanceScroller.currentSegmentIndex = scroller.currentSegmentIndex + 1 ∧
      (¬ scroller.currentSegmentIndex + 1 < scroller.scrollerTextSegments.length →
        scroller.advanceScroller.endOfScrollerReached = true ∧
        scroller.advanceScroller.leadTextCanvas = scroller.leadTextCanvas ∧
        scroller.advanceScroller.trailingTextCanvas = scroller.trailingTextCanvas) ∧
      (scroller.currentSegmentIndex + 1 < scroller.scrollerTextSegments.length →
        scroller.advanceScroller.endOfScrollerReached = scroller.endOfScrollerReached ∧
        scroller.advanceScroller.leadTextCanvas = scroller.trailingTextCanvas) ∧
      (scroller.endOfScrollerReached = false →
        (scroller.advanceScroller.endOfScrollerReached = true ↔
          ¬ scroller.currentSegmentIndex + 1 < scroller.scrollerTextSegments.length))) ∧
    scroller.advanceScroller.scrollerTextSegments = scroller.scrollerTextSegments ∧
    scroller.advanceScroller.scrollerTextSegmentRenderedLengths
      = scroller.scrollerTextSegmentRenderedLengths := by
  refine ⟨?_, ?_, ?_, ?_⟩
  · intro h
    unfold TextScroller.advanceScroller
    simp only [if_neg h]
  · intro h
    by_cases hidx : scroller.currentSegmentIndex + 1 < scroller.scrollerTextSegments.length
    · have hnext : scroller.advanceScroller.currentPositionInCurrentSegment
            = scroller.currentPositionInCurrentSegment + scroller.scrollIncrement
              - scroller.leadTextCanvas.width ∧
          scroller.advanceScroller.currentSegmentIndex = scroller.currentSegmentIndex + 1 ∧
          scroller.advanceScroller.endOfScrollerReached = scroller.endOfScrollerReached ∧
          scroller.advanceScroller.leadTextCanvas = scroller.trailingTextCanvas := by
        unfold TextScroller.advanceScroller
        simp only [if_pos h, if_pos hidx]
        split <;> exact ⟨rfl, rfl, rfl, rfl⟩
      obtain ⟨h₁, h₂, h₃, h₄⟩ := hnext
      refine ⟨h₁, h₂, fun hn => absurd hidx hn, fun _ => ⟨h₃, h₄⟩, fun hflag => ?_⟩
      rw [h₃, hflag]
      exact ⟨fun hfalse => Bool.noConfusion hfalse, fun hn => absurd hidx hn⟩
    · have hend : scroller.advanceScroller.currentPositionInCurrentSegment
            = scroller.currentPositionInCurrentSegment + scroller.scrollIncrement
              - scroller.leadTextCanvas.width ∧
          scroller.advanceScroller.currentSegmentIndex = scroller.currentSegmentIndex + 1 ∧
          scroller.advanceScroller.endOfScrollerReached = true ∧
          scroller.advanceScroller.leadTextCanvas = scroller.leadTextCanvas ∧
          scroller.advanceScroller.trailingTextCanvas = scroller.trailingTextCanvas := by
        unfold TextScroller.advanceScroller
        simp only [if_pos h, if_neg hidx]
        exact ⟨trivial, trivial, trivial, trivial, trivial⟩
      obtain ⟨h₁, h₂, h₃, h₄, h₅⟩ := hend
      exact ⟨h₁, h₂, fun _ => ⟨h₃, h₄, h₅⟩, fun hn => absurd hn hidx,
        fun _ => ⟨fun _ => hidx, fun _ => h₃⟩⟩
  · unfold TextScroller.advanceScroller
    dsimp only
    split
    · split
      · split <;> rfl
      · rfl
    · rfl
  · unfold TextScroller.advanceScroller
    dsimp only
    split
    · split
      · split <;> rfl
      · rfl
    · rfl

/-- The segment with index `k` is the slice of the source string between `k` and
`k + 1` times the rounded-up quotient of the string length by the number of
segments. -/
theorem stringSegment_eq [FloorRing R] (sourceString : List Char) (numScrollerSegments : Int)
    (k : Nat)
    (hnonneg : 0 ≤ ⌈((sourceString.length : Int) : R) / ((numScrollerSegments : Int) : R)⌉) :
    TextScroller.stringSegment (R := R) sourceString numScrollerSegments k
      = (sourceString.take ((k + 1) *
            ⌈((sourceString.length : Int) : R) / ((numScrollerSegments : Int) : R)⌉.toNat)).drop
          (k * ⌈((sourceString.length : Int) : R) / ((numScrollerSegments : Int) : R)⌉.toNat) := by
  unfold TextScroller.stringSegment
  dsimp only
  generalize ⌈((sourceString.length : Int) : R) / ((numScrollerSegments : Int) : R)⌉ = c
    at hnonneg ⊢
  obtain ⟨cN, rfl⟩ := Int.eq_ofNat_of_zero_le hnonneg
  simp only [Int.toNat_ofNat]
  have hstart : ((k : Int) * (cN : Int)) = ((k * cN : Nat) : Int) := by push_cast; ring
  have hend : min (((k : Int) + 1) * (cN : Int)) (sourceString.length : Int)
      = ((min ((k + 1) * cN) sourceString.length : Nat) : Int) := by push_cast; ring_nf
  rw [hstart, hend]
  by_cases hk : k * cN ≤ sourceString.length
  · rw [jsSubstring_of_le _ _ _ (le_min (Nat.mul_le_mul_right cN (Nat.le_succ k)) hk)]
    congr 1
    rcases le_total ((k + 1) * cN) sourceString.length with h | h
    · rw [min_eq_left h]
    · rw [min_eq_right h, List.take_of_length_le le_rfl, List.take_of_length_le h]
  · have hk' : sourceString.length ≤ k * cN := le_of_not_le hk
    have hk'' : sourceString.length ≤ (k + 1) * cN :=
      le_trans hk' (Nat.mul_le_mul_right cN (Nat.le_succ k))
    rw [min_eq_right hk'']
    unfold jsSubstring
    simp only [Int.toNat_ofNat, min_eq_right hk', min_self, max_self]
    rw [List.drop_eq_nil_of_le (by rw [List.length_take]; exact min_le_right _ _),
      List.drop_eq_nil_of_le (by
        rw [List.length_take]; exact le_trans (min_le_right _ _) hk')]

/-- Claim C29: for every source string and every number of segments `n ≥ 1` passed
to `createStringSegments` (with a reference canvas present), the segments that
the call appends to `scrollerTextSegments` are `n` in number and concatenate, in
order, to exactly the source string. -/
theorem createStringSegments_concatenation [FloorRing R] (scroller : TextScroller R)
    (numScrollerSegments : Int) (context : CanvasContext R) (hcount : 1 ≤ numScrollerSegments) :
    ∃ created : List (List Char),
      (scroller.createStringSegments numScrollerSegments (some context)).scrollerTextSegments
        = scroller.scrollerTextSegments ++ created ∧
      (created.length : Int) = numScrollerSegments ∧
      created.flatten = scroller.sourceString := by
  have hpos : (0 : R) < ((numScrollerSegments : Int) : R) := by
    exact_mod_cast lt_of_lt_of_le zero_lt_one hcount
  have hnonneg : 0 ≤ ⌈((scroller.sourceString.length : Int) : R)
      / ((numScrollerSegments : Int) : R)⌉ :=
    Int.ceil_nonneg (div_nonneg (by exact_mod_cast Nat.zero_le _) hpos.le)
  refine ⟨(List.range numScrollerSegments.toNat).map
    (TextScroller.stringSegment (R := R) scroller.sourceString numScrollerSegments), ?_, ?_, ?_⟩
  · rw [createStringSegments_eq]
  · rw [List.length_map, List.length_range,
      Int.toNat_of_nonneg (le_trans zero_le_one hcount)]
  · have hmap : (List.range numScrollerSegments.toNat).map
        (TextScroller.stringSegment (R := R) scroller.sourceString numScrollerSegments)
        = (List.range numScrollerSegments.toNat).map (fun k =>
            (scroller.sourceString.take ((k + 1) *
              ⌈((scroller.sourceString.length : Int) : R)
                / ((numScrollerSegments : Int) : R)⌉.toNat)).drop
              (k * ⌈((scroller.sourceString.length : Int) : R)
                / ((numScrollerSegments : Int) : R)⌉.toNat)) :=
      List.map_congr_left (fun k _ => stringSegment_eq _ _ k hnonneg)
    rw [hmap, join_slices]
    apply List.take_of_length_le
    -- the rounded-up quotient times the number of segments covers the string
    have hceil := Int.le_ceil (((scroller.sourceString.length : Int) : R)
      / ((numScrollerSegments : Int) : R))
    rw [div_le_iff₀ hpos] at hceil
    have hint : (scroller.sourceString.length : Int)
        ≤ ⌈((scroller.sourceString.length : Int) : R) / ((numScrollerSegments : Int) : R)⌉
          * numScrollerSegments := by exact_mod_cast hceil
    generalize ⌈((scroller.sourceString.length : Int) : R)
      / ((numScrollerSegments : Int) : R)⌉ = c at hnonneg hint ⊢
    obtain ⟨cN, rfl⟩ := Int.eq_ofNat_of_zero_le hnonneg
    obtain ⟨nN, rfl⟩ := Int.eq_ofNat_of_zero_le (le_trans zero_le_one hcount)
    simp only [Int.toNat_ofNat]
    rw [mul_comm]
    exact_mod_cast hint

/-- The string `abcde` cut into four segments (`ab`, `cd`, `e` and an empty one). -/
theorem createStringSegments_concatenation_witness :
    (1 : Int) ≤ 4 ∧
    ((((TextScroller.new (16 : ℝ)).setSourceString ['a', 'b', 'c', 'd', 'e']
        ).createStringSegments 4
          (some { canvasWidth := 15, measureText := fun s => 10 * (s.length : ℝ) })
        ).scrollerTextSegments).flatten = ['a', 'b', 'c', 'd', 'e'] := by
  obtain ⟨created, h₁, _, h₃⟩ := createStringSegments_concatenation
    ((TextScroller.new (16 : ℝ)).setSourceString ['a', 'b', 'c', 'd', 'e']) 4
    { canvasWidth := 15, measureText := fun s => 10 * (s.length : ℝ) } (by decide)
  refine ⟨by decide, ?_⟩
  rw [h₁]
  simpa [TextScroller.setSourceString, TextScroller.new] using h₃

/-! ## The display state of the scroller -/

/-- The scroller state and state time after `updateScrollerState`, by cases. -/
theorem updateScrollerState_cases (state : ScrollerDisplayState R) (timeQuantum : R) :
    (state.currentScrollerState = constScrollerStateLeadIn ∧
      constScrollerStateLeadInTime ≤ state.currentScrollerStateTime + timeQuantum ∧
      (updateScrollerState state timeQuantum).currentScrollerState = constScrollerStateFadeIn ∧
      (updateScrollerState state timeQuantum).currentScrollerStateTime = 0) ∨
    (state.currentScrollerState = constScrollerStateFadeIn ∧
      constScrollerStateFadeInTime ≤ state.currentScrollerStateTime + timeQuantum ∧
      (updateScrollerState state timeQuantum).currentScrollerState
        = constScrollerStateDisplayText ∧
      (updateScrollerState state timeQuantum).currentScrollerStateTime = 0) ∨
    ((updateScrollerState state timeQuantum).currentScrollerState = state.currentScrollerState ∧
      (updateScrollerState state timeQuantum).currentScrollerStateTime
        = state.currentScrollerStateTime + timeQuantum ∧
      ¬ (state.currentScrollerState = constScrollerStateLeadIn ∧
        constScrollerStateLeadInTime ≤ state.currentScrollerStateTime + timeQuantum) ∧
      ¬ (state.currentScrollerState = constScrollerStateFadeIn ∧
        constScrollerStateFadeInTime ≤ state.currentScrollerStateTime + timeQuantum)) := by
  unfold updateScrollerState
  dsimp only
  by_cases h₁ : state.currentScrollerState = constScrollerStateLeadIn ∧
      state.currentScrollerStateTime + timeQuantum ≥ constScrollerStateLeadInTime
  · left
    rw [if_pos h₁]
    refine ⟨h₁.1, h₁.2, ?_, ?_⟩ <;> split <;> rfl
  · rw [if_neg h₁]
    by_cases h₂ : state.currentScrollerState = constScrollerStateFadeIn ∧
        state.currentScrollerStateTime + timeQuantum ≥ constScrollerStateFadeInTime
    · right; left
      rw [if_pos h₂]
      refine ⟨h₂.1, h₂.2, ?_, ?_⟩ <;> split <;> rfl
    · right; right
      rw [if_neg h₂]
      refine ⟨?_, ?_, h₁, h₂⟩ <;> split <;> rfl

/-- Claim C23: for every scroller display state, hence after every sequence of time
deltas, and every further time delta, `updateScrollerState` does not decrease
`currentScrollerState` and raises it by at most one; it leaves lead-in only for
fade-in and only when the time accumulated in lead-in (the state time plus the
delta) has reached `constScrollerStateLeadInTime`, leaves fade-in only for text
display and only when the time accumulated in fade-in has reached
`constScrollerStateFadeInTime`, and never leaves text display.  The state time is
the time accumulated in the phase: it starts at zero when the phase changes and
grows by the delta otherwise. -/
theorem updateScrollerState_phases (state : ScrollerDisplayState R) (deltas : List R)
    (timeQuantum : R) :
    (deltas.foldl updateScrollerState state).currentScrollerState
      ≤ (updateScrollerState (deltas.foldl updateScrollerState state)
          timeQuantum).currentScrollerState ∧
    (updateScrollerState (deltas.foldl updateScrollerState state)
        timeQuantum).currentScrollerState
      ≤ (deltas.foldl updateScrollerState state).currentScrollerState + 1 ∧
    ((deltas.foldl updateScrollerState state).currentScrollerState = constScrollerStateLeadIn →
      (updateScrollerState (deltas.foldl updateScrollerState state)
        timeQuantum).currentScrollerState ≠ constScrollerStateLeadIn →
      (updateScrollerState (deltas.foldl updateScrollerState state)
        timeQuantum).currentScrollerState = constScrollerStateFadeIn ∧
      constScrollerStateLeadInTime
        ≤ (deltas.foldl updateScrollerState state).currentScrollerStateTime + timeQuantum) ∧
    ((deltas.foldl updateScrollerState state).currentScrollerState = constScrollerStateFadeIn →
      (updateScrollerState (deltas.foldl updateScrollerState state)
        timeQuantum).currentScrollerState ≠ constScrollerStateFadeIn →
      (updateScrollerState (deltas.foldl updateScrollerState state)
        timeQuantum).currentScrollerState = constScrollerStateDisplayText ∧
      constScrollerStateFadeInTime
        ≤ (deltas.foldl updateScrollerState state).currentScrollerStateTime + timeQuantum) ∧
    ((deltas.foldl updateScrollerState state).currentScrollerState
        = constScrollerStateDisplayText →
      (updateScrollerState (deltas.foldl updateScrollerState state)
        timeQuantum).currentScrollerState = constScrollerStateDisplayText) ∧
    ((updateScrollerState (deltas.foldl updateScrollerState state)
        timeQuantum).currentScrollerState
        = (deltas.foldl updateScrollerState state).currentScrollerState →
      (updateScrollerState (deltas.foldl updateScrollerState state)
        timeQuantum).currentScrollerStateTime
        = (deltas.foldl updateScrollerState state).currentScrollerStateTime + timeQuantum) ∧
    ((updateScrollerState (deltas.foldl updateScrollerState state)
        timeQuantum).currentScrollerState
        ≠ (deltas.foldl updateScrollerState state).currentScrollerState →
      (updateScrollerState (deltas.foldl updateScrollerState state)
        timeQuantum).currentScrollerStateTime = 0) := by
  generalize deltas.foldl updateScrollerState state = s
  rcases updateScrollerState_cases s timeQuantum with
    ⟨hs, htime, hafter, hzero⟩ | ⟨hs, htime, hafter, hzero⟩ | ⟨hafter, hsum, _, _⟩
  · rw [hafter, hs]
    refine ⟨by decide, by decide, fun _ _ => ⟨rfl, htime⟩, fun h => ?_, fun h => ?_,
      fun h => ?_, fun _ => hzero⟩
    · exact absurd h (by decide)
    · exact absurd h (by decide)
    · exact absurd h (by decide)
  · rw [hafter, hs]
    refine ⟨by decide, by decide, fun h => ?_, fun _ _ => ⟨rfl, htime⟩, fun h => ?_,
      fun h => ?_, fun _ => hzero⟩
    · exact absurd h (by decide)
    · exact absurd h (by decide)
    · exact absurd h (by decide)
  · rw [hafter]
    exact ⟨le_rfl, Nat.le_succ _, fun h hne => absurd h hne, fun h hne => absurd h hne,
      fun h => h, fun _ => hsum, fun hne => absurd rfl hne⟩

/-! ## Snowballs at the ground -/

/-- The loops of the collision pass, before the removal, flag every snowball at or
below ground level, at its index and with its position kept. -/
theorem processAllSnowballCollisions_flags_grounded (ops : MathOps R) (scene : Scene R)
    (hsnowmen : 0 < scene.snowmanInstanceDataCollection.length) (k : Nat)
    (snowball : SnowballInstanceData R)
    (hsnowball : scene.snowballInstanceDataCollection[k]? = some snowball)
    (hground : snowball.snowballPosition.y ≤ 0) :
    ∃ b, ((List.range scene.snowmanInstanceDataCollection.length).foldl
          (processSingleSnowballCollision ops) scene).snowballInstanceDataCollection[k]?
        = some b ∧
      b.invalidatedByCollision = true ∧ b.snowballPosition = snowball.snowballPosition := by
  obtain ⟨m, hm⟩ := Nat.exists_eq_succ_of_ne_zero (Nat.pos_iff_ne_zero.1 hsnowmen)
  rw [hm, List.range_succ_eq_map, List.foldl_cons]
  have hfirst := processSingleSnowballCollision_stable ops scene 0
  have hrest := processAllSnowballCollisions_fold_stable ops (List.map Nat.succ (List.range m))
    (processSingleSnowballCollision ops scene 0)
  obtain ⟨b₁, hb₁, hflag⟩ := processSingleSnowballCollision_invalidates_ground ops scene 0
    scene.snowmanInstanceDataCollection[0] (List.getElem?_eq_getElem hsnowmen) k snowball
    hsnowball hground
  have hrel₁ := hfirst.2.2 k snowball b₁ hsnowball hb₁
  obtain ⟨b, hb, hrel₂⟩ := listRel_exists_of_getElem? hrest.2 hb₁
  exact ⟨b, hb, hrel₂.2.2 hflag, by rw [hrel₂.1, hrel₁.1]⟩

/-- In `restingScene` the snowball is out of the collision range of the snowman. -/
theorem restingScene_no_collision :
    isSnowballInCollisionStateWithSnowman realOps
      { (boundarySnowman : SnowmanInstanceData ℝ) with snowmanPosition := ⟨0, 0, 0⟩ }
      { snowballVelocityVector := ⟨0, 0, 0⟩
        snowballPosition := ⟨0.4, 0.005, 0.4⟩
        sourceSnowmanInstance := none
        invalidatedByCollision := false } = false := by
  unfold isSnowballInCollisionStateWithSnowman
  rw [real_snowballDistance_eq]
  have hfar : ¬ Real.sqrt (((0.4 : ℝ) - 0) ^ 2 + ((0.4 : ℝ) - 0) ^ 2)
      ≤ constSnowballRadius + constBaseSnowmanSphereRadius := by
    rw [Real.sqrt_le_left (by
      norm_num [constSnowballRadius, constBaseSnowmanSphereRadius, constWorldScale])]
    norm_num [constSnowballRadius, constBaseSnowmanSphereRadius, constWorldScale]
  simp only [hfar, decide_False, ite_self]

/-- Claim C24, counterexample: in `restingScene` the lowest point of the snowball
has reached the ground (`y − constSnowballRadius ≤ 0` with `y = 0.005`), there is a
snowman, and the collision pass leaves the snowball in the collection: the ground
test of the pass reads the height of the centre. -/
theorem processAllSnowballCollisions_keeps_resting_snowball :
    0 < (restingScene : Scene ℝ).snowmanInstanceDataCollection.length ∧
    (0.005 : ℝ) - constSnowballRadius ≤ 0 ∧
    (processAllSnowballCollisions realOps
        (restingScene : Scene ℝ)).snowballInstanceDataCollection
      = [{ snowballVelocityVector := ⟨0, 0, 0⟩
           snowballPosition := ⟨0.4, 0.005, 0.4⟩
           sourceSnowmanInstance := none
           invalidatedByCollision := false }] := by
  refine ⟨by decide, by norm_num [constSnowballRadius, constWorldScale], ?_⟩
  have hstep : processSingleSnowballCollisionStep realOps 0 (restingScene : Scene ℝ) 0
      = restingScene := by
    unfold processSingleSnowballCollisionStep
    simp only [restingScene, List.getElem?_cons_zero, restingScene_no_collision]
    norm_num
  have hpass : (List.range (restingScene : Scene ℝ).snowmanInstanceDataCollection.length).foldl
      (processSingleSnowballCollision realOps) restingScene = restingScene := by
    simp only [show (restingScene : Scene ℝ).snowmanInstanceDataCollection.length = 1 from rfl,
      List.range_succ, List.range_zero, List.nil_append, List.foldl_cons, List.foldl_nil,
      processSingleSnowballCollision,
      show (restingScene : Scene ℝ).snowballInstanceDataCollection.length = 1 from rfl, hstep]
  unfold processAllSnowballCollisions
  rw [hpass, removeInvalidatedSnowballsFromCollection_snowballs]
  simp [restingScene]

/-- Claim C24 (amended): for every scene with at least one snowman, a snowball whose
position satisfies `y ≤ 0` (its centre has reached the ground) is invalidated by
the loops of the next collision pass and removed by the pass, regardless of its
distance from every snowman. -/
theorem processAllSnowballCollisions_grounded_centre (ops : MathOps R) (scene : Scene R)
    (hsnowmen : 0 < scene.snowmanInstanceDataCollection.length) :
    (∀ (k : Nat) (snowball : SnowballInstanceData R),
      scene.snowballInstanceDataCollection[k]? = some snowball →
      snowball.snowballPosition.y ≤ 0 →
      ∃ b, ((List.range scene.snowmanInstanceDataCollection.length).foldl
            (processSingleSnowballCollision ops) scene).snowballInstanceDataCollection[k]?
          = some b ∧
        b.invalidatedByCollision = true ∧
        b.snowballPosition = snowball.snowballPosition) ∧
    (∀ snowball ∈ (processAllSnowballCollisions ops scene).snowballInstanceDataCollection,
      ¬ snowball.snowballPosition.y ≤ 0) := by
  refine ⟨fun k snowball hk hground =>
    processAllSnowballCollisions_flags_grounded ops scene hsnowmen k snowball hk hground, ?_⟩
  intro snowball hmem hground
  unfold processAllSnowballCollisions at hmem
  rw [removeInvalidatedSnowballsFromCollection_snowballs, List.mem_filter] at hmem
  obtain ⟨hmem, hvalid⟩ := hmem
  have hstable := processAllSnowballCollisions_fold_stable ops
    (List.range scene.snowmanInstanceDataCollection.length) scene
  obtain ⟨k, hk⟩ := List.mem_iff_getElem?.1 hmem
  have hklt : k < scene.snowballInstanceDataCollection.length := by
    rw [← hstable.2.1]
    exact (List.getElem?_eq_some.1 hk).1
  have horig := List.getElem?_eq_getElem hklt
  have hrel := hstable.2.2 k _ snowball horig hk
  obtain ⟨b, hb, hflag, _⟩ := processAllSnowballCollisions_flags_grounded ops scene hsnowmen k
    _ horig (by rw [← hrel.1]; exact hground)
  rw [hk] at hb
  cases hb
  rw [hflag] at hvalid
  simp at hvalid

/-- In `groundScene` there are snowmen, and the snowball lying on the ground far
from them is flagged by the loops of the collision pass. -/
theorem processAllSnowballCollisions_grounded_centre_witness :
    0 < (groundScene : Scene ℝ).snowmanInstanceDataCollection.length ∧
    ∃ b, ((List.range (groundScene : Scene ℝ).snowmanInstanceDataCollection.length).foldl
          (processSingleSnowballCollision realOps) groundScene).snowballInstanceDataCollection[0]?
        = some b ∧
      b.invalidatedByCollision = true ∧ b.snowballPosition = ⟨0.4, 0, 0.4⟩ :=
  ⟨by decide,
    (processAllSnowballCollisions_grounded_centre realOps groundScene (by decide)).1 0 _ rfl
      (le_refl (0 : ℝ))⟩

/-! ## Strikes of one snowball within a pass -/

/-- The first strike in `doubleStrikeScene`: the second snowman is hit. -/
theorem doubleStrikeScene_first_strike :
    handleSnowmanSnowballCollision (doubleStrikeScene : Scene ℝ) 1 0 = doubleStrikeSceneHit := by
  simp [handleSnowmanSnowballCollision, doubleStrikeScene, doubleStrikeSceneHit,
    Scene.modifySnowman, Scene.modifySnowball, resetSnowmanState, boundarySnowman]

/-- Claim C30: evaluation at the failing input.  In `doubleStrikeScene` one snowball,
thrown by the first snowman, lies within collision range of the second and the
third snowman, who stand close together.  One pass of
`processAllSnowballCollisions` applies `handleSnowmanSnowballCollision` to that
snowball for both of them: the strike count of the thrower goes from 0 to 2, and
both the second and the third snowman are put into Hit with one strike received
each. -/
theorem processAllSnowballCollisions_double_strike :
    (doubleStrikeScene : Scene ℝ).snowballInstanceDataCollection.length = 1 ∧
    (doubleStrikeScene : Scene ℝ).snowmanInstanceDataCollection.map
        (fun snowman => (snowman.snowmanState, snowman.snowmanTargetStrikeCount,
          snowman.snowmanStrikeReceptionCount))
      = [(SnowmanState.Traveling, 0, 0), (SnowmanState.Traveling, 0, 0),
         (SnowmanState.Traveling, 0, 0)] ∧
    (processAllSnowballCollisions realOps
        (doubleStrikeScene : Scene ℝ)).snowmanInstanceDataCollection.map
        (fun snowman => (snowman.snowmanState, snowman.snowmanTargetStrikeCount,
          snowman.snowmanStrikeReceptionCount))
      = [(SnowmanState.Traveling, 2, 0), (SnowmanState.Hit, 0, 1), (SnowmanState.Hit, 0, 1)] := by
  refine ⟨rfl, rfl, ?_⟩
  have h₀ : processSingleSnowballCollision realOps (doubleStrikeScene : Scene ℝ) 0
      = doubleStrikeScene := by
    unfold processSingleSnowballCollision
    simp only [show (doubleStrikeScene : Scene ℝ).snowballInstanceDataCollection.length = 1
      from rfl, List.range_succ, List.range_zero, List.nil_append, List.foldl_cons,
      List.foldl_nil]
    unfold processSingleSnowballCollisionStep
    simp only [doubleStrikeScene, List.getElem?_cons_zero, decide_True, Bool.not_true,
      Bool.false_and]
    norm_num
  have h₁ : processSingleSnowballCollision realOps (doubleStrikeScene : Scene ℝ) 1
      = doubleStrikeSceneHit := by
    unfold processSingleSnowballCollision
    simp only [show (doubleStrikeScene : Scene ℝ).snowballInstanceDataCollection.length = 1
      from rfl, List.range_succ, List.range_zero, List.nil_append, List.foldl_cons,
      List.foldl_nil]
    unfold processSingleSnowballCollisionStep
    rw [show (doubleStrikeScene : Scene ℝ).snowmanInstanceDataCollection[1]?
        = some { (boundarySnowman : SnowmanInstanceData ℝ) with snowmanPosition := ⟨0, 0, 0⟩ }
        from rfl,
      show (doubleStrikeScene : Scene ℝ).snowballInstanceDataCollection[0]?
        = some { snowballVelocityVector := ⟨0, 0, -0.001⟩
                 snowballPosition := ⟨0, 0.05, 0.01⟩
                 sourceSnowmanInstance := some 0
                 invalidatedByCollision := false } from rfl]
    have hcollision : isSnowballInCollisionStateWithSnowman realOps
        { (boundarySnowman : SnowmanInstanceData ℝ) with snowmanPosition := ⟨0, 0, 0⟩ }
        { snowballVelocityVector := ⟨0, 0, -0.001⟩
          snowballPosition := ⟨0, 0.05, 0.01⟩
          sourceSnowmanInstance := some 0
          invalidatedByCollision := false } = true :=
      real_collision_near_axis 0 (Or.inl rfl) _ _ rfl rfl
    dsimp only
    rw [if_pos (by simp [hcollision])]
    exact doubleStrikeScene_first_strike
  have h₂ : processSingleSnowballCollision realOps (doubleStrikeSceneHit : Scene ℝ) 2
      = handleSnowmanSnowballCollision doubleStrikeSceneHit 2 0 := by
    unfold processSingleSnowballCollision
    simp only [show (doubleStrikeSceneHit : Scene ℝ).snowballInstanceDataCollection.length = 1
      from rfl, List.range_succ, List.range_zero, List.nil_append, List.foldl_cons,
      List.foldl_nil]
    unfold processSingleSnowballCollisionStep
    rw [show (doubleStrikeSceneHit : Scene ℝ).snowmanInstanceDataCollection[2]?
        = some { (boundarySnowman : SnowmanInstanceData ℝ) with snowmanPosition := ⟨0, 0, 0.02⟩ }
        from rfl,
      show (doubleStrikeSceneHit : Scene ℝ).snowballInstanceDataCollection[0]?
        = some { snowballVelocityVector := ⟨0, 0, -0.001⟩
                 snowballPosition := ⟨0, 0.05, 0.01⟩
                 sourceSnowmanInstance := some 0
                 invalidatedByCollision := true } from rfl]
    have hcollision : isSnowballInCollisionStateWithSnowman realOps
        { (boundarySnowman : SnowmanInstanceData ℝ) with snowmanPosition := ⟨0, 0, 0.02⟩ }
        { snowballVelocityVector := ⟨0, 0, -0.001⟩
          snowballPosition := ⟨0, 0.05, 0.01⟩
          sourceSnowmanInstance := some 0
          invalidatedByCollision := true } = true :=
      real_collision_near_axis 0.02 (Or.inr rfl) _ _ rfl rfl
    dsimp only
    rw [if_pos (by simp [hcollision])]
  unfold processAllSnowballCollisions
  rw [removeInvalidatedSnowballsFromCollection_snowmen]
  simp only [show (doubleStrikeScene : Scene ℝ).snowmanInstanceDataCollection.length = 3
    from rfl, List.range_succ, List.range_zero, List.nil_append, List.cons_append,
    List.foldl_cons, List.foldl_nil, h₀, h₁, h₂]
  simp [handleSnowmanSnowballCollision, doubleStrikeSceneHit, Scene.modifySnowman,
    Scene.modifySnowball, resetSnowmanState, boundarySnowman]

/-! ## Repeated generation -/

/-- For a whole number `n` of segments the cone generator, given enough fuel,
returns true with `2·n` triangles pushed onto the triangle store it found. -/
theorem cone_generateGeometry_whole_count (ops : MathOps R) (hpi : 0 < ops.pi)
    (generator : TessellatedConeGenerator R) (height radius : R) (base : Point3d R) (n : Nat)
    (hheight : generator.coneHeight = some height) (hheight₀ : 0 < height)
    (hbase : generator.basePoint = some base)
    (hradius : generator.baseRadius = some radius) (hradius₀ : 0 < radius)
    (hcount : generator.segmentCount = some (n : R)) (hn : 0 < n)
    (fuel : Nat) (hfuel : n < fuel) :
    ∃ triangleStore,
      generator.generateGeometry ops fuel
        = some (true, { generator with triangleStore := triangleStore }) ∧
      triangleStore.length = generator.triangleStore.length + 2 * n := by
  have hvalid : generator.areInternalParametersValid = true := by
    simp [TessellatedConeGenerator.areInternalParametersValid, returnValidNumOrZero, hheight,
      hbase, hradius, hcount, hheight₀, hradius₀, hn]
  have hzero : (0.0 : R) = 0 := by norm_num
  unfold TessellatedConeGenerator.generateGeometry
  rw [if_pos hvalid]
  simp only [hheight, hbase, hradius, hcount]
  rw [hzero, whileBelow_whole_count (2 * ops.pi) (by linarith) n hn _ fuel hfuel]
  refine ⟨_, rfl, ?_⟩
  rw [foldl_length_of_step 2 _ (fun s k => by rw [List.length_append]; rfl), List.length_range]

/-- For a whole number `n` of segments the cylinder generator, given enough fuel,
returns true with `4·n` triangles pushed onto the triangle store it found. -/
theorem cylinder_generateGeometry_whole_count (ops : MathOps R) (hpi : 0 < ops.pi)
    (generator : TessellatedCylinderGenerator R) (height radius : R) (centre : Point3d R)
    (n : Nat)
    (hradius : generator.cylinderRadius = some radius) (hradius₀ : 0 < radius)
    (hheight : generator.cylinderHeight = some height) (hheight₀ : 0 < height)
    (hcentre : generator.centerPoint = some centre)
    (hcount : generator.segmentCount = some (n : R)) (hn : 0 < n)
    (fuel : Nat) (hfuel : n < fuel) :
    ∃ triangleStore,
      generator.generateGeometry ops fuel
        = some (true, { generator with triangleStore := triangleStore }) ∧
      triangleStore.length = generator.triangleStore.length + 4 * n := by
  have hvalid : generator.areInternalParametersValid = true := by
    simp [TessellatedCylinderGenerator.areInternalParametersValid, returnValidNumOrZero,
      hheight, hcentre, hradius, hcount, hheight₀, hradius₀, hn]
  have hzero : (0.0 : R) = 0 := by norm_num
  unfold TessellatedCylinderGenerator.generateGeometry
  rw [if_pos hvalid]
  simp only [hheight, hcentre, hradius, hcount]
  rw [hzero, whileBelow_whole_count (2 * ops.pi) (by linarith) n hn _ fuel hfuel]
  refine ⟨_, rfl, ?_⟩
  rw [foldl_length_of_step 4 _ (fun s k => by rw [List.length_append]; rfl), List.length_range]

/-- Claim C25: evaluation at the failing input.  The cone generator `unitCone` (three
segments) holds 6 triangles after `generateGeometry`; a second call with the same
parameters returns true again and leaves 12 triangles in the triangle list.  The
cylinder generator `unitCylinder` goes from 12 to 24 triangles.  Neither
`generateGeometry` clears the triangle store, as the one of the sphere does. -/
theorem generateGeometry_twice_doubles_triangles :
    (∃ first second : List (Triangle ℝ),
      TessellatedConeGenerator.generateGeometry realOps 4 (unitCone : TessellatedConeGenerator ℝ)
        = some (true, { (unitCone : TessellatedConeGenerator ℝ) with triangleStore := first }) ∧
      TessellatedConeGenerator.generateGeometry realOps 4
          { (unitCone : TessellatedConeGenerator ℝ) with triangleStore := first }
        = some (true, { (unitCone : TessellatedConeGenerator ℝ) with
            triangleStore := second }) ∧
      first.length = 6 ∧ second.length = 12) ∧
    (∃ first second : List (Triangle ℝ),
      TessellatedCylinderGenerator.generateGeometry realOps 4
          (unitCylinder : TessellatedCylinderGenerator ℝ)
        = some (true, { (unitCylinder : TessellatedCylinderGenerator ℝ) with
            triangleStore := first }) ∧
      TessellatedCylinderGenerator.generateGeometry realOps 4
          { (unitCylinder : TessellatedCylinderGenerator ℝ) with triangleStore := first }
        = some (true, { (unitCylinder : TessellatedCylinderGenerator ℝ) with
            triangleStore := second }) ∧
      first.length = 12 ∧ second.length = 24) := by
  constructor
  · obtain ⟨first, hfirst, hlen₁⟩ := cone_generateGeometry_whole_count realOps Real.pi_pos
      (unitCone : TessellatedConeGenerator ℝ) 1 1 ⟨0, 0, 0⟩ 3 rfl one_pos rfl rfl one_pos rfl
      (by decide) 4 (by decide)
    obtain ⟨second, hsecond, hlen₂⟩ := cone_generateGeometry_whole_count realOps Real.pi_pos
      { (unitCone : TessellatedConeGenerator ℝ) with triangleStore := first } 1 1 ⟨0, 0, 0⟩ 3
      rfl one_pos rfl rfl one_pos rfl (by decide) 4 (by decide)
    refine ⟨first, second, hfirst, hsecond, ?_, ?_⟩
    · rw [hlen₁]; rfl
    · rw [hlen₂]
      show first.length + 2 * 3 = 12
      rw [hlen₁]; rfl
  · obtain ⟨first, hfirst, hlen₁⟩ := cylinder_generateGeometry_whole_count realOps Real.pi_pos
      (unitCylinder : TessellatedCylinderGenerator ℝ) 1 1 ⟨0, 0, 0⟩ 3 rfl one_pos rfl one_pos
      rfl rfl (by decide) 4 (by decide)
    obtain ⟨second, hsecond, hlen₂⟩ := cylinder_generateGeometry_whole_count realOps Real.pi_pos
      { (unitCylinder : TessellatedCylinderGenerator ℝ) with triangleStore := first } 1 1
      ⟨0, 0, 0⟩ 3 rfl one_pos rfl one_pos rfl rfl (by decide) 4 (by decide)
    refine ⟨first, second, hfirst, hsecond, ?_, ?_⟩
    · rw [hlen₁]; rfl
    · rw [hlen₂]
      show first.length + 4 * 3 = 24
      rw [hlen₁]; rfl

/-! ## Height of the generated cone -/

/-- Claim C26: evaluation at the failing input.  The cone generator `unitCone` has
height 1 and base point (0, 0, 0).  `generateGeometry` returns true with three side
triangles (at the even places of the triangle list); the apex vertex of each of them
is at (0, 1/2, 0) and not at (0, 1, 0), and no vertex of any generated triangle lies
above the height 1/2: the cone is half as tall as the configured height. -/
theorem cone_generateGeometry_apex_at_half_height :
    ∃ triangleStore : List (Triangle ℝ),
      TessellatedConeGenerator.generateGeometry realOps 4 (unitCone : TessellatedConeGenerator ℝ)
        = some (true, { (unitCone : TessellatedConeGenerator ℝ) with
            triangleStore := triangleStore }) ∧
      triangleStore.length = 6 ∧
      (∀ i : Nat, i < 3 →
        (triangleStore[2 * i]?).map (fun triangle => triangle.thirdVertex.position)
          = some ⟨0, 1 / 2, 0⟩) ∧
      (∀ triangle ∈ triangleStore,
        triangle.firstVertex.position.y ≤ 1 / 2 ∧ triangle.secondVertex.position.y ≤ 1 / 2 ∧
        triangle.thirdVertex.position.y ≤ 1 / 2) := by
  have hvalid : (unitCone : TessellatedConeGenerator ℝ).areInternalParametersValid = true := by
    simp [TessellatedConeGenerator.areInternalParametersValid, returnValidNumOrZero, unitCone]
  have hzero : (0.0 : ℝ) = 0 := by norm_num
  unfold TessellatedConeGenerator.generateGeometry
  rw [if_pos hvalid]
  simp only [unitCone]
  rw [hzero, whileBelow_whole_count (2 * realOps.pi)
    (by have := Real.pi_pos; show (0 : ℝ) < 2 * Real.pi; linarith) 3 (by decide) _ 4
    (by decide)]
  refine ⟨_, rfl, ?_, ?_, ?_⟩
  · simp [List.range_succ, coneSegmentTriangles]
  · intro i hi
    interval_cases i <;>
      simp [List.range_succ, coneSegmentTriangles, GenerateVertex3dFromPoint3d,
        Vertex3d.setNormalVector, Vertex3d.setColor, Point3d.offset] <;> norm_num
  · intro triangle htriangle
    simp only [List.range_succ, List.range_zero, List.nil_append, List.cons_append,
      List.foldl_cons, List.foldl_nil, coneSegmentTriangles, List.mem_cons, List.mem_nil_iff,
      or_false, List.mem_append] at htriangle
    rcases htriangle with h | h | h | h | h | h <;> subst h <;>
      simp [GenerateVertex3dFromPoint3d, Vertex3d.setNormalVector, Vertex3d.setColor,
        Point3d.offset, rotatePointAroundAxisY, Vector3d.getPoint3dRep] <;> norm_num

/-! ## Texture coordinates of the sphere -/

/-- For whole numbers `L` and `M` of segments the sphere generator, given enough
fuel, returns true with the quads of the `M` latitude bands of `L` segments each, in
order, as its triangle store. -/
theorem sphere_generateGeometry_whole_store (ops : MathOps R) (hpi : 0 < ops.pi)
    (generator : TessellatedSphereGenerator R) (radius : R) (centre : Point3d R) (L M : Nat)
    (hradius : generator.sphereRadius = some radius) (hpositive : 0 < radius)
    (hcentre : generator.centerPoint = some centre)
    (hlong : generator.longitudinalSegmentCount = some (L : R)) (hL : 0 < L)
    (hlat : generator.latitudinalSegmentCount = some (M : R)) (hM : 0 < M)
    (fuel : Nat) (hfuelL : L < fuel) (hfuelM : M < fuel) :
    generator.generateGeometry ops fuel
      = some (true, { generator with
          triangleStore := (List.range M).foldl
            (fun triangleStore (j : Nat) =>
              (List.range L).foldl
                (fun triangleStore (k : Nat) =>
                  triangleStore ++ sphereQuadTriangles ops generator.sphereColor centre
                    (2 * ops.pi / (L : R)) (ops.pi / (M : R))
                    (rotatePointAroundAxisZ ops ⟨0, radius, 0⟩
                      (0 + (j : R) * (ops.pi / (M : R))))
                    (rotatePointAroundAxisZ ops ⟨0, radius, 0⟩
                      (0 + (j : R) * (ops.pi / (M : R)) + ops.pi / (M : R)))
                    (0 + (j : R) * (ops.pi / (M : R)))
                    (0 + (k : R) * (2 * ops.pi / (L : R))))
                triangleStore)
            [] }) := by
  have hvalid : generator.areInternalParametersValid = true := by
    simp [TessellatedSphereGenerator.areInternalParametersValid, returnValidNumOrZero, hradius,
      hcentre, hlong, hlat, hpositive, hL, hM]
  have hzero : (0.0 : R) = 0 := by norm_num
  have hbody : sphereLatitudeBand ops generator.sphereColor centre
      (2 * ops.pi / (L : R)) (ops.pi / (M : R))
      (Vector3d.getPoint3dRep (⟨0.0, radius, 0.0⟩ : Vector3d R)) fuel
      = fun currentLatitude triangleStore =>
          some ((List.range L).foldl
            (fun triangleStore (k : Nat) =>
              triangleStore ++ sphereQuadTriangles ops generator.sphereColor centre
                (2 * ops.pi / (L : R)) (ops.pi / (M : R))
                (rotatePointAroundAxisZ ops ⟨0, radius, 0⟩ currentLatitude)
                (rotatePointAroundAxisZ ops ⟨0, radius, 0⟩
                  (currentLatitude + ops.pi / (M : R)))
                currentLatitude (0 + (k : R) * (2 * ops.pi / (L : R))))
            triangleStore) := by
    funext currentLatitude triangleStore
    rw [sphereLatitudeBand_whole_count ops hpi _ _ _ _ L hL fuel hfuelL _ _]
    simp only [Vector3d.getPoint3dRep, hzero]
  unfold TessellatedSphereGenerator.generateGeometry
  rw [if_pos hvalid]
  simp only [hradius, hcentre, hlong, hlat, TessellatedSphereGenerator.clearTriangleStore]
  rw [hbody, whileBelow_whole_count ops.pi hpi M hM _ fuel hfuelM]

/-- Claim C27: evaluation at the failing input.  The sphere generator `unitSphere`
(four longitudinal, two latitudinal segments) returns true with 16 triangles.  The
second vertex of the first triangle lies at (-1, 0, 0), i.e. at latitude π/2 and
longitude 0, and carries the texture coordinates (0, π/2) and not (1/2, 0): the
first coordinate is that of the latitude 0 of the quad, and the second is the
longitude step 2π/4 in radians, which is greater than 1. -/
theorem sphere_generateGeometry_texture_coordinates :
    ∃ triangleStore : List (Triangle ℝ),
      TessellatedSphereGenerator.generateGeometry realOps 5
          (unitSphere : TessellatedSphereGenerator ℝ)
        = some (true, { (unitSphere : TessellatedSphereGenerator ℝ) with
            triangleStore := triangleStore }) ∧
      triangleStore.length = 16 ∧
      (triangleStore[0]?).map (fun triangle =>
          (triangle.secondVertex.position, triangle.secondVertex.surfaceMappingCoords))
        = some (⟨-1, 0, 0⟩, some (0, Real.pi / 2)) ∧
      1 < Real.pi / 2 := by
  refine ⟨_, sphere_generateGeometry_whole_store realOps Real.pi_pos
    (unitSphere : TessellatedSphereGenerator ℝ) 1 ⟨0, 0, 0⟩ 4 2 rfl one_pos rfl rfl (by decide)
    rfl (by decide) 5 (by decide) (by decide), ?_, ?_, ?_⟩
  · simp [List.range_succ, sphereQuadTriangles]
  · simp only [List.range_succ, List.range_zero, List.nil_append, List.cons_append,
      List.foldl_cons, List.foldl_nil, sphereQuadTriangles, List.getElem?_cons_zero,
      Option.map_some', List.append_assoc]
    simp [GenerateVertex3dFromPoint3d, Vertex3d.setNormalVector, Vertex3d.setColor,
      Vertex3d.setSurfaceMappingCoords, Point3d.offset, rotatePointAroundAxisY,
      rotatePointAroundAxisZ, realOps]
    ring
  · have := Real.pi_gt_three
    linarith

/-! ## Height of the snowman body -/

/-- Claim C28: evaluation at the failing input.  For the three segments of the scene
`generateSnowmanBodyGeometry` places spheres of radius 0.03, 0.021 and 0.0147 at the
heights 0.03, 0.069 and 0.0963, so the body is 0.111 high, while
`computeSnowmanHeightForSegmentCount 3` is 0.1150992.  For one segment the body is
one sphere of height 0.06, while `computeSnowmanHeightForSegmentCount 1` is 0.048. -/
theorem computeSnowmanHeightForSegmentCount_differs_from_body :
    (generateSnowmanBodySpheres 3 : List (ℝ × ℝ))
      = [(0.03, 0.03), (0.021, 0.069), (0.0147, 0.0963)] ∧
    (snowmanBodyTop 3 : ℝ) = 0.111 ∧
    (computeSnowmanHeightForSegmentCount 3 : ℝ) = 0.1150992 ∧
    (generateSnowmanBodySpheres 1 : List (ℝ × ℝ)) = [(0.03, 0.03)] ∧
    (snowmanBodyTop 1 : ℝ) = 0.06 ∧
    (computeSnowmanHeightForSegmentCount 1 : ℝ) = 0.048 := by
  have h₃ : (generateSnowmanBodySpheres 3 : List (ℝ × ℝ))
      = [(0.03, 0.03), (0.021, 0.069), (0.0147, 0.0963)] := by
    simp only [generateSnowmanBodySpheres, List.range_succ, List.range_zero, List.nil_append,
      List.cons_append, List.foldl_cons, List.foldl_nil, constBaseSnowmanSphereRadius,
      constWorldScale, constSnowmanUpperSphereReductionFactor, constSnowmanSphereOverlap]
    norm_num
  have h₁ : (generateSnowmanBodySpheres 1 : List (ℝ × ℝ)) = [(0.03, 0.03)] := by
    simp only [generateSnowmanBodySpheres, List.range_succ, List.range_zero, List.nil_append,
      List.foldl_cons, List.foldl_nil, constBaseSnowmanSphereRadius, constWorldScale]
    norm_num
  refine ⟨h₃, ?_, ?_, h₁, ?_, ?_⟩
  · simp only [snowmanBodyTop, h₃]
    norm_num
  · simp only [computeSnowmanHeightForSegmentCount, computeGeometricSeriesSum, List.range_succ,
      List.range_zero, List.nil_append, List.cons_append, List.map_cons, List.map_nil,
      List.sum_cons, List.sum_nil, constBaseSnowmanSphereRadius, constWorldScale,
      constSnowmanUpperSphereReductionFactor, constSnowmanSphereOverlap]
    norm_num
  · simp only [snowmanBodyTop, h₁]
    norm_num
  · simp only [computeSnowmanHeightForSegmentCount, computeGeometricSeriesSum, List.range_succ,
      List.range_zero, List.nil_append, List.map_cons, List.map_nil,
      List.sum_cons, List.sum_nil, constBaseSnowmanSphereRadius, constWorldScale,
      constSnowmanUpperSphereReductionFactor, constSnowmanSphereOverlap]
    norm_num

end Properties

end SnowballFight
